import Mathlib

/-!
# QMI shared modem control core (`src/mm-shared-qmi.c`)

A shallow embedding of the capability and mode selection code of
`mm-shared-qmi.c`.

* Bit masks (`MMModemCapability`, `MMModemMode`, the QMI preference masks) are
  natural numbers combined with `|||` and `&&&`.
* An asynchronous operation is a value of `Step`: either a QMI request has been
  issued and a callback is registered for its response (`pending`), or the
  `GTask` has returned (`returned`), or a `g_assert` has failed (`aborted`).
  The registered callback is kept as data (its name and the task context), the
  way the C code passes a function pointer and the `GTask`.
* The outcome a `*_ready` callback sees is a `QmiResult`: `*_finish` returned
  no output, or the output carries a failed result, or the output is good.
* A `GError` is its domain and code (the message text is not modelled, so
  `g_prefix_error` leaves the value unchanged).
-/

namespace MMSharedQmi

/-! ## Enumerations and constants declared outside `src/` -/

/-- Modelled from the spec: the capability mask is a bit set over
GSM/UMTS, CDMA/EVDO and LTE; `MMModemCapability` (ModemManager-enums.h) is not
under src/. The empty mask. -/
def MM_MODEM_CAPABILITY_NONE : Nat := 0

/-- Modelled from the spec: the CDMA/EVDO bit of the capability mask
(`MMModemCapability`, not under src/). -/
def MM_MODEM_CAPABILITY_CDMA_EVDO : Nat := 2

/-- Modelled from the spec: the GSM/UMTS bit of the capability mask
(`MMModemCapability`, not under src/). -/
def MM_MODEM_CAPABILITY_GSM_UMTS : Nat := 4

/-- Modelled from the spec: the LTE bit of the capability mask
(`MMModemCapability`, not under src/). -/
def MM_MODEM_CAPABILITY_LTE : Nat := 8

/-- Modelled from the spec: the mode mask is a bit set over 2G, 3G and 4G;
`MMModemMode` (ModemManager-enums.h) is not under src/. The empty mask. -/
def MM_MODEM_MODE_NONE : Nat := 0

/-- Modelled from the spec: the 2G bit of the mode mask (`MMModemMode`, not
under src/). -/
def MM_MODEM_MODE_2G : Nat := 2

/-- Modelled from the spec: the 3G bit of the mode mask (`MMModemMode`, not
under src/). -/
def MM_MODEM_MODE_3G : Nat := 4

/-- Modelled from the spec: the 4G bit of the mode mask (`MMModemMode`, not
under src/). -/
def MM_MODEM_MODE_4G : Nat := 8

/-- Modelled from the spec: the mode mask `ANY` (`MMModemMode`, not under
src/): every bit of a 32-bit mask. -/
def MM_MODEM_MODE_ANY : Nat := 0xFFFFFFFF

/-- Modelled from the spec: the GSM bit of the NAS RAT mode preference mask
(`QmiNasRatModePreference`, libqmi, not under src/). -/
def QMI_NAS_RAT_MODE_PREFERENCE_GSM : Nat := 4

/-- Modelled from the spec: the UMTS bit of the NAS RAT mode preference mask
(`QmiNasRatModePreference`, libqmi, not under src/). -/
def QMI_NAS_RAT_MODE_PREFERENCE_UMTS : Nat := 8

/-- Modelled from the spec: the LTE bit of the NAS RAT mode preference mask
(`QmiNasRatModePreference`, libqmi, not under src/). -/
def QMI_NAS_RAT_MODE_PREFERENCE_LTE : Nat := 16

/-- Modelled from the spec: "permanent duration" of a system selection
preference change (`QmiNasChangeDuration`, libqmi, not under src/). -/
def QMI_NAS_CHANGE_DURATION_PERMANENT : Nat := 1

/-- Modelled from the spec: "permanent duration" of a technology preference
(`QmiNasPreferenceDuration`, libqmi, not under src/). -/
def QMI_NAS_PREFERENCE_DURATION_PERMANENT : Nat := 0

/-- Modelled from the spec: Operating-Mode=OFFLINE (`QmiDmsOperatingMode`,
libqmi, not under src/). -/
def QMI_DMS_OPERATING_MODE_OFFLINE : Nat := 3

/-- Modelled from the spec: Operating-Mode=RESET (`QmiDmsOperatingMode`,
libqmi, not under src/). -/
def QMI_DMS_OPERATING_MODE_RESET : Nat := 4

/-- The error domains a `GError` of this file can carry. -/
inductive GErrorDomain where
  | MM_CORE_ERROR
  | QMI_CORE_ERROR
  | QMI_PROTOCOL_ERROR
  deriving DecidableEq, Repr

/-- A `GError`: domain and code. -/
structure GError where
  domain : GErrorDomain
  code : Nat
  deriving DecidableEq, Repr

/-- Modelled from the spec: error "Failed" of the core taxonomy
(`MMCoreError`, ModemManager-errors.h, not under src/). -/
def MM_CORE_ERROR_FAILED : Nat := 0

/-- Modelled from the spec: error "Unsupported" of the core taxonomy
(`MMCoreError`, ModemManager-errors.h, not under src/). -/
def MM_CORE_ERROR_UNSUPPORTED : Nat := 3

/-- Modelled from the spec: error "Aborted" of the core taxonomy
(`MMCoreError`, ModemManager-errors.h, not under src/). -/
def MM_CORE_ERROR_ABORTED : Nat := 2

/-- Modelled from the spec: error "NotFound" of the core taxonomy
(`MMCoreError`, ModemManager-errors.h, not under src/). -/
def MM_CORE_ERROR_NOT_FOUND : Nat := 11

/-- Modelled from the spec: error "TooMany" of the core taxonomy
(`MMCoreError`, ModemManager-errors.h, not under src/). -/
def MM_CORE_ERROR_TOO_MANY : Nat := 10

/-- Modelled from the spec: the protocol error `not-supported`
(`QmiProtocolError`, libqmi, not under src/). -/
def QMI_PROTOCOL_ERROR_NOT_SUPPORTED : Nat := 94

/-- Modelled from the spec: the format "XTRA" of predicted orbits data
(`QmiLocPredictedOrbitsDataFormat`, libqmi, not under src/). -/
def QMI_LOC_PREDICTED_ORBITS_DATA_FORMAT_XTRA : Nat := 0

/-- The largest `guint16` (`G_MAXUINT16`, GLib). -/
def G_MAXUINT16 : Nat := 65535

/-- Modelled from the spec: the location sources of `MMModemLocationSource`
(ModemManager-enums.h, not under src/): one bit each. -/
def MM_MODEM_LOCATION_SOURCE_3GPP_LAC_CI : Nat := 1

/-- Modelled from the spec: the source "GPS raw" (`MMModemLocationSource`,
ModemManager-enums.h, not under src/). -/
def MM_MODEM_LOCATION_SOURCE_GPS_RAW : Nat := 2

/-- Modelled from the spec: the source "GPS NMEA" (`MMModemLocationSource`,
ModemManager-enums.h, not under src/). -/
def MM_MODEM_LOCATION_SOURCE_GPS_NMEA : Nat := 4

/-- Modelled from the spec: the source "CDMA base station"
(`MMModemLocationSource`, ModemManager-enums.h, not under src/). -/
def MM_MODEM_LOCATION_SOURCE_CDMA_BS : Nat := 8

/-- Modelled from the spec: the source "GPS unmanaged"
(`MMModemLocationSource`, ModemManager-enums.h, not under src/). -/
def MM_MODEM_LOCATION_SOURCE_GPS_UNMANAGED : Nat := 16

/-- Modelled from the spec: the source "A-GPS" (`MMModemLocationSource`,
ModemManager-enums.h, not under src/). -/
def MM_MODEM_LOCATION_SOURCE_AGPS : Nat := 32

/-- Modelled from the spec: the protocol error `not-provisioned`
(`QmiProtocolError`, libqmi, not under src/). -/
def QMI_PROTOCOL_ERROR_NOT_PROVISIONED : Nat := 16

/-- Modelled from the spec: the configuration type "software" of List-Configs
(`QmiPdcConfigurationType`, libqmi, not under src/). -/
def QMI_PDC_CONFIGURATION_TYPE_SOFTWARE : Nat := 1

/-- Modelled from the spec: the protocol error `no-effect`
(`QmiProtocolError`, libqmi, not under src/). -/
def QMI_PROTOCOL_ERROR_NO_EFFECT : Nat := 26

/-- The test `g_error_matches (error, domain, code)`. -/
def g_error_matches (error : GError) (domain : GErrorDomain) (code : Nat) : Bool :=
  decide (error.domain = domain) && decide (error.code = code)

/-- The QMI services whose clients this code asks for. -/
inductive QmiService where
  | QMI_SERVICE_NAS
  | QMI_SERVICE_DMS
  | QMI_SERVICE_PDC
  | QMI_SERVICE_PDS
  | QMI_SERVICE_LOC
  deriving DecidableEq, Repr

/-- The tri-state `Feature` of the private data. -/
inductive Feature where
  | FEATURE_UNKNOWN
  | FEATURE_UNSUPPORTED
  | FEATURE_SUPPORTED
  deriving DecidableEq, Repr

/-- The record `ConfigInfo` of an installed carrier configuration: the
identifier bytes, and a description that is `NULL` until its info is loaded.
The defaults are the zeroed record. -/
structure ConfigInfo where
  id : List Nat := []
  config_type : Nat := 0
  token : Nat := 0
  version : Nat := 0
  description : Option String := none
  total_size : Nat := 0
  deriving DecidableEq, Repr

/-- The capability, mode, band, location and carrier config fields of
`Private`, the per-device data, with the values `get_private` gives a new
record as defaults. A `GArray *` that may be `NULL` is an `Option (List _)`; a
retained client (`pds_client`, `loc_client`) is a flag that tells whether the
pointer is set. -/
structure Private where
  current_capabilities : Nat := 0
  supported_radio_interfaces : Option (List Nat) := none
  feature_nas_technology_preference : Feature := Feature.FEATURE_UNKNOWN
  feature_nas_system_selection_preference : Feature := Feature.FEATURE_UNKNOWN
  feature_extended_lte_band_preference : Feature := Feature.FEATURE_UNKNOWN
  disable_4g_only_mode : Bool := false
  supported_bands : Option (List Nat) := none
  enabled_sources : Nat := 0
  pds_client : Bool := false
  pds_location_event_report_indication_id : Nat := 0
  loc_client : Bool := false
  loc_location_nmea_indication_id : Nat := 0
  loc_assistance_data_max_file_size : Nat := 0
  loc_assistance_data_max_part_size : Nat := 0
  config_active_default : Bool := false
  config_list : Option (List ConfigInfo) := none
  config_active_i : Int := -1
  deriving DecidableEq, Repr

/-- What this file asks of the modem object `self`: the `peek_client` method of
the interface (an error when the port has no client for the service) and the
`mm_iface_modem_is_*` predicates, all implemented outside `src/`. -/
structure MMIfaceModem where
  peek_client : QmiService → Except GError Unit
  is_cdma : Bool
  is_3gpp : Bool
  is_2g : Bool
  is_3g : Bool
  is_4g : Bool

/-- The record `MMQmiCapabilitiesContext` filled by Load-Current-Capabilities
(declared in mm-modem-helpers-qmi.h, fields as used in the source). -/
structure MMQmiCapabilitiesContext where
  nas_ssp_mode_preference_mask : Nat := 0
  nas_tp_mask : Nat := 0
  dms_capabilities : Nat := 0
  deriving DecidableEq, Repr

/-- An entry `MMModemModeCombination`: allowed mask and preferred mode. -/
structure MMModemModeCombination where
  allowed : Nat
  preferred : Nat
  deriving DecidableEq, Repr

/-- The conversion helpers of mm-modem-helpers-qmi.c that the source calls (and
the two conversions from a preference mask to capabilities that the merge of
the capabilities context needs); their bodies are not under `src/`, so they
are parameters of the embedding. -/
structure Helpers where
  mm_modem_capability_from_qmi_radio_interface : Nat → Nat
  mm_modem_capability_from_qmi_rat_mode_preference : Nat → Nat
  mm_modem_capability_from_qmi_radio_technology_preference : Nat → Nat
  mm_modem_capability_to_qmi_rat_mode_preference : Nat → Nat
  mm_modem_capability_to_qmi_radio_technology_preference : Nat → Nat
  mm_modem_mode_to_qmi_radio_technology_preference : Nat → Bool → Nat
  mm_modem_mode_to_qmi_acquisition_order_preference : Nat → Nat → Bool → Bool → Option (List Nat)
  mm_modem_mode_to_qmi_gsm_wcdma_acquisition_order_preference : Nat → Nat
  mm_modem_mode_to_qmi_rat_mode_preference : Nat → Bool → Bool → Nat
  mm_modem_mode_from_qmi_radio_technology_preference : Nat → Nat
  mm_modem_mode_from_qmi_rat_mode_preference : Nat → Nat
  mm_modem_mode_from_qmi_gsm_wcdma_acquisition_order_preference : Nat → Nat
  mm_modem_mode_from_qmi_nas_radio_interface : Nat → Nat
  mm_modem_mode_from_qmi_radio_interface : Nat → Nat

/-! ## QMI requests and responses -/

/-- The TLVs of a Set-System-Selection-Preference request; `none` is a TLV
that was not set on the input. -/
structure QmiMessageNasSetSystemSelectionPreferenceInput where
  change_duration : Option Nat := none
  mode_preference : Option Nat := none
  acquisition_order_preference : Option (List Nat) := none
  gsm_wcdma_acquisition_order_preference : Option Nat := none
  deriving DecidableEq, Repr

/-- The QMI messages sent by the capability and mode code. -/
inductive QmiMessage where
  | nas_get_system_selection_preference
  | nas_set_system_selection_preference (input : QmiMessageNasSetSystemSelectionPreferenceInput)
  | nas_get_technology_preference
  | nas_set_technology_preference (current : Nat) (duration : Nat)
  | dms_get_capabilities
  | dms_set_operating_mode (mode : Nat)
  | dms_get_band_capabilities
  | pdc_list_configs (config_type : Nat) (token : Nat)
  | pdc_get_config_info (config_type : Nat) (id : List Nat) (token : Nat)
  | pdc_get_selected_config (config_type : Nat) (token : Nat)
  | pdc_set_selected_config (config_type : Nat) (id : List Nat) (token : Nat)
  | pdc_activate_config (config_type : Nat) (token : Nat)
  | loc_inject_predicted_orbits_data (format_type total_size total_parts part_number : Nat)
      (part_data : List Nat)
  | loc_inject_xtra_data (total_size total_parts part_number : Nat) (part_data : List Nat)
  | pds_set_gps_service_state (state : Bool)
  | pds_set_auto_tracking_state (state : Bool)
  | pds_set_event_report (nmea_position_reporting : Bool)
  | loc_start (session_id : Nat)
  | loc_register_events (event_registration_mask : Nat)
  | loc_stop (session_id : Nat)
  deriving DecidableEq, Repr

/-- A request handed to `qmi_client_*`: the message and its timeout in seconds. -/
structure QmiRequest where
  message : QmiMessage
  timeout : Nat
  deriving DecidableEq, Repr

/-- The call `qmi_client_nas_get_system_selection_preference (client, NULL, timeout, ..)`. -/
def qmi_client_nas_get_system_selection_preference (timeout : Nat) : QmiRequest :=
  { message := QmiMessage.nas_get_system_selection_preference, timeout := timeout }

/-- The call `qmi_client_nas_set_system_selection_preference (client, input, timeout, ..)`. -/
def qmi_client_nas_set_system_selection_preference
    (input : QmiMessageNasSetSystemSelectionPreferenceInput) (timeout : Nat) : QmiRequest :=
  { message := QmiMessage.nas_set_system_selection_preference input, timeout := timeout }

/-- The call `qmi_client_nas_get_technology_preference (client, NULL, timeout, ..)`. -/
def qmi_client_nas_get_technology_preference (timeout : Nat) : QmiRequest :=
  { message := QmiMessage.nas_get_technology_preference, timeout := timeout }

/-- The call `qmi_client_nas_set_technology_preference (client, input, timeout, ..)`, the
input holding the TLV set by `.._input_set_current (input, current, duration)`. -/
def qmi_client_nas_set_technology_preference (current duration : Nat) (timeout : Nat) :
    QmiRequest :=
  { message := QmiMessage.nas_set_technology_preference current duration, timeout := timeout }

/-- The call `qmi_client_dms_get_capabilities (client, NULL, timeout, ..)`. -/
def qmi_client_dms_get_capabilities (timeout : Nat) : QmiRequest :=
  { message := QmiMessage.dms_get_capabilities, timeout := timeout }

/-- The call `qmi_client_dms_set_operating_mode (client, input, timeout, ..)`, the input
holding the mode set by `.._input_set_mode (input, mode)`. -/
def qmi_client_dms_set_operating_mode (mode : Nat) (timeout : Nat) : QmiRequest :=
  { message := QmiMessage.dms_set_operating_mode mode, timeout := timeout }

/-- The call `qmi_client_dms_get_band_capabilities (client, NULL, timeout, ..)`. -/
def qmi_client_dms_get_band_capabilities (timeout : Nat) : QmiRequest :=
  { message := QmiMessage.dms_get_band_capabilities, timeout := timeout }

/-- The call `qmi_client_pdc_list_configs (client, input, timeout, ..)`, the input
holding the configuration type and the token. -/
def qmi_client_pdc_list_configs (config_type token : Nat) (timeout : Nat) : QmiRequest :=
  { message := QmiMessage.pdc_list_configs config_type token, timeout := timeout }

/-- The call `qmi_client_pdc_get_config_info (client, input, timeout, ..)`, the
input holding the type with the identifier and the token. -/
def qmi_client_pdc_get_config_info (config_type : Nat) (id : List Nat) (token : Nat)
    (timeout : Nat) : QmiRequest :=
  { message := QmiMessage.pdc_get_config_info config_type id token, timeout := timeout }

/-- The call `qmi_client_pdc_get_selected_config (client, input, timeout, ..)`, the
input holding the configuration type and the token. -/
def qmi_client_pdc_get_selected_config (config_type token : Nat) (timeout : Nat) : QmiRequest :=
  { message := QmiMessage.pdc_get_selected_config config_type token, timeout := timeout }

/-- The call `qmi_client_pdc_set_selected_config (client, input, timeout, ..)`, the
input holding the type with the identifier and the token. -/
def qmi_client_pdc_set_selected_config (config_type : Nat) (id : List Nat) (token : Nat)
    (timeout : Nat) : QmiRequest :=
  { message := QmiMessage.pdc_set_selected_config config_type id token, timeout := timeout }

/-- The call `qmi_client_pdc_activate_config (client, input, timeout, ..)`, the input
holding the configuration type and the token. -/
def qmi_client_pdc_activate_config (config_type token : Nat) (timeout : Nat) : QmiRequest :=
  { message := QmiMessage.pdc_activate_config config_type token, timeout := timeout }

/-- The call `qmi_client_loc_inject_predicted_orbits_data (client, input,
timeout, ..)`, the input holding the format, the 32-bit total size, the 16-bit
total parts and part number, and the bytes of the part. -/
def qmi_client_loc_inject_predicted_orbits_data
    (format_type total_size total_parts part_number : Nat) (part_data : List Nat)
    (timeout : Nat) : QmiRequest :=
  { message :=
      QmiMessage.loc_inject_predicted_orbits_data format_type total_size total_parts
        part_number part_data,
    timeout := timeout }

/-- The call `qmi_client_loc_inject_xtra_data (client, input, timeout, ..)`, the
input holding the 32-bit total size, the 16-bit total parts and part number,
and the bytes of the part. -/
def qmi_client_loc_inject_xtra_data (total_size total_parts part_number : Nat)
    (part_data : List Nat) (timeout : Nat) : QmiRequest :=
  { message := QmiMessage.loc_inject_xtra_data total_size total_parts part_number part_data,
    timeout := timeout }

/-- What a `*_ready` callback finds: `*_finish` gave no output (with an error),
or `*_output_get_result` failed (with an error), or the output is good. -/
inductive QmiResult (α : Type) where
  | no_output (error : GError)
  | result_failed (error : GError)
  | ok (output : α)
  deriving DecidableEq, Repr

/-- What a `GTask` returns: `g_task_return_error` or a value. -/
inductive TaskResult (ρ : Type) where
  | error (e : GError)
  | value (v : ρ)
  deriving DecidableEq, Repr

/-- The state of an operation after a piece of code has run: a request is in
flight with `callback` registered, or the task has returned, or an assertion
has failed. -/
inductive Step (κ ρ : Type) where
  | pending (request : QmiRequest) (callback : κ)
  | returned (result : TaskResult ρ)
  | aborted
  deriving DecidableEq, Repr

/-- The request a piece of code has just issued, if any. -/
def Step.issued {κ ρ : Type} : Step κ ρ → List QmiRequest
  | Step.pending request _ => [request]
  | _ => []

/-- Drive an operation with the responses of the device, in order: the
requests issued along the way and the state reached. -/
def Step.run {κ ρ ε : Type} (deliver : κ → ε → Step κ ρ) :
    Step κ ρ → List ε → List QmiRequest × Step κ ρ
  | Step.pending request callback, e :: es =>
      let r := Step.run deliver (deliver callback e) es
      (request :: r.1, r.2)
  | Step.pending request callback, [] => ([request], Step.pending request callback)
  | Step.returned result, _ => ([], Step.returned result)
  | Step.aborted, _ => ([], Step.aborted)

/-- The function `mm_shared_qmi_ensure_client`: the error reported to the
caller when the service has no client. -/
def mm_shared_qmi_ensure_client (self : MMIfaceModem) (service : QmiService) :
    Except GError Unit :=
  self.peek_client service

/-! ## Reset (Modem interface) -/

/-- The callbacks of `mm_shared_qmi_reset`. -/
inductive ResetCallback where
  | reset_set_operating_mode_offline_ready
  | reset_set_operating_mode_reset_ready
  deriving DecidableEq, Repr

/-- The callback `reset_set_operating_mode_reset_ready`. A boolean task only
ever returns `TRUE`, written `TaskResult.value ()`. -/
def reset_set_operating_mode_reset_ready (res : QmiResult Unit) : Step ResetCallback Unit :=
  match res with
  | QmiResult.no_output e => Step.returned (TaskResult.error e)
  | QmiResult.result_failed e => Step.returned (TaskResult.error e)
  | QmiResult.ok _ => Step.returned (TaskResult.value ())

/-- The callback `reset_set_operating_mode_offline_ready`: on success go into
reset mode. -/
def reset_set_operating_mode_offline_ready (res : QmiResult Unit) : Step ResetCallback Unit :=
  match res with
  | QmiResult.no_output e => Step.returned (TaskResult.error e)
  | QmiResult.result_failed e => Step.returned (TaskResult.error e)
  | QmiResult.ok _ =>
      Step.pending (qmi_client_dms_set_operating_mode QMI_DMS_OPERATING_MODE_RESET 20)
        ResetCallback.reset_set_operating_mode_reset_ready

/-- The entry point `mm_shared_qmi_reset`: go into offline mode. -/
def mm_shared_qmi_reset (self : MMIfaceModem) : Step ResetCallback Unit :=
  match mm_shared_qmi_ensure_client self QmiService.QMI_SERVICE_DMS with
  | Except.error e => Step.returned (TaskResult.error e)
  | Except.ok _ =>
      Step.pending (qmi_client_dms_set_operating_mode QMI_DMS_OPERATING_MODE_OFFLINE 20)
        ResetCallback.reset_set_operating_mode_offline_ready

/-- Hand a response to the registered callback of a reset. -/
def reset_deliver (callback : ResetCallback) (res : QmiResult Unit) : Step ResetCallback Unit :=
  match callback with
  | ResetCallback.reset_set_operating_mode_offline_ready => reset_set_operating_mode_offline_ready res
  | ResetCallback.reset_set_operating_mode_reset_ready => reset_set_operating_mode_reset_ready res

/-! ## Current capabilities setting (Modem interface) -/

/-- The enumeration `SetCurrentCapabilitiesStep`. -/
inductive SetCurrentCapabilitiesStep where
  | SET_CURRENT_CAPABILITIES_STEP_FIRST
  | SET_CURRENT_CAPABILITIES_STEP_NAS_SYSTEM_SELECTION_PREFERENCE
  | SET_CURRENT_CAPABILITIES_STEP_NAS_TECHNOLOGY_PREFERENCE
  | SET_CURRENT_CAPABILITIES_STEP_RESET
  | SET_CURRENT_CAPABILITIES_STEP_LAST
  deriving DecidableEq, Repr

/-- The increment `ctx->step++` (never executed at the last step). -/
def SetCurrentCapabilitiesStep.succ : SetCurrentCapabilitiesStep → SetCurrentCapabilitiesStep
  | SetCurrentCapabilitiesStep.SET_CURRENT_CAPABILITIES_STEP_FIRST =>
      SetCurrentCapabilitiesStep.SET_CURRENT_CAPABILITIES_STEP_NAS_SYSTEM_SELECTION_PREFERENCE
  | SetCurrentCapabilitiesStep.SET_CURRENT_CAPABILITIES_STEP_NAS_SYSTEM_SELECTION_PREFERENCE =>
      SetCurrentCapabilitiesStep.SET_CURRENT_CAPABILITIES_STEP_NAS_TECHNOLOGY_PREFERENCE
  | SetCurrentCapabilitiesStep.SET_CURRENT_CAPABILITIES_STEP_NAS_TECHNOLOGY_PREFERENCE =>
      SetCurrentCapabilitiesStep.SET_CURRENT_CAPABILITIES_STEP_RESET
  | SetCurrentCapabilitiesStep.SET_CURRENT_CAPABILITIES_STEP_RESET =>
      SetCurrentCapabilitiesStep.SET_CURRENT_CAPABILITIES_STEP_LAST
  | SetCurrentCapabilitiesStep.SET_CURRENT_CAPABILITIES_STEP_LAST =>
      SetCurrentCapabilitiesStep.SET_CURRENT_CAPABILITIES_STEP_LAST

/-- The record `SetCurrentCapabilitiesContext` (the client handle left out). -/
structure SetCurrentCapabilitiesContext where
  capabilities : Nat
  capabilities_updated : Bool := false
  step : SetCurrentCapabilitiesStep
  deriving DecidableEq, Repr

/-- The callbacks Set-Current-Capabilities registers. While
`mm_shared_qmi_reset` runs, `set_current_capabilities_reset_ready` waits for
it and the reset has its own callback `inner` registered on the request. -/
inductive SetCurrentCapabilitiesCallback where
  | set_current_capabilities_set_system_selection_preference_ready
  | set_current_capabilities_set_technology_preference_ready
  | set_current_capabilities_reset_ready (inner : ResetCallback)
  deriving DecidableEq, Repr

/-- A Set-Current-Capabilities task waiting for a response: the registered
callback and the task data. -/
structure SetCurrentCapabilitiesTask where
  callback : SetCurrentCapabilitiesCallback
  ctx : SetCurrentCapabilitiesContext
  deriving DecidableEq, Repr

/-- The function `set_current_capabilities_technology_preference`. -/
def set_current_capabilities_technology_preference (H : Helpers)
    (ctx : SetCurrentCapabilitiesContext) : Step SetCurrentCapabilitiesTask Unit :=
  let pref := H.mm_modem_capability_to_qmi_radio_technology_preference ctx.capabilities
  if pref = 0 then
    Step.returned (TaskResult.error { domain := GErrorDomain.MM_CORE_ERROR, code := MM_CORE_ERROR_FAILED })
  else
    Step.pending
      (qmi_client_nas_set_technology_preference pref QMI_NAS_PREFERENCE_DURATION_PERMANENT 5)
      { callback := SetCurrentCapabilitiesCallback.set_current_capabilities_set_technology_preference_ready,
        ctx := ctx }

/-- The function `set_current_capabilities_system_selection_preference`. -/
def set_current_capabilities_system_selection_preference (H : Helpers)
    (ctx : SetCurrentCapabilitiesContext) : Step SetCurrentCapabilitiesTask Unit :=
  let pref := H.mm_modem_capability_to_qmi_rat_mode_preference ctx.capabilities
  if pref = 0 then
    Step.returned (TaskResult.error { domain := GErrorDomain.MM_CORE_ERROR, code := MM_CORE_ERROR_FAILED })
  else
    Step.pending
      (qmi_client_nas_set_system_selection_preference
        { mode_preference := some pref,
          change_duration := some QMI_NAS_CHANGE_DURATION_PERMANENT } 5)
      { callback := SetCurrentCapabilitiesCallback.set_current_capabilities_set_system_selection_preference_ready,
        ctx := ctx }

/-- The body of `case SET_CURRENT_CAPABILITIES_STEP_LAST`. -/
def set_current_capabilities_step_case_last : Step SetCurrentCapabilitiesTask Unit :=
  Step.returned (TaskResult.value ())

/-- The body of `case SET_CURRENT_CAPABILITIES_STEP_RESET`: start
`mm_shared_qmi_reset` with `set_current_capabilities_reset_ready` as its
callback. When the reset completes without a request (no DMS client), that
callback runs on the result at once: an error is returned as it is, and a
success would increment the step to the last one, which returns `TRUE`. -/
def set_current_capabilities_step_case_reset (self : MMIfaceModem)
    (ctx : SetCurrentCapabilitiesContext) : Step SetCurrentCapabilitiesTask Unit :=
  match mm_shared_qmi_reset self with
  | Step.pending request inner =>
      Step.pending request
        { callback := SetCurrentCapabilitiesCallback.set_current_capabilities_reset_ready inner,
          ctx := ctx }
  | Step.returned (TaskResult.error e) => Step.returned (TaskResult.error e)
  | Step.returned (TaskResult.value _) => set_current_capabilities_step_case_last
  | Step.aborted => Step.aborted

/-- The body of `case SET_CURRENT_CAPABILITIES_STEP_NAS_TECHNOLOGY_PREFERENCE`,
falling through to the reset case. -/
def set_current_capabilities_step_case_nas_technology_preference (H : Helpers)
    (self : MMIfaceModem) (priv : Private) (ctx : SetCurrentCapabilitiesContext) :
    Step SetCurrentCapabilitiesTask Unit :=
  if priv.feature_nas_technology_preference = Feature.FEATURE_SUPPORTED then
    set_current_capabilities_technology_preference H ctx
  else
    set_current_capabilities_step_case_reset self { ctx with step := ctx.step.succ }

/-- The body of
`case SET_CURRENT_CAPABILITIES_STEP_NAS_SYSTEM_SELECTION_PREFERENCE`, falling
through to the technology preference case. -/
def set_current_capabilities_step_case_nas_system_selection_preference (H : Helpers)
    (self : MMIfaceModem) (priv : Private) (ctx : SetCurrentCapabilitiesContext) :
    Step SetCurrentCapabilitiesTask Unit :=
  if priv.feature_nas_system_selection_preference = Feature.FEATURE_SUPPORTED then
    set_current_capabilities_system_selection_preference H ctx
  else
    set_current_capabilities_step_case_nas_technology_preference H self priv
      { ctx with step := ctx.step.succ }

/-- The body of `case SET_CURRENT_CAPABILITIES_STEP_FIRST`, falling through to
the system selection preference case. -/
def set_current_capabilities_step_case_first (H : Helpers)
    (self : MMIfaceModem) (priv : Private) (ctx : SetCurrentCapabilitiesContext) :
    Step SetCurrentCapabilitiesTask Unit :=
  if priv.feature_nas_system_selection_preference ≠ Feature.FEATURE_SUPPORTED ∧
      priv.feature_nas_technology_preference ≠ Feature.FEATURE_SUPPORTED then
    Step.returned (TaskResult.error { domain := GErrorDomain.MM_CORE_ERROR, code := MM_CORE_ERROR_UNSUPPORTED })
  else
    set_current_capabilities_step_case_nas_system_selection_preference H self priv
      { ctx with step := ctx.step.succ }

/-- The function `set_current_capabilities_step`: the `switch` on `ctx->step`. -/
def set_current_capabilities_step (H : Helpers) (self : MMIfaceModem) (priv : Private)
    (ctx : SetCurrentCapabilitiesContext) : Step SetCurrentCapabilitiesTask Unit :=
  match ctx.step with
  | SetCurrentCapabilitiesStep.SET_CURRENT_CAPABILITIES_STEP_FIRST =>
      set_current_capabilities_step_case_first H self priv ctx
  | SetCurrentCapabilitiesStep.SET_CURRENT_CAPABILITIES_STEP_NAS_SYSTEM_SELECTION_PREFERENCE =>
      set_current_capabilities_step_case_nas_system_selection_preference H self priv ctx
  | SetCurrentCapabilitiesStep.SET_CURRENT_CAPABILITIES_STEP_NAS_TECHNOLOGY_PREFERENCE =>
      set_current_capabilities_step_case_nas_technology_preference H self priv ctx
  | SetCurrentCapabilitiesStep.SET_CURRENT_CAPABILITIES_STEP_RESET =>
      set_current_capabilities_step_case_reset self ctx
  | SetCurrentCapabilitiesStep.SET_CURRENT_CAPABILITIES_STEP_LAST =>
      set_current_capabilities_step_case_last

/-- The callback `set_current_capabilities_reset_ready`. -/
def set_current_capabilities_reset_ready (H : Helpers) (self : MMIfaceModem) (priv : Private)
    (ctx : SetCurrentCapabilitiesContext) (res : TaskResult Unit) :
    Step SetCurrentCapabilitiesTask Unit :=
  match res with
  | TaskResult.error e => Step.returned (TaskResult.error e)
  | TaskResult.value _ => set_current_capabilities_step H self priv { ctx with step := ctx.step.succ }

/-- The callback `set_current_capabilities_set_technology_preference_ready`. -/
def set_current_capabilities_set_technology_preference_ready (H : Helpers) (self : MMIfaceModem)
    (priv : Private) (ctx : SetCurrentCapabilitiesContext) (res : QmiResult Unit) :
    Step SetCurrentCapabilitiesTask Unit :=
  let on_error (error : GError) : Step SetCurrentCapabilitiesTask Unit :=
    if !g_error_matches error GErrorDomain.QMI_PROTOCOL_ERROR QMI_PROTOCOL_ERROR_NO_EFFECT then
      Step.returned (TaskResult.error error)
    else
      set_current_capabilities_step H self priv
        { ctx with step := SetCurrentCapabilitiesStep.SET_CURRENT_CAPABILITIES_STEP_LAST }
  match res with
  | QmiResult.no_output error => on_error error
  | QmiResult.result_failed error => on_error error
  | QmiResult.ok _ =>
      set_current_capabilities_step H self priv
        { ctx with step := SetCurrentCapabilitiesStep.SET_CURRENT_CAPABILITIES_STEP_RESET }

/-- The callback `set_current_capabilities_set_system_selection_preference_ready`. -/
def set_current_capabilities_set_system_selection_preference_ready (H : Helpers)
    (self : MMIfaceModem) (priv : Private) (ctx : SetCurrentCapabilitiesContext)
    (res : QmiResult Unit) : Step SetCurrentCapabilitiesTask Unit :=
  match res with
  | QmiResult.no_output error => Step.returned (TaskResult.error error)
  | QmiResult.result_failed error => Step.returned (TaskResult.error error)
  | QmiResult.ok _ =>
      set_current_capabilities_step H self priv
        { ctx with step := SetCurrentCapabilitiesStep.SET_CURRENT_CAPABILITIES_STEP_RESET }

/-- Hand a response to the registered callback of a Set-Current-Capabilities
task. A response for the reset goes to the reset first; when the reset
returns, `set_current_capabilities_reset_ready` gets its result. -/
def set_current_capabilities_deliver (H : Helpers) (self : MMIfaceModem) (priv : Private)
    (task : SetCurrentCapabilitiesTask) (res : QmiResult Unit) :
    Step SetCurrentCapabilitiesTask Unit :=
  match task.callback with
  | SetCurrentCapabilitiesCallback.set_current_capabilities_set_system_selection_preference_ready =>
      set_current_capabilities_set_system_selection_preference_ready H self priv task.ctx res
  | SetCurrentCapabilitiesCallback.set_current_capabilities_set_technology_preference_ready =>
      set_current_capabilities_set_technology_preference_ready H self priv task.ctx res
  | SetCurrentCapabilitiesCallback.set_current_capabilities_reset_ready inner =>
      match reset_deliver inner res with
      | Step.pending request inner' =>
          Step.pending request
            { callback := SetCurrentCapabilitiesCallback.set_current_capabilities_reset_ready inner',
              ctx := task.ctx }
      | Step.returned result => set_current_capabilities_reset_ready H self priv task.ctx result
      | Step.aborted => Step.aborted

/-- The entry point `mm_shared_qmi_set_current_capabilities`. -/
def mm_shared_qmi_set_current_capabilities (H : Helpers) (self : MMIfaceModem) (priv : Private)
    (capabilities : Nat) : Step SetCurrentCapabilitiesTask Unit :=
  match mm_shared_qmi_ensure_client self QmiService.QMI_SERVICE_NAS with
  | Except.error e => Step.returned (TaskResult.error e)
  | Except.ok _ =>
      if priv.feature_nas_technology_preference = Feature.FEATURE_UNKNOWN ∨
          priv.feature_nas_system_selection_preference = Feature.FEATURE_UNKNOWN then
        Step.aborted
      else
        set_current_capabilities_step H self priv
          { capabilities := capabilities,
            step := SetCurrentCapabilitiesStep.SET_CURRENT_CAPABILITIES_STEP_FIRST }

/-- The step machine as `mm_shared_qmi_set_current_capabilities` starts it:
`set_current_capabilities_step` on a fresh context at the first step. -/
def set_current_capabilities_start (H : Helpers) (self : MMIfaceModem) (priv : Private)
    (capabilities : Nat) : Step SetCurrentCapabilitiesTask Unit :=
  set_current_capabilities_step H self priv
    { capabilities := capabilities,
      step := SetCurrentCapabilitiesStep.SET_CURRENT_CAPABILITIES_STEP_FIRST }

/-- The step machine of Set-Current-Capabilities driven by the responses of
the device: the requests it issues and the state it reaches. -/
def set_current_capabilities_run (H : Helpers) (self : MMIfaceModem) (priv : Private)
    (capabilities : Nat) (responses : List (QmiResult Unit)) :
    List QmiRequest × Step SetCurrentCapabilitiesTask Unit :=
  Step.run (set_current_capabilities_deliver H self priv)
    (set_current_capabilities_start H self priv capabilities) responses

/-! ## Current capabilities (Modem interface) -/

/-- The output of Get-System-Selection-Preference: its optional TLVs, `none`
when the getter of the TLV fails. -/
structure QmiMessageNasGetSystemSelectionPreferenceOutput where
  mode_preference : Option Nat := none
  gsm_wcdma_acquisition_order_preference : Option Nat := none
  acquisition_order_preference : Option (List Nat) := none
  band_preference : Option Nat := none
  lte_band_preference : Option Nat := none
  extended_lte_band_preference : Option (Nat × Nat × Nat × Nat) := none
  deriving DecidableEq, Repr

/-- The output of Get-Technology-Preference: the mandatory TLV with the active
technology preference. -/
structure QmiMessageNasGetTechnologyPreferenceOutput where
  active : Nat
  deriving DecidableEq, Repr

/-- The output of DMS Get-Capabilities: the radio interface list of the
mandatory info TLV. -/
structure QmiMessageDmsGetCapabilitiesOutput where
  radio_interface_list : List Nat
  deriving DecidableEq, Repr

/-- The enumeration `LoadCurrentCapabilitiesStep`. -/
inductive LoadCurrentCapabilitiesStep where
  | LOAD_CURRENT_CAPABILITIES_STEP_FIRST
  | LOAD_CURRENT_CAPABILITIES_STEP_NAS_SYSTEM_SELECTION_PREFERENCE
  | LOAD_CURRENT_CAPABILITIES_STEP_NAS_TECHNOLOGY_PREFERENCE
  | LOAD_CURRENT_CAPABILITIES_STEP_DMS_GET_CAPABILITIES
  | LOAD_CURRENT_CAPABILITIES_STEP_LAST
  deriving DecidableEq, Repr

/-- The increment `ctx->step++` (never executed at the last step). -/
def LoadCurrentCapabilitiesStep.succ : LoadCurrentCapabilitiesStep → LoadCurrentCapabilitiesStep
  | LoadCurrentCapabilitiesStep.LOAD_CURRENT_CAPABILITIES_STEP_FIRST =>
      LoadCurrentCapabilitiesStep.LOAD_CURRENT_CAPABILITIES_STEP_NAS_SYSTEM_SELECTION_PREFERENCE
  | LoadCurrentCapabilitiesStep.LOAD_CURRENT_CAPABILITIES_STEP_NAS_SYSTEM_SELECTION_PREFERENCE =>
      LoadCurrentCapabilitiesStep.LOAD_CURRENT_CAPABILITIES_STEP_NAS_TECHNOLOGY_PREFERENCE
  | LoadCurrentCapabilitiesStep.LOAD_CURRENT_CAPABILITIES_STEP_NAS_TECHNOLOGY_PREFERENCE =>
      LoadCurrentCapabilitiesStep.LOAD_CURRENT_CAPABILITIES_STEP_DMS_GET_CAPABILITIES
  | LoadCurrentCapabilitiesStep.LOAD_CURRENT_CAPABILITIES_STEP_DMS_GET_CAPABILITIES =>
      LoadCurrentCapabilitiesStep.LOAD_CURRENT_CAPABILITIES_STEP_LAST
  | LoadCurrentCapabilitiesStep.LOAD_CURRENT_CAPABILITIES_STEP_LAST =>
      LoadCurrentCapabilitiesStep.LOAD_CURRENT_CAPABILITIES_STEP_LAST

/-- The record `LoadCurrentCapabilitiesContext` (the client handles left out). -/
structure LoadCurrentCapabilitiesContext where
  step : LoadCurrentCapabilitiesStep
  capabilities_context : MMQmiCapabilitiesContext := {}
  deriving DecidableEq, Repr

/-- The callbacks Load-Current-Capabilities registers. -/
inductive LoadCurrentCapabilitiesCallback where
  | load_current_capabilities_get_system_selection_preference_ready
  | load_current_capabilities_get_technology_preference_ready
  | load_current_capabilities_get_capabilities_ready
  deriving DecidableEq, Repr

/-- A Load-Current-Capabilities task waiting for a response. -/
structure LoadCurrentCapabilitiesTask where
  callback : LoadCurrentCapabilitiesCallback
  ctx : LoadCurrentCapabilitiesContext
  deriving DecidableEq, Repr

/-- Modelled from the spec: `mm_modem_capability_from_qmi_capabilities_context`
is defined in mm-modem-helpers-qmi.c, not under src/. The spec: "DMS is the
universe; if system-selection-preference is supported its mode mask narrows
the universe; otherwise if technology-preference is supported its mask narrows
the universe; otherwise the universe itself is reported." The function is
given the context record alone, so a preference counts when its mask was
captured (non-zero), and narrowing is the intersection with the DMS mask. -/
def mm_modem_capability_from_qmi_capabilities_context (H : Helpers)
    (ctx : MMQmiCapabilitiesContext) : Nat :=
  if ctx.nas_ssp_mode_preference_mask ≠ 0 then
    H.mm_modem_capability_from_qmi_rat_mode_preference ctx.nas_ssp_mode_preference_mask
      &&& ctx.dms_capabilities
  else if ctx.nas_tp_mask ≠ 0 then
    H.mm_modem_capability_from_qmi_radio_technology_preference ctx.nas_tp_mask
      &&& ctx.dms_capabilities
  else
    ctx.dms_capabilities

/-- The function `load_current_capabilities_step`: the `switch` on
`ctx->step`. The last step stores the current capabilities in the private
data, so the private data is returned as well. -/
def load_current_capabilities_step (H : Helpers) (priv : Private)
    (ctx : LoadCurrentCapabilitiesContext) : Private × Step LoadCurrentCapabilitiesTask Nat :=
  let case_nas_system_selection_preference (ctx : LoadCurrentCapabilitiesContext) :
      Private × Step LoadCurrentCapabilitiesTask Nat :=
    (priv, Step.pending (qmi_client_nas_get_system_selection_preference 5)
      { callback := LoadCurrentCapabilitiesCallback.load_current_capabilities_get_system_selection_preference_ready,
        ctx := ctx })
  match ctx.step with
  | LoadCurrentCapabilitiesStep.LOAD_CURRENT_CAPABILITIES_STEP_FIRST =>
      case_nas_system_selection_preference { ctx with step := ctx.step.succ }
  | LoadCurrentCapabilitiesStep.LOAD_CURRENT_CAPABILITIES_STEP_NAS_SYSTEM_SELECTION_PREFERENCE =>
      case_nas_system_selection_preference ctx
  | LoadCurrentCapabilitiesStep.LOAD_CURRENT_CAPABILITIES_STEP_NAS_TECHNOLOGY_PREFERENCE =>
      (priv, Step.pending (qmi_client_nas_get_technology_preference 5)
        { callback := LoadCurrentCapabilitiesCallback.load_current_capabilities_get_technology_preference_ready,
          ctx := ctx })
  | LoadCurrentCapabilitiesStep.LOAD_CURRENT_CAPABILITIES_STEP_DMS_GET_CAPABILITIES =>
      (priv, Step.pending (qmi_client_dms_get_capabilities 5)
        { callback := LoadCurrentCapabilitiesCallback.load_current_capabilities_get_capabilities_ready,
          ctx := ctx })
  | LoadCurrentCapabilitiesStep.LOAD_CURRENT_CAPABILITIES_STEP_LAST =>
      if priv.feature_nas_technology_preference = Feature.FEATURE_UNKNOWN ∨
          priv.feature_nas_system_selection_preference = Feature.FEATURE_UNKNOWN then
        (priv, Step.aborted)
      else
        let current := mm_modem_capability_from_qmi_capabilities_context H ctx.capabilities_context
        ({ priv with current_capabilities := current }, Step.returned (TaskResult.value current))

/-- The callback `load_current_capabilities_get_capabilities_ready`. -/
def load_current_capabilities_get_capabilities_ready (H : Helpers) (priv : Private)
    (ctx : LoadCurrentCapabilitiesContext) (res : QmiResult QmiMessageDmsGetCapabilitiesOutput) :
    Private × Step LoadCurrentCapabilitiesTask Nat :=
  match res with
  | QmiResult.no_output error => (priv, Step.returned (TaskResult.error error))
  | QmiResult.result_failed error => (priv, Step.returned (TaskResult.error error))
  | QmiResult.ok output =>
      match priv.supported_radio_interfaces with
      | some _ => (priv, Step.aborted)
      | none =>
          let priv := { priv with supported_radio_interfaces := some output.radio_interface_list }
          let dms_capabilities :=
            output.radio_interface_list.foldl
              (fun acc iface => acc ||| H.mm_modem_capability_from_qmi_radio_interface iface)
              ctx.capabilities_context.dms_capabilities
          let ctx := { ctx with
            capabilities_context := { ctx.capabilities_context with dms_capabilities := dms_capabilities } }
          load_current_capabilities_step H priv { ctx with step := ctx.step.succ }

/-- The callback `load_current_capabilities_get_technology_preference_ready`. -/
def load_current_capabilities_get_technology_preference_ready (H : Helpers) (priv : Private)
    (ctx : LoadCurrentCapabilitiesContext)
    (res : QmiResult QmiMessageNasGetTechnologyPreferenceOutput) :
    Private × Step LoadCurrentCapabilitiesTask Nat :=
  match res with
  | QmiResult.no_output _ =>
      load_current_capabilities_step H
        { priv with feature_nas_technology_preference := Feature.FEATURE_UNSUPPORTED }
        { ctx with step := ctx.step.succ }
  | QmiResult.result_failed _ =>
      load_current_capabilities_step H
        { priv with feature_nas_technology_preference := Feature.FEATURE_SUPPORTED }
        { ctx with step := ctx.step.succ }
  | QmiResult.ok output =>
      let ctx := { ctx with
        capabilities_context := { ctx.capabilities_context with nas_tp_mask := output.active } }
      load_current_capabilities_step H
        { priv with feature_nas_technology_preference := Feature.FEATURE_SUPPORTED }
        { ctx with step := ctx.step.succ }

/-- The callback `load_current_capabilities_get_system_selection_preference_ready`.
The mode preference mask of the context keeps its value when the TLV is
missing. -/
def load_current_capabilities_get_system_selection_preference_ready (H : Helpers)
    (priv : Private) (ctx : LoadCurrentCapabilitiesContext)
    (res : QmiResult QmiMessageNasGetSystemSelectionPreferenceOutput) :
    Private × Step LoadCurrentCapabilitiesTask Nat :=
  match res with
  | QmiResult.no_output _ =>
      load_current_capabilities_step H
        { priv with feature_nas_system_selection_preference := Feature.FEATURE_UNSUPPORTED }
        { ctx with step := ctx.step.succ }
  | QmiResult.result_failed _ =>
      load_current_capabilities_step H
        { priv with feature_nas_system_selection_preference := Feature.FEATURE_SUPPORTED }
        { ctx with step := ctx.step.succ }
  | QmiResult.ok output =>
      let mask := output.mode_preference.getD ctx.capabilities_context.nas_ssp_mode_preference_mask
      let ctx := { ctx with
        capabilities_context := { ctx.capabilities_context with nas_ssp_mode_preference_mask := mask } }
      load_current_capabilities_step H
        { priv with feature_nas_system_selection_preference := Feature.FEATURE_SUPPORTED }
        { ctx with step := ctx.step.succ }

/-- The entry point `mm_shared_qmi_load_current_capabilities`. -/
def mm_shared_qmi_load_current_capabilities (H : Helpers) (self : MMIfaceModem) (priv : Private) :
    Private × Step LoadCurrentCapabilitiesTask Nat :=
  match mm_shared_qmi_ensure_client self QmiService.QMI_SERVICE_NAS with
  | Except.error e => (priv, Step.returned (TaskResult.error e))
  | Except.ok _ =>
      match mm_shared_qmi_ensure_client self QmiService.QMI_SERVICE_DMS with
      | Except.error e => (priv, Step.returned (TaskResult.error e))
      | Except.ok _ =>
          if priv.feature_nas_technology_preference = Feature.FEATURE_UNKNOWN ∧
              priv.feature_nas_system_selection_preference = Feature.FEATURE_UNKNOWN then
            load_current_capabilities_step H priv
              { step := LoadCurrentCapabilitiesStep.LOAD_CURRENT_CAPABILITIES_STEP_FIRST }
          else
            (priv, Step.aborted)

/-- The responses of the device to the three requests of
Load-Current-Capabilities. -/
structure LoadCurrentCapabilitiesResponses where
  get_system_selection_preference : QmiResult QmiMessageNasGetSystemSelectionPreferenceOutput
  get_technology_preference : QmiResult QmiMessageNasGetTechnologyPreferenceOutput
  get_capabilities : QmiResult QmiMessageDmsGetCapabilitiesOutput

/-- Hand the response of the device to the registered callback of a
Load-Current-Capabilities task. -/
def load_current_capabilities_deliver (H : Helpers) (rs : LoadCurrentCapabilitiesResponses)
    (priv : Private) (task : LoadCurrentCapabilitiesTask) :
    Private × Step LoadCurrentCapabilitiesTask Nat :=
  match task.callback with
  | LoadCurrentCapabilitiesCallback.load_current_capabilities_get_system_selection_preference_ready =>
      load_current_capabilities_get_system_selection_preference_ready H priv task.ctx
        rs.get_system_selection_preference
  | LoadCurrentCapabilitiesCallback.load_current_capabilities_get_technology_preference_ready =>
      load_current_capabilities_get_technology_preference_ready H priv task.ctx
        rs.get_technology_preference
  | LoadCurrentCapabilitiesCallback.load_current_capabilities_get_capabilities_ready =>
      load_current_capabilities_get_capabilities_ready H priv task.ctx rs.get_capabilities

/-- Drive a Load-Current-Capabilities task for at most `fuel` responses: the
private data, the requests issued and the state reached. -/
def load_current_capabilities_drive (H : Helpers) (rs : LoadCurrentCapabilitiesResponses) :
    Nat → Private × Step LoadCurrentCapabilitiesTask Nat →
    Private × List QmiRequest × Step LoadCurrentCapabilitiesTask Nat
  | fuel + 1, (priv, Step.pending request task) =>
      let r := load_current_capabilities_drive H rs fuel (load_current_capabilities_deliver H rs priv task)
      (r.1, request :: r.2.1, r.2.2)
  | _, (priv, state) => (priv, state.issued, state)

/-- Load-Current-Capabilities from the entry point to its end: the operation
issues at most three requests, one per step. -/
def load_current_capabilities_run (H : Helpers) (self : MMIfaceModem) (priv : Private)
    (rs : LoadCurrentCapabilitiesResponses) :
    Private × List QmiRequest × Step LoadCurrentCapabilitiesTask Nat :=
  load_current_capabilities_drive H rs 3 (mm_shared_qmi_load_current_capabilities H self priv)

/-! ## Supported capabilities (Modem interface) -/

/-- The mask built by the loop over `priv->supported_radio_interfaces` in
Load-Supported-Capabilities (and, on the context, in
`load_current_capabilities_get_capabilities_ready`). -/
def supported_capabilities_mask (H : Helpers) (radio_interfaces : List Nat) : Nat :=
  radio_interfaces.foldl
    (fun mask iface => mask ||| H.mm_modem_capability_from_qmi_radio_interface iface)
    MM_MODEM_CAPABILITY_NONE

/-- The entry point `mm_shared_qmi_load_supported_capabilities`: the private
data after the call and the task result. The operation issues no request. -/
def mm_shared_qmi_load_supported_capabilities (H : Helpers) (priv : Private) :
    Private × TaskResult (List Nat) :=
  match priv.supported_radio_interfaces with
  | none =>
      (priv, TaskResult.error { domain := GErrorDomain.MM_CORE_ERROR, code := MM_CORE_ERROR_FAILED })
  | some radio_interfaces =>
      let mask := supported_capabilities_mask H radio_interfaces
      if priv.feature_nas_technology_preference = Feature.FEATURE_SUPPORTED ∨
          priv.feature_nas_system_selection_preference = Feature.FEATURE_UNKNOWN then
        if mask = (MM_MODEM_CAPABILITY_GSM_UMTS ||| MM_MODEM_CAPABILITY_CDMA_EVDO) then
          (priv, TaskResult.value
            [MM_MODEM_CAPABILITY_GSM_UMTS, MM_MODEM_CAPABILITY_CDMA_EVDO, mask])
        else if mask = (MM_MODEM_CAPABILITY_GSM_UMTS ||| MM_MODEM_CAPABILITY_CDMA_EVDO |||
            MM_MODEM_CAPABILITY_LTE) then
          ({ priv with disable_4g_only_mode := true },
            TaskResult.value
              [MM_MODEM_CAPABILITY_GSM_UMTS ||| MM_MODEM_CAPABILITY_LTE,
               MM_MODEM_CAPABILITY_CDMA_EVDO ||| MM_MODEM_CAPABILITY_LTE,
               MM_MODEM_CAPABILITY_LTE,
               mask])
        else
          (priv, TaskResult.value [mask])
      else
        (priv, TaskResult.value [mask])

/-! ## Allowed modes setting (Modem interface) -/

/-- The record `SetCurrentModesContext` (the client handle left out). -/
structure SetCurrentModesContext where
  allowed : Nat
  preferred : Nat
  deriving DecidableEq, Repr

/-- The callbacks Set-Current-Modes registers. -/
inductive SetCurrentModesCallback where
  | set_current_modes_technology_preference_ready
  | set_current_modes_system_selection_preference_ready
  deriving DecidableEq, Repr

/-- The callback `set_current_modes_technology_preference_ready`. -/
def set_current_modes_technology_preference_ready (res : QmiResult Unit) :
    Step SetCurrentModesCallback Unit :=
  match res with
  | QmiResult.no_output error => Step.returned (TaskResult.error error)
  | QmiResult.result_failed error =>
      if !g_error_matches error GErrorDomain.QMI_PROTOCOL_ERROR QMI_PROTOCOL_ERROR_NO_EFFECT then
        Step.returned (TaskResult.error error)
      else
        Step.returned (TaskResult.value ())
  | QmiResult.ok _ => Step.returned (TaskResult.value ())

/-- The function `set_current_modes_technology_preference`. -/
def set_current_modes_technology_preference (H : Helpers) (self : MMIfaceModem)
    (ctx : SetCurrentModesContext) : Step SetCurrentModesCallback Unit :=
  if ctx.preferred ≠ MM_MODEM_MODE_NONE then
    Step.returned (TaskResult.error { domain := GErrorDomain.MM_CORE_ERROR, code := MM_CORE_ERROR_FAILED })
  else
    let pref := H.mm_modem_mode_to_qmi_radio_technology_preference ctx.allowed self.is_cdma
    if pref = 0 then
      Step.returned (TaskResult.error { domain := GErrorDomain.MM_CORE_ERROR, code := MM_CORE_ERROR_FAILED })
    else
      Step.pending
        (qmi_client_nas_set_technology_preference pref QMI_NAS_PREFERENCE_DURATION_PERMANENT 5)
        SetCurrentModesCallback.set_current_modes_technology_preference_ready

/-- The callback `set_current_modes_system_selection_preference_ready`. -/
def set_current_modes_system_selection_preference_ready (res : QmiResult Unit) :
    Step SetCurrentModesCallback Unit :=
  match res with
  | QmiResult.no_output error => Step.returned (TaskResult.error error)
  | QmiResult.result_failed error => Step.returned (TaskResult.error error)
  | QmiResult.ok _ => Step.returned (TaskResult.value ())

/-- The input built by `set_current_modes_system_selection_preference`, or
`none` when `g_assert (array)` fails. -/
def set_current_modes_system_selection_preference_input (H : Helpers) (self : MMIfaceModem)
    (ctx : SetCurrentModesContext) : Option QmiMessageNasSetSystemSelectionPreferenceInput :=
  let input : QmiMessageNasSetSystemSelectionPreferenceInput :=
    { change_duration := some QMI_NAS_CHANGE_DURATION_PERMANENT }
  let preferred_modes : Option QmiMessageNasSetSystemSelectionPreferenceInput :=
    if ctx.preferred ≠ MM_MODEM_MODE_NONE then
      match H.mm_modem_mode_to_qmi_acquisition_order_preference ctx.allowed ctx.preferred
          self.is_cdma self.is_3gpp with
      | none => none
      | some array =>
          let input := { input with acquisition_order_preference := some array }
          if self.is_3gpp ∧
              (ctx.allowed &&& (MM_MODEM_MODE_2G ||| MM_MODEM_MODE_3G)) =
                (MM_MODEM_MODE_2G ||| MM_MODEM_MODE_3G) then
            some { input with
              gsm_wcdma_acquisition_order_preference :=
                some (H.mm_modem_mode_to_qmi_gsm_wcdma_acquisition_order_preference ctx.preferred) }
          else
            some input
    else
      some input
  match preferred_modes with
  | none => none
  | some input =>
      some { input with
        mode_preference :=
          some (H.mm_modem_mode_to_qmi_rat_mode_preference ctx.allowed self.is_cdma self.is_3gpp) }

/-- The function `set_current_modes_system_selection_preference`. -/
def set_current_modes_system_selection_preference (H : Helpers) (self : MMIfaceModem)
    (ctx : SetCurrentModesContext) : Step SetCurrentModesCallback Unit :=
  match set_current_modes_system_selection_preference_input H self ctx with
  | none => Step.aborted
  | some input =>
      Step.pending (qmi_client_nas_set_system_selection_preference input 5)
        SetCurrentModesCallback.set_current_modes_system_selection_preference_ready

/-- The context `mm_shared_qmi_set_current_modes` fills in. The record comes
zeroed from `g_slice_new0`, and the test on `ctx->preferred` reads that zeroed
field, not the argument. -/
def set_current_modes_context (self : MMIfaceModem) (allowed preferred : Nat) :
    SetCurrentModesContext :=
  let ctx : SetCurrentModesContext := { allowed := 0, preferred := 0 }
  if allowed = MM_MODEM_MODE_ANY ∧ ctx.preferred = MM_MODEM_MODE_NONE then
    let ctx := { ctx with allowed := MM_MODEM_MODE_NONE }
    let ctx := if self.is_2g then { ctx with allowed := ctx.allowed ||| MM_MODEM_MODE_2G } else ctx
    let ctx := if self.is_3g then { ctx with allowed := ctx.allowed ||| MM_MODEM_MODE_3G } else ctx
    let ctx := if self.is_4g then { ctx with allowed := ctx.allowed ||| MM_MODEM_MODE_4G } else ctx
    { ctx with preferred := MM_MODEM_MODE_NONE }
  else
    { ctx with allowed := allowed, preferred := preferred }

/-- The entry point `mm_shared_qmi_set_current_modes`. -/
def mm_shared_qmi_set_current_modes (H : Helpers) (self : MMIfaceModem) (priv : Private)
    (allowed preferred : Nat) : Step SetCurrentModesCallback Unit :=
  match mm_shared_qmi_ensure_client self QmiService.QMI_SERVICE_NAS with
  | Except.error e => Step.returned (TaskResult.error e)
  | Except.ok _ =>
      let ctx := set_current_modes_context self allowed preferred
      if priv.feature_nas_system_selection_preference = Feature.FEATURE_SUPPORTED then
        set_current_modes_system_selection_preference H self ctx
      else if priv.feature_nas_technology_preference = Feature.FEATURE_SUPPORTED then
        set_current_modes_technology_preference H self ctx
      else
        Step.returned (TaskResult.error
          { domain := GErrorDomain.MM_CORE_ERROR, code := MM_CORE_ERROR_UNSUPPORTED })

/-- Hand a response to the registered callback of a Set-Current-Modes task. -/
def set_current_modes_deliver (callback : SetCurrentModesCallback) (res : QmiResult Unit) :
    Step SetCurrentModesCallback Unit :=
  match callback with
  | SetCurrentModesCallback.set_current_modes_technology_preference_ready =>
      set_current_modes_technology_preference_ready res
  | SetCurrentModesCallback.set_current_modes_system_selection_preference_ready =>
      set_current_modes_system_selection_preference_ready res

/-! ## Load current modes (Modem interface) -/

/-- The record `LoadCurrentModesResult`. -/
structure LoadCurrentModesResult where
  allowed : Nat
  preferred : Nat
  deriving DecidableEq, Repr

/-- The callbacks Load-Current-Modes registers. -/
inductive LoadCurrentModesCallback where
  | get_technology_preference_ready
  | load_current_modes_system_selection_preference_ready
  deriving DecidableEq, Repr

/-- The callback `get_technology_preference_ready`. -/
def get_technology_preference_ready (H : Helpers)
    (res : QmiResult QmiMessageNasGetTechnologyPreferenceOutput) :
    Step LoadCurrentModesCallback LoadCurrentModesResult :=
  match res with
  | QmiResult.no_output error => Step.returned (TaskResult.error error)
  | QmiResult.result_failed error => Step.returned (TaskResult.error error)
  | QmiResult.ok output =>
      let allowed := H.mm_modem_mode_from_qmi_radio_technology_preference output.active
      if allowed = MM_MODEM_MODE_NONE then
        Step.returned (TaskResult.error { domain := GErrorDomain.MM_CORE_ERROR, code := MM_CORE_ERROR_FAILED })
      else
        Step.returned (TaskResult.value { allowed := allowed, preferred := MM_MODEM_MODE_NONE })

/-- The `for` loop of `load_current_modes_system_selection_preference_ready`
over the acquisition order array: the value of `result->preferred` when the
loop ends, `MM_MODEM_MODE_NONE` being its value before the loop. -/
def load_current_modes_acquisition_order_loop (H : Helpers) (allowed : Nat) : List Nat → Nat
  | [] => MM_MODEM_MODE_NONE
  | iface :: rest =>
      let mode := H.mm_modem_mode_from_qmi_nas_radio_interface iface
      if allowed = mode then
        MM_MODEM_MODE_NONE
      else if allowed &&& mode ≠ 0 then
        mode
      else
        load_current_modes_acquisition_order_loop H allowed rest

/-- The callback `load_current_modes_system_selection_preference_ready`. -/
def load_current_modes_system_selection_preference_ready (H : Helpers)
    (res : QmiResult QmiMessageNasGetSystemSelectionPreferenceOutput) :
    Step LoadCurrentModesCallback LoadCurrentModesResult :=
  match res with
  | QmiResult.no_output error => Step.returned (TaskResult.error error)
  | QmiResult.result_failed error => Step.returned (TaskResult.error error)
  | QmiResult.ok output =>
      match output.mode_preference with
      | none =>
          Step.returned (TaskResult.error { domain := GErrorDomain.MM_CORE_ERROR, code := MM_CORE_ERROR_FAILED })
      | some mode_preference_mask =>
          let allowed := H.mm_modem_mode_from_qmi_rat_mode_preference mode_preference_mask
          if allowed = MM_MODEM_MODE_NONE then
            Step.returned (TaskResult.error { domain := GErrorDomain.MM_CORE_ERROR, code := MM_CORE_ERROR_FAILED })
          else
            let preferred :=
              if mode_preference_mask =
                  (QMI_NAS_RAT_MODE_PREFERENCE_GSM ||| QMI_NAS_RAT_MODE_PREFERENCE_UMTS) then
                match output.gsm_wcdma_acquisition_order_preference with
                | some gsm_or_wcdma =>
                    H.mm_modem_mode_from_qmi_gsm_wcdma_acquisition_order_preference gsm_or_wcdma
                | none => MM_MODEM_MODE_NONE
              else
                match output.acquisition_order_preference with
                | some array =>
                    if array.length > 0 then
                      load_current_modes_acquisition_order_loop H allowed array
                    else
                      MM_MODEM_MODE_NONE
                | none => MM_MODEM_MODE_NONE
            Step.returned (TaskResult.value { allowed := allowed, preferred := preferred })

/-- The entry point `mm_shared_qmi_load_current_modes`. -/
def mm_shared_qmi_load_current_modes (self : MMIfaceModem) (priv : Private) :
    Step LoadCurrentModesCallback LoadCurrentModesResult :=
  match mm_shared_qmi_ensure_client self QmiService.QMI_SERVICE_NAS with
  | Except.error e => Step.returned (TaskResult.error e)
  | Except.ok _ =>
      if priv.feature_nas_system_selection_preference ≠ Feature.FEATURE_UNSUPPORTED then
        Step.pending (qmi_client_nas_get_system_selection_preference 5)
          LoadCurrentModesCallback.load_current_modes_system_selection_preference_ready
      else if priv.feature_nas_technology_preference ≠ Feature.FEATURE_UNSUPPORTED then
        Step.pending (qmi_client_nas_get_technology_preference 5)
          LoadCurrentModesCallback.get_technology_preference_ready
      else
        Step.returned (TaskResult.error
          { domain := GErrorDomain.MM_CORE_ERROR, code := MM_CORE_ERROR_UNSUPPORTED })

/-! ## Supported modes (Modem interface) -/

/-- Modelled from the spec: `mm_filter_supported_modes` is defined in
mm-modem-helpers.c, not under src/. The spec: "Filter the product against the
device's actual supported-modes mask": a combination is kept when its allowed
modes all lie in the mask of the entries of `all`. -/
def mm_filter_supported_modes (all combinations : List MMModemModeCombination) :
    List MMModemModeCombination :=
  let mask := all.foldl (fun acc item => acc ||| item.allowed) 0
  combinations.filter (fun mode => mode.allowed &&& mask = mode.allowed)

/-- The mask `mask_all` built by the loop over
`priv->supported_radio_interfaces` in Load-Supported-Modes. -/
def supported_modes_mask_all (H : Helpers) (radio_interfaces : List Nat) : Nat :=
  radio_interfaces.foldl
    (fun mask_all iface => mask_all ||| H.mm_modem_mode_from_qmi_radio_interface iface)
    MM_MODEM_MODE_NONE

/-- The array `combinations` that `mm_shared_qmi_load_supported_modes` builds
before it filters it. -/
def load_supported_modes_combinations (priv : Private) : List MMModemModeCombination :=
  let ssp : Bool := priv.feature_nas_system_selection_preference ≠ Feature.FEATURE_UNSUPPORTED
  [ { allowed := MM_MODEM_MODE_2G, preferred := MM_MODEM_MODE_NONE },
    { allowed := MM_MODEM_MODE_3G, preferred := MM_MODEM_MODE_NONE } ]
  ++ (if !priv.disable_4g_only_mode then
        [ { allowed := MM_MODEM_MODE_4G, preferred := MM_MODEM_MODE_NONE } ]
      else [])
  ++ (if ssp then
        [ { allowed := MM_MODEM_MODE_2G ||| MM_MODEM_MODE_3G, preferred := MM_MODEM_MODE_3G },
          { allowed := MM_MODEM_MODE_2G ||| MM_MODEM_MODE_3G, preferred := MM_MODEM_MODE_2G } ]
      else
        [ { allowed := MM_MODEM_MODE_2G ||| MM_MODEM_MODE_3G, preferred := MM_MODEM_MODE_NONE } ])
  ++ (if ssp then
        [ { allowed := MM_MODEM_MODE_2G ||| MM_MODEM_MODE_4G, preferred := MM_MODEM_MODE_4G },
          { allowed := MM_MODEM_MODE_2G ||| MM_MODEM_MODE_4G, preferred := MM_MODEM_MODE_2G } ]
      else
        [ { allowed := MM_MODEM_MODE_2G ||| MM_MODEM_MODE_4G, preferred := MM_MODEM_MODE_NONE } ])
  ++ (if ssp then
        [ { allowed := MM_MODEM_MODE_3G ||| MM_MODEM_MODE_4G, preferred := MM_MODEM_MODE_3G },
          { allowed := MM_MODEM_MODE_3G ||| MM_MODEM_MODE_4G, preferred := MM_MODEM_MODE_4G } ]
      else
        [ { allowed := MM_MODEM_MODE_3G ||| MM_MODEM_MODE_4G, preferred := MM_MODEM_MODE_NONE } ])
  ++ (if ssp then
        [ { allowed := MM_MODEM_MODE_2G ||| MM_MODEM_MODE_3G ||| MM_MODEM_MODE_4G,
            preferred := MM_MODEM_MODE_4G },
          { allowed := MM_MODEM_MODE_2G ||| MM_MODEM_MODE_3G ||| MM_MODEM_MODE_4G,
            preferred := MM_MODEM_MODE_3G },
          { allowed := MM_MODEM_MODE_2G ||| MM_MODEM_MODE_3G ||| MM_MODEM_MODE_4G,
            preferred := MM_MODEM_MODE_2G } ]
      else
        [ { allowed := MM_MODEM_MODE_2G ||| MM_MODEM_MODE_3G ||| MM_MODEM_MODE_4G,
            preferred := MM_MODEM_MODE_NONE } ])

/-- The entry point `mm_shared_qmi_load_supported_modes`: the list the task
returns, or `none` when `g_assert (priv->supported_radio_interfaces)` fails.
The operation issues no request. -/
def mm_shared_qmi_load_supported_modes (H : Helpers) (priv : Private) :
    Option (List MMModemModeCombination) :=
  match priv.supported_radio_interfaces with
  | none => none
  | some radio_interfaces =>
      let all : List MMModemModeCombination :=
        [ { allowed := supported_modes_mask_all H radio_interfaces,
            preferred := MM_MODEM_MODE_NONE } ]
      if priv.feature_nas_system_selection_preference = Feature.FEATURE_UNSUPPORTED ∧
          priv.feature_nas_technology_preference = Feature.FEATURE_UNSUPPORTED then
        some all
      else
        some (mm_filter_supported_modes all (load_supported_modes_combinations priv))

/-! ## Load supported bands and load current bands (Modem interface) -/

/-- The band conversion helpers of mm-modem-helpers-qmi.c that the band code
calls; their bodies are not under `src/`, so they are parameters of the
embedding. The extended LTE bands are `none` where the C code passes `NULL`. -/
structure BandHelpers where
  mm_modem_bands_from_qmi_band_capabilities : Nat → Nat → Option (List Nat) → List Nat
  mm_modem_bands_from_qmi_band_preference : Nat → Nat → Option (Nat × Nat × Nat × Nat) → List Nat

/-- The output of DMS Get-Band-Capabilities: its optional TLVs. -/
structure QmiMessageDmsGetBandCapabilitiesOutput where
  band_capability : Option Nat := none
  lte_band_capability : Option Nat := none
  extended_lte_band_capability : Option (List Nat) := none
  deriving DecidableEq, Repr

/-- The callbacks the band loaders register. -/
inductive LoadBandsCallback where
  | dms_get_band_capabilities_ready
  | load_bands_get_system_selection_preference_ready
  deriving DecidableEq, Repr

/-- The callback `dms_get_band_capabilities_ready`: the private data after
the callback and the task result. -/
def dms_get_band_capabilities_ready (B : BandHelpers) (priv : Private)
    (res : QmiResult QmiMessageDmsGetBandCapabilitiesOutput) :
    Private × Step LoadBandsCallback (List Nat) :=
  match res with
  | QmiResult.no_output error => (priv, Step.returned (TaskResult.error error))
  | QmiResult.result_failed error => (priv, Step.returned (TaskResult.error error))
  | QmiResult.ok output =>
      let qmi_bands := output.band_capability.getD 0
      let qmi_lte_bands := output.lte_band_capability.getD 0
      let extended_qmi_lte_bands := output.extended_lte_band_capability
      let mm_bands :=
        B.mm_modem_bands_from_qmi_band_capabilities qmi_bands qmi_lte_bands extended_qmi_lte_bands
      if mm_bands.length = 0 then
        (priv, Step.returned (TaskResult.error
          { domain := GErrorDomain.MM_CORE_ERROR, code := MM_CORE_ERROR_FAILED }))
      else
        ({ priv with supported_bands := some mm_bands }, Step.returned (TaskResult.value mm_bands))

/-- The entry point `mm_shared_qmi_load_supported_bands`. -/
def mm_shared_qmi_load_supported_bands (self : MMIfaceModem) :
    Step LoadBandsCallback (List Nat) :=
  match mm_shared_qmi_ensure_client self QmiService.QMI_SERVICE_DMS with
  | Except.error e => Step.returned (TaskResult.error e)
  | Except.ok _ =>
      Step.pending (qmi_client_dms_get_band_capabilities 5)
        LoadBandsCallback.dms_get_band_capabilities_ready

/-- The callback `load_bands_get_system_selection_preference_ready`: the
private data after the callback and the task result. -/
def load_bands_get_system_selection_preference_ready (B : BandHelpers) (priv : Private)
    (res : QmiResult QmiMessageNasGetSystemSelectionPreferenceOutput) :
    Private × Step LoadBandsCallback (List Nat) :=
  match res with
  | QmiResult.no_output error => (priv, Step.returned (TaskResult.error error))
  | QmiResult.result_failed error => (priv, Step.returned (TaskResult.error error))
  | QmiResult.ok output =>
      let band_preference_mask := output.band_preference.getD 0
      let lte_band_preference_mask := output.lte_band_preference.getD 0
      let extended_lte_band_preference_size : Nat :=
        if output.extended_lte_band_preference.isSome then 4 else 0
      let priv :=
        if priv.feature_extended_lte_band_preference = Feature.FEATURE_UNKNOWN then
          { priv with
            feature_extended_lte_band_preference :=
              if extended_lte_band_preference_size ≠ 0 then Feature.FEATURE_SUPPORTED
              else Feature.FEATURE_UNSUPPORTED }
        else priv
      let mm_bands :=
        B.mm_modem_bands_from_qmi_band_preference band_preference_mask lte_band_preference_mask
          (if extended_lte_band_preference_size ≠ 0 then output.extended_lte_band_preference
           else none)
      if mm_bands.length = 0 then
        (priv, Step.returned (TaskResult.error
          { domain := GErrorDomain.MM_CORE_ERROR, code := MM_CORE_ERROR_FAILED }))
      else
        (priv, Step.returned (TaskResult.value mm_bands))

/-- The entry point `mm_shared_qmi_load_current_bands`. -/
def mm_shared_qmi_load_current_bands (self : MMIfaceModem) :
    Step LoadBandsCallback (List Nat) :=
  match mm_shared_qmi_ensure_client self QmiService.QMI_SERVICE_NAS with
  | Except.error e => Step.returned (TaskResult.error e)
  | Except.ok _ =>
      Step.pending (qmi_client_nas_get_system_selection_preference 5)
        LoadBandsCallback.load_bands_get_system_selection_preference_ready

/-- The private data after a series of Load-Current-Bands operations, each run
to completion on the response of the device. -/
def load_current_bands_repeated (B : BandHelpers) (priv : Private)
    (responses : List (QmiResult QmiMessageNasGetSystemSelectionPreferenceOutput)) : Private :=
  responses.foldl
    (fun priv res => (load_bands_get_system_selection_preference_ready B priv res).1) priv

/-! ## Readings of the spec used to state the claims -/

/-- The union of the modes among 2G, 3G and 4G that the device supports. -/
def supported_modes_union (self : MMIfaceModem) : Nat :=
  (if self.is_2g then MM_MODEM_MODE_2G else MM_MODEM_MODE_NONE)
  ||| (if self.is_3g then MM_MODEM_MODE_3G else MM_MODEM_MODE_NONE)
  ||| (if self.is_4g then MM_MODEM_MODE_4G else MM_MODEM_MODE_NONE)

/-- The spec's reading of the scan of the acquisition order array: the mode of
the first entry whose mode lies within `allowed`, NONE when there is none. -/
def first_mode_within_allowed (H : Helpers) (allowed : Nat) (array : List Nat) : Nat :=
  match array.find? (fun iface => allowed &&& H.mm_modem_mode_from_qmi_nas_radio_interface iface ≠ 0) with
  | some iface => H.mm_modem_mode_from_qmi_nas_radio_interface iface
  | none => MM_MODEM_MODE_NONE

/-- What the scan of the acquisition order array reports: the mode of the
first entry whose mode lies within `allowed`, unless that mode is the whole of
`allowed`, and NONE then or when no entry lies within `allowed`. -/
def first_mode_within_allowed_unless_whole (H : Helpers) (allowed : Nat) (array : List Nat) : Nat :=
  match array.find? (fun iface => allowed &&& H.mm_modem_mode_from_qmi_nas_radio_interface iface ≠ 0) with
  | some iface =>
      if H.mm_modem_mode_from_qmi_nas_radio_interface iface = allowed then MM_MODEM_MODE_NONE
      else H.mm_modem_mode_from_qmi_nas_radio_interface iface
  | none => MM_MODEM_MODE_NONE

/-- The spec's description of the candidate list of Load-Supported-Modes: a
single mode 2G or 3G, or 4G unless `disable_4g_only_mode`, with no preferred
mode; or one of the four subsets of two or three modes, with a member as
preferred mode when System-Selection-Preference is supported and with no
preferred mode otherwise. -/
def standard_mode_combination (ssp_supported disable_4g_only : Bool)
    (c : MMModemModeCombination) : Prop :=
  (c.preferred = MM_MODEM_MODE_NONE ∧
    (c.allowed = MM_MODEM_MODE_2G ∨ c.allowed = MM_MODEM_MODE_3G ∨
      (c.allowed = MM_MODEM_MODE_4G ∧ disable_4g_only = false))) ∨
  ((c.allowed = (MM_MODEM_MODE_2G ||| MM_MODEM_MODE_3G) ∨
      c.allowed = (MM_MODEM_MODE_2G ||| MM_MODEM_MODE_4G) ∨
      c.allowed = (MM_MODEM_MODE_3G ||| MM_MODEM_MODE_4G) ∨
      c.allowed = (MM_MODEM_MODE_2G ||| MM_MODEM_MODE_3G ||| MM_MODEM_MODE_4G)) ∧
    (if ssp_supported then
      (c.preferred = MM_MODEM_MODE_2G ∨ c.preferred = MM_MODEM_MODE_3G ∨
        c.preferred = MM_MODEM_MODE_4G) ∧ c.allowed &&& c.preferred = c.preferred
    else c.preferred = MM_MODEM_MODE_NONE))

/-- The description of the candidate list can be checked entry by entry. -/
instance standard_mode_combination_decidable (ssp_supported disable_4g_only : Bool)
    (c : MMModemModeCombination) :
    Decidable (standard_mode_combination ssp_supported disable_4g_only c) := by
  unfold standard_mode_combination
  infer_instance

/-- The first good response of a series of Get-System-Selection-Preference
responses. -/
def first_successful_response
    (responses : List (QmiResult QmiMessageNasGetSystemSelectionPreferenceOutput)) :
    Option QmiMessageNasGetSystemSelectionPreferenceOutput :=
  responses.findSome? (fun res =>
    match res with
    | QmiResult.ok output => some output
    | _ => none)

/-! ## A concrete device for the worked examples -/

/-- Modelled from the spec: the conversion helpers of mm-modem-helpers-qmi.c
are not under src/. This instance is the device used in the worked examples: it
maps the radio interfaces CDMA-1x (1), EVDO (2), GSM (4), UMTS (5) and LTE (8)
and the preference bits of the QMI masks to the capability bits
{GSM/UMTS, CDMA/EVDO, LTE} and to the mode bits {2G, 3G, 4G} of the spec, and
it orders an acquisition array with the preferred interface first (the spec's
scenario 2: allowed {2G,3G}, preferred 3G gives `[UMTS, GSM]`). -/
def mm_modem_helpers_qmi : Helpers where
  mm_modem_capability_from_qmi_radio_interface := fun iface =>
    if iface = 1 ∨ iface = 2 then MM_MODEM_CAPABILITY_CDMA_EVDO
    else if iface = 4 ∨ iface = 5 then MM_MODEM_CAPABILITY_GSM_UMTS
    else if iface = 8 then MM_MODEM_CAPABILITY_LTE
    else MM_MODEM_CAPABILITY_NONE
  mm_modem_capability_from_qmi_rat_mode_preference := fun mask =>
    (if mask &&& 3 ≠ 0 then MM_MODEM_CAPABILITY_CDMA_EVDO else 0)
    ||| (if mask &&& 12 ≠ 0 then MM_MODEM_CAPABILITY_GSM_UMTS else 0)
    ||| (if mask &&& 16 ≠ 0 then MM_MODEM_CAPABILITY_LTE else 0)
  mm_modem_capability_from_qmi_radio_technology_preference := fun mask =>
    (if mask &&& 1 ≠ 0 then MM_MODEM_CAPABILITY_CDMA_EVDO else 0)
    ||| (if mask &&& 2 ≠ 0 then MM_MODEM_CAPABILITY_GSM_UMTS else 0)
    ||| (if mask &&& 32 ≠ 0 then MM_MODEM_CAPABILITY_LTE else 0)
  mm_modem_capability_to_qmi_rat_mode_preference := fun caps =>
    (if caps &&& MM_MODEM_CAPABILITY_CDMA_EVDO ≠ 0 then 3 else 0)
    ||| (if caps &&& MM_MODEM_CAPABILITY_GSM_UMTS ≠ 0 then 12 else 0)
    ||| (if caps &&& MM_MODEM_CAPABILITY_LTE ≠ 0 then 16 else 0)
  mm_modem_capability_to_qmi_radio_technology_preference := fun caps =>
    (if caps &&& MM_MODEM_CAPABILITY_CDMA_EVDO ≠ 0 then 1 else 0)
    ||| (if caps &&& MM_MODEM_CAPABILITY_GSM_UMTS ≠ 0 then 2 else 0)
    ||| (if caps &&& MM_MODEM_CAPABILITY_LTE ≠ 0 then 32 else 0)
  mm_modem_mode_to_qmi_radio_technology_preference := fun mode is_cdma =>
    (if is_cdma then 1 else 2)
    ||| (if mode &&& MM_MODEM_MODE_2G ≠ 0 then 4 else 0)
    ||| (if mode &&& MM_MODEM_MODE_3G ≠ 0 then (if is_cdma then 16 else 8) else 0)
    ||| (if mode &&& MM_MODEM_MODE_4G ≠ 0 then 32 else 0)
  mm_modem_mode_to_qmi_acquisition_order_preference := fun allowed preferred is_cdma is_3gpp =>
    let of_mode (mode : Nat) : List Nat :=
      if mode = MM_MODEM_MODE_4G then (if is_3gpp then [8] else [])
      else if mode = MM_MODEM_MODE_3G then
        (if is_3gpp then [5] else []) ++ (if is_cdma then [2] else [])
      else if mode = MM_MODEM_MODE_2G then
        (if is_3gpp then [4] else []) ++ (if is_cdma then [1] else [])
      else []
    let first := if allowed &&& preferred ≠ 0 then of_mode preferred else []
    let rest :=
      [MM_MODEM_MODE_4G, MM_MODEM_MODE_3G, MM_MODEM_MODE_2G].filter
        (fun mode => allowed &&& mode ≠ 0 ∧ mode ≠ preferred)
    some (first ++ rest.flatMap of_mode)
  mm_modem_mode_to_qmi_gsm_wcdma_acquisition_order_preference := fun mode =>
    if mode = MM_MODEM_MODE_3G then 2 else if mode = MM_MODEM_MODE_2G then 1 else 0
  mm_modem_mode_to_qmi_rat_mode_preference := fun mode is_cdma is_3gpp =>
    (if is_cdma ∧ mode &&& MM_MODEM_MODE_2G ≠ 0 then 1 else 0)
    ||| (if is_cdma ∧ mode &&& MM_MODEM_MODE_3G ≠ 0 then 2 else 0)
    ||| (if is_3gpp ∧ mode &&& MM_MODEM_MODE_2G ≠ 0 then QMI_NAS_RAT_MODE_PREFERENCE_GSM else 0)
    ||| (if is_3gpp ∧ mode &&& MM_MODEM_MODE_3G ≠ 0 then QMI_NAS_RAT_MODE_PREFERENCE_UMTS else 0)
    ||| (if is_3gpp ∧ mode &&& MM_MODEM_MODE_4G ≠ 0 then QMI_NAS_RAT_MODE_PREFERENCE_LTE else 0)
  mm_modem_mode_from_qmi_radio_technology_preference := fun mask =>
    (if mask &&& 4 ≠ 0 then MM_MODEM_MODE_2G else 0)
    ||| (if mask &&& 24 ≠ 0 then MM_MODEM_MODE_3G else 0)
    ||| (if mask &&& 32 ≠ 0 then MM_MODEM_MODE_4G else 0)
  mm_modem_mode_from_qmi_rat_mode_preference := fun mask =>
    (if mask &&& 5 ≠ 0 then MM_MODEM_MODE_2G else 0)
    ||| (if mask &&& 10 ≠ 0 then MM_MODEM_MODE_3G else 0)
    ||| (if mask &&& 16 ≠ 0 then MM_MODEM_MODE_4G else 0)
  mm_modem_mode_from_qmi_gsm_wcdma_acquisition_order_preference := fun order =>
    if order = 1 then MM_MODEM_MODE_2G else if order = 2 then MM_MODEM_MODE_3G
    else MM_MODEM_MODE_NONE
  mm_modem_mode_from_qmi_nas_radio_interface := fun iface =>
    if iface = 1 ∨ iface = 4 then MM_MODEM_MODE_2G
    else if iface = 2 ∨ iface = 5 then MM_MODEM_MODE_3G
    else if iface = 8 then MM_MODEM_MODE_4G
    else MM_MODEM_MODE_NONE
  mm_modem_mode_from_qmi_radio_interface := fun iface =>
    if iface = 1 ∨ iface = 4 then MM_MODEM_MODE_2G
    else if iface = 2 ∨ iface = 5 then MM_MODEM_MODE_3G
    else if iface = 8 then MM_MODEM_MODE_4G
    else MM_MODEM_MODE_NONE

/-- A 3GPP modem object with a client for every service and 2G, 3G and 4G
supported. -/
def modem_3gpp : MMIfaceModem where
  peek_client := fun _ => Except.ok ()
  is_cdma := false
  is_3gpp := true
  is_2g := true
  is_3g := true
  is_4g := true

/-- Modelled from the spec: the band conversion helpers of
mm-modem-helpers-qmi.c are not under src/. This instance is used in the worked
examples: the list holds band 1 when the legacy mask is non-zero, band 2 when
the legacy LTE mask is non-zero, and band 3 when extended LTE bands are
given ("combining the legacy band TLV, legacy LTE band TLV, and the
extended-LTE-band TLV"). -/
def mm_modem_band_helpers_qmi : BandHelpers where
  mm_modem_bands_from_qmi_band_capabilities := fun qmi_bands qmi_lte_bands extended =>
    (if qmi_bands ≠ 0 then [1] else []) ++ (if qmi_lte_bands ≠ 0 then [2] else []) ++
      (if extended.isSome then [3] else [])
  mm_modem_bands_from_qmi_band_preference := fun mask lte_mask extended =>
    (if mask ≠ 0 then [1] else []) ++ (if lte_mask ≠ 0 then [2] else []) ++
      (if extended.isSome then [3] else [])

/-- A transport error, as `*_finish` reports it when no response arrives
(`QMI_CORE_ERROR_TIMEOUT`). -/
def qmi_core_error_timeout : GError :=
  { domain := GErrorDomain.QMI_CORE_ERROR, code := 1 }

/-! ## Request classifiers used to state the traces -/

/-- Whether the request is Set-System-Selection-Preference. -/
def QmiRequest.is_set_system_selection_preference (request : QmiRequest) : Bool :=
  match request.message with
  | QmiMessage.nas_set_system_selection_preference _ => true
  | _ => false

/-- Whether the request is Set-Technology-Preference. -/
def QmiRequest.is_set_technology_preference (request : QmiRequest) : Bool :=
  match request.message with
  | QmiMessage.nas_set_technology_preference _ _ => true
  | _ => false

/-! ## The GLib main loop state of an asynchronous operation -/

/-- A timeout source armed with `g_timeout_add_seconds`: its id, its interval
in seconds and the callback it runs. -/
structure GSource (τ : Type) where
  id : Nat
  interval : Nat
  callback : τ
  deriving DecidableEq, Repr

/-- A signal handler connected with `g_signal_connect` to the client of the
operation: its id and the handler function. -/
structure GSignalHandler (σ : Type) where
  id : Nat
  handler : σ
  deriving DecidableEq, Repr

/-- A call of `g_task_return_*`: the result handed to the continuation, with
the context, the armed timeouts and the connected handlers at that moment. -/
structure Completion (C τ σ : Type) where
  result : TaskResult Unit
  ctx : C
  sources : List (GSource τ)
  handlers : List (GSignalHandler σ)

/-- The state of an operation built on a `GTask`: the private data of the
device, the task context, the callbacks of the requests in flight, the armed
timeouts, the connected indication handlers, the last id given out, the
requests issued so far, the completions so far, and whether an assertion has
stopped the process. -/
structure Operation (C κ τ σ : Type) where
  priv : Private
  ctx : C
  pending : List κ := []
  sources : List (GSource τ) := []
  handlers : List (GSignalHandler σ) := []
  last_id : Nat := 0
  requests : List QmiRequest := []
  returned : List (Completion C τ σ) := []
  aborted : Bool := false

/-- The call `g_timeout_add_seconds (interval, callback, task)`: the new source
and its id, which is never 0. -/
def Operation.g_timeout_add_seconds {C κ τ σ : Type} (op : Operation C κ τ σ)
    (interval : Nat) (callback : τ) : Operation C κ τ σ × Nat :=
  ({ op with
      sources := op.sources ++ [{ id := op.last_id + 1, interval := interval, callback := callback }],
      last_id := op.last_id + 1 },
    op.last_id + 1)

/-- The call `g_source_remove (id)`. -/
def Operation.g_source_remove {C κ τ σ : Type} (op : Operation C κ τ σ) (id : Nat) :
    Operation C κ τ σ :=
  { op with sources := op.sources.filter (fun s => s.id ≠ id) }

/-- The call `g_signal_connect (client, signal, handler, task)`: the new handler
and its id, which is never 0. -/
def Operation.g_signal_connect {C κ τ σ : Type} (op : Operation C κ τ σ) (handler : σ) :
    Operation C κ τ σ × Nat :=
  ({ op with
      handlers := op.handlers ++ [{ id := op.last_id + 1, handler := handler }],
      last_id := op.last_id + 1 },
    op.last_id + 1)

/-- The call `g_signal_handler_disconnect (client, id)`. -/
def Operation.g_signal_handler_disconnect {C κ τ σ : Type} (op : Operation C κ τ σ) (id : Nat) :
    Operation C κ τ σ :=
  { op with handlers := op.handlers.filter (fun h => h.id ≠ id) }

/-- The calls `g_task_return_boolean` and `g_task_return_error`: the
continuation of the operation gets the result. -/
def Operation.g_task_return {C κ τ σ : Type} (op : Operation C κ τ σ) (result : TaskResult Unit) :
    Operation C κ τ σ :=
  { op with
    returned := op.returned ++
      [{ result := result, ctx := op.ctx, sources := op.sources, handlers := op.handlers }] }

/-- A request sent with a `*_ready` callback. -/
def Operation.qmi_client_request {C κ τ σ : Type} (op : Operation C κ τ σ)
    (request : QmiRequest) (callback : κ) : Operation C κ τ σ :=
  { op with requests := op.requests ++ [request], pending := op.pending ++ [callback] }

/-- A request sent with a `NULL` callback: its response is dropped. -/
def Operation.qmi_client_request_no_callback {C κ τ σ : Type} (op : Operation C κ τ σ)
    (request : QmiRequest) : Operation C κ τ σ :=
  { op with requests := op.requests ++ [request] }

/-- The element `g_array_index (priv->config_list, ConfigInfo, i)`, `none`
where the C access is outside the array. -/
def config_list_index (priv : Private) (i : Int) : Option ConfigInfo :=
  match priv.config_list with
  | none => none
  | some config_list => if i < 0 then none else config_list[i.toNat]?

/-- The post-increment `ctx->token++` of a `guint` token. -/
def token_next (token : Nat) : Nat := (token + 1) % 2 ^ 32

/-- The result TLV and the token TLV of a PDC indication that carries no
other data (set-selected-config, activate-config): the result getter gives an
error or the error code of the indication. -/
structure QmiIndicationPdcOutput where
  indication_result : Except GError Nat
  token : Option Nat := none

/-! ## Setup carrier config (Modem interface) -/

/-- The timeout of one step of the setup, in seconds. -/
def SETUP_CARRIER_CONFIG_STEP_TIMEOUT_SECS : Nat := 10

/-- The key of the mapping file used when the IMSI has no entry. -/
def GENERIC_CONFIG_FALLBACK : String := "generic"

/-- The steps of the enum `SetupCarrierConfigStep`. -/
inductive SetupCarrierConfigStep where
  | SETUP_CARRIER_CONFIG_STEP_FIRST
  | SETUP_CARRIER_CONFIG_STEP_FIND_REQUESTED
  | SETUP_CARRIER_CONFIG_STEP_CHECK_CHANGE_NEEDED
  | SETUP_CARRIER_CONFIG_STEP_UPDATE_CURRENT
  | SETUP_CARRIER_CONFIG_STEP_ACTIVATE_CURRENT
  | SETUP_CARRIER_CONFIG_STEP_LAST
  deriving DecidableEq, Repr

/-- The increment `ctx->step++`. -/
def SetupCarrierConfigStep.next : SetupCarrierConfigStep → SetupCarrierConfigStep
  | SETUP_CARRIER_CONFIG_STEP_FIRST => SETUP_CARRIER_CONFIG_STEP_FIND_REQUESTED
  | SETUP_CARRIER_CONFIG_STEP_FIND_REQUESTED => SETUP_CARRIER_CONFIG_STEP_CHECK_CHANGE_NEEDED
  | SETUP_CARRIER_CONFIG_STEP_CHECK_CHANGE_NEEDED => SETUP_CARRIER_CONFIG_STEP_UPDATE_CURRENT
  | SETUP_CARRIER_CONFIG_STEP_UPDATE_CURRENT => SETUP_CARRIER_CONFIG_STEP_ACTIVATE_CURRENT
  | SETUP_CARRIER_CONFIG_STEP_ACTIVATE_CURRENT => SETUP_CARRIER_CONFIG_STEP_LAST
  | SETUP_CARRIER_CONFIG_STEP_LAST => SETUP_CARRIER_CONFIG_STEP_LAST

/-- The struct `SetupCarrierConfigContext`: the key file is the list of
the keys of its start group with their values. -/
structure SetupCarrierConfigContext where
  step : SetupCarrierConfigStep := SetupCarrierConfigStep.SETUP_CARRIER_CONFIG_STEP_FIRST
  keyfile : List (String × String) := []
  imsi : String := ""
  config_requested_i : Int := -1
  config_requested : Option String := none
  token : Nat := 0
  timeout_id : Nat := 0
  set_selected_config_indication_id : Nat := 0
  activate_config_indication_id : Nat := 0
  deriving DecidableEq, Repr

/-- The `*_ready` callbacks of the setup. -/
inductive SetupCarrierConfigCallback where
  | set_selected_config_ready
  | activate_config_ready
  deriving DecidableEq, Repr

/-- The timeout callbacks of the setup. -/
inductive SetupCarrierConfigTimeout where
  | setup_carrier_config_timeout
  | setup_carrier_config_timeout_no_error
  deriving DecidableEq, Repr

/-- The indication handlers of the setup; each is connected to the signal of
the same name. -/
inductive SetupCarrierConfigSignal where
  | set_selected_config_indication
  | activate_config_indication
  deriving DecidableEq, Repr

/-- The state of a setup operation. -/
abbrev SetupCarrierConfigTask :=
  Operation SetupCarrierConfigContext SetupCarrierConfigCallback SetupCarrierConfigTimeout
    SetupCarrierConfigSignal

/-- The function `setup_carrier_config_context_cleanup_action`. -/
def setup_carrier_config_context_cleanup_action (op : SetupCarrierConfigTask) :
    SetupCarrierConfigTask :=
  let op :=
    if op.ctx.activate_config_indication_id ≠ 0 then
      { op.g_signal_handler_disconnect op.ctx.activate_config_indication_id with
        ctx := { op.ctx with activate_config_indication_id := 0 } }
    else op
  let op :=
    if op.ctx.set_selected_config_indication_id ≠ 0 then
      { op.g_signal_handler_disconnect op.ctx.set_selected_config_indication_id with
        ctx := { op.ctx with set_selected_config_indication_id := 0 } }
    else op
  if op.ctx.timeout_id ≠ 0 then
    { op.g_source_remove op.ctx.timeout_id with ctx := { op.ctx with timeout_id := 0 } }
  else op

/-- The function `setup_carrier_config_context_free`, run by the
`g_object_unref (task)` that follows each return of the result: the cleanup
action, and the release of the memory of the context. -/
def setup_carrier_config_context_free (op : SetupCarrierConfigTask) : SetupCarrierConfigTask :=
  setup_carrier_config_context_cleanup_action op

/-- The function `setup_carrier_config_abort`. -/
def setup_carrier_config_abort (op : SetupCarrierConfigTask) (error : GError) :
    SetupCarrierConfigTask :=
  let op := setup_carrier_config_context_cleanup_action op
  let op := op.g_task_return (TaskResult.error error)
  setup_carrier_config_context_free op

/-- Case `SETUP_CARRIER_CONFIG_STEP_LAST` of `setup_carrier_config_step`. -/
def setup_carrier_config_step_case_last (op : SetupCarrierConfigTask) : SetupCarrierConfigTask :=
  let op := op.g_task_return (TaskResult.value ())
  setup_carrier_config_context_free op

/-- Case `SETUP_CARRIER_CONFIG_STEP_ACTIVATE_CURRENT` of
`setup_carrier_config_step`. -/
def setup_carrier_config_step_case_activate_current (op : SetupCarrierConfigTask) :
    SetupCarrierConfigTask :=
  match config_list_index op.priv op.ctx.config_requested_i with
  | none => { op with aborted := true }
  | some requested_config =>
      let token := op.ctx.token
      let op := { op with ctx := { op.ctx with token := token_next token } }
      op.qmi_client_request (qmi_client_pdc_activate_config requested_config.config_type token 10)
        SetupCarrierConfigCallback.activate_config_ready

/-- Case `SETUP_CARRIER_CONFIG_STEP_UPDATE_CURRENT` of
`setup_carrier_config_step`. -/
def setup_carrier_config_step_case_update_current (op : SetupCarrierConfigTask) :
    SetupCarrierConfigTask :=
  match config_list_index op.priv op.ctx.config_requested_i with
  | none => { op with aborted := true }
  | some requested_config =>
      let token := op.ctx.token
      let op := { op with ctx := { op.ctx with token := token_next token } }
      op.qmi_client_request
        (qmi_client_pdc_set_selected_config requested_config.config_type requested_config.id
          token 10)
        SetupCarrierConfigCallback.set_selected_config_ready

/-- Case `SETUP_CARRIER_CONFIG_STEP_CHECK_CHANGE_NEEDED` of
`setup_carrier_config_step`, falling through to the next case when a change is
needed. -/
def setup_carrier_config_step_case_check_change_needed (op : SetupCarrierConfigTask) :
    SetupCarrierConfigTask :=
  if ¬ (op.ctx.config_requested_i ≥ 0) then { op with aborted := true }
  else if ¬ (op.priv.config_active_i ≥ 0 ∨ op.priv.config_active_default = true) then
    { op with aborted := true }
  else if op.ctx.config_requested_i = op.priv.config_active_i then
    setup_carrier_config_step_case_last
      { op with ctx := { op.ctx with step := SetupCarrierConfigStep.SETUP_CARRIER_CONFIG_STEP_LAST } }
  else
    setup_carrier_config_step_case_update_current
      { op with ctx := { op.ctx with step := op.ctx.step.next } }

/-- The loop of `find_requested_carrier_config` over the loaded
configurations from index `i` on: the indexes of the requested and of the
fallback configuration found so far. -/
def find_requested_carrier_config_loop (config_requested config_fallback : Option String) :
    List ConfigInfo → Nat → Int × Int → Int × Int
  | [], _, found => found
  | config :: rest, i, (config_requested_i, config_fallback_i) =>
      let config_requested_i :=
        if config_requested.isSome ∧ config_requested = config.description then (i : Int)
        else config_requested_i
      let config_fallback_i :=
        if config_fallback.isSome ∧ config_fallback = config.description then (i : Int)
        else config_fallback_i
      find_requested_carrier_config_loop config_requested config_fallback rest (i + 1)
        (config_requested_i, config_fallback_i)

/-- The first `n` characters of the IMSI, as `strncpy` and the terminating
`'\0'` leave them in `mccmnc`. -/
def mccmnc (imsi : String) (n : Nat) : String := String.mk (imsi.data.take n)

/-- The function `find_requested_carrier_config`; its last statement runs
the step function at the step after `FIND_REQUESTED`. -/
def find_requested_carrier_config (op : SetupCarrierConfigTask) : SetupCarrierConfigTask :=
  let config_fallback := op.ctx.keyfile.lookup GENERIC_CONFIG_FALLBACK
  let config_requested :=
    match op.ctx.keyfile.lookup (mccmnc op.ctx.imsi 6) with
    | some name => some name
    | none => op.ctx.keyfile.lookup (mccmnc op.ctx.imsi 5)
  let op := { op with ctx := { op.ctx with config_requested := config_requested } }
  if config_requested = none ∧ config_fallback = none then
    setup_carrier_config_abort op
      { domain := GErrorDomain.MM_CORE_ERROR, code := MM_CORE_ERROR_NOT_FOUND }
  else
    let found : Int × Int :=
      match op.priv.config_list with
      | some config_list =>
          find_requested_carrier_config_loop config_requested config_fallback config_list 0
            (op.ctx.config_requested_i, -1)
      | none => (op.ctx.config_requested_i, -1)
    let config_fallback_i : Int := found.2
    let op := { op with ctx := { op.ctx with config_requested_i := found.1 } }
    if op.ctx.config_requested_i < 0 ∧ config_fallback_i < 0 then
      setup_carrier_config_abort op
        { domain := GErrorDomain.MM_CORE_ERROR, code := MM_CORE_ERROR_FAILED }
    else
      let op :=
        if op.ctx.config_requested_i < 0 then
          { op with
            ctx := { op.ctx with
                     config_requested := config_fallback,
                     config_requested_i := config_fallback_i } }
        else op
      setup_carrier_config_step_case_check_change_needed
        { op with ctx := { op.ctx with step := op.ctx.step.next } }

/-- The function `setup_carrier_config_step`. -/
def setup_carrier_config_step (op : SetupCarrierConfigTask) : SetupCarrierConfigTask :=
  match op.ctx.step with
  | SetupCarrierConfigStep.SETUP_CARRIER_CONFIG_STEP_FIRST =>
      find_requested_carrier_config { op with ctx := { op.ctx with step := op.ctx.step.next } }
  | SetupCarrierConfigStep.SETUP_CARRIER_CONFIG_STEP_FIND_REQUESTED =>
      find_requested_carrier_config op
  | SetupCarrierConfigStep.SETUP_CARRIER_CONFIG_STEP_CHECK_CHANGE_NEEDED =>
      setup_carrier_config_step_case_check_change_needed op
  | SetupCarrierConfigStep.SETUP_CARRIER_CONFIG_STEP_UPDATE_CURRENT =>
      setup_carrier_config_step_case_update_current op
  | SetupCarrierConfigStep.SETUP_CARRIER_CONFIG_STEP_ACTIVATE_CURRENT =>
      setup_carrier_config_step_case_activate_current op
  | SetupCarrierConfigStep.SETUP_CARRIER_CONFIG_STEP_LAST =>
      setup_carrier_config_step_case_last op

/-- The timeout callback `setup_carrier_config_timeout_no_error`. -/
def setup_carrier_config_timeout_no_error (op : SetupCarrierConfigTask) : SetupCarrierConfigTask :=
  if op.ctx.timeout_id = 0 then { op with aborted := true }
  else
    let op := { op with ctx := { op.ctx with timeout_id := 0 } }
    let op := setup_carrier_config_context_cleanup_action op
    setup_carrier_config_step { op with ctx := { op.ctx with step := op.ctx.step.next } }

/-- The timeout callback `setup_carrier_config_timeout`. -/
def setup_carrier_config_timeout (op : SetupCarrierConfigTask) : SetupCarrierConfigTask :=
  if op.ctx.timeout_id = 0 then { op with aborted := true }
  else
    let op := { op with ctx := { op.ctx with timeout_id := 0 } }
    setup_carrier_config_abort op
      { domain := GErrorDomain.MM_CORE_ERROR, code := MM_CORE_ERROR_ABORTED }

/-- The indication handler `activate_config_indication`. -/
def activate_config_indication (op : SetupCarrierConfigTask) (output : QmiIndicationPdcOutput) :
    SetupCarrierConfigTask :=
  match output.indication_result with
  | Except.error error => setup_carrier_config_abort op error
  | Except.ok error_code =>
      if error_code ≠ 0 then
        setup_carrier_config_abort op
          { domain := GErrorDomain.MM_CORE_ERROR, code := MM_CORE_ERROR_FAILED }
      else
        let op := setup_carrier_config_context_cleanup_action op
        setup_carrier_config_step { op with ctx := { op.ctx with step := op.ctx.step.next } }

/-- The callback `activate_config_ready`. -/
def activate_config_ready (op : SetupCarrierConfigTask) (res : QmiResult Unit) :
    SetupCarrierConfigTask :=
  match res with
  | QmiResult.no_output error => setup_carrier_config_abort op error
  | QmiResult.result_failed error => setup_carrier_config_abort op error
  | QmiResult.ok _ =>
      let r := op.g_timeout_add_seconds SETUP_CARRIER_CONFIG_STEP_TIMEOUT_SECS
        SetupCarrierConfigTimeout.setup_carrier_config_timeout_no_error
      let op := { r.1 with ctx := { r.1.ctx with timeout_id := r.2 } }
      let r := op.g_signal_connect SetupCarrierConfigSignal.activate_config_indication
      { r.1 with ctx := { r.1.ctx with activate_config_indication_id := r.2 } }

/-- The indication handler `set_selected_config_indication`. -/
def set_selected_config_indication (op : SetupCarrierConfigTask)
    (output : QmiIndicationPdcOutput) : SetupCarrierConfigTask :=
  match output.indication_result with
  | Except.error error => setup_carrier_config_abort op error
  | Except.ok error_code =>
      if error_code ≠ 0 then
        setup_carrier_config_abort op
          { domain := GErrorDomain.MM_CORE_ERROR, code := MM_CORE_ERROR_FAILED }
      else
        let op := setup_carrier_config_context_cleanup_action op
        setup_carrier_config_step { op with ctx := { op.ctx with step := op.ctx.step.next } }

/-- The callback `set_selected_config_ready`. -/
def set_selected_config_ready (op : SetupCarrierConfigTask) (res : QmiResult Unit) :
    SetupCarrierConfigTask :=
  match res with
  | QmiResult.no_output error => setup_carrier_config_abort op error
  | QmiResult.result_failed error => setup_carrier_config_abort op error
  | QmiResult.ok _ =>
      let r := op.g_timeout_add_seconds SETUP_CARRIER_CONFIG_STEP_TIMEOUT_SECS
        SetupCarrierConfigTimeout.setup_carrier_config_timeout
      let op := { r.1 with ctx := { r.1.ctx with timeout_id := r.2 } }
      let r := op.g_signal_connect SetupCarrierConfigSignal.set_selected_config_indication
      { r.1 with ctx := { r.1.ctx with set_selected_config_indication_id := r.2 } }

/-- The entry point `mm_shared_qmi_setup_carrier_config`: the mapping is the
start group that `g_key_file_load_from_file` reads from the mapping file, or
the error of the load. -/
def mm_shared_qmi_setup_carrier_config (self : MMIfaceModem) (priv : Private) (imsi : String)
    (carrier_config_mapping : Except GError (List (String × String))) : SetupCarrierConfigTask :=
  let op : SetupCarrierConfigTask :=
    { priv := priv,
      ctx := { step := SetupCarrierConfigStep.SETUP_CARRIER_CONFIG_STEP_FIRST,
               imsi := imsi, config_requested_i := -1 } }
  match carrier_config_mapping with
  | Except.error error =>
      setup_carrier_config_context_free (op.g_task_return (TaskResult.error error))
  | Except.ok keyfile =>
      let op := { op with ctx := { op.ctx with keyfile := keyfile } }
      match self.peek_client QmiService.QMI_SERVICE_PDC with
      | Except.error _ =>
          setup_carrier_config_context_free (op.g_task_return (TaskResult.error
            { domain := GErrorDomain.MM_CORE_ERROR, code := MM_CORE_ERROR_FAILED }))
      | Except.ok _ => setup_carrier_config_step op

/-- What the main loop can deliver to a setup operation. -/
inductive SetupCarrierConfigEvent where
  | response (callback : SetupCarrierConfigCallback) (res : QmiResult Unit)
  | indication (signal : SetupCarrierConfigSignal) (output : QmiIndicationPdcOutput)
  | timeout (id : Nat)

/-- The handler function behind a connected handler of the setup. -/
def setup_carrier_config_emit (op : SetupCarrierConfigTask) (signal : SetupCarrierConfigSignal)
    (output : QmiIndicationPdcOutput) : SetupCarrierConfigTask :=
  match signal with
  | SetupCarrierConfigSignal.set_selected_config_indication =>
      set_selected_config_indication op output
  | SetupCarrierConfigSignal.activate_config_indication =>
      activate_config_indication op output

/-- One event of the main loop. A response runs its callback if the request
is in flight; an indication runs each handler connected to its signal that is
still connected when its turn comes; a timeout runs the callback of the armed
source with that id, and the source is gone once it has fired, as both timeout
callbacks return `G_SOURCE_REMOVE`. Nothing runs after a failed assertion. -/
def setup_carrier_config_deliver (op : SetupCarrierConfigTask) (ev : SetupCarrierConfigEvent) :
    SetupCarrierConfigTask :=
  if op.aborted then op
  else
    match ev with
    | SetupCarrierConfigEvent.response callback res =>
        if callback ∈ op.pending then
          let op := { op with pending := op.pending.erase callback }
          match callback with
          | SetupCarrierConfigCallback.set_selected_config_ready => set_selected_config_ready op res
          | SetupCarrierConfigCallback.activate_config_ready => activate_config_ready op res
        else op
    | SetupCarrierConfigEvent.indication signal output =>
        (op.handlers.filter (fun h => h.handler = signal)).foldl
          (fun op h =>
            if h ∈ op.handlers ∧ op.aborted = false then setup_carrier_config_emit op signal output
            else op)
          op
    | SetupCarrierConfigEvent.timeout id =>
        match op.sources.find? (fun s => s.id = id) with
        | none => op
        | some source =>
            let op := { op with sources := op.sources.filter (fun s => s.id ≠ id) }
            match source.callback with
            | SetupCarrierConfigTimeout.setup_carrier_config_timeout =>
                setup_carrier_config_timeout op
            | SetupCarrierConfigTimeout.setup_carrier_config_timeout_no_error =>
                setup_carrier_config_timeout_no_error op

/-- The setup operation after a series of events of the main loop. -/
def setup_carrier_config_run (self : MMIfaceModem) (priv : Private) (imsi : String)
    (carrier_config_mapping : Except GError (List (String × String)))
    (events : List SetupCarrierConfigEvent) : SetupCarrierConfigTask :=
  events.foldl setup_carrier_config_deliver
    (mm_shared_qmi_setup_carrier_config self priv imsi carrier_config_mapping)

/-- The requested description as the spec gives it: the value of the key
made of the first 6 IMSI digits if that key exists, otherwise the value of the
key made of the first 5 digits. -/
def requested_description (keyfile : List (String × String)) (imsi : String) : Option String :=
  if (keyfile.lookup (mccmnc imsi 6)).isSome then keyfile.lookup (mccmnc imsi 6)
  else keyfile.lookup (mccmnc imsi 5)

/-- The fallback description as the spec gives it: the value of the
`generic` key. -/
def fallback_description (keyfile : List (String × String)) : Option String :=
  keyfile.lookup "generic"

/-- A description is given and a loaded configuration of the device has it. -/
def config_loaded (priv : Private) (description : Option String) : Prop :=
  description ≠ none ∧ ∃ config ∈ priv.config_list.getD [], config.description = description

/-- The results handed to the continuation of an operation so far. -/
def Operation.results {C κ τ σ : Type} (op : Operation C κ τ σ) : List (TaskResult Unit) :=
  op.returned.map (fun completion => completion.result)

/-- A mapping group for the worked examples: the carrier `att` for the
network 310260, and a `generic` entry. -/
def carrier_config_mapping_att : List (String × String) :=
  [("310260", "att"), ("generic", "generic")]

/-- A device for the worked examples: the configurations `generic` and `att`
are loaded and `generic` is active. -/
def modem_carrier_generic : Private :=
  { config_list := some
      [{ id := [1], config_type := QMI_PDC_CONFIGURATION_TYPE_SOFTWARE, token := 1,
         version := 0x05010203, description := some "generic", total_size := 1000 },
       { id := [2], config_type := QMI_PDC_CONFIGURATION_TYPE_SOFTWARE, token := 2,
         version := 0x05010204, description := some "att", total_size := 2000 }],
    config_active_i := 0 }

/-- The same device with `att` active. -/
def modem_carrier_att : Private :=
  { modem_carrier_generic with config_active_i := 1 }

/-- A device for the worked examples with one loaded configuration, of another
carrier, which is active. -/
def modem_carrier_other : Private :=
  { config_list := some
      [{ id := [7], config_type := QMI_PDC_CONFIGURATION_TYPE_SOFTWARE, token := 1,
         version := 0x05010203, description := some "vzw", total_size := 1000 }],
    config_active_i := 0 }

/-- Whether a request is Activate-Config. -/
def QmiRequest.is_activate_config (request : QmiRequest) : Bool :=
  match request.message with
  | QmiMessage.pdc_activate_config _ _ => true
  | _ => false

/-- Whether a request is Set-Selected-Config. -/
def QmiRequest.is_set_selected_config (request : QmiRequest) : Bool :=
  match request.message with
  | QmiMessage.pdc_set_selected_config _ _ _ => true
  | _ => false

/-- Whether an event is a set-selected-config indication with error code 0. -/
def SetupCarrierConfigEvent.is_set_selected_config_accepted : SetupCarrierConfigEvent → Bool
  | SetupCarrierConfigEvent.indication SetupCarrierConfigSignal.set_selected_config_indication
      output =>
      match output.indication_result with
      | Except.ok error_code => decide (error_code = 0)
      | Except.error _ => false
  | _ => false

/-- The operation waits for an indication of the signal: a handler of the
signal is connected. -/
def setup_carrier_config_awaits (op : SetupCarrierConfigTask)
    (signal : SetupCarrierConfigSignal) : Prop :=
  ∃ h ∈ op.handlers, h.handler = signal

/-- A setup operation that is done: the continuation has been completed once,
when no timeout was armed, no handler connected and the ids were 0, and
nothing is in flight, armed or connected. -/
def setup_carrier_config_done (op : SetupCarrierConfigTask) : Prop :=
  op.aborted = false ∧ op.pending = [] ∧ op.sources = [] ∧ op.handlers = [] ∧
  ∃ completion, op.returned = [completion] ∧
    completion.sources = [] ∧ completion.handlers = [] ∧
    completion.ctx.timeout_id = 0 ∧
    completion.ctx.set_selected_config_indication_id = 0 ∧
    completion.ctx.activate_config_indication_id = 0

/-- A setup operation with a request in flight: not completed, the callback
of the request pending, no timeout armed, no handler connected, at the step of
the request, with a loaded configuration chosen. -/
def setup_carrier_config_in_flight (op : SetupCarrierConfigTask)
    (callback : SetupCarrierConfigCallback) (step : SetupCarrierConfigStep) : Prop :=
  op.aborted = false ∧ op.returned = [] ∧ op.pending = [callback] ∧
  op.sources = [] ∧ op.handlers = [] ∧
  op.ctx.timeout_id = 0 ∧ op.ctx.set_selected_config_indication_id = 0 ∧
  op.ctx.activate_config_indication_id = 0 ∧
  op.ctx.step = step ∧
  (config_list_index op.priv op.ctx.config_requested_i).isSome = true

/-- A setup operation that waits for the set-selected-config indication:
not completed, the step timeout armed and the handler connected under the
ids of the context. -/
def setup_carrier_config_awaits_set_selected_config (op : SetupCarrierConfigTask) : Prop :=
  op.aborted = false ∧ op.returned = [] ∧ op.pending = [] ∧
  op.sources = [{ id := op.ctx.timeout_id, interval := SETUP_CARRIER_CONFIG_STEP_TIMEOUT_SECS,
                  callback := SetupCarrierConfigTimeout.setup_carrier_config_timeout }] ∧
  op.handlers = [{ id := op.ctx.set_selected_config_indication_id,
                   handler := SetupCarrierConfigSignal.set_selected_config_indication }] ∧
  op.ctx.timeout_id ≠ 0 ∧ op.ctx.set_selected_config_indication_id ≠ 0 ∧
  op.ctx.activate_config_indication_id = 0 ∧
  op.ctx.step = SetupCarrierConfigStep.SETUP_CARRIER_CONFIG_STEP_UPDATE_CURRENT ∧
  (config_list_index op.priv op.ctx.config_requested_i).isSome = true

/-- A setup operation that waits for the activate-config indication: not
completed, the timeout that counts as success armed and the handler connected
under the ids of the context. -/
def setup_carrier_config_awaits_activate_config (op : SetupCarrierConfigTask) : Prop :=
  op.aborted = false ∧ op.returned = [] ∧ op.pending = [] ∧
  op.sources = [{ id := op.ctx.timeout_id, interval := SETUP_CARRIER_CONFIG_STEP_TIMEOUT_SECS,
                  callback := SetupCarrierConfigTimeout.setup_carrier_config_timeout_no_error }] ∧
  op.handlers = [{ id := op.ctx.activate_config_indication_id,
                   handler := SetupCarrierConfigSignal.activate_config_indication }] ∧
  op.ctx.timeout_id ≠ 0 ∧ op.ctx.activate_config_indication_id ≠ 0 ∧
  op.ctx.set_selected_config_indication_id = 0 ∧
  op.ctx.step = SetupCarrierConfigStep.SETUP_CARRIER_CONFIG_STEP_ACTIVATE_CURRENT ∧
  (config_list_index op.priv op.ctx.config_requested_i).isSome = true

/-- The states a setup operation goes through. Before the set-selected-config
indication is accepted no Activate-Config request has been issued. -/
def setup_carrier_config_reachable (op : SetupCarrierConfigTask) : Prop :=
  setup_carrier_config_done op ∨
  (setup_carrier_config_in_flight op SetupCarrierConfigCallback.set_selected_config_ready
      SetupCarrierConfigStep.SETUP_CARRIER_CONFIG_STEP_UPDATE_CURRENT ∧
    ∀ r ∈ op.requests, r.is_activate_config = false) ∨
  (setup_carrier_config_awaits_set_selected_config op ∧
    ∀ r ∈ op.requests, r.is_activate_config = false) ∨
  setup_carrier_config_in_flight op SetupCarrierConfigCallback.activate_config_ready
    SetupCarrierConfigStep.SETUP_CARRIER_CONFIG_STEP_ACTIVATE_CURRENT ∨
  setup_carrier_config_awaits_activate_config op

/-- A setup operation stopped by a failed assertion before anything was
issued, armed or connected. -/
def setup_carrier_config_crashed (op : SetupCarrierConfigTask) : Prop :=
  op.aborted = true ∧ op.returned = [] ∧ op.pending = [] ∧ op.sources = [] ∧
  op.handlers = [] ∧ op.requests = []

/-! ## Load carrier config (Modem interface) -/

/-- The timeout of one step of the load, in seconds. -/
def LOAD_CARRIER_CONFIG_STEP_TIMEOUT_SECS : Nat := 5

/-- The name reported when the device runs its built-in configuration. -/
def DEFAULT_CONFIG_DESCRIPTION : String := "default"

/-- The steps of the enum `LoadCarrierConfigStep`. -/
inductive LoadCarrierConfigStep where
  | LOAD_CARRIER_CONFIG_STEP_FIRST
  | LOAD_CARRIER_CONFIG_STEP_LIST_CONFIGS
  | LOAD_CARRIER_CONFIG_STEP_QUERY_CURRENT
  | LOAD_CARRIER_CONFIG_STEP_LAST
  deriving DecidableEq, Repr

/-- The increment `ctx->step++`. -/
def LoadCarrierConfigStep.next : LoadCarrierConfigStep → LoadCarrierConfigStep
  | LOAD_CARRIER_CONFIG_STEP_FIRST => LOAD_CARRIER_CONFIG_STEP_LIST_CONFIGS
  | LOAD_CARRIER_CONFIG_STEP_LIST_CONFIGS => LOAD_CARRIER_CONFIG_STEP_QUERY_CURRENT
  | LOAD_CARRIER_CONFIG_STEP_QUERY_CURRENT => LOAD_CARRIER_CONFIG_STEP_LAST
  | LOAD_CARRIER_CONFIG_STEP_LAST => LOAD_CARRIER_CONFIG_STEP_LAST

/-- The struct `LoadCarrierConfigContext`, with the values the entry point
gives it as defaults. -/
structure LoadCarrierConfigContext where
  step : LoadCarrierConfigStep := LoadCarrierConfigStep.LOAD_CARRIER_CONFIG_STEP_FIRST
  config_list : Option (List ConfigInfo) := none
  configs_loaded : Nat := 0
  config_active_default : Bool := false
  config_active_i : Int := -1
  token : Nat := 0
  timeout_id : Nat := 0
  list_configs_indication_id : Nat := 0
  get_selected_config_indication_id : Nat := 0
  get_config_info_indication_id : Nat := 0
  deriving DecidableEq, Repr

/-- The `*_ready` callbacks of the load. -/
inductive LoadCarrierConfigCallback where
  | list_configs_ready
  | get_selected_config_ready
  deriving DecidableEq, Repr

/-- The timeout callback of the load. -/
inductive LoadCarrierConfigTimeout where
  | load_carrier_config_timeout
  deriving DecidableEq, Repr

/-- The indication handlers of the load; each is connected to the signal of the
same name. -/
inductive LoadCarrierConfigSignal where
  | list_configs_indication
  | get_config_info_indication
  | get_selected_config_indication
  deriving DecidableEq, Repr

/-- The state of a load operation. -/
abbrev LoadCarrierConfigTask :=
  Operation LoadCarrierConfigContext LoadCarrierConfigCallback LoadCarrierConfigTimeout
    LoadCarrierConfigSignal

/-- One element of the configs TLV of the list-configs indication. -/
structure QmiIndicationPdcListConfigsOutputConfigsElement where
  config_type : Nat
  id : List Nat

/-- The list-configs indication: each getter gives an error or the value;
the configs array may be `NULL`. -/
structure QmiIndicationPdcListConfigsOutput where
  indication_result : Except GError Nat
  token : Option Nat := none
  configs : Except GError (Option (List QmiIndicationPdcListConfigsOutputConfigsElement))

/-- The get-config-info indication: each getter gives an error or the value. -/
structure QmiIndicationPdcGetConfigInfoOutput where
  indication_result : Except GError Nat
  token : Except GError Nat
  total_size : Except GError Nat
  version : Except GError Nat
  description : Except GError String

/-- The get-selected-config indication: the result getter gives an error or
the error code; the active id is `none` when its getter leaves `NULL`. -/
structure QmiIndicationPdcGetSelectedConfigOutput where
  indication_result : Except GError Nat
  token : Option Nat := none
  active_id : Option (List Nat) := none

/-- The function `load_carrier_config_context_cleanup_action`. -/
def load_carrier_config_context_cleanup_action (op : LoadCarrierConfigTask) :
    LoadCarrierConfigTask :=
  let op :=
    if op.ctx.get_selected_config_indication_id ≠ 0 then
      { op.g_signal_handler_disconnect op.ctx.get_selected_config_indication_id with
        ctx := { op.ctx with get_selected_config_indication_id := 0 } }
    else op
  let op :=
    if op.ctx.get_config_info_indication_id ≠ 0 then
      { op.g_signal_handler_disconnect op.ctx.get_config_info_indication_id with
        ctx := { op.ctx with get_config_info_indication_id := 0 } }
    else op
  let op :=
    if op.ctx.list_configs_indication_id ≠ 0 then
      { op.g_signal_handler_disconnect op.ctx.list_configs_indication_id with
        ctx := { op.ctx with list_configs_indication_id := 0 } }
    else op
  if op.ctx.timeout_id ≠ 0 then
    { op.g_source_remove op.ctx.timeout_id with ctx := { op.ctx with timeout_id := 0 } }
  else op

/-- The function `load_carrier_config_context_free`, run by the
`g_object_unref (task)` that follows each return of the result: the cleanup
action, and the release of the memory of the context. -/
def load_carrier_config_context_free (op : LoadCarrierConfigTask) : LoadCarrierConfigTask :=
  load_carrier_config_context_cleanup_action op

/-- The revision string `g_strdup_printf ("%08X", version)`: upper case
hexadecimal digits, padded with zeros to 8 characters. -/
def format_08X (version : Nat) : String :=
  let digits := (Nat.toDigits 16 version).map Char.toUpper
  String.mk (List.replicate (8 - digits.length) '0' ++ digits)

/-- The name and the revision that `mm_shared_qmi_load_carrier_config_finish`
hands out. -/
structure CarrierConfig where
  carrier_config_name : Option String
  carrier_config_revision : Option String
  deriving DecidableEq, Repr

/-- The function `mm_shared_qmi_load_carrier_config_finish` on the result of
the task: `none` where an assertion fails or the active index is outside the
list, the error of the task, or the name and the revision. -/
def mm_shared_qmi_load_carrier_config_finish (priv : Private) (res : TaskResult Unit) :
    Option (Except GError CarrierConfig) :=
  match res with
  | TaskResult.error error => some (Except.error error)
  | TaskResult.value _ =>
      if ¬ (priv.config_active_i ≥ 0 ∨ priv.config_active_default = true) then none
      else if priv.config_active_i ≥ 0 then
        match config_list_index priv priv.config_active_i with
        | none => none
        | some config =>
            some (Except.ok
              { carrier_config_name := config.description,
                carrier_config_revision := some (format_08X config.version) })
      else
        some (Except.ok
          { carrier_config_name := some DEFAULT_CONFIG_DESCRIPTION,
            carrier_config_revision := none })

/-- The function `load_carrier_config_abort`. -/
def load_carrier_config_abort (op : LoadCarrierConfigTask) (error : GError) :
    LoadCarrierConfigTask :=
  let op := load_carrier_config_context_cleanup_action op
  let op := op.g_task_return (TaskResult.error error)
  load_carrier_config_context_free op

/-- Case `LOAD_CARRIER_CONFIG_STEP_LAST` of `load_carrier_config_step`. -/
def load_carrier_config_step_case_last (op : LoadCarrierConfigTask) : LoadCarrierConfigTask :=
  if ¬ (op.priv.config_list = none) then { op with aborted := true }
  else if ¬ (op.priv.config_active_i < 0 ∧ op.priv.config_active_default = false) then
    { op with aborted := true }
  else if ¬ (op.ctx.config_active_i ≥ 0 ∨ op.ctx.config_active_default = true) then
    { op with aborted := true }
  else
    let op :=
      { op with
        priv := { op.priv with
                  config_list := op.ctx.config_list,
                  config_active_i := op.ctx.config_active_i,
                  config_active_default := op.ctx.config_active_default } }
    let op := op.g_task_return (TaskResult.value ())
    load_carrier_config_context_free op

/-- Case `LOAD_CARRIER_CONFIG_STEP_QUERY_CURRENT` of
`load_carrier_config_step`. -/
def load_carrier_config_step_case_query_current (op : LoadCarrierConfigTask) :
    LoadCarrierConfigTask :=
  let token := op.ctx.token
  let op := { op with ctx := { op.ctx with token := token_next token } }
  op.qmi_client_request
    (qmi_client_pdc_get_selected_config QMI_PDC_CONFIGURATION_TYPE_SOFTWARE token 5)
    LoadCarrierConfigCallback.get_selected_config_ready

/-- Case `LOAD_CARRIER_CONFIG_STEP_LIST_CONFIGS` of `load_carrier_config_step`. -/
def load_carrier_config_step_case_list_configs (op : LoadCarrierConfigTask) :
    LoadCarrierConfigTask :=
  let token := op.ctx.token
  let op := { op with ctx := { op.ctx with token := token_next token } }
  op.qmi_client_request
    (qmi_client_pdc_list_configs QMI_PDC_CONFIGURATION_TYPE_SOFTWARE token 5)
    LoadCarrierConfigCallback.list_configs_ready

/-- The function `load_carrier_config_step`. -/
def load_carrier_config_step (op : LoadCarrierConfigTask) : LoadCarrierConfigTask :=
  match op.ctx.step with
  | LoadCarrierConfigStep.LOAD_CARRIER_CONFIG_STEP_FIRST =>
      load_carrier_config_step_case_list_configs
        { op with ctx := { op.ctx with step := op.ctx.step.next } }
  | LoadCarrierConfigStep.LOAD_CARRIER_CONFIG_STEP_LIST_CONFIGS =>
      load_carrier_config_step_case_list_configs op
  | LoadCarrierConfigStep.LOAD_CARRIER_CONFIG_STEP_QUERY_CURRENT =>
      load_carrier_config_step_case_query_current op
  | LoadCarrierConfigStep.LOAD_CARRIER_CONFIG_STEP_LAST =>
      load_carrier_config_step_case_last op

/-- The timeout callback `load_carrier_config_timeout`. -/
def load_carrier_config_timeout (op : LoadCarrierConfigTask) : LoadCarrierConfigTask :=
  if op.ctx.timeout_id = 0 then { op with aborted := true }
  else
    let op := { op with ctx := { op.ctx with timeout_id := 0 } }
    load_carrier_config_abort op
      { domain := GErrorDomain.MM_CORE_ERROR, code := MM_CORE_ERROR_ABORTED }

/-- The indication handler `get_selected_config_indication`. -/
def get_selected_config_indication (op : LoadCarrierConfigTask)
    (output : QmiIndicationPdcGetSelectedConfigOutput) : LoadCarrierConfigTask :=
  match output.indication_result with
  | Except.error error => load_carrier_config_abort op error
  | Except.ok error_code =>
      if error_code ≠ 0 ∧ error_code ≠ QMI_PROTOCOL_ERROR_NOT_PROVISIONED then
        load_carrier_config_abort op
          { domain := GErrorDomain.MM_CORE_ERROR, code := MM_CORE_ERROR_FAILED }
      else
        match output.active_id with
        | none =>
            let op := { op with ctx := { op.ctx with config_active_default := true } }
            let op := load_carrier_config_context_cleanup_action op
            load_carrier_config_step { op with ctx := { op.ctx with step := op.ctx.step.next } }
        | some active_id =>
            match op.ctx.config_list with
            | none => { op with aborted := true }
            | some config_list =>
                if config_list.length = 0 then { op with aborted := true }
                else
                  match config_list.findIdx? (fun config => config.id = active_id) with
                  | none =>
                      load_carrier_config_abort op
                        { domain := GErrorDomain.MM_CORE_ERROR, code := MM_CORE_ERROR_FAILED }
                  | some i =>
                      let op := { op with ctx := { op.ctx with config_active_i := (i : Int) } }
                      let op := load_carrier_config_context_cleanup_action op
                      load_carrier_config_step
                        { op with ctx := { op.ctx with step := op.ctx.step.next } }

/-- The callback `get_selected_config_ready`. -/
def get_selected_config_ready (op : LoadCarrierConfigTask) (res : QmiResult Unit) :
    LoadCarrierConfigTask :=
  match res with
  | QmiResult.no_output error => load_carrier_config_abort op error
  | QmiResult.result_failed error => load_carrier_config_abort op error
  | QmiResult.ok _ =>
      let r := op.g_timeout_add_seconds LOAD_CARRIER_CONFIG_STEP_TIMEOUT_SECS
        LoadCarrierConfigTimeout.load_carrier_config_timeout
      let op := { r.1 with ctx := { r.1.ctx with timeout_id := r.2 } }
      let r := op.g_signal_connect LoadCarrierConfigSignal.get_selected_config_indication
      { r.1 with ctx := { r.1.ctx with get_selected_config_indication_id := r.2 } }

/-- The indication handler `get_config_info_indication`. The getters of the
total size, the version and the description run in this order and each one
that succeeds before a failing one has stored its value. -/
def get_config_info_indication (op : LoadCarrierConfigTask)
    (output : QmiIndicationPdcGetConfigInfoOutput) : LoadCarrierConfigTask :=
  match output.indication_result with
  | Except.error error => load_carrier_config_abort op error
  | Except.ok error_code =>
      if error_code ≠ 0 then
        load_carrier_config_abort op
          { domain := GErrorDomain.MM_CORE_ERROR, code := MM_CORE_ERROR_FAILED }
      else
        match output.token with
        | Except.error error => load_carrier_config_abort op error
        | Except.ok token =>
            match op.ctx.config_list with
            | none => { op with aborted := true }
            | some config_list =>
                match config_list.findIdx? (fun config => config.token = token) with
                | none => op
                | some i =>
                    match config_list[i]? with
                    | none => op
                    | some current_config =>
                        if current_config.description ≠ none then op
                        else
                          match output.total_size with
                          | Except.error error => load_carrier_config_abort op error
                          | Except.ok total_size =>
                              let current_config := { current_config with total_size := total_size }
                              let op := { op with ctx := { op.ctx with
                                config_list := some (config_list.set i current_config) } }
                              match output.version with
                              | Except.error error => load_carrier_config_abort op error
                              | Except.ok version =>
                                  let current_config := { current_config with version := version }
                                  let op := { op with ctx := { op.ctx with
                                    config_list := some (config_list.set i current_config) } }
                                  match output.description with
                                  | Except.error error => load_carrier_config_abort op error
                                  | Except.ok description =>
                                      let current_config :=
                                        { current_config with description := some description }
                                      let op := { op with ctx := { op.ctx with
                                        config_list := some (config_list.set i current_config),
                                        configs_loaded := (op.ctx.configs_loaded + 1) % 2 ^ 32 } }
                                      if op.ctx.configs_loaded < config_list.length then op
                                      else
                                        let op := load_carrier_config_context_cleanup_action op
                                        load_carrier_config_step
                                          { op with ctx := { op.ctx with
                                              step := op.ctx.step.next } }

/-- The loop of `list_configs_indication` over the elements of the configs
TLV: each element gets the next token and a Get-Config-Info request whose
response is ignored; the records built so far are carried along. -/
def list_configs_indication_loop :
    List QmiIndicationPdcListConfigsOutputConfigsElement → LoadCarrierConfigTask →
      List ConfigInfo → LoadCarrierConfigTask × List ConfigInfo
  | [], op, config_list => (op, config_list)
  | element :: rest, op, config_list =>
      let token := op.ctx.token
      let op := { op with ctx := { op.ctx with token := token_next token } }
      let current_info : ConfigInfo :=
        { token := token, id := element.id, config_type := element.config_type }
      let op := op.qmi_client_request_no_callback
        (qmi_client_pdc_get_config_info element.config_type element.id token 10)
      list_configs_indication_loop rest op (config_list ++ [current_info])

/-- The indication handler `list_configs_indication`. -/
def list_configs_indication (op : LoadCarrierConfigTask)
    (output : QmiIndicationPdcListConfigsOutput) : LoadCarrierConfigTask :=
  match output.indication_result with
  | Except.error error => load_carrier_config_abort op error
  | Except.ok error_code =>
      if error_code ≠ 0 then
        load_carrier_config_abort op
          { domain := GErrorDomain.MM_CORE_ERROR, code := MM_CORE_ERROR_FAILED }
      else
        match output.configs with
        | Except.error error => load_carrier_config_abort op error
        | Except.ok configs =>
            if configs.isNone = true ∨ (configs.getD []).length = 0 then
              load_carrier_config_step
                { op with ctx := { op.ctx with
                    config_active_default := true,
                    step := LoadCarrierConfigStep.LOAD_CARRIER_CONFIG_STEP_LAST } }
            else
              let r := op.g_signal_connect LoadCarrierConfigSignal.get_config_info_indication
              let op := { r.1 with ctx := { r.1.ctx with get_config_info_indication_id := r.2 } }
              let r := list_configs_indication_loop (configs.getD []) op []
              { r.1 with ctx := { r.1.ctx with config_list := some r.2 } }

/-- The callback `list_configs_ready`. -/
def list_configs_ready (op : LoadCarrierConfigTask) (res : QmiResult Unit) :
    LoadCarrierConfigTask :=
  match res with
  | QmiResult.no_output error => load_carrier_config_abort op error
  | QmiResult.result_failed error => load_carrier_config_abort op error
  | QmiResult.ok _ =>
      let r := op.g_timeout_add_seconds LOAD_CARRIER_CONFIG_STEP_TIMEOUT_SECS
        LoadCarrierConfigTimeout.load_carrier_config_timeout
      let op := { r.1 with ctx := { r.1.ctx with timeout_id := r.2 } }
      let r := op.g_signal_connect LoadCarrierConfigSignal.list_configs_indication
      { r.1 with ctx := { r.1.ctx with list_configs_indication_id := r.2 } }

/-- The entry point `mm_shared_qmi_load_carrier_config`. -/
def mm_shared_qmi_load_carrier_config (self : MMIfaceModem) (priv : Private) :
    LoadCarrierConfigTask :=
  let op : LoadCarrierConfigTask :=
    { priv := priv,
      ctx := { step := LoadCarrierConfigStep.LOAD_CARRIER_CONFIG_STEP_FIRST,
               config_active_i := -1 } }
  match self.peek_client QmiService.QMI_SERVICE_PDC with
  | Except.error _ =>
      load_carrier_config_context_free (op.g_task_return (TaskResult.error
        { domain := GErrorDomain.MM_CORE_ERROR, code := MM_CORE_ERROR_FAILED }))
  | Except.ok _ => load_carrier_config_step op

/-- What the main loop can deliver to a load operation. -/
inductive LoadCarrierConfigEvent where
  | response (callback : LoadCarrierConfigCallback) (res : QmiResult Unit)
  | list_configs (output : QmiIndicationPdcListConfigsOutput)
  | get_config_info (output : QmiIndicationPdcGetConfigInfoOutput)
  | get_selected_config (output : QmiIndicationPdcGetSelectedConfigOutput)
  | timeout (id : Nat)

/-- An indication runs each handler connected to its signal that is still
connected when its turn comes, unless an assertion has failed. -/
def load_carrier_config_emit (op : LoadCarrierConfigTask) (signal : LoadCarrierConfigSignal)
    (handler : LoadCarrierConfigTask → LoadCarrierConfigTask) : LoadCarrierConfigTask :=
  (op.handlers.filter (fun h => h.handler = signal)).foldl
    (fun op h => if h ∈ op.handlers ∧ op.aborted = false then handler op else op) op

/-- One event of the main loop. A response runs its callback if the request
is in flight; an indication runs the handlers connected to its signal; a
timeout runs the callback of the armed source with that id, and the source is
gone once it has fired, as the timeout callback returns `G_SOURCE_REMOVE`.
Nothing runs after a failed assertion. -/
def load_carrier_config_deliver (op : LoadCarrierConfigTask) (ev : LoadCarrierConfigEvent) :
    LoadCarrierConfigTask :=
  if op.aborted then op
  else
    match ev with
    | LoadCarrierConfigEvent.response callback res =>
        if callback ∈ op.pending then
          let op := { op with pending := op.pending.erase callback }
          match callback with
          | LoadCarrierConfigCallback.list_configs_ready => list_configs_ready op res
          | LoadCarrierConfigCallback.get_selected_config_ready =>
              get_selected_config_ready op res
        else op
    | LoadCarrierConfigEvent.list_configs output =>
        load_carrier_config_emit op LoadCarrierConfigSignal.list_configs_indication
          (fun op => list_configs_indication op output)
    | LoadCarrierConfigEvent.get_config_info output =>
        load_carrier_config_emit op LoadCarrierConfigSignal.get_config_info_indication
          (fun op => get_config_info_indication op output)
    | LoadCarrierConfigEvent.get_selected_config output =>
        load_carrier_config_emit op LoadCarrierConfigSignal.get_selected_config_indication
          (fun op => get_selected_config_indication op output)
    | LoadCarrierConfigEvent.timeout id =>
        match op.sources.find? (fun s => s.id = id) with
        | none => op
        | some source =>
            let op := { op with sources := op.sources.filter (fun s => s.id ≠ id) }
            match source.callback with
            | LoadCarrierConfigTimeout.load_carrier_config_timeout =>
                load_carrier_config_timeout op

/-- The load operation after a series of events of the main loop. -/
def load_carrier_config_run (self : MMIfaceModem) (priv : Private)
    (events : List LoadCarrierConfigEvent) : LoadCarrierConfigTask :=
  events.foldl load_carrier_config_deliver (mm_shared_qmi_load_carrier_config self priv)

/-! ## Location: inject assistance data -/

/-- The default part size, in bytes. -/
def MAX_BYTES_PER_REQUEST : Nat := 1024

/-- The helper `mm_error_from_qmi_loc_indication_status` of
mm-error-helpers.c, whose body is not under `src/`: the error it sets for an
indication status, `none` when it sets none. It is a parameter of the
embedding. -/
structure LocHelpers where
  mm_error_from_qmi_loc_indication_status : Nat → Option GError

/-- The struct `InjectAssistanceDataContext` (the client handle left out):
`data_size` and `i` are `goffset`, so signed; `total_parts` and `n_part` are
`gulong`; `part_size` is `guint32`. -/
structure InjectAssistanceDataContext where
  data : List Nat := []
  data_size : Int := 0
  total_parts : Nat := 0
  part_size : Nat := 0
  indication_id : Nat := 0
  timeout_id : Nat := 0
  i : Int := 0
  n_part : Nat := 0
  deriving DecidableEq, Repr

/-- The `*_ready` callbacks of the injection. -/
inductive InjectAssistanceDataCallback where
  | inject_predicted_orbits_data_ready
  | inject_xtra_data_ready
  deriving DecidableEq, Repr

/-- The timeout callback of the injection. -/
inductive InjectAssistanceDataTimeout where
  | loc_location_inject_data_indication_timed_out
  deriving DecidableEq, Repr

/-- The indication handlers of the injection, connected to the signals
`inject-predicted-orbits-data` and `inject-xtra-data`. -/
inductive InjectAssistanceDataSignal where
  | loc_location_inject_predicted_orbits_data_indication_cb
  | loc_location_inject_xtra_data_indication_cb
  deriving DecidableEq, Repr

/-- The state of an injection. -/
abbrev InjectAssistanceDataTask :=
  Operation InjectAssistanceDataContext InjectAssistanceDataCallback InjectAssistanceDataTimeout
    InjectAssistanceDataSignal

/-- An indication of the injection: the status getter gives an error or the
status. -/
structure QmiIndicationLocInjectOutput where
  indication_status : Except GError Nat

/-- The function `inject_assistance_data_context_free`, run by the
`g_object_unref (task)` that follows each return of the result; the client is
always set when a task exists. -/
def inject_assistance_data_context_free (op : InjectAssistanceDataTask) :
    InjectAssistanceDataTask :=
  let op := if op.ctx.timeout_id ≠ 0 then op.g_source_remove op.ctx.timeout_id else op
  if op.ctx.indication_id ≠ 0 then op.g_signal_handler_disconnect op.ctx.indication_id else op

/-- The timeout callback `loc_location_inject_data_indication_timed_out`. -/
def loc_location_inject_data_indication_timed_out (op : InjectAssistanceDataTask) :
    InjectAssistanceDataTask :=
  let op := { op with ctx := { op.ctx with timeout_id := 0 } }
  let op := op.g_task_return (TaskResult.error
    { domain := GErrorDomain.MM_CORE_ERROR, code := MM_CORE_ERROR_ABORTED })
  inject_assistance_data_context_free op

/-- The function `inject_xtra_data_next`: the next part of the buffer in an
Inject-Xtra-Data request, or success when no byte is left. -/
def inject_xtra_data_next (op : InjectAssistanceDataTask) : InjectAssistanceDataTask :=
  if ¬ (op.ctx.data_size ≥ op.ctx.i) then { op with aborted := true }
  else
    let total_bytes_left : Int := op.ctx.data_size - op.ctx.i
    if total_bytes_left = 0 then
      inject_assistance_data_context_free (op.g_task_return (TaskResult.value ()))
    else
      let op := { op with ctx := { op.ctx with n_part := (op.ctx.n_part + 1) % 2 ^ 64 } }
      let count : Nat :=
        if total_bytes_left ≥ (op.ctx.part_size : Int) then op.ctx.part_size
        else total_bytes_left.toNat
      let data := (op.ctx.data.drop op.ctx.i.toNat).take count
      let request :=
        qmi_client_loc_inject_xtra_data (op.ctx.data_size % 2 ^ 32).toNat
          (op.ctx.total_parts % 2 ^ 16) (op.ctx.n_part % 2 ^ 16) data 10
      let op := { op with ctx := { op.ctx with i := op.ctx.i + (count : Int) } }
      op.qmi_client_request request InjectAssistanceDataCallback.inject_xtra_data_ready

/-- The indication handler `loc_location_inject_xtra_data_indication_cb`. -/
def loc_location_inject_xtra_data_indication_cb (L : LocHelpers)
    (op : InjectAssistanceDataTask) (output : QmiIndicationLocInjectOutput) :
    InjectAssistanceDataTask :=
  let error : Option GError :=
    match output.indication_status with
    | Except.error error => some error
    | Except.ok status => L.mm_error_from_qmi_loc_indication_status status
  match error with
  | some error =>
      inject_assistance_data_context_free (op.g_task_return (TaskResult.error error))
  | none =>
      let op := { op.g_source_remove op.ctx.timeout_id with
                  ctx := { op.ctx with timeout_id := 0 } }
      let op := { op.g_signal_handler_disconnect op.ctx.indication_id with
                  ctx := { op.ctx with indication_id := 0 } }
      inject_xtra_data_next op

/-- The callback `inject_xtra_data_ready`. -/
def inject_xtra_data_ready (op : InjectAssistanceDataTask) (res : QmiResult Unit) :
    InjectAssistanceDataTask :=
  match res with
  | QmiResult.no_output error =>
      inject_assistance_data_context_free (op.g_task_return (TaskResult.error error))
  | QmiResult.result_failed error =>
      inject_assistance_data_context_free (op.g_task_return (TaskResult.error error))
  | QmiResult.ok _ =>
      let r := op.g_signal_connect
        InjectAssistanceDataSignal.loc_location_inject_xtra_data_indication_cb
      let op := { r.1 with ctx := { r.1.ctx with indication_id := r.2 } }
      let r := op.g_timeout_add_seconds 10
        InjectAssistanceDataTimeout.loc_location_inject_data_indication_timed_out
      { r.1 with ctx := { r.1.ctx with timeout_id := r.2 } }

/-- The function `inject_xtra_data`: the fallback dialog starts over. -/
def inject_xtra_data (op : InjectAssistanceDataTask) : InjectAssistanceDataTask :=
  if ¬ (op.ctx.timeout_id = 0) then { op with aborted := true }
  else if ¬ (op.ctx.indication_id = 0) then { op with aborted := true }
  else inject_xtra_data_next { op with ctx := { op.ctx with n_part := 0, i := 0 } }

/-- The function `inject_assistance_data_next`: the next part of the buffer
in an Inject-Predicted-Orbits-Data request, or success when no byte is left. -/
def inject_assistance_data_next (op : InjectAssistanceDataTask) : InjectAssistanceDataTask :=
  if ¬ (op.ctx.data_size ≥ op.ctx.i) then { op with aborted := true }
  else
    let total_bytes_left : Int := op.ctx.data_size - op.ctx.i
    if total_bytes_left = 0 then
      inject_assistance_data_context_free (op.g_task_return (TaskResult.value ()))
    else
      let op := { op with ctx := { op.ctx with n_part := (op.ctx.n_part + 1) % 2 ^ 64 } }
      let count : Nat :=
        if total_bytes_left ≥ (op.ctx.part_size : Int) then op.ctx.part_size
        else total_bytes_left.toNat
      let data := (op.ctx.data.drop op.ctx.i.toNat).take count
      let request :=
        qmi_client_loc_inject_predicted_orbits_data QMI_LOC_PREDICTED_ORBITS_DATA_FORMAT_XTRA
          (op.ctx.data_size % 2 ^ 32).toNat (op.ctx.total_parts % 2 ^ 16)
          (op.ctx.n_part % 2 ^ 16) data 10
      let op := { op with ctx := { op.ctx with i := op.ctx.i + (count : Int) } }
      op.qmi_client_request request
        InjectAssistanceDataCallback.inject_predicted_orbits_data_ready

/-- The indication handler
`loc_location_inject_predicted_orbits_data_indication_cb`. -/
def loc_location_inject_predicted_orbits_data_indication_cb (L : LocHelpers)
    (op : InjectAssistanceDataTask) (output : QmiIndicationLocInjectOutput) :
    InjectAssistanceDataTask :=
  let error : Option GError :=
    match output.indication_status with
    | Except.error error => some error
    | Except.ok status => L.mm_error_from_qmi_loc_indication_status status
  match error with
  | some error =>
      inject_assistance_data_context_free (op.g_task_return (TaskResult.error error))
  | none =>
      let op := { op.g_source_remove op.ctx.timeout_id with
                  ctx := { op.ctx with timeout_id := 0 } }
      let op := { op.g_signal_handler_disconnect op.ctx.indication_id with
                  ctx := { op.ctx with indication_id := 0 } }
      inject_assistance_data_next op

/-- The callback `inject_predicted_orbits_data_ready`: a failure with the
protocol error `not-supported` starts the Inject-Xtra-Data dialog, any other
failure is returned. -/
def inject_predicted_orbits_data_ready (op : InjectAssistanceDataTask) (res : QmiResult Unit) :
    InjectAssistanceDataTask :=
  let failed (error : GError) : InjectAssistanceDataTask :=
    if g_error_matches error GErrorDomain.QMI_PROTOCOL_ERROR QMI_PROTOCOL_ERROR_NOT_SUPPORTED
    then inject_xtra_data op
    else inject_assistance_data_context_free (op.g_task_return (TaskResult.error error))
  match res with
  | QmiResult.no_output error => failed error
  | QmiResult.result_failed error => failed error
  | QmiResult.ok _ =>
      let r := op.g_signal_connect
        InjectAssistanceDataSignal.loc_location_inject_predicted_orbits_data_indication_cb
      let op := { r.1 with ctx := { r.1.ctx with indication_id := r.2 } }
      let r := op.g_timeout_add_seconds 10
        InjectAssistanceDataTimeout.loc_location_inject_data_indication_timed_out
      { r.1 with ctx := { r.1.ctx with timeout_id := r.2 } }

/-- The conversion of a `gsize` to `goffset`, a signed 64-bit integer. -/
def goffset_of_gsize (size : Nat) : Int :=
  if size % 2 ^ 64 < 2 ^ 63 then ((size % 2 ^ 64 : Nat) : Int)
  else ((size % 2 ^ 64 : Nat) : Int) - 2 ^ 64

/-- The conversion of a `goffset` to `gulong`, an unsigned 64-bit integer. -/
def gulong_of_goffset (value : Int) : Nat := (value % 2 ^ 64).toNat

/-- The entry point `mm_shared_qmi_location_inject_assistance_data`: the
buffer is the list of its bytes and `data_size` its length. The copy made by
`g_memdup`, whose size argument is a `guint`, holds `data_size` modulo 2^32
bytes; the product `G_MAXUINT16 * ctx->part_size` is an `unsigned int`, so it
is taken modulo 2^32; the division and the remainder are those of C on
signed 64-bit integers. -/
def mm_shared_qmi_location_inject_assistance_data (self : MMIfaceModem) (priv : Private)
    (data : List Nat) : InjectAssistanceDataTask :=
  let data_size : Nat := data.length
  match mm_shared_qmi_ensure_client self QmiService.QMI_SERVICE_LOC with
  | Except.error error =>
      { priv := priv, ctx := {},
        returned := [{ result := TaskResult.error error, ctx := {}, sources := [],
                       handlers := [] }] }
  | Except.ok _ =>
      let op : InjectAssistanceDataTask :=
        { priv := priv,
          ctx := { data := data.take (data_size % 2 ^ 32),
                   data_size := goffset_of_gsize data_size,
                   part_size :=
                     if priv.loc_assistance_data_max_part_size > 0 then
                       priv.loc_assistance_data_max_part_size
                     else MAX_BYTES_PER_REQUEST } }
      if op.ctx.data_size > (((G_MAXUINT16 * op.ctx.part_size) % 2 ^ 32 : Nat) : Int) ∨
          (priv.loc_assistance_data_max_file_size > 0 ∧
            op.ctx.data_size > (priv.loc_assistance_data_max_file_size : Int)) then
        inject_assistance_data_context_free (op.g_task_return (TaskResult.error
          { domain := GErrorDomain.MM_CORE_ERROR, code := MM_CORE_ERROR_TOO_MANY }))
      else
        let total_parts := gulong_of_goffset (op.ctx.data_size.tdiv (op.ctx.part_size : Int))
        let total_parts :=
          if op.ctx.data_size.tmod (op.ctx.part_size : Int) ≠ 0 then (total_parts + 1) % 2 ^ 64
          else total_parts
        let op := { op with ctx := { op.ctx with total_parts := total_parts } }
        if ¬ (op.ctx.total_parts ≤ G_MAXUINT16) then { op with aborted := true }
        else inject_assistance_data_next op

/-- What the main loop can deliver to an injection. -/
inductive InjectAssistanceDataEvent where
  | response (callback : InjectAssistanceDataCallback) (res : QmiResult Unit)
  | indication (signal : InjectAssistanceDataSignal) (output : QmiIndicationLocInjectOutput)
  | timeout (id : Nat)

/-- One event of the main loop. A response runs its callback if the request
is in flight; an indication runs each handler connected to its signal that is
still connected when its turn comes; a timeout runs the callback of the armed
source with that id, and the source is gone once it has fired, as the timeout
callback returns `G_SOURCE_REMOVE`. Nothing runs after a failed assertion. -/
def inject_assistance_data_deliver (L : LocHelpers) (op : InjectAssistanceDataTask)
    (ev : InjectAssistanceDataEvent) : InjectAssistanceDataTask :=
  if op.aborted then op
  else
    match ev with
    | InjectAssistanceDataEvent.response callback res =>
        if callback ∈ op.pending then
          let op := { op with pending := op.pending.erase callback }
          match callback with
          | InjectAssistanceDataCallback.inject_predicted_orbits_data_ready =>
              inject_predicted_orbits_data_ready op res
          | InjectAssistanceDataCallback.inject_xtra_data_ready => inject_xtra_data_ready op res
        else op
    | InjectAssistanceDataEvent.indication signal output =>
        (op.handlers.filter (fun h => h.handler = signal)).foldl
          (fun op h =>
            if h ∈ op.handlers ∧ op.aborted = false then
              match signal with
              | InjectAssistanceDataSignal.loc_location_inject_predicted_orbits_data_indication_cb =>
                  loc_location_inject_predicted_orbits_data_indication_cb L op output
              | InjectAssistanceDataSignal.loc_location_inject_xtra_data_indication_cb =>
                  loc_location_inject_xtra_data_indication_cb L op output
            else op)
          op
    | InjectAssistanceDataEvent.timeout id =>
        match op.sources.find? (fun s => s.id = id) with
        | none => op
        | some source =>
            let op := { op with sources := op.sources.filter (fun s => s.id ≠ id) }
            match source.callback with
            | InjectAssistanceDataTimeout.loc_location_inject_data_indication_timed_out =>
                loc_location_inject_data_indication_timed_out op

/-- The injection after a series of events of the main loop. -/
def inject_assistance_data_run (L : LocHelpers) (self : MMIfaceModem) (priv : Private)
    (data : List Nat) (events : List InjectAssistanceDataEvent) : InjectAssistanceDataTask :=
  events.foldl (inject_assistance_data_deliver L)
    (mm_shared_qmi_location_inject_assistance_data self priv data)

/-- The part size as the spec gives it: `max_part_size` if it is set (> 0),
1024 otherwise. -/
def assistance_data_part_size (priv : Private) : Nat :=
  if priv.loc_assistance_data_max_part_size > 0 then priv.loc_assistance_data_max_part_size
  else 1024

/-- The number of parts as the spec gives it: the size divided by the part
size, rounded up. -/
def assistance_data_total_parts (size part_size : Nat) : Nat :=
  (size + part_size - 1) / part_size

/-- The parts as the spec gives them: part `k` (from 1) carries the total
size, the number of parts, `k`, and the bytes from `(k-1) * part_size` up to
`k * part_size` or the end of the buffer. -/
def assistance_data_parts (data : List Nat) (part_size : Nat) :
    List (Nat × Nat × Nat × List Nat) :=
  (List.range (assistance_data_total_parts data.length part_size)).map (fun k =>
    (data.length, assistance_data_total_parts data.length part_size, k + 1,
      (data.drop (k * part_size)).take part_size))

/-- The up-front size limit as the spec gives it, on exact integers: the
size exceeds 65535 parts, or the file size the device advertised. -/
def assistance_data_too_big (priv : Private) (size : Nat) : Prop :=
  size > 65535 * assistance_data_part_size priv ∨
  (priv.loc_assistance_data_max_file_size > 0 ∧ size > priv.loc_assistance_data_max_file_size)

/-- The up-front size check as the code computes it, the product taken
modulo 2^32. -/
def assistance_data_check_fails (priv : Private) (size : Nat) : Prop :=
  size > (65535 * assistance_data_part_size priv) % 2 ^ 32 ∨
  (priv.loc_assistance_data_max_file_size > 0 ∧ size > priv.loc_assistance_data_max_file_size)

/-- The size, the number of parts, the part number and the bytes carried by
an Inject-Predicted-Orbits-Data or Inject-Xtra-Data request. -/
def QmiRequest.inject_part (request : QmiRequest) : Option (Nat × Nat × Nat × List Nat) :=
  match request.message with
  | QmiMessage.loc_inject_predicted_orbits_data _ total_size total_parts part_number part_data =>
      some (total_size, total_parts, part_number, part_data)
  | QmiMessage.loc_inject_xtra_data total_size total_parts part_number part_data =>
      some (total_size, total_parts, part_number, part_data)
  | _ => none

/-- Whether a request is Inject-Xtra-Data. -/
def QmiRequest.is_inject_xtra_data (request : QmiRequest) : Bool :=
  match request.message with
  | QmiMessage.loc_inject_xtra_data _ _ _ _ => true
  | _ => false

/-- Modelled from the spec: `mm_error_from_qmi_loc_indication_status`
(mm-error-helpers.c) is not under src/. This instance is used in the worked
examples: status 0 ("success") sets no error, every other status sets an
error of the core taxonomy. -/
def mm_loc_helpers_qmi : LocHelpers where
  mm_error_from_qmi_loc_indication_status := fun status =>
    if status = 0 then none
    else some { domain := GErrorDomain.MM_CORE_ERROR, code := MM_CORE_ERROR_FAILED }

/-- The state of an injection between two parts, or with a request in
flight: `k` parts have been prepared, so the offset is `k` part sizes, or the
size of the buffer if that is less; no timeout is armed and no handler is
connected. -/
def inject_assistance_data_state (priv : Private) (data : List Nat)
    (part_size total_parts k last_id : Nat) (requests : List QmiRequest)
    (pending : List InjectAssistanceDataCallback) : InjectAssistanceDataTask :=
  { priv := priv,
    ctx := { data := data, data_size := (data.length : Int), part_size := part_size,
             total_parts := total_parts, i := ((min (k * part_size) data.length : Nat) : Int),
             n_part := k },
    pending := pending, last_id := last_id, requests := requests }

/-- The request and the indication that answer one part of the
Inject-Predicted-Orbits-Data dialog with success. -/
def inject_predicted_orbits_data_round (status : Nat) : List InjectAssistanceDataEvent :=
  [InjectAssistanceDataEvent.response
      InjectAssistanceDataCallback.inject_predicted_orbits_data_ready (QmiResult.ok ()),
   InjectAssistanceDataEvent.indication
      InjectAssistanceDataSignal.loc_location_inject_predicted_orbits_data_indication_cb
      { indication_status := Except.ok status }]

/-- The request and the indication that answer one part of the
Inject-Xtra-Data dialog with success. -/
def inject_xtra_data_round (status : Nat) : List InjectAssistanceDataEvent :=
  [InjectAssistanceDataEvent.response
      InjectAssistanceDataCallback.inject_xtra_data_ready (QmiResult.ok ()),
   InjectAssistanceDataEvent.indication
      InjectAssistanceDataSignal.loc_location_inject_xtra_data_indication_cb
      { indication_status := Except.ok status }]

/-- The bounds that hold in every state of an injection whose up-front
check passed: the size, the part size and the number of parts are those of the
entry point, the offset is the number of parts prepared times the part size,
or the size if that is less, no more parts are prepared than the number of
parts, and every request sent carries the size and the number of parts as they
are, with a part number from 1 to the number of parts. -/
def inject_assistance_data_in_bounds (size part_size : Nat)
    (op : InjectAssistanceDataTask) : Prop :=
  op.ctx.data_size = (size : Int) ∧ op.ctx.part_size = part_size ∧
  op.ctx.total_parts = assistance_data_total_parts size part_size ∧
  op.ctx.i = ((min (op.ctx.n_part * part_size) size : Nat) : Int) ∧
  op.ctx.n_part ≤ op.ctx.total_parts ∧
  ∀ r ∈ op.requests, ∃ k bytes,
    r.inject_part = some (size, assistance_data_total_parts size part_size, k, bytes) ∧
    1 ≤ k ∧ k ≤ assistance_data_total_parts size part_size

/-- The token a PDC request carries. -/
def QmiRequest.pdc_token (request : QmiRequest) : Option Nat :=
  match request.message with
  | QmiMessage.pdc_list_configs _ token => some token
  | QmiMessage.pdc_get_config_info _ _ token => some token
  | QmiMessage.pdc_get_selected_config _ token => some token
  | QmiMessage.pdc_set_selected_config _ _ token => some token
  | QmiMessage.pdc_activate_config _ token => some token
  | _ => none

/-- Whether a request is Get-Selected-Config. -/
def QmiRequest.is_get_selected_config (request : QmiRequest) : Bool :=
  match request.message with
  | QmiMessage.pdc_get_selected_config _ _ => true
  | _ => false

/-- Whether a get-config-info indication is free of errors: the result is
the error code 0 and every getter succeeds. -/
def QmiIndicationPdcGetConfigInfoOutput.is_error_free
    (output : QmiIndicationPdcGetConfigInfoOutput) : Bool :=
  match output.indication_result, output.token, output.total_size, output.version,
    output.description with
  | Except.ok 0, Except.ok _, Except.ok _, Except.ok _, Except.ok _ => true
  | _, _, _, _, _ => false

/-- Whether a get-config-info indication carries the token. -/
def QmiIndicationPdcGetConfigInfoOutput.answers (output : QmiIndicationPdcGetConfigInfoOutput)
    (token : Nat) : Bool :=
  match output.token with
  | Except.ok t => decide (t = token)
  | Except.error _ => false

/-- The records that the loop of `list_configs_indication` builds for the
elements of the configs TLV, the first with the token `token`. -/
def list_configs_config_list (token : Nat) :
    List QmiIndicationPdcListConfigsOutputConfigsElement → List ConfigInfo
  | [] => []
  | element :: rest =>
      { token := token, id := element.id, config_type := element.config_type } ::
        list_configs_config_list (token_next token) rest

/-- The Get-Config-Info requests that the loop of `list_configs_indication`
sends for the elements of the configs TLV, the first with the token `token`. -/
def list_configs_requests (token : Nat) :
    List QmiIndicationPdcListConfigsOutputConfigsElement → List QmiRequest
  | [] => []
  | element :: rest =>
      qmi_client_pdc_get_config_info element.config_type element.id token 10 ::
        list_configs_requests (token_next token) rest

/-- The token after `n` requests. -/
def token_after (token : Nat) : Nat → Nat
  | 0 => token
  | n + 1 => token_after (token_next token) n

/-- The state of a load that awaits get-config-info indications, reached
from a new operation by the good List-Configs response and the list-configs
indication: the timeout of the step has the id 1, the list-configs handler the
id 2 and the get-config-info handler the id 3. -/
def load_carrier_config_awaits_config_info (priv : Private) (requests : List QmiRequest)
    (config_list : List ConfigInfo) (configs_loaded token : Nat) : LoadCarrierConfigTask :=
  { priv := priv,
    ctx := { step := LoadCarrierConfigStep.LOAD_CARRIER_CONFIG_STEP_LIST_CONFIGS,
             config_list := some config_list, configs_loaded := configs_loaded,
             config_active_i := -1, token := token, timeout_id := 1,
             list_configs_indication_id := 2, get_config_info_indication_id := 3 },
    sources := [{ id := 1, interval := LOAD_CARRIER_CONFIG_STEP_TIMEOUT_SECS,
                  callback := LoadCarrierConfigTimeout.load_carrier_config_timeout }],
    handlers := [{ id := 2, handler := LoadCarrierConfigSignal.list_configs_indication },
                 { id := 3, handler := LoadCarrierConfigSignal.get_config_info_indication }],
    last_id := 3, requests := requests }

/-- The state of a load that has sent Get-Selected-Config after the last
configuration was described, and awaits the response. -/
def load_carrier_config_awaits_selected_config (priv : Private) (requests : List QmiRequest)
    (config_list : List ConfigInfo) (configs_loaded token : Nat) : LoadCarrierConfigTask :=
  { priv := priv,
    ctx := { step := LoadCarrierConfigStep.LOAD_CARRIER_CONFIG_STEP_QUERY_CURRENT,
             config_list := some config_list, configs_loaded := configs_loaded,
             config_active_i := -1, token := token_next token },
    pending := [LoadCarrierConfigCallback.get_selected_config_ready],
    last_id := 3,
    requests := requests ++
      [qmi_client_pdc_get_selected_config QMI_PDC_CONFIGURATION_TYPE_SOFTWARE token 5] }

/-- Whether one of a series of get-config-info indications carries the
token. -/
def config_info_answered (events : List QmiIndicationPdcGetConfigInfoOutput) (token : Nat) :
    Bool :=
  events.any (fun output => output.answers token)

/-- What holds of a load with `n` listed configurations after a series of
get-config-info indications free of errors: configuration `k` has the token
`k + 1` and has a description exactly when its token was answered, the count of
loaded configurations is the number of configurations with a description, and
the operation awaits indications while the count is below `n` and has sent
Get-Selected-Config once it is `n`. -/
def load_carrier_config_config_info_state (priv : Private) (requests : List QmiRequest)
    (n next : Nat) (events : List QmiIndicationPdcGetConfigInfoOutput)
    (op : LoadCarrierConfigTask) : Prop :=
  ∃ (config_list : List ConfigInfo) (configs_loaded : Nat),
    config_list.length = n ∧
    (∀ k current, config_list[k]? = some current →
      current.token = k + 1 ∧
      current.description.isSome = config_info_answered events (k + 1)) ∧
    configs_loaded = config_list.countP (fun current => current.description.isSome) ∧
    ((configs_loaded < n ∧
        op = load_carrier_config_awaits_config_info priv requests config_list configs_loaded
          next) ∨
      (configs_loaded = n ∧
        op = load_carrier_config_awaits_selected_config priv requests config_list
          configs_loaded next))

/-- A get-config-info indication free of errors for the worked examples:
the configuration of the token is `att`, version 0x05010204, 2000 bytes. -/
def config_info_att (token : Nat) : QmiIndicationPdcGetConfigInfoOutput :=
  { indication_result := Except.ok 0, token := Except.ok token, total_size := Except.ok 2000,
    version := Except.ok 0x05010204, description := Except.ok "att" }

/-- A good list-configs indication for the worked examples, with two
configurations. -/
def list_configs_two : QmiIndicationPdcListConfigsOutput :=
  { indication_result := Except.ok 0,
    configs := Except.ok (some [{ config_type := 1, id := [1] }, { config_type := 1, id := [2] }]) }

/-- The carrier config state that a successful load stores, as the spec
gives it. Either (a) the default configuration is active and the active index
is -1, or (b) the default is not active, the active index is inside the stored
list, the configuration at the index has an identifier reported as active
(`reported`), and no configuration at a lower index has that identifier. -/
def carrier_config_stored (reported : List Nat → Prop) (priv : Private) : Prop :=
  (priv.config_active_default = true ∧ priv.config_active_i = -1) ∨
  (priv.config_active_default = false ∧
    ∃ (config_list : List ConfigInfo) (i : Nat) (config : ConfigInfo),
      priv.config_list = some config_list ∧ priv.config_active_i = (i : Int) ∧
      config_list[i]? = some config ∧ reported config.id ∧
      ∀ j other, j < i → config_list[j]? = some other → other.id ≠ config.id)

/-- The same of the context of a load, before it is stored. -/
def load_carrier_config_selected (reported : List Nat → Prop) (op : LoadCarrierConfigTask) :
    Prop :=
  (op.ctx.config_active_default = true ∧ op.ctx.config_active_i = -1) ∨
  (op.ctx.config_active_default = false ∧
    ∃ (config_list : List ConfigInfo) (i : Nat) (config : ConfigInfo),
      op.ctx.config_list = some config_list ∧ op.ctx.config_active_i = (i : Int) ∧
      config_list[i]? = some config ∧ reported config.id ∧
      ∀ j other, j < i → config_list[j]? = some other → other.id ≠ config.id)

/-- The context of a load that has selected nothing yet: no active index, no
default, and Get-Selected-Config is neither in flight nor awaited before the
step that sends it. -/
def load_carrier_config_unselected (op : LoadCarrierConfigTask) : Prop :=
  op.ctx.config_active_i = -1 ∧ op.ctx.config_active_default = false ∧
  op.ctx.step ≠ LoadCarrierConfigStep.LOAD_CARRIER_CONFIG_STEP_LAST ∧
  (op.ctx.step ≠ LoadCarrierConfigStep.LOAD_CARRIER_CONFIG_STEP_QUERY_CURRENT →
    LoadCarrierConfigCallback.get_selected_config_ready ∉ op.pending ∧
    ∀ h ∈ op.handlers, h.handler ≠ LoadCarrierConfigSignal.get_selected_config_indication)

/-- What holds of a load between two events: once it has returned success
the stored state is as the spec gives it; before that, unless an assertion has
failed, nothing is selected. -/
def load_carrier_config_stored_or_unselected (reported : List Nat → Prop)
    (op : LoadCarrierConfigTask) : Prop :=
  (TaskResult.value () ∈ op.results → carrier_config_stored reported op.priv) ∧
  (TaskResult.value () ∉ op.results → op.aborted = true ∨ load_carrier_config_unselected op)

/-- What holds of a load when `load_carrier_config_step` is called: once it
has returned success the stored state is as the spec gives it; before that,
either the step is the last one and the context has selected as the spec gives
it or nothing, or nothing is selected. -/
def load_carrier_config_before_step (reported : List Nat → Prop)
    (op : LoadCarrierConfigTask) : Prop :=
  op.aborted = false ∧
  (TaskResult.value () ∈ op.results → carrier_config_stored reported op.priv) ∧
  (TaskResult.value () ∉ op.results →
    (op.ctx.step = LoadCarrierConfigStep.LOAD_CARRIER_CONFIG_STEP_LAST ∧
      (load_carrier_config_selected reported op ∨
        (op.ctx.config_active_i = -1 ∧ op.ctx.config_active_default = false))) ∨
    load_carrier_config_unselected op)

/-- The active identifiers that the get-selected-config indications of a
series of events report. -/
def reported_active_id (events : List LoadCarrierConfigEvent) (id : List Nat) : Prop :=
  ∃ output, LoadCarrierConfigEvent.get_selected_config output ∈ events ∧
    output.active_id = some id

/-! ## Location: enable and disable gathering -/

/-- The session id `DEFAULT_LOC_SESSION_ID`. -/
def DEFAULT_LOC_SESSION_ID : Nat := 0x10

/-- Modelled from the spec: the flag `QMI_LOC_EVENT_REGISTRATION_FLAG_NMEA`
of libqmi, which is not under src/. -/
def QMI_LOC_EVENT_REGISTRATION_FLAG_NMEA : Nat := 4

/-- The call `qmi_client_pds_set_gps_service_state (client, input, timeout, ..)`. -/
def qmi_client_pds_set_gps_service_state (state : Bool) (timeout : Nat) : QmiRequest :=
  { message := QmiMessage.pds_set_gps_service_state state, timeout := timeout }

/-- The call `qmi_client_pds_set_auto_tracking_state (client, input, timeout, ..)`. -/
def qmi_client_pds_set_auto_tracking_state (state : Bool) (timeout : Nat) : QmiRequest :=
  { message := QmiMessage.pds_set_auto_tracking_state state, timeout := timeout }

/-- The call `qmi_client_pds_set_event_report (client, input, timeout, ..)`. -/
def qmi_client_pds_set_event_report (nmea_position_reporting : Bool) (timeout : Nat) :
    QmiRequest :=
  { message := QmiMessage.pds_set_event_report nmea_position_reporting, timeout := timeout }

/-- The call `qmi_client_loc_start (client, input, timeout, ..)`. -/
def qmi_client_loc_start (session_id : Nat) (timeout : Nat) : QmiRequest :=
  { message := QmiMessage.loc_start session_id, timeout := timeout }

/-- The call `qmi_client_loc_register_events (client, input, timeout, ..)`. -/
def qmi_client_loc_register_events (event_registration_mask : Nat) (timeout : Nat) :
    QmiRequest :=
  { message := QmiMessage.loc_register_events event_registration_mask, timeout := timeout }

/-- The call `qmi_client_loc_stop (client, input, timeout, ..)`. -/
def qmi_client_loc_stop (session_id : Nat) (timeout : Nat) : QmiRequest :=
  { message := QmiMessage.loc_stop session_id, timeout := timeout }

/-- The parent `MMIfaceModemLocation` that `get_private` stores in
`priv->iface_modem_location_parent`: whether its two enable methods are set. -/
structure MMIfaceModemLocation where
  enable_location_gathering : Bool := true
  enable_location_gathering_finish : Bool := true
  deriving DecidableEq, Repr

/-- The NMEA indication handlers, connected to the signals `event-report`
of the PDS client and `nmea` of the LOC client. -/
inductive LocationSignal where
  | pds_location_event_report_indication_cb
  | loc_location_nmea_indication_cb
  deriving DecidableEq, Repr

/-- The state of the device between two location calls: the private data,
the connected NMEA handlers, the last id given out, the requests sent so far,
and whether an assertion has stopped the process. -/
structure LocationState where
  priv : Private
  handlers : List (GSignalHandler LocationSignal) := []
  last_id : Nat := 0
  requests : List QmiRequest := []
  aborted : Bool := false

/-- The call `g_signal_connect`: the handler and its id, which is never 0. -/
def LocationState.g_signal_connect (st : LocationState) (handler : LocationSignal) :
    LocationState × Nat :=
  ({ st with handlers := st.handlers ++ [{ id := st.last_id + 1, handler := handler }],
             last_id := st.last_id + 1 },
    st.last_id + 1)

/-- The call `g_signal_handler_disconnect`. -/
def LocationState.g_signal_handler_disconnect (st : LocationState) (id : Nat) : LocationState :=
  { st with handlers := st.handlers.filter (fun h => h.id ≠ id) }

/-- A request sent by a location call. -/
def LocationState.qmi_client_request (st : LocationState) (request : QmiRequest) :
    LocationState :=
  { st with requests := st.requests ++ [request] }

/-- What one location call gets back, each call being run to completion:
the result of the enable of the parent interface, the result of the helper
`set_gps_operation_mode`, whose requests decide nothing but this result as it
neither reads nor writes the private data, and the response to each request
that the start and the stop of the GPS engine send. -/
structure LocationResponses where
  parent_enable_location_gathering : TaskResult Unit := TaskResult.value ()
  set_gps_operation_mode : TaskResult Unit := TaskResult.value ()
  pds_set_gps_service_state : QmiResult Unit := QmiResult.ok ()
  pds_set_auto_tracking_state : QmiResult Unit := QmiResult.ok ()
  pds_set_event_report : QmiResult Unit := QmiResult.ok ()
  loc_start : QmiResult Unit := QmiResult.ok ()
  loc_register_events : QmiResult Unit := QmiResult.ok ()
  loc_stop : QmiResult Unit := QmiResult.ok ()

/-- The bitwise complement `~x` of a 32-bit unsigned value. -/
def bitwise_not_32 (x : Nat) : Nat := 2 ^ 32 - 1 - x % 2 ^ 32

/-- The callback `pds_gps_service_state_stop_ready`: the result of the task
of `stop_gps_engine`, `none` where an assertion fails. -/
def pds_gps_service_state_stop_ready (st : LocationState) (res : QmiResult Unit) :
    LocationState × Option (TaskResult Unit) :=
  let stopped (st : LocationState) : LocationState × Option (TaskResult Unit) :=
    let st :=
      if st.priv.pds_client = true then
        let st :=
          if st.priv.pds_location_event_report_indication_id ≠ 0 then
            { st.g_signal_handler_disconnect st.priv.pds_location_event_report_indication_id with
              priv := { st.priv with pds_location_event_report_indication_id := 0 } }
          else st
        { st with priv := { st.priv with pds_client := false } }
      else st
    (st, some (TaskResult.value ()))
  match res with
  | QmiResult.no_output error => (st, some (TaskResult.error error))
  | QmiResult.result_failed error =>
      if ¬ g_error_matches error GErrorDomain.QMI_PROTOCOL_ERROR QMI_PROTOCOL_ERROR_NO_EFFECT
      then (st, some (TaskResult.error error))
      else stopped st
  | QmiResult.ok _ => stopped st

/-- The callback `loc_stop_ready`. -/
def loc_stop_ready (st : LocationState) (res : QmiResult Unit) :
    LocationState × Option (TaskResult Unit) :=
  match res with
  | QmiResult.no_output error => (st, some (TaskResult.error error))
  | QmiResult.result_failed error => (st, some (TaskResult.error error))
  | QmiResult.ok _ =>
      let st :=
        if st.priv.loc_client = true then
          let st :=
            if st.priv.loc_location_nmea_indication_id ≠ 0 then
              { st.g_signal_handler_disconnect st.priv.loc_location_nmea_indication_id with
                priv := { st.priv with loc_location_nmea_indication_id := 0 } }
            else st
          { st with priv := { st.priv with loc_client := false } }
        else st
      (st, some (TaskResult.value ()))

/-- The function `stop_gps_engine`, run to the completion of its task. -/
def stop_gps_engine (st : LocationState) (responses : LocationResponses) :
    LocationState × Option (TaskResult Unit) :=
  if st.priv.pds_client = true then
    pds_gps_service_state_stop_ready
      (st.qmi_client_request (qmi_client_pds_set_gps_service_state false 10))
      responses.pds_set_gps_service_state
  else if st.priv.loc_client = true then
    loc_stop_ready (st.qmi_client_request (qmi_client_loc_stop DEFAULT_LOC_SESSION_ID 10))
      responses.loc_stop
  else
    (st, some (TaskResult.error
      { domain := GErrorDomain.MM_CORE_ERROR, code := MM_CORE_ERROR_FAILED }))

/-- The callback `pds_ser_location_ready`. -/
def pds_ser_location_ready (st : LocationState) (res : QmiResult Unit) :
    LocationState × Option (TaskResult Unit) :=
  match res with
  | QmiResult.no_output error => (st, some (TaskResult.error error))
  | QmiResult.result_failed error => (st, some (TaskResult.error error))
  | QmiResult.ok _ =>
      if ¬ (st.priv.pds_client = false) then ({ st with aborted := true }, none)
      else if ¬ (st.priv.pds_location_event_report_indication_id = 0) then
        ({ st with aborted := true }, none)
      else
        let st := { st with priv := { st.priv with pds_client := true } }
        let r := st.g_signal_connect LocationSignal.pds_location_event_report_indication_cb
        ({ r.1 with priv := { r.1.priv with pds_location_event_report_indication_id := r.2 } },
          some (TaskResult.value ()))

/-- The callback `pds_auto_tracking_state_start_ready`. -/
def pds_auto_tracking_state_start_ready (st : LocationState) (responses : LocationResponses)
    (res : QmiResult Unit) : LocationState × Option (TaskResult Unit) :=
  let tracking (st : LocationState) : LocationState × Option (TaskResult Unit) :=
    pds_ser_location_ready (st.qmi_client_request (qmi_client_pds_set_event_report true 5))
      responses.pds_set_event_report
  match res with
  | QmiResult.no_output error => (st, some (TaskResult.error error))
  | QmiResult.result_failed error =>
      if ¬ g_error_matches error GErrorDomain.QMI_PROTOCOL_ERROR QMI_PROTOCOL_ERROR_NO_EFFECT
      then (st, some (TaskResult.error error))
      else tracking st
  | QmiResult.ok _ => tracking st

/-- The callback `pds_gps_service_state_start_ready`. -/
def pds_gps_service_state_start_ready (st : LocationState) (responses : LocationResponses)
    (res : QmiResult Unit) : LocationState × Option (TaskResult Unit) :=
  let started (st : LocationState) : LocationState × Option (TaskResult Unit) :=
    pds_auto_tracking_state_start_ready
      (st.qmi_client_request (qmi_client_pds_set_auto_tracking_state true 10)) responses
      responses.pds_set_auto_tracking_state
  match res with
  | QmiResult.no_output error => (st, some (TaskResult.error error))
  | QmiResult.result_failed error =>
      if ¬ g_error_matches error GErrorDomain.QMI_PROTOCOL_ERROR QMI_PROTOCOL_ERROR_NO_EFFECT
      then (st, some (TaskResult.error error))
      else started st
  | QmiResult.ok _ => started st

/-- The callback `loc_register_events_ready`. -/
def loc_register_events_ready (st : LocationState) (res : QmiResult Unit) :
    LocationState × Option (TaskResult Unit) :=
  match res with
  | QmiResult.no_output error => (st, some (TaskResult.error error))
  | QmiResult.result_failed error => (st, some (TaskResult.error error))
  | QmiResult.ok _ =>
      if ¬ (st.priv.loc_client = false) then ({ st with aborted := true }, none)
      else if ¬ (st.priv.loc_location_nmea_indication_id = 0) then
        ({ st with aborted := true }, none)
      else
        let st := { st with priv := { st.priv with loc_client := true } }
        let r := st.g_signal_connect LocationSignal.loc_location_nmea_indication_cb
        ({ r.1 with priv := { r.1.priv with loc_location_nmea_indication_id := r.2 } },
          some (TaskResult.value ()))

/-- The callback `loc_start_ready`. -/
def loc_start_ready (st : LocationState) (responses : LocationResponses)
    (res : QmiResult Unit) : LocationState × Option (TaskResult Unit) :=
  match res with
  | QmiResult.no_output error => (st, some (TaskResult.error error))
  | QmiResult.result_failed error => (st, some (TaskResult.error error))
  | QmiResult.ok _ =>
      loc_register_events_ready
        (st.qmi_client_request
          (qmi_client_loc_register_events QMI_LOC_EVENT_REGISTRATION_FLAG_NMEA 10))
        responses.loc_register_events

/-- The function `start_gps_engine`, run to the completion of its task: PDS
if the device has a PDS client, LOC otherwise. -/
def start_gps_engine (self : MMIfaceModem) (st : LocationState)
    (responses : LocationResponses) : LocationState × Option (TaskResult Unit) :=
  match self.peek_client QmiService.QMI_SERVICE_PDS with
  | Except.ok _ =>
      pds_gps_service_state_start_ready
        (st.qmi_client_request (qmi_client_pds_set_gps_service_state true 10)) responses
        responses.pds_set_gps_service_state
  | Except.error _ =>
      match self.peek_client QmiService.QMI_SERVICE_LOC with
      | Except.ok _ =>
          loc_start_ready (st.qmi_client_request (qmi_client_loc_start DEFAULT_LOC_SESSION_ID 10))
            responses responses.loc_start
      | Except.error _ =>
          (st, some (TaskResult.error
            { domain := GErrorDomain.MM_CORE_ERROR, code := MM_CORE_ERROR_FAILED }))

/-- The callback `stop_gps_engine_ready`, on the result of the task of
`stop_gps_engine`. -/
def stop_gps_engine_ready (st : LocationState) (source : Nat)
    (res : Option (TaskResult Unit)) : LocationState × Option (TaskResult Unit) :=
  match res with
  | none => (st, none)
  | some (TaskResult.error error) => (st, some (TaskResult.error error))
  | some (TaskResult.value _) =>
      ({ st with priv := { st.priv with
          enabled_sources := st.priv.enabled_sources &&& bitwise_not_32 source } },
        some (TaskResult.value ()))

/-- The callback `set_gps_operation_mode_standalone_ready`, on the result of
the task of `set_gps_operation_mode`. -/
def set_gps_operation_mode_standalone_ready (st : LocationState) (res : TaskResult Unit) :
    LocationState × Option (TaskResult Unit) :=
  match res with
  | TaskResult.error error => (st, some (TaskResult.error error))
  | TaskResult.value _ =>
      ({ st with priv := { st.priv with
          enabled_sources :=
            st.priv.enabled_sources &&& bitwise_not_32 MM_MODEM_LOCATION_SOURCE_AGPS } },
        some (TaskResult.value ()))

/-- The entry point `mm_shared_qmi_disable_location_gathering`, run to the
completion of its task: the state afterwards and the result, `none` where an
assertion fails. -/
def mm_shared_qmi_disable_location_gathering (st : LocationState) (source : Nat)
    (responses : LocationResponses) : LocationState × Option (TaskResult Unit) :=
  if source &&& (MM_MODEM_LOCATION_SOURCE_GPS_NMEA ||| MM_MODEM_LOCATION_SOURCE_GPS_RAW |||
      MM_MODEM_LOCATION_SOURCE_AGPS) = 0 then
    (st, some (TaskResult.value ()))
  else if ¬ ¬ (st.priv.pds_client = true ∧ st.priv.loc_client = true) then
    ({ st with aborted := true }, none)
  else if source = MM_MODEM_LOCATION_SOURCE_AGPS then
    set_gps_operation_mode_standalone_ready st responses.set_gps_operation_mode
  else
    let tmp := st.priv.enabled_sources &&& bitwise_not_32 source
    if tmp &&& (MM_MODEM_LOCATION_SOURCE_GPS_NMEA ||| MM_MODEM_LOCATION_SOURCE_GPS_RAW) = 0 then
      let r := stop_gps_engine st responses
      stop_gps_engine_ready r.1 source r.2
    else
      ({ st with priv := { st.priv with
          enabled_sources := st.priv.enabled_sources &&& bitwise_not_32 source } },
        some (TaskResult.value ()))

/-- The callback `start_gps_engine_ready`, on the result of the task of
`start_gps_engine`. -/
def start_gps_engine_ready (st : LocationState) (source : Nat)
    (res : Option (TaskResult Unit)) : LocationState × Option (TaskResult Unit) :=
  match res with
  | none => (st, none)
  | some (TaskResult.error error) => (st, some (TaskResult.error error))
  | some (TaskResult.value _) =>
      ({ st with priv := { st.priv with
          enabled_sources := st.priv.enabled_sources ||| source } },
        some (TaskResult.value ()))

/-- The callback `set_gps_operation_mode_assisted_ready`, on the result of
the task of `set_gps_operation_mode`. -/
def set_gps_operation_mode_assisted_ready (st : LocationState) (res : TaskResult Unit) :
    LocationState × Option (TaskResult Unit) :=
  match res with
  | TaskResult.error error => (st, some (TaskResult.error error))
  | TaskResult.value _ =>
      ({ st with priv := { st.priv with
          enabled_sources := st.priv.enabled_sources ||| MM_MODEM_LOCATION_SOURCE_AGPS } },
        some (TaskResult.value ()))

/-- The callback `parent_enable_location_gathering_ready`, on the result of
the enable of the parent interface. -/
def parent_enable_location_gathering_ready (self : MMIfaceModem) (st : LocationState)
    (source : Nat) (responses : LocationResponses) :
    LocationState × Option (TaskResult Unit) :=
  match responses.parent_enable_location_gathering with
  | TaskResult.error error => (st, some (TaskResult.error error))
  | TaskResult.value _ =>
      if source &&& (MM_MODEM_LOCATION_SOURCE_GPS_NMEA ||| MM_MODEM_LOCATION_SOURCE_GPS_RAW |||
          MM_MODEM_LOCATION_SOURCE_AGPS) = 0 then
        (st, some (TaskResult.value ()))
      else if source = MM_MODEM_LOCATION_SOURCE_AGPS then
        set_gps_operation_mode_assisted_ready st responses.set_gps_operation_mode
      else if st.priv.enabled_sources &&&
          (MM_MODEM_LOCATION_SOURCE_GPS_NMEA ||| MM_MODEM_LOCATION_SOURCE_GPS_RAW) = 0 then
        let r := start_gps_engine self st responses
        start_gps_engine_ready r.1 source r.2
      else
        ({ st with priv := { st.priv with
            enabled_sources := st.priv.enabled_sources ||| source } },
          some (TaskResult.value ()))

/-- The entry point `mm_shared_qmi_enable_location_gathering`, run to the
completion of its task; `parent` is `priv->iface_modem_location_parent`. -/
def mm_shared_qmi_enable_location_gathering (self : MMIfaceModem)
    (parent : Option MMIfaceModemLocation) (st : LocationState) (source : Nat)
    (responses : LocationResponses) : LocationState × Option (TaskResult Unit) :=
  match parent with
  | none => ({ st with aborted := true }, none)
  | some iface =>
      if ¬ (iface.enable_location_gathering = true) then ({ st with aborted := true }, none)
      else if ¬ (iface.enable_location_gathering_finish = true) then
        ({ st with aborted := true }, none)
      else parent_enable_location_gathering_ready self st source responses

/-- A location call: enable or disable of one source, with what it gets
back. -/
inductive LocationCall where
  | enable (source : Nat) (responses : LocationResponses)
  | disable (source : Nat) (responses : LocationResponses)

/-- The source of a location call. -/
def LocationCall.source : LocationCall → Nat
  | LocationCall.enable source _ => source
  | LocationCall.disable source _ => source

/-- One location call run to completion; nothing runs after a failed
assertion. -/
def location_call (self : MMIfaceModem) (parent : Option MMIfaceModemLocation)
    (st : LocationState) (call : LocationCall) : LocationState × Option (TaskResult Unit) :=
  if st.aborted then (st, none)
  else
    match call with
    | LocationCall.enable source responses =>
        mm_shared_qmi_enable_location_gathering self parent st source responses
    | LocationCall.disable source responses =>
        mm_shared_qmi_disable_location_gathering st source responses

/-- The device after a series of location calls, each run to completion
before the next starts, from a new device context. -/
def location_run (self : MMIfaceModem) (parent : Option MMIfaceModemLocation)
    (calls : List LocationCall) : LocationState :=
  calls.foldl (fun st call => (location_call self parent st call).1) { priv := {} }

/-- The single location sources. -/
def location_sources : List Nat :=
  [MM_MODEM_LOCATION_SOURCE_3GPP_LAC_CI, MM_MODEM_LOCATION_SOURCE_GPS_RAW,
   MM_MODEM_LOCATION_SOURCE_GPS_NMEA, MM_MODEM_LOCATION_SOURCE_CDMA_BS,
   MM_MODEM_LOCATION_SOURCE_GPS_UNMANAGED, MM_MODEM_LOCATION_SOURCE_AGPS]

/-- Whether a GPS engine client is retained with its NMEA subscription: the
PDS client with a connected `event-report` handler whose id is stored, or the
LOC client with a connected `nmea` handler whose id is stored. -/
def gps_engine_retained (st : LocationState) : Prop :=
  (st.priv.pds_client = true ∧ st.priv.pds_location_event_report_indication_id ≠ 0 ∧
    { id := st.priv.pds_location_event_report_indication_id,
      handler := LocationSignal.pds_location_event_report_indication_cb } ∈ st.handlers) ∨
  (st.priv.loc_client = true ∧ st.priv.loc_location_nmea_indication_id ≠ 0 ∧
    { id := st.priv.loc_location_nmea_indication_id,
      handler := LocationSignal.loc_location_nmea_indication_cb } ∈ st.handlers)

/-- What holds of the device between two location calls: no assertion has
failed, only GPS sources are recorded as enabled, a client is retained, with
its subscription, exactly when GPS-NMEA or GPS-RAW is enabled, never both
clients, and a client that is not retained has no handler id stored. -/
def location_consistent (st : LocationState) : Prop :=
  st.aborted = false ∧
  st.priv.enabled_sources ∈ [0, 2, 4, 6, 32, 34, 36, 38] ∧
  ¬ (st.priv.pds_client = true ∧ st.priv.loc_client = true) ∧
  ((st.priv.pds_client = true ∨ st.priv.loc_client = true) ↔
    st.priv.enabled_sources &&&
      (MM_MODEM_LOCATION_SOURCE_GPS_NMEA ||| MM_MODEM_LOCATION_SOURCE_GPS_RAW) ≠ 0) ∧
  (st.priv.pds_client = true → st.priv.pds_location_event_report_indication_id ≠ 0 ∧
    { id := st.priv.pds_location_event_report_indication_id,
      handler := LocationSignal.pds_location_event_report_indication_cb } ∈ st.handlers) ∧
  (st.priv.pds_client = false → st.priv.pds_location_event_report_indication_id = 0) ∧
  (st.priv.loc_client = true → st.priv.loc_location_nmea_indication_id ≠ 0 ∧
    { id := st.priv.loc_location_nmea_indication_id,
      handler := LocationSignal.loc_location_nmea_indication_cb } ∈ st.handlers) ∧
  (st.priv.loc_client = false → st.priv.loc_location_nmea_indication_id = 0)

/-! # Theorems -/

/-- C1: on a device where both the NAS System-Selection-Preference feature and
the NAS Technology-Preference feature are unsupported (the NAS client being
available and the DMS radio interface list cached), Set-Current-Capabilities
returns the Unsupported error and issues no request, Set-Current-Modes returns
the Unsupported error and issues no request for every allowed and preferred
argument, and Load-Supported-Modes returns the single entry whose allowed mask
is the union of the modes of the DMS radio interface list and whose preferred
mode is NONE. -/
theorem C1_neither_feature_supported (H : Helpers) (self : MMIfaceModem)
    (priv : Private) (radio_interfaces : List Nat)
    (hssp : priv.feature_nas_system_selection_preference = Feature.FEATURE_UNSUPPORTED)
    (htp : priv.feature_nas_technology_preference = Feature.FEATURE_UNSUPPORTED)
    (hnas : self.peek_client QmiService.QMI_SERVICE_NAS = Except.ok ())
    (hdms : priv.supported_radio_interfaces = some radio_interfaces) :
    (∀ capabilities,
      mm_shared_qmi_set_current_capabilities H self priv capabilities =
          Step.returned (TaskResult.error
            { domain := GErrorDomain.MM_CORE_ERROR, code := MM_CORE_ERROR_UNSUPPORTED }) ∧
        (mm_shared_qmi_set_current_capabilities H self priv capabilities).issued = []) ∧
    (∀ allowed preferred,
      mm_shared_qmi_set_current_modes H self priv allowed preferred =
          Step.returned (TaskResult.error
            { domain := GErrorDomain.MM_CORE_ERROR, code := MM_CORE_ERROR_UNSUPPORTED }) ∧
        (mm_shared_qmi_set_current_modes H self priv allowed preferred).issued = []) ∧
    mm_shared_qmi_load_supported_modes H priv =
      some [{ allowed := supported_modes_mask_all H radio_interfaces,
              preferred := MM_MODEM_MODE_NONE }] := by
  refine ⟨fun capabilities => ?_, fun allowed preferred => ?_, ?_⟩
  · simp [mm_shared_qmi_set_current_capabilities, mm_shared_qmi_ensure_client, hnas, hssp, htp,
      set_current_capabilities_step, set_current_capabilities_step_case_first, Step.issued]
  · simp [mm_shared_qmi_set_current_modes, mm_shared_qmi_ensure_client, hnas, hssp, htp,
      Step.issued]
  · simp [mm_shared_qmi_load_supported_modes, hdms, hssp, htp]


/-- Witness of C1 on the 3GPP modem with radio interfaces GSM, UMTS and LTE. -/
theorem C1_neither_feature_supported_witness :
    modem_3gpp.peek_client QmiService.QMI_SERVICE_NAS = Except.ok () ∧
    mm_shared_qmi_set_current_capabilities mm_modem_helpers_qmi modem_3gpp
        { supported_radio_interfaces := some [4, 5, 8],
          feature_nas_system_selection_preference := Feature.FEATURE_UNSUPPORTED,
          feature_nas_technology_preference := Feature.FEATURE_UNSUPPORTED }
        MM_MODEM_CAPABILITY_GSM_UMTS =
      Step.returned (TaskResult.error
        { domain := GErrorDomain.MM_CORE_ERROR, code := MM_CORE_ERROR_UNSUPPORTED }) ∧
    mm_shared_qmi_load_supported_modes mm_modem_helpers_qmi
        { supported_radio_interfaces := some [4, 5, 8],
          feature_nas_system_selection_preference := Feature.FEATURE_UNSUPPORTED,
          feature_nas_technology_preference := Feature.FEATURE_UNSUPPORTED } =
      some [{ allowed := 14, preferred := 0 }] :=
  ⟨rfl,
   ((C1_neither_feature_supported mm_modem_helpers_qmi modem_3gpp
      { supported_radio_interfaces := some [4, 5, 8],
        feature_nas_system_selection_preference := Feature.FEATURE_UNSUPPORTED,
        feature_nas_technology_preference := Feature.FEATURE_UNSUPPORTED } [4, 5, 8]
      rfl rfl rfl rfl).1 MM_MODEM_CAPABILITY_GSM_UMTS).1,
   (C1_neither_feature_supported mm_modem_helpers_qmi modem_3gpp
      { supported_radio_interfaces := some [4, 5, 8],
        feature_nas_system_selection_preference := Feature.FEATURE_UNSUPPORTED,
        feature_nas_technology_preference := Feature.FEATURE_UNSUPPORTED } [4, 5, 8]
      rfl rfl rfl rfl).2.2⟩
/-- With a NAS client and both features probed, the entry point
`mm_shared_qmi_set_current_capabilities` starts the step machine at the first
step. -/
theorem mm_shared_qmi_set_current_capabilities_eq_start (H : Helpers) (self : MMIfaceModem)
    (priv : Private) (capabilities : Nat)
    (hnas : self.peek_client QmiService.QMI_SERVICE_NAS = Except.ok ())
    (htp : priv.feature_nas_technology_preference ≠ Feature.FEATURE_UNKNOWN)
    (hssp : priv.feature_nas_system_selection_preference ≠ Feature.FEATURE_UNKNOWN) :
    mm_shared_qmi_set_current_capabilities H self priv capabilities =
      set_current_capabilities_start H self priv capabilities := by
  simp [mm_shared_qmi_set_current_capabilities, mm_shared_qmi_ensure_client, hnas, htp, hssp,
    set_current_capabilities_start]

/-- On a device with System-Selection-Preference supported, the step machine
started at the first step issues Set-System-Selection-Preference with the
mapped mode preference and permanent duration (when the mapping is non-zero). -/
theorem set_current_capabilities_start_ssp (H : Helpers) (self : MMIfaceModem)
    (priv : Private) (capabilities : Nat)
    (hssp : priv.feature_nas_system_selection_preference = Feature.FEATURE_SUPPORTED)
    (hpref : H.mm_modem_capability_to_qmi_rat_mode_preference capabilities ≠ 0) :
    set_current_capabilities_start H self priv capabilities =
      Step.pending
        (qmi_client_nas_set_system_selection_preference
          { mode_preference := some (H.mm_modem_capability_to_qmi_rat_mode_preference capabilities),
            change_duration := some QMI_NAS_CHANGE_DURATION_PERMANENT } 5)
        { callback := SetCurrentCapabilitiesCallback.set_current_capabilities_set_system_selection_preference_ready,
          ctx := { capabilities := capabilities,
                   step := SetCurrentCapabilitiesStep.SET_CURRENT_CAPABILITIES_STEP_NAS_SYSTEM_SELECTION_PREFERENCE } } := by
  simp [set_current_capabilities_start, set_current_capabilities_step,
    set_current_capabilities_step_case_first,
    set_current_capabilities_step_case_nas_system_selection_preference,
    set_current_capabilities_system_selection_preference, hssp, hpref,
    SetCurrentCapabilitiesStep.succ]

/-- C2: in the Set-Current-Capabilities step machine, on a device where
System-Selection-Preference is supported and for a capability mask that maps
to a non-zero RAT mode preference: the machine issues
Set-System-Selection-Preference with the mapped mode preference and permanent
change duration; whatever the responses, the requests issued hold exactly one
Set-System-Selection-Preference and no Set-Technology-Preference (whatever the
Technology-Preference feature); after a successful response the machine
continues at the reset step; after a failed response (no output, or a failed
result) the task returns that error and nothing else was issued. -/
theorem C2_ssp_path (H : Helpers) (self : MMIfaceModem)
    (priv : Private) (capabilities : Nat)
    (hssp : priv.feature_nas_system_selection_preference = Feature.FEATURE_SUPPORTED)
    (hpref : H.mm_modem_capability_to_qmi_rat_mode_preference capabilities ≠ 0) :
    set_current_capabilities_start H self priv capabilities =
      Step.pending
        (qmi_client_nas_set_system_selection_preference
          { mode_preference := some (H.mm_modem_capability_to_qmi_rat_mode_preference capabilities),
            change_duration := some QMI_NAS_CHANGE_DURATION_PERMANENT } 5)
        { callback := SetCurrentCapabilitiesCallback.set_current_capabilities_set_system_selection_preference_ready,
          ctx := { capabilities := capabilities,
                   step := SetCurrentCapabilitiesStep.SET_CURRENT_CAPABILITIES_STEP_NAS_SYSTEM_SELECTION_PREFERENCE } } ∧
    (∀ responses : List (QmiResult Unit),
      (set_current_capabilities_run H self priv capabilities responses).1.filter
          QmiRequest.is_set_system_selection_preference =
        [qmi_client_nas_set_system_selection_preference
          { mode_preference := some (H.mm_modem_capability_to_qmi_rat_mode_preference capabilities),
            change_duration := some QMI_NAS_CHANGE_DURATION_PERMANENT } 5] ∧
      (set_current_capabilities_run H self priv capabilities responses).1.filter
          QmiRequest.is_set_technology_preference = []) ∧
    (∀ rest : List (QmiResult Unit),
      set_current_capabilities_run H self priv capabilities (QmiResult.ok () :: rest) =
        ((qmi_client_nas_set_system_selection_preference
          { mode_preference := some (H.mm_modem_capability_to_qmi_rat_mode_preference capabilities),
            change_duration := some QMI_NAS_CHANGE_DURATION_PERMANENT } 5) ::
          (Step.run (set_current_capabilities_deliver H self priv)
            (set_current_capabilities_step H self priv
              { capabilities := capabilities,
                step := SetCurrentCapabilitiesStep.SET_CURRENT_CAPABILITIES_STEP_RESET }) rest).1,
         (Step.run (set_current_capabilities_deliver H self priv)
            (set_current_capabilities_step H self priv
              { capabilities := capabilities,
                step := SetCurrentCapabilitiesStep.SET_CURRENT_CAPABILITIES_STEP_RESET }) rest).2)) ∧
    (∀ (error : GError) (rest : List (QmiResult Unit)),
      set_current_capabilities_run H self priv capabilities (QmiResult.no_output error :: rest) =
        ([qmi_client_nas_set_system_selection_preference
          { mode_preference := some (H.mm_modem_capability_to_qmi_rat_mode_preference capabilities),
            change_duration := some QMI_NAS_CHANGE_DURATION_PERMANENT } 5],
         Step.returned (TaskResult.error error)) ∧
      set_current_capabilities_run H self priv capabilities (QmiResult.result_failed error :: rest) =
        ([qmi_client_nas_set_system_selection_preference
          { mode_preference := some (H.mm_modem_capability_to_qmi_rat_mode_preference capabilities),
            change_duration := some QMI_NAS_CHANGE_DURATION_PERMANENT } 5],
         Step.returned (TaskResult.error error))) := by
  have hstart := set_current_capabilities_start_ssp H self priv capabilities hssp hpref
  refine ⟨hstart, fun responses => ?_, fun rest => ?_, fun error rest => ?_⟩
  · rw [set_current_capabilities_run, hstart]
    rcases responses with _ | ⟨r1, _ | ⟨r2, _ | ⟨r3, rest⟩⟩⟩ <;>
      (try rcases r1 with e1 | e1 | o1) <;> (try rcases r2 with e2 | e2 | o2) <;>
      (try rcases r3 with e3 | e3 | o3) <;>
      rcases hd : self.peek_client QmiService.QMI_SERVICE_DMS with ed | od <;>
      simp [Step.run, set_current_capabilities_deliver,
        set_current_capabilities_set_system_selection_preference_ready,
        set_current_capabilities_step, set_current_capabilities_step_case_reset,
        set_current_capabilities_step_case_last, set_current_capabilities_reset_ready,
        mm_shared_qmi_reset, mm_shared_qmi_ensure_client, hd, reset_deliver,
        reset_set_operating_mode_offline_ready, reset_set_operating_mode_reset_ready,
        QmiRequest.is_set_system_selection_preference, QmiRequest.is_set_technology_preference,
        qmi_client_nas_set_system_selection_preference, qmi_client_dms_set_operating_mode,
        SetCurrentCapabilitiesStep.succ]
  · simp [set_current_capabilities_run, hstart, Step.run, set_current_capabilities_deliver,
        set_current_capabilities_set_system_selection_preference_ready]
  · simp [set_current_capabilities_run, hstart, Step.run, set_current_capabilities_deliver,
        set_current_capabilities_set_system_selection_preference_ready]
/-- Witness of C2: GSM/UMTS requested on the 3GPP modem, the request timing
out. -/
theorem C2_ssp_path_witness :
    mm_modem_helpers_qmi.mm_modem_capability_to_qmi_rat_mode_preference
        MM_MODEM_CAPABILITY_GSM_UMTS ≠ 0 ∧
    set_current_capabilities_run mm_modem_helpers_qmi modem_3gpp
        { feature_nas_system_selection_preference := Feature.FEATURE_SUPPORTED,
          feature_nas_technology_preference := Feature.FEATURE_SUPPORTED }
        MM_MODEM_CAPABILITY_GSM_UMTS [QmiResult.no_output qmi_core_error_timeout] =
      ([qmi_client_nas_set_system_selection_preference
          { mode_preference := some 12, change_duration := some 1 } 5],
       Step.returned (TaskResult.error qmi_core_error_timeout)) :=
  ⟨by decide,
   ((C2_ssp_path mm_modem_helpers_qmi modem_3gpp
      { feature_nas_system_selection_preference := Feature.FEATURE_SUPPORTED,
        feature_nas_technology_preference := Feature.FEATURE_SUPPORTED }
      MM_MODEM_CAPABILITY_GSM_UMTS rfl (by decide)).2.2.2 qmi_core_error_timeout []).1⟩

/-- On a device with System-Selection-Preference not supported and
Technology-Preference supported, the step machine started at the first step
issues Set-Technology-Preference with the mapped preference and permanent
duration (when the mapping is non-zero). -/
theorem set_current_capabilities_start_tp (H : Helpers) (self : MMIfaceModem)
    (priv : Private) (capabilities : Nat)
    (hssp : priv.feature_nas_system_selection_preference ≠ Feature.FEATURE_SUPPORTED)
    (htp : priv.feature_nas_technology_preference = Feature.FEATURE_SUPPORTED)
    (hpref : H.mm_modem_capability_to_qmi_radio_technology_preference capabilities ≠ 0) :
    set_current_capabilities_start H self priv capabilities =
      Step.pending
        (qmi_client_nas_set_technology_preference
          (H.mm_modem_capability_to_qmi_radio_technology_preference capabilities)
          QMI_NAS_PREFERENCE_DURATION_PERMANENT 5)
        { callback := SetCurrentCapabilitiesCallback.set_current_capabilities_set_technology_preference_ready,
          ctx := { capabilities := capabilities,
                   step := SetCurrentCapabilitiesStep.SET_CURRENT_CAPABILITIES_STEP_NAS_TECHNOLOGY_PREFERENCE } } := by
  simp [set_current_capabilities_start, set_current_capabilities_step,
    set_current_capabilities_step_case_first,
    set_current_capabilities_step_case_nas_system_selection_preference,
    set_current_capabilities_step_case_nas_technology_preference,
    set_current_capabilities_technology_preference, hssp, htp, hpref,
    SetCurrentCapabilitiesStep.succ]

/-- C3: in Set-Current-Capabilities on a device where System-Selection-Preference
is not supported and Technology-Preference is supported (the capability mask
mapping to a non-zero technology preference): when the
Set-Technology-Preference response is the protocol error no-effect the task
returns success and no Operating-Mode request is issued; after a successful
response the machine continues at the reset step; for every other failure the
task returns that error and no Operating-Mode request is issued; and with a DMS
client, three successful responses drive Set-Technology-Preference, then
Operating-Mode OFFLINE, then Operating-Mode RESET, and the task returns
success. -/
theorem C3_tp_path (H : Helpers) (self : MMIfaceModem)
    (priv : Private) (capabilities : Nat)
    (hssp : priv.feature_nas_system_selection_preference ≠ Feature.FEATURE_SUPPORTED)
    (htp : priv.feature_nas_technology_preference = Feature.FEATURE_SUPPORTED)
    (hpref : H.mm_modem_capability_to_qmi_radio_technology_preference capabilities ≠ 0) :
    (∀ (error : GError) (rest : List (QmiResult Unit)),
      g_error_matches error GErrorDomain.QMI_PROTOCOL_ERROR QMI_PROTOCOL_ERROR_NO_EFFECT = true →
      set_current_capabilities_run H self priv capabilities (QmiResult.result_failed error :: rest) =
        ([qmi_client_nas_set_technology_preference
            (H.mm_modem_capability_to_qmi_radio_technology_preference capabilities)
            QMI_NAS_PREFERENCE_DURATION_PERMANENT 5],
         Step.returned (TaskResult.value ())) ∧
      set_current_capabilities_run H self priv capabilities (QmiResult.no_output error :: rest) =
        ([qmi_client_nas_set_technology_preference
            (H.mm_modem_capability_to_qmi_radio_technology_preference capabilities)
            QMI_NAS_PREFERENCE_DURATION_PERMANENT 5],
         Step.returned (TaskResult.value ()))) ∧
    (∀ rest : List (QmiResult Unit),
      set_current_capabilities_run H self priv capabilities (QmiResult.ok () :: rest) =
        ((qmi_client_nas_set_technology_preference
            (H.mm_modem_capability_to_qmi_radio_technology_preference capabilities)
            QMI_NAS_PREFERENCE_DURATION_PERMANENT 5) ::
          (Step.run (set_current_capabilities_deliver H self priv)
            (set_current_capabilities_step H self priv
              { capabilities := capabilities,
                step := SetCurrentCapabilitiesStep.SET_CURRENT_CAPABILITIES_STEP_RESET }) rest).1,
         (Step.run (set_current_capabilities_deliver H self priv)
            (set_current_capabilities_step H self priv
              { capabilities := capabilities,
                step := SetCurrentCapabilitiesStep.SET_CURRENT_CAPABILITIES_STEP_RESET }) rest).2)) ∧
    (∀ (error : GError) (rest : List (QmiResult Unit)),
      g_error_matches error GErrorDomain.QMI_PROTOCOL_ERROR QMI_PROTOCOL_ERROR_NO_EFFECT = false →
      set_current_capabilities_run H self priv capabilities (QmiResult.result_failed error :: rest) =
        ([qmi_client_nas_set_technology_preference
            (H.mm_modem_capability_to_qmi_radio_technology_preference capabilities)
            QMI_NAS_PREFERENCE_DURATION_PERMANENT 5],
         Step.returned (TaskResult.error error)) ∧
      set_current_capabilities_run H self priv capabilities (QmiResult.no_output error :: rest) =
        ([qmi_client_nas_set_technology_preference
            (H.mm_modem_capability_to_qmi_radio_technology_preference capabilities)
            QMI_NAS_PREFERENCE_DURATION_PERMANENT 5],
         Step.returned (TaskResult.error error))) ∧
    (self.peek_client QmiService.QMI_SERVICE_DMS = Except.ok () →
      set_current_capabilities_run H self priv capabilities
          [QmiResult.ok (), QmiResult.ok (), QmiResult.ok ()] =
        ([qmi_client_nas_set_technology_preference
            (H.mm_modem_capability_to_qmi_radio_technology_preference capabilities)
            QMI_NAS_PREFERENCE_DURATION_PERMANENT 5,
          qmi_client_dms_set_operating_mode QMI_DMS_OPERATING_MODE_OFFLINE 20,
          qmi_client_dms_set_operating_mode QMI_DMS_OPERATING_MODE_RESET 20],
         Step.returned (TaskResult.value ()))) := by
  have hstart := set_current_capabilities_start_tp H self priv capabilities hssp htp hpref
  refine ⟨fun error rest hmatch => ?_, fun rest => ?_, fun error rest hmatch => ?_, fun hd => ?_⟩
  · simp [set_current_capabilities_run, hstart, Step.run, set_current_capabilities_deliver,
      set_current_capabilities_set_technology_preference_ready, hmatch,
      set_current_capabilities_step, set_current_capabilities_step_case_last]
  · simp [set_current_capabilities_run, hstart, Step.run, set_current_capabilities_deliver,
      set_current_capabilities_set_technology_preference_ready]
  · simp [set_current_capabilities_run, hstart, Step.run, set_current_capabilities_deliver,
      set_current_capabilities_set_technology_preference_ready, hmatch]
  · simp [set_current_capabilities_run, hstart, Step.run, set_current_capabilities_deliver,
      set_current_capabilities_set_technology_preference_ready,
      set_current_capabilities_step, set_current_capabilities_step_case_reset,
      set_current_capabilities_step_case_last, set_current_capabilities_reset_ready,
      mm_shared_qmi_reset, mm_shared_qmi_ensure_client, hd, reset_deliver,
      reset_set_operating_mode_offline_ready, reset_set_operating_mode_reset_ready,
      SetCurrentCapabilitiesStep.succ]

/-- Witness of C3: the spec's scenario 1, CDMA/EVDO requested on a
Technology-Preference-only modem. -/
theorem C3_tp_path_witness :
    mm_modem_helpers_qmi.mm_modem_capability_to_qmi_radio_technology_preference
        MM_MODEM_CAPABILITY_CDMA_EVDO ≠ 0 ∧
    set_current_capabilities_run mm_modem_helpers_qmi modem_3gpp
        { feature_nas_system_selection_preference := Feature.FEATURE_UNSUPPORTED,
          feature_nas_technology_preference := Feature.FEATURE_SUPPORTED }
        MM_MODEM_CAPABILITY_CDMA_EVDO [QmiResult.ok (), QmiResult.ok (), QmiResult.ok ()] =
      ([qmi_client_nas_set_technology_preference 1 0 5,
        qmi_client_dms_set_operating_mode QMI_DMS_OPERATING_MODE_OFFLINE 20,
        qmi_client_dms_set_operating_mode QMI_DMS_OPERATING_MODE_RESET 20],
       Step.returned (TaskResult.value ())) ∧
    set_current_capabilities_run mm_modem_helpers_qmi modem_3gpp
        { feature_nas_system_selection_preference := Feature.FEATURE_UNSUPPORTED,
          feature_nas_technology_preference := Feature.FEATURE_SUPPORTED }
        MM_MODEM_CAPABILITY_CDMA_EVDO
        [QmiResult.result_failed
          { domain := GErrorDomain.QMI_PROTOCOL_ERROR, code := QMI_PROTOCOL_ERROR_NO_EFFECT }] =
      ([qmi_client_nas_set_technology_preference 1 0 5],
       Step.returned (TaskResult.value ())) :=
  ⟨by decide,
   (C3_tp_path mm_modem_helpers_qmi modem_3gpp
      { feature_nas_system_selection_preference := Feature.FEATURE_UNSUPPORTED,
        feature_nas_technology_preference := Feature.FEATURE_SUPPORTED }
      MM_MODEM_CAPABILITY_CDMA_EVDO (by decide) rfl (by decide)).2.2.2 rfl,
   ((C3_tp_path mm_modem_helpers_qmi modem_3gpp
      { feature_nas_system_selection_preference := Feature.FEATURE_UNSUPPORTED,
        feature_nas_technology_preference := Feature.FEATURE_SUPPORTED }
      MM_MODEM_CAPABILITY_CDMA_EVDO (by decide) rfl (by decide)).1
      { domain := GErrorDomain.QMI_PROTOCOL_ERROR, code := QMI_PROTOCOL_ERROR_NO_EFFECT } []
      rfl).1⟩

/-- Intersecting twice with the same mask is intersecting once. -/
theorem land_land_self (a b : Nat) : (a &&& b) &&& b = a &&& b := by
  rw [Nat.land_assoc, Nat.and_self]

/-- The capabilities merged from a context lie within its DMS mask. -/
theorem from_context_subset (H : Helpers) (ctx : MMQmiCapabilitiesContext) :
    mm_modem_capability_from_qmi_capabilities_context H ctx &&& ctx.dms_capabilities =
      mm_modem_capability_from_qmi_capabilities_context H ctx := by
  unfold mm_modem_capability_from_qmi_capabilities_context
  split_ifs <;> simp [land_land_self]

/-- C4 (amended): whenever Load-Current-Capabilities completes successfully,
whatever the responses to its three requests, the DMS response was good and
its radio interface list (which may be empty) is the cached
`supported_radio_interfaces`, neither NAS feature tri-state is unknown, and
the reported capability mask, which is also the stored current capabilities,
is a subset of the mask derived from the DMS radio interface list. -/
theorem C4_load_current_capabilities_success (H : Helpers) (self : MMIfaceModem) (priv : Private)
    (rs : LoadCurrentCapabilitiesResponses) (capabilities : Nat)
    (hdone : (load_current_capabilities_run H self priv rs).2.2 =
      Step.returned (TaskResult.value capabilities)) :
    (∃ radio_interfaces : List Nat,
      rs.get_capabilities = QmiResult.ok { radio_interface_list := radio_interfaces } ∧
      (load_current_capabilities_run H self priv rs).1.supported_radio_interfaces =
        some radio_interfaces ∧
      capabilities &&& supported_capabilities_mask H radio_interfaces = capabilities) ∧
    (load_current_capabilities_run H self priv rs).1.feature_nas_system_selection_preference ≠
      Feature.FEATURE_UNKNOWN ∧
    (load_current_capabilities_run H self priv rs).1.feature_nas_technology_preference ≠
      Feature.FEATURE_UNKNOWN ∧
    (load_current_capabilities_run H self priv rs).1.current_capabilities = capabilities := by
  obtain ⟨r1, r2, r3⟩ := rs
  unfold load_current_capabilities_run mm_shared_qmi_load_current_capabilities at *
  rcases hn : mm_shared_qmi_ensure_client self QmiService.QMI_SERVICE_NAS with en | okn
  · simp [hn, load_current_capabilities_drive, Step.issued] at hdone
  rcases hd : mm_shared_qmi_ensure_client self QmiService.QMI_SERVICE_DMS with ed | okd
  · simp [hn, hd, load_current_capabilities_drive, Step.issued] at hdone
  by_cases hu : priv.feature_nas_technology_preference = Feature.FEATURE_UNKNOWN ∧
      priv.feature_nas_system_selection_preference = Feature.FEATURE_UNKNOWN
  swap
  · simp [hn, hd, hu, load_current_capabilities_drive, Step.issued] at hdone
  rcases hs : priv.supported_radio_interfaces with _ | l0 <;>
  rcases r1 with e1 | e1 | o1 <;> rcases r2 with e2 | e2 | o2 <;> rcases r3 with e3 | e3 | l <;>
    simp [hn, hd, hu, hs, load_current_capabilities_drive, Step.issued,
      load_current_capabilities_deliver, load_current_capabilities_step,
      load_current_capabilities_get_system_selection_preference_ready,
      load_current_capabilities_get_technology_preference_ready,
      load_current_capabilities_get_capabilities_ready,
      LoadCurrentCapabilitiesStep.succ] at hdone ⊢ <;>
    (subst hdone; exact ⟨⟨_, rfl, rfl, from_context_subset H _⟩, rfl⟩)

/-- C4 (counterexample): with a good DMS response that lists no radio interface,
Load-Current-Capabilities completes successfully and the cached
`supported_radio_interfaces` list is empty. -/
theorem C4_empty_radio_interface_list :
    (load_current_capabilities_run mm_modem_helpers_qmi modem_3gpp {}
        { get_system_selection_preference := QmiResult.no_output qmi_core_error_timeout,
          get_technology_preference := QmiResult.no_output qmi_core_error_timeout,
          get_capabilities := QmiResult.ok { radio_interface_list := [] } }).2.2 =
      Step.returned (TaskResult.value MM_MODEM_CAPABILITY_NONE) ∧
    (load_current_capabilities_run mm_modem_helpers_qmi modem_3gpp {}
        { get_system_selection_preference := QmiResult.no_output qmi_core_error_timeout,
          get_technology_preference := QmiResult.no_output qmi_core_error_timeout,
          get_capabilities := QmiResult.ok { radio_interface_list := [] } }).1.supported_radio_interfaces =
      some [] := by
  decide

/-- Witness of C4: System-Selection-Preference reports GSM+UMTS on a modem whose
DMS list is GSM, UMTS, LTE. -/
theorem C4_load_current_capabilities_success_witness :
    (load_current_capabilities_run mm_modem_helpers_qmi modem_3gpp {}
        { get_system_selection_preference := QmiResult.ok { mode_preference := some 12 },
          get_technology_preference := QmiResult.no_output qmi_core_error_timeout,
          get_capabilities := QmiResult.ok { radio_interface_list := [4, 5, 8] } }).2.2 =
      Step.returned (TaskResult.value MM_MODEM_CAPABILITY_GSM_UMTS) ∧
    (load_current_capabilities_run mm_modem_helpers_qmi modem_3gpp {}
        { get_system_selection_preference := QmiResult.ok { mode_preference := some 12 },
          get_technology_preference := QmiResult.no_output qmi_core_error_timeout,
          get_capabilities := QmiResult.ok { radio_interface_list := [4, 5, 8] } }).1.current_capabilities =
      MM_MODEM_CAPABILITY_GSM_UMTS :=
  ⟨by decide,
   (C4_load_current_capabilities_success mm_modem_helpers_qmi modem_3gpp {}
      { get_system_selection_preference := QmiResult.ok { mode_preference := some 12 },
        get_technology_preference := QmiResult.no_output qmi_core_error_timeout,
        get_capabilities := QmiResult.ok { radio_interface_list := [4, 5, 8] } }
      MM_MODEM_CAPABILITY_GSM_UMTS (by decide)).2.2.2⟩

/-- The two probe callbacks of Load-Current-Capabilities, at the step where
each is registered: the feature they set and the request that follows. -/
theorem load_current_capabilities_probes_ready (H : Helpers) (priv : Private) (ctx : LoadCurrentCapabilitiesContext) :
    (∀ error : GError,
      load_current_capabilities_get_system_selection_preference_ready H priv
          { ctx with step := LoadCurrentCapabilitiesStep.LOAD_CURRENT_CAPABILITIES_STEP_NAS_SYSTEM_SELECTION_PREFERENCE }
          (QmiResult.no_output error) =
        ({ priv with feature_nas_system_selection_preference := Feature.FEATURE_UNSUPPORTED },
         Step.pending (qmi_client_nas_get_technology_preference 5)
           { callback := LoadCurrentCapabilitiesCallback.load_current_capabilities_get_technology_preference_ready,
             ctx := { ctx with step := LoadCurrentCapabilitiesStep.LOAD_CURRENT_CAPABILITIES_STEP_NAS_TECHNOLOGY_PREFERENCE } })) ∧
    (∀ error : GError,
      load_current_capabilities_get_system_selection_preference_ready H priv
          { ctx with step := LoadCurrentCapabilitiesStep.LOAD_CURRENT_CAPABILITIES_STEP_NAS_SYSTEM_SELECTION_PREFERENCE }
          (QmiResult.result_failed error) =
        ({ priv with feature_nas_system_selection_preference := Feature.FEATURE_SUPPORTED },
         Step.pending (qmi_client_nas_get_technology_preference 5)
           { callback := LoadCurrentCapabilitiesCallback.load_current_capabilities_get_technology_preference_ready,
             ctx := { ctx with step := LoadCurrentCapabilitiesStep.LOAD_CURRENT_CAPABILITIES_STEP_NAS_TECHNOLOGY_PREFERENCE } })) ∧
    (∀ output : QmiMessageNasGetSystemSelectionPreferenceOutput,
      load_current_capabilities_get_system_selection_preference_ready H priv
          { ctx with step := LoadCurrentCapabilitiesStep.LOAD_CURRENT_CAPABILITIES_STEP_NAS_SYSTEM_SELECTION_PREFERENCE }
          (QmiResult.ok output) =
        ({ priv with feature_nas_system_selection_preference := Feature.FEATURE_SUPPORTED },
         Step.pending (qmi_client_nas_get_technology_preference 5)
           { callback := LoadCurrentCapabilitiesCallback.load_current_capabilities_get_technology_preference_ready,
             ctx := { step := LoadCurrentCapabilitiesStep.LOAD_CURRENT_CAPABILITIES_STEP_NAS_TECHNOLOGY_PREFERENCE,
                      capabilities_context := { ctx.capabilities_context with
                        nas_ssp_mode_preference_mask :=
                          output.mode_preference.getD
                            ctx.capabilities_context.nas_ssp_mode_preference_mask } } })) ∧
    (∀ error : GError,
      load_current_capabilities_get_technology_preference_ready H priv
          { ctx with step := LoadCurrentCapabilitiesStep.LOAD_CURRENT_CAPABILITIES_STEP_NAS_TECHNOLOGY_PREFERENCE }
          (QmiResult.no_output error) =
        ({ priv with feature_nas_technology_preference := Feature.FEATURE_UNSUPPORTED },
         Step.pending (qmi_client_dms_get_capabilities 5)
           { callback := LoadCurrentCapabilitiesCallback.load_current_capabilities_get_capabilities_ready,
             ctx := { ctx with step := LoadCurrentCapabilitiesStep.LOAD_CURRENT_CAPABILITIES_STEP_DMS_GET_CAPABILITIES } })) ∧
    (∀ error : GError,
      load_current_capabilities_get_technology_preference_ready H priv
          { ctx with step := LoadCurrentCapabilitiesStep.LOAD_CURRENT_CAPABILITIES_STEP_NAS_TECHNOLOGY_PREFERENCE }
          (QmiResult.result_failed error) =
        ({ priv with feature_nas_technology_preference := Feature.FEATURE_SUPPORTED },
         Step.pending (qmi_client_dms_get_capabilities 5)
           { callback := LoadCurrentCapabilitiesCallback.load_current_capabilities_get_capabilities_ready,
             ctx := { ctx with step := LoadCurrentCapabilitiesStep.LOAD_CURRENT_CAPABILITIES_STEP_DMS_GET_CAPABILITIES } })) ∧
    (∀ output : QmiMessageNasGetTechnologyPreferenceOutput,
      load_current_capabilities_get_technology_preference_ready H priv
          { ctx with step := LoadCurrentCapabilitiesStep.LOAD_CURRENT_CAPABILITIES_STEP_NAS_TECHNOLOGY_PREFERENCE }
          (QmiResult.ok output) =
        ({ priv with feature_nas_technology_preference := Feature.FEATURE_SUPPORTED },
         Step.pending (qmi_client_dms_get_capabilities 5)
           { callback := LoadCurrentCapabilitiesCallback.load_current_capabilities_get_capabilities_ready,
             ctx := { step := LoadCurrentCapabilitiesStep.LOAD_CURRENT_CAPABILITIES_STEP_DMS_GET_CAPABILITIES,
                      capabilities_context := { ctx.capabilities_context with
                        nas_tp_mask := output.active } } })) := by
  refine ⟨?_, ?_, ?_, ?_, ?_, ?_⟩ <;> intro x <;>
    simp [load_current_capabilities_get_system_selection_preference_ready,
      load_current_capabilities_get_technology_preference_ready,
      load_current_capabilities_step, LoadCurrentCapabilitiesStep.succ]

/-- Load-Current-Capabilities on a fresh device with both clients: the three
requests are always issued, the features follow the probe responses, and the
task only fails with the error of the DMS response. -/
theorem load_current_capabilities_run_probes (H : Helpers) (self : MMIfaceModem) (priv : Private)
    (rs : LoadCurrentCapabilitiesResponses)
    (hnas : self.peek_client QmiService.QMI_SERVICE_NAS = Except.ok ())
    (hdms : self.peek_client QmiService.QMI_SERVICE_DMS = Except.ok ())
    (hssp : priv.feature_nas_system_selection_preference = Feature.FEATURE_UNKNOWN)
    (htp : priv.feature_nas_technology_preference = Feature.FEATURE_UNKNOWN) :
    (load_current_capabilities_run H self priv rs).2.1 =
      [qmi_client_nas_get_system_selection_preference 5,
       qmi_client_nas_get_technology_preference 5,
       qmi_client_dms_get_capabilities 5] ∧
    (load_current_capabilities_run H self priv rs).1.feature_nas_system_selection_preference =
      (match rs.get_system_selection_preference with
       | QmiResult.no_output _ => Feature.FEATURE_UNSUPPORTED
       | _ => Feature.FEATURE_SUPPORTED) ∧
    (load_current_capabilities_run H self priv rs).1.feature_nas_technology_preference =
      (match rs.get_technology_preference with
       | QmiResult.no_output _ => Feature.FEATURE_UNSUPPORTED
       | _ => Feature.FEATURE_SUPPORTED) ∧
    (∀ error : GError,
      (load_current_capabilities_run H self priv rs).2.2 = Step.returned (TaskResult.error error) →
      rs.get_capabilities = QmiResult.no_output error ∨
      rs.get_capabilities = QmiResult.result_failed error) := by
  obtain ⟨r1, r2, r3⟩ := rs
  rcases hs : priv.supported_radio_interfaces with _ | l0 <;>
  rcases r1 with e1 | e1 | o1 <;> rcases r2 with e2 | e2 | o2 <;> rcases r3 with e3 | e3 | l <;>
    simp [load_current_capabilities_run, mm_shared_qmi_load_current_capabilities,
      mm_shared_qmi_ensure_client, hnas, hdms, hssp, htp, hs,
      load_current_capabilities_drive, Step.issued,
      load_current_capabilities_deliver, load_current_capabilities_step,
      load_current_capabilities_get_system_selection_preference_ready,
      load_current_capabilities_get_technology_preference_ready,
      load_current_capabilities_get_capabilities_ready,
      LoadCurrentCapabilitiesStep.succ]

/-- C5: for each of the two NAS probes of Load-Current-Capabilities
(System-Selection-Preference and Technology-Preference), a transport-level
failure of the get request (no output) sets the feature to unsupported, a
response whose result is a protocol error or success sets it to supported, and
in all three cases the load goes on to the next request; so on a fresh device
with both clients the three requests are always issued, the features follow
the probe responses, and the load only fails with the error of the DMS
response. -/
theorem C5_probe_outcomes (H : Helpers) (self : MMIfaceModem) (priv : Private)
    (ctx : LoadCurrentCapabilitiesContext) (rs : LoadCurrentCapabilitiesResponses) :
    ((∀ error : GError,
      load_current_capabilities_get_system_selection_preference_ready H priv
          { ctx with step := LoadCurrentCapabilitiesStep.LOAD_CURRENT_CAPABILITIES_STEP_NAS_SYSTEM_SELECTION_PREFERENCE }
          (QmiResult.no_output error) =
        ({ priv with feature_nas_system_selection_preference := Feature.FEATURE_UNSUPPORTED },
         Step.pending (qmi_client_nas_get_technology_preference 5)
           { callback := LoadCurrentCapabilitiesCallback.load_current_capabilities_get_technology_preference_ready,
             ctx := { ctx with step := LoadCurrentCapabilitiesStep.LOAD_CURRENT_CAPABILITIES_STEP_NAS_TECHNOLOGY_PREFERENCE } })) ∧
    (∀ error : GError,
      load_current_capabilities_get_system_selection_preference_ready H priv
          { ctx with step := LoadCurrentCapabilitiesStep.LOAD_CURRENT_CAPABILITIES_STEP_NAS_SYSTEM_SELECTION_PREFERENCE }
          (QmiResult.result_failed error) =
        ({ priv with feature_nas_system_selection_preference := Feature.FEATURE_SUPPORTED },
         Step.pending (qmi_client_nas_get_technology_preference 5)
           { callback := LoadCurrentCapabilitiesCallback.load_current_capabilities_get_technology_preference_ready,
             ctx := { ctx with step := LoadCurrentCapabilitiesStep.LOAD_CURRENT_CAPABILITIES_STEP_NAS_TECHNOLOGY_PREFERENCE } })) ∧
    (∀ output : QmiMessageNasGetSystemSelectionPreferenceOutput,
      load_current_capabilities_get_system_selection_preference_ready H priv
          { ctx with step := LoadCurrentCapabilitiesStep.LOAD_CURRENT_CAPABILITIES_STEP_NAS_SYSTEM_SELECTION_PREFERENCE }
          (QmiResult.ok output) =
        ({ priv with feature_nas_system_selection_preference := Feature.FEATURE_SUPPORTED },
         Step.pending (qmi_client_nas_get_technology_preference 5)
           { callback := LoadCurrentCapabilitiesCallback.load_current_capabilities_get_technology_preference_ready,
             ctx := { step := LoadCurrentCapabilitiesStep.LOAD_CURRENT_CAPABILITIES_STEP_NAS_TECHNOLOGY_PREFERENCE,
                      capabilities_context := { ctx.capabilities_context with
                        nas_ssp_mode_preference_mask :=
                          output.mode_preference.getD
                            ctx.capabilities_context.nas_ssp_mode_preference_mask } } })) ∧
    (∀ error : GError,
      load_current_capabilities_get_technology_preference_ready H priv
          { ctx with step := LoadCurrentCapabilitiesStep.LOAD_CURRENT_CAPABILITIES_STEP_NAS_TECHNOLOGY_PREFERENCE }
          (QmiResult.no_output error) =
        ({ priv with feature_nas_technology_preference := Feature.FEATURE_UNSUPPORTED },
         Step.pending (qmi_client_dms_get_capabilities 5)
           { callback := LoadCurrentCapabilitiesCallback.load_current_capabilities_get_capabilities_ready,
             ctx := { ctx with step := LoadCurrentCapabilitiesStep.LOAD_CURRENT_CAPABILITIES_STEP_DMS_GET_CAPABILITIES } })) ∧
    (∀ error : GError,
      load_current_capabilities_get_technology_preference_ready H priv
          { ctx with step := LoadCurrentCapabilitiesStep.LOAD_CURRENT_CAPABILITIES_STEP_NAS_TECHNOLOGY_PREFERENCE }
          (QmiResult.result_failed error) =
        ({ priv with feature_nas_technology_preference := Feature.FEATURE_SUPPORTED },
         Step.pending (qmi_client_dms_get_capabilities 5)
           { callback := LoadCurrentCapabilitiesCallback.load_current_capabilities_get_capabilities_ready,
             ctx := { ctx with step := LoadCurrentCapabilitiesStep.LOAD_CURRENT_CAPABILITIES_STEP_DMS_GET_CAPABILITIES } })) ∧
    (∀ output : QmiMessageNasGetTechnologyPreferenceOutput,
      load_current_capabilities_get_technology_preference_ready H priv
          { ctx with step := LoadCurrentCapabilitiesStep.LOAD_CURRENT_CAPABILITIES_STEP_NAS_TECHNOLOGY_PREFERENCE }
          (QmiResult.ok output) =
        ({ priv with feature_nas_technology_preference := Feature.FEATURE_SUPPORTED },
         Step.pending (qmi_client_dms_get_capabilities 5)
           { callback := LoadCurrentCapabilitiesCallback.load_current_capabilities_get_capabilities_ready,
             ctx := { step := LoadCurrentCapabilitiesStep.LOAD_CURRENT_CAPABILITIES_STEP_DMS_GET_CAPABILITIES,
                      capabilities_context := { ctx.capabilities_context with
                        nas_tp_mask := output.active } } }))) ∧
    (self.peek_client QmiService.QMI_SERVICE_NAS = Except.ok () →
      self.peek_client QmiService.QMI_SERVICE_DMS = Except.ok () →
      priv.feature_nas_system_selection_preference = Feature.FEATURE_UNKNOWN →
      priv.feature_nas_technology_preference = Feature.FEATURE_UNKNOWN →
        (load_current_capabilities_run H self priv rs).2.1 =
          [qmi_client_nas_get_system_selection_preference 5,
           qmi_client_nas_get_technology_preference 5,
           qmi_client_dms_get_capabilities 5] ∧
        (load_current_capabilities_run H self priv rs).1.feature_nas_system_selection_preference =
          (match rs.get_system_selection_preference with
           | QmiResult.no_output _ => Feature.FEATURE_UNSUPPORTED
           | _ => Feature.FEATURE_SUPPORTED) ∧
        (load_current_capabilities_run H self priv rs).1.feature_nas_technology_preference =
          (match rs.get_technology_preference with
           | QmiResult.no_output _ => Feature.FEATURE_UNSUPPORTED
           | _ => Feature.FEATURE_SUPPORTED) ∧
        (∀ error : GError,
          (load_current_capabilities_run H self priv rs).2.2 = Step.returned (TaskResult.error error) →
          rs.get_capabilities = QmiResult.no_output error ∨
          rs.get_capabilities = QmiResult.result_failed error)) :=
  ⟨load_current_capabilities_probes_ready H priv ctx,
   fun hnas hdms hssp htp => load_current_capabilities_run_probes H self priv rs hnas hdms hssp htp⟩

/-- Witness of C5: the System-Selection-Preference probe answers with a
protocol error, the Technology-Preference probe times out, DMS answers. -/
theorem C5_probe_outcomes_witness :
    (load_current_capabilities_run mm_modem_helpers_qmi modem_3gpp {}
        { get_system_selection_preference :=
            QmiResult.result_failed { domain := GErrorDomain.QMI_PROTOCOL_ERROR, code := 16 },
          get_technology_preference := QmiResult.no_output qmi_core_error_timeout,
          get_capabilities := QmiResult.ok { radio_interface_list := [4, 5, 8] } }).2.1 =
      [qmi_client_nas_get_system_selection_preference 5,
       qmi_client_nas_get_technology_preference 5,
       qmi_client_dms_get_capabilities 5] ∧
    (load_current_capabilities_run mm_modem_helpers_qmi modem_3gpp {}
        { get_system_selection_preference :=
            QmiResult.result_failed { domain := GErrorDomain.QMI_PROTOCOL_ERROR, code := 16 },
          get_technology_preference := QmiResult.no_output qmi_core_error_timeout,
          get_capabilities := QmiResult.ok { radio_interface_list := [4, 5, 8] } }).1.feature_nas_system_selection_preference =
      Feature.FEATURE_SUPPORTED ∧
    (load_current_capabilities_run mm_modem_helpers_qmi modem_3gpp {}
        { get_system_selection_preference :=
            QmiResult.result_failed { domain := GErrorDomain.QMI_PROTOCOL_ERROR, code := 16 },
          get_technology_preference := QmiResult.no_output qmi_core_error_timeout,
          get_capabilities := QmiResult.ok { radio_interface_list := [4, 5, 8] } }).1.feature_nas_technology_preference =
      Feature.FEATURE_UNSUPPORTED :=
  let h := (C5_probe_outcomes mm_modem_helpers_qmi modem_3gpp {}
      { step := LoadCurrentCapabilitiesStep.LOAD_CURRENT_CAPABILITIES_STEP_FIRST }
      { get_system_selection_preference :=
          QmiResult.result_failed { domain := GErrorDomain.QMI_PROTOCOL_ERROR, code := 16 },
        get_technology_preference := QmiResult.no_output qmi_core_error_timeout,
        get_capabilities := QmiResult.ok { radio_interface_list := [4, 5, 8] } }).2 rfl rfl rfl rfl
  ⟨h.1, h.2.1, h.2.2.1⟩

/-- C6 (amended): the list returned by Load-Supported-Capabilities depends on
the mask derived from the DMS radio interface list and on the feature
tri-states. When Technology-Preference is supported: for the mask
GSM/UMTS+CDMA/EVDO the list is [GSM/UMTS, CDMA/EVDO, GSM/UMTS+CDMA/EVDO]; for
the mask GSM/UMTS+CDMA/EVDO+LTE it is [GSM/UMTS+LTE, CDMA/EVDO+LTE, LTE,
GSM/UMTS+CDMA/EVDO+LTE]; for every other mask it is the single full mask. When
Technology-Preference is not supported and System-Selection-Preference is
unsupported the list is the single full mask, whatever the mask. In every
case the full mask is the last element. -/
theorem C6_supported_capabilities (H : Helpers) (priv : Private) (radio_interfaces : List Nat)
    (hl : priv.supported_radio_interfaces = some radio_interfaces) :
    (priv.feature_nas_technology_preference = Feature.FEATURE_SUPPORTED →
      (supported_capabilities_mask H radio_interfaces =
          (MM_MODEM_CAPABILITY_GSM_UMTS ||| MM_MODEM_CAPABILITY_CDMA_EVDO) →
        (mm_shared_qmi_load_supported_capabilities H priv).2 =
          TaskResult.value
            [MM_MODEM_CAPABILITY_GSM_UMTS, MM_MODEM_CAPABILITY_CDMA_EVDO,
             MM_MODEM_CAPABILITY_GSM_UMTS ||| MM_MODEM_CAPABILITY_CDMA_EVDO]) ∧
      (supported_capabilities_mask H radio_interfaces =
          (MM_MODEM_CAPABILITY_GSM_UMTS ||| MM_MODEM_CAPABILITY_CDMA_EVDO |||
            MM_MODEM_CAPABILITY_LTE) →
        (mm_shared_qmi_load_supported_capabilities H priv).2 =
          TaskResult.value
            [MM_MODEM_CAPABILITY_GSM_UMTS ||| MM_MODEM_CAPABILITY_LTE,
             MM_MODEM_CAPABILITY_CDMA_EVDO ||| MM_MODEM_CAPABILITY_LTE,
             MM_MODEM_CAPABILITY_LTE,
             MM_MODEM_CAPABILITY_GSM_UMTS ||| MM_MODEM_CAPABILITY_CDMA_EVDO |||
               MM_MODEM_CAPABILITY_LTE]) ∧
      (supported_capabilities_mask H radio_interfaces ≠
          (MM_MODEM_CAPABILITY_GSM_UMTS ||| MM_MODEM_CAPABILITY_CDMA_EVDO) →
        supported_capabilities_mask H radio_interfaces ≠
          (MM_MODEM_CAPABILITY_GSM_UMTS ||| MM_MODEM_CAPABILITY_CDMA_EVDO |||
            MM_MODEM_CAPABILITY_LTE) →
        (mm_shared_qmi_load_supported_capabilities H priv).2 =
          TaskResult.value [supported_capabilities_mask H radio_interfaces])) ∧
    (priv.feature_nas_technology_preference ≠ Feature.FEATURE_SUPPORTED →
      priv.feature_nas_system_selection_preference = Feature.FEATURE_UNSUPPORTED →
      (mm_shared_qmi_load_supported_capabilities H priv).2 =
        TaskResult.value [supported_capabilities_mask H radio_interfaces]) ∧
    (∃ list : List Nat,
      (mm_shared_qmi_load_supported_capabilities H priv).2 = TaskResult.value list ∧
      list.getLast? = some (supported_capabilities_mask H radio_interfaces)) := by
  refine ⟨fun htp => ⟨fun hm => ?_, fun hm => ?_, fun h1 h2 => ?_⟩, fun htp hssp => ?_, ?_⟩
  · simp [mm_shared_qmi_load_supported_capabilities, hl, htp, hm]
  · have hne : MM_MODEM_CAPABILITY_GSM_UMTS ||| MM_MODEM_CAPABILITY_CDMA_EVDO |||
        MM_MODEM_CAPABILITY_LTE ≠
        MM_MODEM_CAPABILITY_GSM_UMTS ||| MM_MODEM_CAPABILITY_CDMA_EVDO := by decide
    simp [mm_shared_qmi_load_supported_capabilities, hl, htp, hm, hne]
  · simp [mm_shared_qmi_load_supported_capabilities, hl, htp, h1, h2]
  · simp [mm_shared_qmi_load_supported_capabilities, hl, htp, hssp]
  · unfold mm_shared_qmi_load_supported_capabilities
    simp only [hl]
    split_ifs <;> simp

/-- Witness of C6: the GSM/UMTS+CDMA/EVDO+LTE device with
Technology-Preference supported. -/
theorem C6_supported_capabilities_witness :
    supported_capabilities_mask mm_modem_helpers_qmi [4, 1, 8] =
      (MM_MODEM_CAPABILITY_GSM_UMTS ||| MM_MODEM_CAPABILITY_CDMA_EVDO |||
        MM_MODEM_CAPABILITY_LTE) ∧
    (mm_shared_qmi_load_supported_capabilities mm_modem_helpers_qmi
        { supported_radio_interfaces := some [4, 1, 8],
          feature_nas_system_selection_preference := Feature.FEATURE_SUPPORTED,
          feature_nas_technology_preference := Feature.FEATURE_SUPPORTED }).2 =
      TaskResult.value
        [MM_MODEM_CAPABILITY_GSM_UMTS ||| MM_MODEM_CAPABILITY_LTE,
         MM_MODEM_CAPABILITY_CDMA_EVDO ||| MM_MODEM_CAPABILITY_LTE,
         MM_MODEM_CAPABILITY_LTE,
         MM_MODEM_CAPABILITY_GSM_UMTS ||| MM_MODEM_CAPABILITY_CDMA_EVDO |||
           MM_MODEM_CAPABILITY_LTE] :=
  ⟨by decide,
   ((C6_supported_capabilities mm_modem_helpers_qmi
      { supported_radio_interfaces := some [4, 1, 8],
        feature_nas_system_selection_preference := Feature.FEATURE_SUPPORTED,
        feature_nas_technology_preference := Feature.FEATURE_SUPPORTED } [4, 1, 8] rfl).1 rfl).2.1
      (by decide)⟩

/-- C6 (counterexample): on a GSM/UMTS+CDMA/EVDO device the list is the single
full mask when neither feature is supported, and the three-element list when
Technology-Preference is supported: the list is not a function of the DMS
radio interface list alone. -/
theorem C6_list_depends_on_features :
    supported_capabilities_mask mm_modem_helpers_qmi [4, 1] =
      (MM_MODEM_CAPABILITY_GSM_UMTS ||| MM_MODEM_CAPABILITY_CDMA_EVDO) ∧
    (mm_shared_qmi_load_supported_capabilities mm_modem_helpers_qmi
        { supported_radio_interfaces := some [4, 1],
          feature_nas_system_selection_preference := Feature.FEATURE_UNSUPPORTED,
          feature_nas_technology_preference := Feature.FEATURE_UNSUPPORTED }).2 =
      TaskResult.value [MM_MODEM_CAPABILITY_GSM_UMTS ||| MM_MODEM_CAPABILITY_CDMA_EVDO] ∧
    (mm_shared_qmi_load_supported_capabilities mm_modem_helpers_qmi
        { supported_radio_interfaces := some [4, 1],
          feature_nas_system_selection_preference := Feature.FEATURE_UNSUPPORTED,
          feature_nas_technology_preference := Feature.FEATURE_SUPPORTED }).2 =
      TaskResult.value
        [MM_MODEM_CAPABILITY_GSM_UMTS, MM_MODEM_CAPABILITY_CDMA_EVDO,
         MM_MODEM_CAPABILITY_GSM_UMTS ||| MM_MODEM_CAPABILITY_CDMA_EVDO] := by
  decide

/-- With `disable_4g_only_mode` set, the candidate list of Load-Supported-Modes
has no 4G-only entry. -/
theorem combination_4g_only_not_mem (priv : Private) (h : priv.disable_4g_only_mode = true) :
    ({ allowed := MM_MODEM_MODE_4G, preferred := MM_MODEM_MODE_NONE } : MMModemModeCombination) ∉
      load_supported_modes_combinations priv := by
  unfold load_supported_modes_combinations
  by_cases hs : priv.feature_nas_system_selection_preference = Feature.FEATURE_UNSUPPORTED <;>
    simp [h, hs, MM_MODEM_MODE_4G, MM_MODEM_MODE_3G, MM_MODEM_MODE_2G, MM_MODEM_MODE_NONE]

/-- C7: when the list returned by Load-Supported-Capabilities contains LTE-only
as a capability distinct from the full mask, the call sets
`disable_4g_only_mode` (and changes nothing else), and every later
Load-Supported-Modes on the device (flag still set, same radio interface list
and features) returns a list without the entry (allowed = 4G, preferred =
NONE); when LTE-only is not offered the call leaves the private data, the flag
included, unchanged. -/
theorem C7_lte_only_disables_4g_only_mode (H : Helpers) (priv : Private) (radio_interfaces list : List Nat)
    (hl : priv.supported_radio_interfaces = some radio_interfaces)
    (hres : (mm_shared_qmi_load_supported_capabilities H priv).2 = TaskResult.value list) :
    ((MM_MODEM_CAPABILITY_LTE ∈ list ∧
        MM_MODEM_CAPABILITY_LTE ≠ supported_capabilities_mask H radio_interfaces) →
      (mm_shared_qmi_load_supported_capabilities H priv).1 =
        { priv with disable_4g_only_mode := true } ∧
      ∀ later : Private,
        later.disable_4g_only_mode = true →
        later.supported_radio_interfaces = priv.supported_radio_interfaces →
        later.feature_nas_system_selection_preference =
          priv.feature_nas_system_selection_preference →
        later.feature_nas_technology_preference = priv.feature_nas_technology_preference →
        ∃ modes : List MMModemModeCombination,
          mm_shared_qmi_load_supported_modes H later = some modes ∧
          ({ allowed := MM_MODEM_MODE_4G, preferred := MM_MODEM_MODE_NONE } :
            MMModemModeCombination) ∉ modes) ∧
    (¬ (MM_MODEM_CAPABILITY_LTE ∈ list ∧
        MM_MODEM_CAPABILITY_LTE ≠ supported_capabilities_mask H radio_interfaces) →
      (mm_shared_qmi_load_supported_capabilities H priv).1 = priv) := by
  unfold mm_shared_qmi_load_supported_capabilities at hres ⊢
  simp only [hl] at hres ⊢
  split_ifs at hres ⊢ with hgate h1 h2
  · simp only [TaskResult.value.injEq] at hres
    subst hres
    simp [MM_MODEM_CAPABILITY_LTE, MM_MODEM_CAPABILITY_GSM_UMTS, MM_MODEM_CAPABILITY_CDMA_EVDO, h1]
  · refine ⟨fun _ => ⟨rfl, fun later hflag hsup hssp htp => ?_⟩, fun hno => ?_⟩
    · have hnot : ¬ (later.feature_nas_system_selection_preference = Feature.FEATURE_UNSUPPORTED ∧
          later.feature_nas_technology_preference = Feature.FEATURE_UNSUPPORTED) := by
        rw [hssp, htp]
        rintro ⟨ha, hb⟩
        rcases hgate with hg | hg
        · rw [hb] at hg; exact absurd hg (by decide)
        · rw [ha] at hg; exact absurd hg (by decide)
      refine ⟨mm_filter_supported_modes
          [{ allowed := supported_modes_mask_all H radio_interfaces,
             preferred := MM_MODEM_MODE_NONE }]
          (load_supported_modes_combinations later), ?_, ?_⟩
      · simp [mm_shared_qmi_load_supported_modes, hsup, hl, hnot]
      · intro hmem
        exact combination_4g_only_not_mem later hflag (List.mem_filter.mp hmem).1
    · exfalso
      apply hno
      simp only [TaskResult.value.injEq] at hres
      subst hres
      rw [h2]
      decide
  · simp only [TaskResult.value.injEq] at hres
    subst hres
    simp
  · simp only [TaskResult.value.injEq] at hres
    subst hres
    simp

/-- Witness of C7: the GSM/UMTS+CDMA/EVDO+LTE device with both features
supported is offered LTE-only, and the flag is set. -/
theorem C7_lte_only_disables_4g_only_mode_witness :
    (MM_MODEM_CAPABILITY_LTE ∈ [12, 10, 8, 14] ∧
      MM_MODEM_CAPABILITY_LTE ≠ supported_capabilities_mask mm_modem_helpers_qmi [4, 1, 8]) ∧
    (mm_shared_qmi_load_supported_capabilities mm_modem_helpers_qmi
        { supported_radio_interfaces := some [4, 1, 8],
          feature_nas_system_selection_preference := Feature.FEATURE_SUPPORTED,
          feature_nas_technology_preference := Feature.FEATURE_SUPPORTED }).1 =
      { supported_radio_interfaces := some [4, 1, 8],
        feature_nas_system_selection_preference := Feature.FEATURE_SUPPORTED,
        feature_nas_technology_preference := Feature.FEATURE_SUPPORTED,
        disable_4g_only_mode := true } :=
  ⟨by decide,
   ((C7_lte_only_disables_4g_only_mode mm_modem_helpers_qmi
      { supported_radio_interfaces := some [4, 1, 8],
        feature_nas_system_selection_preference := Feature.FEATURE_SUPPORTED,
        feature_nas_technology_preference := Feature.FEATURE_SUPPORTED }
      [4, 1, 8] [12, 10, 8, 14] rfl (by decide)).1 (by decide)).1⟩

/-- With `allowed == ANY` the context gets the union of the supported modes and
no preferred mode, whatever the `preferred` argument. -/
theorem set_current_modes_context_any (self : MMIfaceModem) (preferred : Nat) :
    set_current_modes_context self MM_MODEM_MODE_ANY preferred =
      { allowed := supported_modes_union self, preferred := MM_MODEM_MODE_NONE } := by
  rcases self with ⟨pc, cdma, gpp, g2, g3, g4⟩
  cases g2 <;> cases g3 <;> cases g4 <;>
    simp [set_current_modes_context, supported_modes_union, MM_MODEM_MODE_2G, MM_MODEM_MODE_3G,
      MM_MODEM_MODE_4G, MM_MODEM_MODE_NONE, MM_MODEM_MODE_ANY]

/-- The union of the supported modes is never the mask `ANY`. -/
theorem supported_modes_union_ne_any (self : MMIfaceModem) :
    supported_modes_union self ≠ MM_MODEM_MODE_ANY := by
  rcases self with ⟨pc, cdma, gpp, g2, g3, g4⟩
  cases g2 <;> cases g3 <;> cases g4 <;>
    simp [supported_modes_union, MM_MODEM_MODE_2G, MM_MODEM_MODE_3G, MM_MODEM_MODE_4G,
      MM_MODEM_MODE_NONE, MM_MODEM_MODE_ANY]

/-- With `allowed != ANY` the context gets the two arguments. -/
theorem set_current_modes_context_other (self : MMIfaceModem) (allowed preferred : Nat)
    (h : allowed ≠ MM_MODEM_MODE_ANY) :
    set_current_modes_context self allowed preferred =
      { allowed := allowed, preferred := preferred } := by
  simp [set_current_modes_context, h]

/-- C8: Set-Current-Modes called with allowed = ANY and preferred = NONE is the
same operation as Set-Current-Modes called with allowed = the union of the
modes among 2G, 3G, 4G that the device supports and preferred = NONE: the
same request (or the same immediate result) with the same callback, hence the
same requests and the same result for every response. -/
theorem C8_any_is_union_of_supported (H : Helpers) (self : MMIfaceModem) (priv : Private) :
    mm_shared_qmi_set_current_modes H self priv MM_MODEM_MODE_ANY MM_MODEM_MODE_NONE =
      mm_shared_qmi_set_current_modes H self priv (supported_modes_union self) MM_MODEM_MODE_NONE ∧
    ∀ responses : List (QmiResult Unit),
      Step.run set_current_modes_deliver
          (mm_shared_qmi_set_current_modes H self priv MM_MODEM_MODE_ANY MM_MODEM_MODE_NONE)
          responses =
        Step.run set_current_modes_deliver
          (mm_shared_qmi_set_current_modes H self priv (supported_modes_union self)
            MM_MODEM_MODE_NONE)
          responses := by
  have h : mm_shared_qmi_set_current_modes H self priv MM_MODEM_MODE_ANY MM_MODEM_MODE_NONE =
      mm_shared_qmi_set_current_modes H self priv (supported_modes_union self)
        MM_MODEM_MODE_NONE := by
    unfold mm_shared_qmi_set_current_modes
    rw [set_current_modes_context_any,
      set_current_modes_context_other self _ _ (supported_modes_union_ne_any self)]
  exact ⟨h, fun responses => by rw [h]⟩

/-- C9 (amended): in Set-Current-Modes on the System-Selection-Preference path
of a 3GPP device, with preferred != NONE and allowed != ANY, the request
carries permanent duration, the mode preference, the generic acquisition order
array, and the GSM/WCDMA acquisition order TLV exactly when allowed contains
both 2G and 3G (so also for wider sets such as {2G,3G,4G}). -/
theorem C9_gsm_wcdma_acquisition_order (H : Helpers) (self : MMIfaceModem) (priv : Private) (allowed preferred : Nat)
    (array : List Nat)
    (hnas : self.peek_client QmiService.QMI_SERVICE_NAS = Except.ok ())
    (hssp : priv.feature_nas_system_selection_preference = Feature.FEATURE_SUPPORTED)
    (h3gpp : self.is_3gpp = true)
    (hpref : preferred ≠ MM_MODEM_MODE_NONE)
    (hany : allowed ≠ MM_MODEM_MODE_ANY)
    (harray : H.mm_modem_mode_to_qmi_acquisition_order_preference allowed preferred
      self.is_cdma self.is_3gpp = some array) :
    mm_shared_qmi_set_current_modes H self priv allowed preferred =
      Step.pending
        (qmi_client_nas_set_system_selection_preference
          { change_duration := some QMI_NAS_CHANGE_DURATION_PERMANENT,
            mode_preference :=
              some (H.mm_modem_mode_to_qmi_rat_mode_preference allowed self.is_cdma self.is_3gpp),
            acquisition_order_preference := some array,
            gsm_wcdma_acquisition_order_preference :=
              if allowed &&& (MM_MODEM_MODE_2G ||| MM_MODEM_MODE_3G) =
                  (MM_MODEM_MODE_2G ||| MM_MODEM_MODE_3G) then
                some (H.mm_modem_mode_to_qmi_gsm_wcdma_acquisition_order_preference preferred)
              else none } 5)
        SetCurrentModesCallback.set_current_modes_system_selection_preference_ready := by
  unfold mm_shared_qmi_set_current_modes
  rw [set_current_modes_context_other self _ _ hany]
  simp only [mm_shared_qmi_ensure_client, hnas, hssp, if_true,
    set_current_modes_system_selection_preference,
    set_current_modes_system_selection_preference_input]
  rw [h3gpp] at harray
  simp only [hpref, h3gpp, harray, ne_eq, not_false_eq_true, if_true, true_and]
  split_ifs <;> rfl

/-- Witness of C9: the spec's scenario 2, allowed = {2G,3G} and preferred = 3G on
the 3GPP modem. -/
theorem C9_gsm_wcdma_acquisition_order_witness :
    mm_shared_qmi_set_current_modes mm_modem_helpers_qmi modem_3gpp
        { feature_nas_system_selection_preference := Feature.FEATURE_SUPPORTED }
        (MM_MODEM_MODE_2G ||| MM_MODEM_MODE_3G) MM_MODEM_MODE_3G =
      Step.pending
        (qmi_client_nas_set_system_selection_preference
          { change_duration := some QMI_NAS_CHANGE_DURATION_PERMANENT,
            mode_preference := some 12,
            acquisition_order_preference := some [5, 4],
            gsm_wcdma_acquisition_order_preference := some 2 } 5)
        SetCurrentModesCallback.set_current_modes_system_selection_preference_ready :=
  C9_gsm_wcdma_acquisition_order mm_modem_helpers_qmi modem_3gpp
    { feature_nas_system_selection_preference := Feature.FEATURE_SUPPORTED }
    (MM_MODEM_MODE_2G ||| MM_MODEM_MODE_3G) MM_MODEM_MODE_3G [5, 4]
    rfl rfl rfl (by decide) (by decide) (by decide)

/-- C9 (counterexample): for allowed = {2G,3G,4G} and preferred = 4G on the 3GPP
modem the request carries the GSM/WCDMA acquisition order TLV, although allowed
is not {2G,3G}. -/
theorem C9_tlv_present_for_wider_set :
    mm_shared_qmi_set_current_modes mm_modem_helpers_qmi modem_3gpp
        { feature_nas_system_selection_preference := Feature.FEATURE_SUPPORTED }
        (MM_MODEM_MODE_2G ||| MM_MODEM_MODE_3G ||| MM_MODEM_MODE_4G) MM_MODEM_MODE_4G =
      Step.pending
        (qmi_client_nas_set_system_selection_preference
          { change_duration := some QMI_NAS_CHANGE_DURATION_PERMANENT,
            mode_preference := some 28,
            acquisition_order_preference := some [8, 5, 4],
            gsm_wcdma_acquisition_order_preference := some 0 } 5)
        SetCurrentModesCallback.set_current_modes_system_selection_preference_ready ∧
    (MM_MODEM_MODE_2G ||| MM_MODEM_MODE_3G ||| MM_MODEM_MODE_4G) ≠
      (MM_MODEM_MODE_2G ||| MM_MODEM_MODE_3G) := by
  decide

/-- The loop over the acquisition order array computes the first mode within
`allowed`, dropped when it is the whole of `allowed`. -/
theorem load_current_modes_acquisition_order_loop_eq (H : Helpers) (allowed : Nat) (hallowed : allowed ≠ MM_MODEM_MODE_NONE)
    (array : List Nat) :
    load_current_modes_acquisition_order_loop H allowed array =
      first_mode_within_allowed_unless_whole H allowed array := by
  induction array with
  | nil => rfl
  | cons iface rest ih =>
    unfold first_mode_within_allowed_unless_whole at ih ⊢
    rw [load_current_modes_acquisition_order_loop, List.find?_cons]
    by_cases hand : allowed &&& H.mm_modem_mode_from_qmi_nas_radio_interface iface = 0
    · have hne : allowed ≠ H.mm_modem_mode_from_qmi_nas_radio_interface iface := by
        intro h
        rw [← h, Nat.and_self] at hand
        exact hallowed hand
      simp only [hand, hne, ne_eq, not_true_eq_false, decide_False, if_false]
      exact ih
    · by_cases heq : H.mm_modem_mode_from_qmi_nas_radio_interface iface = allowed
      · have h0 : allowed ≠ 0 := hallowed
        simp [heq, h0]
      · have hne : allowed ≠ H.mm_modem_mode_from_qmi_nas_radio_interface iface :=
          fun h => heq h.symm
        simp [hand, heq, hne]

/-- C10 (amended): in Load-Current-Modes on the System-Selection-Preference
path, for every reported mode preference mask that is not exactly {GSM,UMTS}
and maps to a non-empty allowed mask, and for every acquisition order array
(absent counting as empty): the reported preferred mode is the mode of the
first array entry whose mode lies within allowed, unless that mode is the
whole of allowed; it is NONE in that case and when no entry lies within
allowed. -/
theorem C10_preferred_from_acquisition_order (H : Helpers) (output : QmiMessageNasGetSystemSelectionPreferenceOutput)
    (mode_preference_mask : Nat)
    (hmask : output.mode_preference = some mode_preference_mask)
    (hnot : mode_preference_mask ≠
      (QMI_NAS_RAT_MODE_PREFERENCE_GSM ||| QMI_NAS_RAT_MODE_PREFERENCE_UMTS))
    (hallowed : H.mm_modem_mode_from_qmi_rat_mode_preference mode_preference_mask ≠
      MM_MODEM_MODE_NONE) :
    load_current_modes_system_selection_preference_ready H (QmiResult.ok output) =
      Step.returned (TaskResult.value
        { allowed := H.mm_modem_mode_from_qmi_rat_mode_preference mode_preference_mask,
          preferred :=
            first_mode_within_allowed_unless_whole H
              (H.mm_modem_mode_from_qmi_rat_mode_preference mode_preference_mask)
              (output.acquisition_order_preference.getD []) }) := by
  unfold load_current_modes_system_selection_preference_ready
  simp only [hmask, hallowed, hnot, if_false]
  rcases harr : output.acquisition_order_preference with _ | array
  · rfl
  · rcases array with _ | ⟨iface, rest⟩
    · rfl
    · simp [load_current_modes_acquisition_order_loop_eq H _ hallowed]

/-- C10 (counterexample): with mode preference {LTE} and acquisition order
[LTE, UMTS, GSM], the first entry lies within allowed = {4G}, yet the reported
preferred mode is NONE, not 4G. -/
theorem C10_single_mode_allowed_reports_none :
    load_current_modes_system_selection_preference_ready mm_modem_helpers_qmi
        (QmiResult.ok
          { mode_preference := some QMI_NAS_RAT_MODE_PREFERENCE_LTE,
            acquisition_order_preference := some [8, 5, 4] }) =
      Step.returned (TaskResult.value
        { allowed := MM_MODEM_MODE_4G, preferred := MM_MODEM_MODE_NONE }) ∧
    first_mode_within_allowed mm_modem_helpers_qmi MM_MODEM_MODE_4G [8, 5, 4] =
      MM_MODEM_MODE_4G := by
  decide

/-- Witness of C10: mode preference {GSM,UMTS,LTE} with acquisition order
[LTE, UMTS, GSM] reports 4G as preferred. -/
theorem C10_preferred_from_acquisition_order_witness :
    load_current_modes_system_selection_preference_ready mm_modem_helpers_qmi
        (QmiResult.ok
          { mode_preference := some 28, acquisition_order_preference := some [8, 5, 4] }) =
      Step.returned (TaskResult.value
        { allowed := MM_MODEM_MODE_2G ||| MM_MODEM_MODE_3G ||| MM_MODEM_MODE_4G,
          preferred := MM_MODEM_MODE_4G }) :=
  C10_preferred_from_acquisition_order mm_modem_helpers_qmi
    { mode_preference := some 28, acquisition_order_preference := some [8, 5, 4] } 28
    rfl (by decide) (by decide)

/-- Only the two fields read by the candidate list of Load-Supported-Modes
matter. -/
theorem load_supported_modes_combinations_eq (ssp flag : Bool) (priv : Private)
    (hssp : (decide (priv.feature_nas_system_selection_preference ≠ Feature.FEATURE_UNSUPPORTED)) = ssp)
    (hflag : priv.disable_4g_only_mode = flag) :
    load_supported_modes_combinations priv =
      load_supported_modes_combinations
        { disable_4g_only_mode := flag,
          feature_nas_system_selection_preference :=
            if ssp then Feature.FEATURE_SUPPORTED else Feature.FEATURE_UNSUPPORTED } := by
  unfold load_supported_modes_combinations
  subst hflag
  cases ssp <;> simp_all

/-- The candidate list holds exactly the combinations the spec describes. -/
theorem standard_mode_combination_mem (ssp flag : Bool) (priv : Private)
    (hssp : (decide (priv.feature_nas_system_selection_preference ≠ Feature.FEATURE_UNSUPPORTED)) = ssp)
    (hflag : priv.disable_4g_only_mode = flag)
    (c : MMModemModeCombination) :
    c ∈ load_supported_modes_combinations priv ↔ standard_mode_combination ssp flag c := by
  rw [load_supported_modes_combinations_eq ssp flag priv hssp hflag]
  constructor
  · revert c
    cases ssp <;> cases flag <;> decide
  · rcases c with ⟨a, p⟩
    intro h
    unfold standard_mode_combination at h
    cases ssp <;> cases flag <;>
      simp only [if_true, if_false, Bool.false_eq_true] at h <;>
      rcases h with ⟨hp, ha | ha | ⟨ha, hf⟩⟩ | ⟨ha | ha | ha | ha, h⟩ <;>
      (try rcases h with ⟨hp | hp | hp, h⟩) <;>
      subst_vars <;>
      first
      | decide
      | (exfalso; revert h; decide)
      | (exfalso; revert hf; decide)

/-- C11: the candidate list of Load-Supported-Modes before filtering holds
exactly: 2G and 3G alone with no preferred mode; 4G alone with no preferred
mode if and only if `disable_4g_only_mode` is unset; and each of the subsets
2G+3G, 2G+4G, 3G+4G, 2G+3G+4G, once per member as preferred mode when
System-Selection-Preference is supported, once with no preferred mode when it
is unsupported. The list has no duplicates and every preferred mode is a
member of its allowed set. -/
theorem C11_candidate_list (priv : Private) :
    (priv.feature_nas_system_selection_preference = Feature.FEATURE_SUPPORTED →
      ∀ c, c ∈ load_supported_modes_combinations priv ↔
        standard_mode_combination true priv.disable_4g_only_mode c) ∧
    (priv.feature_nas_system_selection_preference = Feature.FEATURE_UNSUPPORTED →
      ∀ c, c ∈ load_supported_modes_combinations priv ↔
        standard_mode_combination false priv.disable_4g_only_mode c) ∧
    (load_supported_modes_combinations priv).Nodup ∧
    (∀ c ∈ load_supported_modes_combinations priv,
      c.preferred ≠ MM_MODEM_MODE_NONE →
        c.preferred ≠ 0 ∧ c.allowed &&& c.preferred = c.preferred) := by
  refine ⟨?_, ?_, ?_, ?_⟩
  · intro h c
    exact standard_mode_combination_mem true _ priv (by simp [h]) rfl c
  · intro h c
    exact standard_mode_combination_mem false _ priv (by simp [h]) rfl c
  · rw [load_supported_modes_combinations_eq _ _ priv rfl rfl]
    generalize (decide (priv.feature_nas_system_selection_preference ≠
      Feature.FEATURE_UNSUPPORTED)) = ssp
    generalize priv.disable_4g_only_mode = flag
    cases ssp <;> cases flag <;> decide
  · rw [load_supported_modes_combinations_eq _ _ priv rfl rfl]
    generalize (decide (priv.feature_nas_system_selection_preference ≠
      Feature.FEATURE_UNSUPPORTED)) = ssp
    generalize priv.disable_4g_only_mode = flag
    cases ssp <;> cases flag <;> decide

/-- C11 at a device with System-Selection-Preference supported and the
4G-only mode disabled: the entry 2G+3G with 3G preferred is in the list, 4G
alone is not. -/
theorem C11_candidate_list_witness :
    ({ allowed := MM_MODEM_MODE_2G ||| MM_MODEM_MODE_3G, preferred := MM_MODEM_MODE_3G } :
        MMModemModeCombination) ∈
      load_supported_modes_combinations
        { feature_nas_system_selection_preference := Feature.FEATURE_SUPPORTED,
          disable_4g_only_mode := true } ∧
    ({ allowed := MM_MODEM_MODE_4G, preferred := MM_MODEM_MODE_NONE } :
        MMModemModeCombination) ∉
      load_supported_modes_combinations
        { feature_nas_system_selection_preference := Feature.FEATURE_SUPPORTED,
          disable_4g_only_mode := true } :=
  ⟨((C11_candidate_list
      { feature_nas_system_selection_preference := Feature.FEATURE_SUPPORTED,
        disable_4g_only_mode := true }).1 rfl _).2 (by decide),
   fun h => absurd (((C11_candidate_list
      { feature_nas_system_selection_preference := Feature.FEATURE_SUPPORTED,
        disable_4g_only_mode := true }).1 rfl _).1 h) (by decide)⟩

/-- C12, counterexample: on a device whose extended LTE band feature is still
unknown, a good DMS band-capabilities response that carries the extended LTE
band TLV completes Load-Supported-Bands with the bands, and the feature is
still unknown afterwards, not supported. -/
theorem C12_extended_tlv_feature_still_unknown :
    dms_get_band_capabilities_ready mm_modem_band_helpers_qmi {}
        (QmiResult.ok { band_capability := some 1, extended_lte_band_capability := some [66] }) =
      ({ supported_bands := some [1, 3] }, Step.returned (TaskResult.value [1, 3])) ∧
    (dms_get_band_capabilities_ready mm_modem_band_helpers_qmi {}
        (QmiResult.ok { band_capability := some 1, extended_lte_band_capability := some [66] })
      ).1.feature_extended_lte_band_preference = Feature.FEATURE_UNKNOWN ∧
    Feature.FEATURE_UNKNOWN ≠ Feature.FEATURE_SUPPORTED := by
  decide

/-- C12, amended: whatever DMS band-capabilities response Load-Supported-Bands
processes, with or without the extended LTE band TLV, the extended LTE band
feature of the device is what it was before; a good response that yields a
non-empty band list completes with that list and caches it as the supported
bands, changing nothing else. -/
theorem C12_supported_bands_keeps_feature (B : BandHelpers) (priv : Private)
    (res : QmiResult QmiMessageDmsGetBandCapabilitiesOutput) :
    (dms_get_band_capabilities_ready B priv res).1.feature_extended_lte_band_preference =
      priv.feature_extended_lte_band_preference ∧
    (∀ output, res = QmiResult.ok output →
      B.mm_modem_bands_from_qmi_band_capabilities (output.band_capability.getD 0)
          (output.lte_band_capability.getD 0) output.extended_lte_band_capability ≠ [] →
      dms_get_band_capabilities_ready B priv res =
        ({ priv with
            supported_bands := some
              (B.mm_modem_bands_from_qmi_band_capabilities (output.band_capability.getD 0)
                (output.lte_band_capability.getD 0) output.extended_lte_band_capability) },
          Step.returned (TaskResult.value
            (B.mm_modem_bands_from_qmi_band_capabilities (output.band_capability.getD 0)
              (output.lte_band_capability.getD 0) output.extended_lte_band_capability)))) := by
  constructor
  · cases res with
    | no_output e => rfl
    | result_failed e => rfl
    | ok output =>
        simp only [dms_get_band_capabilities_ready]
        split_ifs <;> rfl
  · intro output hres hne
    subst hres
    simp only [dms_get_band_capabilities_ready]
    rw [if_neg]
    intro h
    exact hne (List.length_eq_zero.mp h)

/-- C12, amended, at the response of the counterexample, on a device whose
feature is already known to be unsupported. -/
theorem C12_supported_bands_keeps_feature_witness :
    dms_get_band_capabilities_ready mm_modem_band_helpers_qmi
        { feature_extended_lte_band_preference := Feature.FEATURE_UNSUPPORTED }
        (QmiResult.ok { band_capability := some 1, extended_lte_band_capability := some [66] }) =
      ({ feature_extended_lte_band_preference := Feature.FEATURE_UNSUPPORTED,
         supported_bands := some [1, 3] },
        Step.returned (TaskResult.value [1, 3])) :=
  (C12_supported_bands_keeps_feature mm_modem_band_helpers_qmi
    { feature_extended_lte_band_preference := Feature.FEATURE_UNSUPPORTED }
    (QmiResult.ok { band_capability := some 1, extended_lte_band_capability := some [66] })).2
    _ rfl (by decide)

/-- The feature after one Get-System-Selection-Preference response of
Load-Current-Bands. -/
theorem load_bands_ready_feature (B : BandHelpers) (priv : Private)
    (res : QmiResult QmiMessageNasGetSystemSelectionPreferenceOutput) :
    (load_bands_get_system_selection_preference_ready B priv res).1.feature_extended_lte_band_preference =
      if priv.feature_extended_lte_band_preference = Feature.FEATURE_UNKNOWN then
        match res with
        | QmiResult.ok output =>
            if output.extended_lte_band_preference.isSome then Feature.FEATURE_SUPPORTED
            else Feature.FEATURE_UNSUPPORTED
        | _ => Feature.FEATURE_UNKNOWN
      else priv.feature_extended_lte_band_preference := by
  cases res with
  | no_output e => simp only [load_bands_get_system_selection_preference_ready]; split_ifs with h <;> simp [h]
  | result_failed e => simp only [load_bands_get_system_selection_preference_ready]; split_ifs with h <;> simp [h]
  | ok output =>
      simp only [load_bands_get_system_selection_preference_ready]
      cases hx : output.extended_lte_band_preference <;>
        by_cases hf : priv.feature_extended_lte_band_preference = Feature.FEATURE_UNKNOWN <;>
        simp [hf] <;> split_ifs <;> simp [hf]

/-- C13: in Load-Current-Bands the first good Get-System-Selection-Preference
response moves the extended LTE band feature from unknown to supported when
the response carries the extended LTE band preference TLV and to unsupported
when it does not; a failed response leaves the feature as it is, and once the
feature is known every later response leaves it unchanged. Over any series of
responses the feature ends as the first good response set it. -/
theorem C13_first_response_sets_feature (B : BandHelpers) (priv : Private) :
    (∀ output, priv.feature_extended_lte_band_preference = Feature.FEATURE_UNKNOWN →
      (load_bands_get_system_selection_preference_ready B priv
          (QmiResult.ok output)).1.feature_extended_lte_band_preference =
        if output.extended_lte_band_preference.isSome then Feature.FEATURE_SUPPORTED
        else Feature.FEATURE_UNSUPPORTED) ∧
    (∀ res, priv.feature_extended_lte_band_preference ≠ Feature.FEATURE_UNKNOWN →
      (load_bands_get_system_selection_preference_ready B priv
          res).1.feature_extended_lte_band_preference =
        priv.feature_extended_lte_band_preference) ∧
    (∀ responses,
      (load_current_bands_repeated B priv responses).feature_extended_lte_band_preference =
        if priv.feature_extended_lte_band_preference = Feature.FEATURE_UNKNOWN then
          match first_successful_response responses with
          | some output =>
              if output.extended_lte_band_preference.isSome then Feature.FEATURE_SUPPORTED
              else Feature.FEATURE_UNSUPPORTED
          | none => Feature.FEATURE_UNKNOWN
        else priv.feature_extended_lte_band_preference) := by
  refine ⟨?_, ?_, ?_⟩
  · intro output h
    rw [load_bands_ready_feature, if_pos h]
  · intro res h
    rw [load_bands_ready_feature, if_neg h]
  · intro responses
    induction responses generalizing priv with
    | nil =>
        simp only [load_current_bands_repeated, first_successful_response, List.foldl_nil,
          List.findSome?_nil]
        split_ifs with h
        · exact h
        · rfl
    | cons res rest ih =>
        have hstep : load_current_bands_repeated B priv (res :: rest) =
            load_current_bands_repeated B
              (load_bands_get_system_selection_preference_ready B priv res).1 rest := rfl
        rw [hstep, ih, load_bands_ready_feature]
        by_cases hf : priv.feature_extended_lte_band_preference = Feature.FEATURE_UNKNOWN
        · cases res with
          | no_output e => simp [hf, first_successful_response, List.findSome?]
          | result_failed e => simp [hf, first_successful_response, List.findSome?]
          | ok output =>
              cases hx : output.extended_lte_band_preference <;>
                simp [hf, hx, first_successful_response, List.findSome?]
        · simp [hf]

/-- C13 on a device with the feature unknown: a failed response, then a good
response with the TLV, then a good response without it end with the feature
supported. -/
theorem C13_first_response_sets_feature_witness :
    (load_current_bands_repeated mm_modem_band_helpers_qmi {}
        [QmiResult.no_output qmi_core_error_timeout,
         QmiResult.ok { band_preference := some 1,
                        extended_lte_band_preference := some (0, 0, 0, 2) },
         QmiResult.ok { band_preference := some 1 }]
      ).feature_extended_lte_band_preference = Feature.FEATURE_SUPPORTED ∧
    (load_bands_get_system_selection_preference_ready mm_modem_band_helpers_qmi {}
        (QmiResult.ok { band_preference := some 1 })
      ).1.feature_extended_lte_band_preference = Feature.FEATURE_UNSUPPORTED ∧
    (load_bands_get_system_selection_preference_ready mm_modem_band_helpers_qmi
        { feature_extended_lte_band_preference := Feature.FEATURE_SUPPORTED }
        (QmiResult.ok { band_preference := some 1 })
      ).1.feature_extended_lte_band_preference = Feature.FEATURE_SUPPORTED :=
  ⟨((C13_first_response_sets_feature mm_modem_band_helpers_qmi {}).2.2 _).trans (by decide),
   ((C13_first_response_sets_feature mm_modem_band_helpers_qmi {}).1 _ rfl).trans (by decide),
   (C13_first_response_sets_feature mm_modem_band_helpers_qmi
      { feature_extended_lte_band_preference := Feature.FEATURE_SUPPORTED }).2.1 _ (by decide)⟩

/-- The index the loop of `find_requested_carrier_config` leaves for one
description: the start value when no configuration has the description, the
index of a configuration that has it otherwise. -/
theorem find_requested_carrier_config_loop_fst (req fb : Option String) (l : List ConfigInfo) :
    ∀ (i : Nat) (ri fi : Int),
      ((find_requested_carrier_config_loop req fb l i (ri, fi)).1 = ri ∧
        ∀ c ∈ l, ¬ (req.isSome ∧ req = c.description)) ∨
      (∃ j c, l[j]? = some c ∧ (req.isSome ∧ req = c.description) ∧
        (find_requested_carrier_config_loop req fb l i (ri, fi)).1 = ((i + j : Nat) : Int)) := by
  induction l with
  | nil => intro i ri fi; left; simp [find_requested_carrier_config_loop]
  | cons c rest ih =>
      intro i ri fi
      simp only [find_requested_carrier_config_loop]
      rcases ih (i + 1) (if req.isSome ∧ req = c.description then (i : Int) else ri)
          (if fb.isSome ∧ fb = c.description then (i : Int) else fi) with ⟨h1, h2⟩ | ⟨j, c2, hj, hm, h⟩
      · by_cases hc : req.isSome ∧ req = c.description
        · right
          refine ⟨0, c, by simp, hc, ?_⟩
          rw [h1, if_pos hc]; simp
        · left
          refine ⟨by rw [h1, if_neg hc], ?_⟩
          intro c2 hc2
          rcases List.mem_cons.mp hc2 with rfl | hc2
          · exact hc
          · exact h2 c2 hc2
      · right
        refine ⟨j + 1, c2, by simpa using hj, hm, ?_⟩
        rw [h]; congr 1; omega

/-- The same for the fallback description. -/
theorem find_requested_carrier_config_loop_snd (req fb : Option String) (l : List ConfigInfo) :
    ∀ (i : Nat) (ri fi : Int),
      ((find_requested_carrier_config_loop req fb l i (ri, fi)).2 = fi ∧
        ∀ c ∈ l, ¬ (fb.isSome ∧ fb = c.description)) ∨
      (∃ j c, l[j]? = some c ∧ (fb.isSome ∧ fb = c.description) ∧
        (find_requested_carrier_config_loop req fb l i (ri, fi)).2 = ((i + j : Nat) : Int)) := by
  induction l with
  | nil => intro i ri fi; left; simp [find_requested_carrier_config_loop]
  | cons c rest ih =>
      intro i ri fi
      simp only [find_requested_carrier_config_loop]
      rcases ih (i + 1) (if req.isSome ∧ req = c.description then (i : Int) else ri)
          (if fb.isSome ∧ fb = c.description then (i : Int) else fi) with ⟨h1, h2⟩ | ⟨j, c2, hj, hm, h⟩
      · by_cases hc : fb.isSome ∧ fb = c.description
        · right
          refine ⟨0, c, by simp, hc, ?_⟩
          rw [h1, if_pos hc]; simp
        · left
          refine ⟨by rw [h1, if_neg hc], ?_⟩
          intro c2 hc2
          rcases List.mem_cons.mp hc2 with rfl | hc2
          · exact hc
          · exact h2 c2 hc2
      · right
        refine ⟨j + 1, c2, by simpa using hj, hm, ?_⟩
        rw [h]; congr 1; omega

/-- The cleanup action in one step: the three ids are zeroed, the handlers
and the timeout they name are gone, nothing else changes. -/
theorem setup_carrier_config_context_cleanup_action_eq (op : SetupCarrierConfigTask) :
    setup_carrier_config_context_cleanup_action op =
      { op with
        ctx := { op.ctx with
                 activate_config_indication_id := 0,
                 set_selected_config_indication_id := 0,
                 timeout_id := 0 },
        handlers :=
          (op.handlers.filter (fun h =>
            decide (op.ctx.activate_config_indication_id = 0 ∨
              h.id ≠ op.ctx.activate_config_indication_id))).filter (fun h =>
            decide (op.ctx.set_selected_config_indication_id = 0 ∨
              h.id ≠ op.ctx.set_selected_config_indication_id)),
        sources := op.sources.filter (fun s =>
          decide (op.ctx.timeout_id = 0 ∨ s.id ≠ op.ctx.timeout_id)) } := by
  rcases op with ⟨priv, ⟨step, keyfile, imsi, ri, req, token, tid, sid, aid⟩, pending, sources,
    handlers, last_id, requests, returned, aborted⟩
  unfold setup_carrier_config_context_cleanup_action
  by_cases ha : aid = 0 <;> by_cases hs : sid = 0 <;> by_cases ht : tid = 0 <;>
    simp [ha, hs, ht, Operation.g_signal_handler_disconnect, Operation.g_source_remove]

/-- The match on the 6-digit key in the code is the requested description
of the spec. -/
theorem requested_description_eq (keyfile : List (String × String)) (imsi : String) :
    (match keyfile.lookup (mccmnc imsi 6) with
      | some name => some name
      | none => keyfile.lookup (mccmnc imsi 5)) = requested_description keyfile imsi := by
  unfold requested_description
  cases keyfile.lookup (mccmnc imsi 6) <;> simp

/-- The function `find_requested_carrier_config` on a context that has no
requested index yet, as the entry point leaves it. -/
theorem find_requested_carrier_config_eq (op : SetupCarrierConfigTask)
    (hi : op.ctx.config_requested_i = -1) :
    find_requested_carrier_config op =
      if requested_description op.ctx.keyfile op.ctx.imsi = none ∧
          fallback_description op.ctx.keyfile = none then
        setup_carrier_config_abort
          { op with ctx := { op.ctx with
              config_requested := requested_description op.ctx.keyfile op.ctx.imsi } }
          { domain := GErrorDomain.MM_CORE_ERROR, code := MM_CORE_ERROR_NOT_FOUND }
      else if (find_requested_carrier_config_loop
            (requested_description op.ctx.keyfile op.ctx.imsi)
            (fallback_description op.ctx.keyfile) (op.priv.config_list.getD []) 0 (-1, -1)).1 < 0 ∧
          (find_requested_carrier_config_loop
            (requested_description op.ctx.keyfile op.ctx.imsi)
            (fallback_description op.ctx.keyfile) (op.priv.config_list.getD []) 0 (-1, -1)).2 < 0 then
        setup_carrier_config_abort
          { op with ctx := { op.ctx with
              config_requested := requested_description op.ctx.keyfile op.ctx.imsi,
              config_requested_i :=
                (find_requested_carrier_config_loop
                  (requested_description op.ctx.keyfile op.ctx.imsi)
                  (fallback_description op.ctx.keyfile) (op.priv.config_list.getD []) 0
                  (-1, -1)).1 } }
          { domain := GErrorDomain.MM_CORE_ERROR, code := MM_CORE_ERROR_FAILED }
      else if (find_requested_carrier_config_loop
            (requested_description op.ctx.keyfile op.ctx.imsi)
            (fallback_description op.ctx.keyfile) (op.priv.config_list.getD []) 0 (-1, -1)).1 < 0 then
        setup_carrier_config_step_case_check_change_needed
          { op with ctx := { op.ctx with
              config_requested := fallback_description op.ctx.keyfile,
              config_requested_i :=
                (find_requested_carrier_config_loop
                  (requested_description op.ctx.keyfile op.ctx.imsi)
                  (fallback_description op.ctx.keyfile) (op.priv.config_list.getD []) 0
                  (-1, -1)).2,
              step := op.ctx.step.next } }
      else
        setup_carrier_config_step_case_check_change_needed
          { op with ctx := { op.ctx with
              config_requested := requested_description op.ctx.keyfile op.ctx.imsi,
              config_requested_i :=
                (find_requested_carrier_config_loop
                  (requested_description op.ctx.keyfile op.ctx.imsi)
                  (fallback_description op.ctx.keyfile) (op.priv.config_list.getD []) 0
                  (-1, -1)).1,
              step := op.ctx.step.next } } := by
  have hfound : (match op.priv.config_list with
      | some config_list =>
          find_requested_carrier_config_loop (requested_description op.ctx.keyfile op.ctx.imsi)
            (fallback_description op.ctx.keyfile) config_list 0 (op.ctx.config_requested_i, -1)
      | none => (op.ctx.config_requested_i, -1)) =
      find_requested_carrier_config_loop (requested_description op.ctx.keyfile op.ctx.imsi)
        (fallback_description op.ctx.keyfile) (op.priv.config_list.getD []) 0 (-1, -1) := by
    rw [hi]
    cases op.priv.config_list <;> simp [find_requested_carrier_config_loop]
  unfold find_requested_carrier_config
  simp only [requested_description_eq]
  simp only [← fallback_description.eq_1, GENERIC_CONFIG_FALLBACK] at hfound ⊢
  rw [hfound]
  split_ifs <;> rfl

/-- Whether a description is loaded, in the terms of the loop. -/
theorem config_loaded_iff (priv : Private) (d : Option String) :
    config_loaded priv d ↔ ∃ c ∈ priv.config_list.getD [], d.isSome ∧ d = c.description := by
  unfold config_loaded
  constructor
  · rintro ⟨hne, c, hc, h⟩
    exact ⟨c, hc, Option.isSome_iff_ne_none.mpr hne, h.symm⟩
  · rintro ⟨c, hc, hs, h⟩
    exact ⟨Option.isSome_iff_ne_none.mp hs, c, hc, h.symm⟩

/-- An element of the loaded list is what `g_array_index` gives. -/
theorem config_list_index_of_getElem (priv : Private) (j : Nat) (c : ConfigInfo)
    (h : (priv.config_list.getD [])[j]? = some c) :
    config_list_index priv ((0 + j : Nat) : Int) = some c := by
  unfold config_list_index
  cases hl : priv.config_list with
  | none => simp [hl] at h
  | some l =>
      simp only [hl, Option.getD_some] at h
      simp [h]

/-- The check of the step after `FIND_REQUESTED` and what follows it keep the
choice made. -/
theorem setup_carrier_config_step_case_check_change_needed_ctx (op : SetupCarrierConfigTask) :
    (setup_carrier_config_step_case_check_change_needed op).ctx.config_requested =
      op.ctx.config_requested ∧
    (setup_carrier_config_step_case_check_change_needed op).ctx.config_requested_i =
      op.ctx.config_requested_i ∧
    (setup_carrier_config_step_case_check_change_needed op).priv = op.priv := by
  unfold setup_carrier_config_step_case_check_change_needed
  have hlast : ∀ op : SetupCarrierConfigTask,
      (setup_carrier_config_step_case_last op).ctx.config_requested = op.ctx.config_requested ∧
      (setup_carrier_config_step_case_last op).ctx.config_requested_i =
        op.ctx.config_requested_i ∧
      (setup_carrier_config_step_case_last op).priv = op.priv := by
    intro op
    simp [setup_carrier_config_step_case_last, setup_carrier_config_context_free,
      setup_carrier_config_context_cleanup_action_eq, Operation.g_task_return]
  have hupdate : ∀ op : SetupCarrierConfigTask,
      (setup_carrier_config_step_case_update_current op).ctx.config_requested =
        op.ctx.config_requested ∧
      (setup_carrier_config_step_case_update_current op).ctx.config_requested_i =
        op.ctx.config_requested_i ∧
      (setup_carrier_config_step_case_update_current op).priv = op.priv := by
    intro op
    unfold setup_carrier_config_step_case_update_current
    split <;> simp [Operation.qmi_client_request]
  split_ifs
  all_goals first
    | exact ⟨rfl, rfl, rfl⟩
    | exact hlast _
    | exact hupdate _

/-- What `setup_carrier_config_abort` leaves: no new request, one more
result, the error. -/
theorem setup_carrier_config_abort_results (op : SetupCarrierConfigTask) (error : GError) :
    (setup_carrier_config_abort op error).requests = op.requests ∧
    (setup_carrier_config_abort op error).results = op.results ++ [TaskResult.error error] ∧
    (setup_carrier_config_abort op error).priv = op.priv := by
  simp [setup_carrier_config_abort, setup_carrier_config_context_free,
    setup_carrier_config_context_cleanup_action_eq, Operation.g_task_return, Operation.results]

/-- C14: the Match-requested step on a context with no index chosen yet, as
the entry point leaves it, for every IMSI, mapping group and loaded list. With
the requested description the value of the 6-digit key if present and of the
5-digit key otherwise, and the fallback description the value of the
`generic` key: if a loaded configuration has the requested description, the
chosen index is the index of such a configuration and the chosen description
is the requested one; otherwise, if a loaded configuration has the fallback
description, the chosen index is the index of such a configuration and the
chosen description is the fallback; otherwise the operation completes with an
error and issues no request. -/
theorem C14_match_requested (op : SetupCarrierConfigTask)
    (hi : op.ctx.config_requested_i = -1) :
    (config_loaded op.priv (requested_description op.ctx.keyfile op.ctx.imsi) →
      (find_requested_carrier_config op).ctx.config_requested =
        requested_description op.ctx.keyfile op.ctx.imsi ∧
      ∃ config,
        config_list_index op.priv (find_requested_carrier_config op).ctx.config_requested_i =
          some config ∧
        config.description = requested_description op.ctx.keyfile op.ctx.imsi) ∧
    (¬ config_loaded op.priv (requested_description op.ctx.keyfile op.ctx.imsi) →
      config_loaded op.priv (fallback_description op.ctx.keyfile) →
      (find_requested_carrier_config op).ctx.config_requested =
        fallback_description op.ctx.keyfile ∧
      ∃ config,
        config_list_index op.priv (find_requested_carrier_config op).ctx.config_requested_i =
          some config ∧
        config.description = fallback_description op.ctx.keyfile) ∧
    (¬ config_loaded op.priv (requested_description op.ctx.keyfile op.ctx.imsi) →
      ¬ config_loaded op.priv (fallback_description op.ctx.keyfile) →
      (find_requested_carrier_config op).requests = op.requests ∧
      ∃ error,
        (find_requested_carrier_config op).results = op.results ++ [TaskResult.error error]) := by
  rw [find_requested_carrier_config_eq op hi]
  simp only [config_loaded_iff]
  generalize requested_description op.ctx.keyfile op.ctx.imsi = req
  generalize fallback_description op.ctx.keyfile = fb
  have hnone : ∀ d : Option String, d = none →
      ¬ ∃ c ∈ op.priv.config_list.getD [], d.isSome ∧ d = c.description := by
    rintro d rfl ⟨c, _, hs, _⟩
    simp at hs
  rcases find_requested_carrier_config_loop_fst req fb (op.priv.config_list.getD []) 0 (-1) (-1)
    with ⟨h1, hno1⟩ | ⟨j1, c1, hj1, hm1, h1⟩
  · have hnot1 : ¬ ∃ c ∈ op.priv.config_list.getD [], req.isSome ∧ req = c.description := by
      rintro ⟨c, hc, h⟩
      exact hno1 c hc h
    rcases find_requested_carrier_config_loop_snd req fb (op.priv.config_list.getD []) 0 (-1) (-1)
      with ⟨h2, hno2⟩ | ⟨j2, c2, hj2, hm2, h2⟩
    · have hnot2 : ¬ ∃ c ∈ op.priv.config_list.getD [], fb.isSome ∧ fb = c.description := by
        rintro ⟨c, hc, h⟩
        exact hno2 c hc h
      refine ⟨fun h => absurd h hnot1, fun _ h => absurd h hnot2, fun _ _ => ?_⟩
      rw [h1, h2]
      have hc2 : (-1 : Int) < 0 ∧ (-1 : Int) < 0 := by decide
      by_cases ha : req = none ∧ fb = none
      · rw [if_pos ha]
        exact ⟨(setup_carrier_config_abort_results _ _).1,
          _, (setup_carrier_config_abort_results _ _).2.1⟩
      · rw [if_neg ha, if_pos hc2]
        exact ⟨(setup_carrier_config_abort_results _ _).1,
          _, (setup_carrier_config_abort_results _ _).2.1⟩
    · have hfb : ¬ (req = none ∧ fb = none) := by
        rintro ⟨_, hf⟩
        rw [hf] at hm2
        simp at hm2
      refine ⟨fun h => absurd h hnot1, fun _ _ => ?_,
        fun _ h => absurd ⟨c2, List.getElem?_mem hj2, hm2⟩ h⟩
      have hc2 : ¬ ((-1 : Int) < 0 ∧ ((0 + j2 : Nat) : Int) < 0) := by omega
      have hc3 : (-1 : Int) < 0 := by decide
      rw [h1, h2, if_neg hfb, if_neg hc2, if_pos hc3]
      refine ⟨(setup_carrier_config_step_case_check_change_needed_ctx _).1, c2, ?_, hm2.2.symm⟩
      rw [(setup_carrier_config_step_case_check_change_needed_ctx _).2.1]
      exact config_list_index_of_getElem op.priv j2 c2 hj2
  · have hreq : ¬ (req = none ∧ fb = none) := by
      rintro ⟨hr, _⟩
      rw [hr] at hm1
      simp at hm1
    refine ⟨fun _ => ?_, fun h => absurd ⟨c1, List.getElem?_mem hj1, hm1⟩ h,
      fun h => absurd ⟨c1, List.getElem?_mem hj1, hm1⟩ h⟩
    have hc2 : ¬ (((0 + j1 : Nat) : Int) < 0 ∧
        (find_requested_carrier_config_loop req fb (op.priv.config_list.getD []) 0 (-1, -1)).2 <
          0) := by omega
    have hc3 : ¬ (((0 + j1 : Nat) : Int) < 0) := by omega
    rw [h1, if_neg hreq, if_neg hc2, if_neg hc3]
    refine ⟨(setup_carrier_config_step_case_check_change_needed_ctx _).1, c1, ?_, hm1.2.symm⟩
    rw [(setup_carrier_config_step_case_check_change_needed_ctx _).2.1]
    exact config_list_index_of_getElem op.priv j1 c1 hj1

/-- When a loaded configuration has the requested or the fallback
description, `find_requested_carrier_config` goes on to the check of the next
step with the index of a loaded configuration. -/
theorem find_requested_carrier_config_chosen (op : SetupCarrierConfigTask)
    (hi : op.ctx.config_requested_i = -1)
    (hmatch : config_loaded op.priv (requested_description op.ctx.keyfile op.ctx.imsi) ∨
      config_loaded op.priv (fallback_description op.ctx.keyfile)) :
    ∃ (j : Nat) (c : ConfigInfo) (description : Option String),
      config_list_index op.priv ((0 + j : Nat) : Int) = some c ∧
      find_requested_carrier_config op =
        setup_carrier_config_step_case_check_change_needed
          { op with ctx := { op.ctx with
              config_requested := description,
              config_requested_i := ((0 + j : Nat) : Int),
              step := op.ctx.step.next } } := by
  rw [find_requested_carrier_config_eq op hi]
  simp only [config_loaded_iff] at hmatch
  revert hmatch
  generalize requested_description op.ctx.keyfile op.ctx.imsi = req
  generalize fallback_description op.ctx.keyfile = fb
  intro hmatch
  rcases find_requested_carrier_config_loop_fst req fb (op.priv.config_list.getD []) 0 (-1) (-1)
    with ⟨h1, hno1⟩ | ⟨j1, c1, hj1, hm1, h1⟩
  · have hnot1 : ¬ ∃ c ∈ op.priv.config_list.getD [], req.isSome ∧ req = c.description := by
      rintro ⟨c, hc, h⟩
      exact hno1 c hc h
    rcases find_requested_carrier_config_loop_snd req fb (op.priv.config_list.getD []) 0 (-1) (-1)
      with ⟨h2, hno2⟩ | ⟨j2, c2, hj2, hm2, h2⟩
    · exfalso
      rcases hmatch with h | ⟨c, hc, h⟩
      · exact hnot1 h
      · exact hno2 c hc h
    · have hfb : ¬ (req = none ∧ fb = none) := by
        rintro ⟨_, hf⟩
        rw [hf] at hm2
        simp at hm2
      have hc2 : ¬ ((-1 : Int) < 0 ∧ ((0 + j2 : Nat) : Int) < 0) := by omega
      have hc3 : (-1 : Int) < 0 := by decide
      rw [h1, h2, if_neg hfb, if_neg hc2, if_pos hc3]
      exact ⟨j2, c2, fb, config_list_index_of_getElem op.priv j2 c2 hj2, rfl⟩
  · have hreq : ¬ (req = none ∧ fb = none) := by
      rintro ⟨hr, _⟩
      rw [hr] at hm1
      simp at hm1
    have hc2 : ¬ (((0 + j1 : Nat) : Int) < 0 ∧
        (find_requested_carrier_config_loop req fb (op.priv.config_list.getD []) 0 (-1, -1)).2 <
          0) := by omega
    have hc3 : ¬ (((0 + j1 : Nat) : Int) < 0) := by omega
    rw [h1, if_neg hreq, if_neg hc2, if_neg hc3]
    exact ⟨j1, c1, req, config_list_index_of_getElem op.priv j1 c1 hj1, rfl⟩

/-- When no loaded configuration has the requested or the fallback
description, `find_requested_carrier_config` aborts the operation: with
the error NotFound when the mapping gives neither description, with the error
Failed when it gives one that is not loaded. -/
theorem find_requested_carrier_config_failed (op : SetupCarrierConfigTask)
    (hi : op.ctx.config_requested_i = -1)
    (hreq : ¬ config_loaded op.priv (requested_description op.ctx.keyfile op.ctx.imsi))
    (hfb : ¬ config_loaded op.priv (fallback_description op.ctx.keyfile)) :
    find_requested_carrier_config op =
      setup_carrier_config_abort
        { op with ctx := { op.ctx with
            config_requested := requested_description op.ctx.keyfile op.ctx.imsi,
            config_requested_i := -1 } }
        { domain := GErrorDomain.MM_CORE_ERROR,
          code :=
            if requested_description op.ctx.keyfile op.ctx.imsi = none ∧
                fallback_description op.ctx.keyfile = none then MM_CORE_ERROR_NOT_FOUND
            else MM_CORE_ERROR_FAILED } := by
  rw [find_requested_carrier_config_eq op hi]
  simp only [config_loaded_iff] at hreq hfb
  revert hreq hfb
  generalize requested_description op.ctx.keyfile op.ctx.imsi = req
  generalize fallback_description op.ctx.keyfile = fb
  intro hreq hfb
  have hc2 : (-1 : Int) < 0 ∧ (-1 : Int) < 0 := by decide
  rcases find_requested_carrier_config_loop_fst req fb (op.priv.config_list.getD []) 0 (-1) (-1)
    with ⟨h1, _⟩ | ⟨j1, c1, hj1, hm1, _⟩
  · rcases find_requested_carrier_config_loop_snd req fb (op.priv.config_list.getD []) 0 (-1) (-1)
      with ⟨h2, _⟩ | ⟨j2, c2, hj2, hm2, _⟩
    · rw [h1, h2]
      by_cases ha : req = none ∧ fb = none
      · rw [if_pos ha, if_pos ha]
        congr 2
        rw [← hi]
      · rw [if_neg ha, if_pos hc2, if_neg ha]
    · exact absurd ⟨c2, List.getElem?_mem hj2, hm2⟩ hfb
  · exact absurd ⟨c1, List.getElem?_mem hj1, hm1⟩ hreq

/-- The entry point with a mapping that loads and a PDC client: the
operation starts at `find_requested_carrier_config`, with no index chosen. -/
theorem mm_shared_qmi_setup_carrier_config_eq (self : MMIfaceModem) (priv : Private)
    (imsi : String) (keyfile : List (String × String))
    (hpdc : self.peek_client QmiService.QMI_SERVICE_PDC = Except.ok ()) :
    mm_shared_qmi_setup_carrier_config self priv imsi (Except.ok keyfile) =
      find_requested_carrier_config
        { priv := priv,
          ctx := { step := SetupCarrierConfigStep.SETUP_CARRIER_CONFIG_STEP_FIND_REQUESTED,
                   imsi := imsi, keyfile := keyfile, config_requested_i := -1 } } := by
  simp only [mm_shared_qmi_setup_carrier_config, hpdc, setup_carrier_config_step,
    SetupCarrierConfigStep.next]

/-- C14 at the start of a switch for the IMSI 310260123456789 with the
mapping `310260 = att`, `generic = generic`: on a device that has `generic`
and `att` loaded the choice is `att`, at index 1; on a device that has neither
loaded the operation fails and issues no request. -/
theorem C14_match_requested_witness :
    (find_requested_carrier_config
        { priv := modem_carrier_generic,
          ctx := { imsi := "310260123456789", keyfile := carrier_config_mapping_att }
        }).ctx.config_requested = some "att" ∧
    (∃ config,
      config_list_index modem_carrier_generic
          (find_requested_carrier_config
            { priv := modem_carrier_generic,
              ctx := { imsi := "310260123456789", keyfile := carrier_config_mapping_att }
            }).ctx.config_requested_i = some config ∧
        config.description = some "att") ∧
    (find_requested_carrier_config
        { priv := modem_carrier_other,
          ctx := { imsi := "310260123456789", keyfile := carrier_config_mapping_att }
        }).requests = [] :=
  ⟨((C14_match_requested
      { priv := modem_carrier_generic,
        ctx := { imsi := "310260123456789", keyfile := carrier_config_mapping_att } }
      rfl).1 (by unfold config_loaded; decide)).1,
   ((C14_match_requested
      { priv := modem_carrier_generic,
        ctx := { imsi := "310260123456789", keyfile := carrier_config_mapping_att } }
      rfl).1 (by unfold config_loaded; decide)).2,
   ((C14_match_requested
      { priv := modem_carrier_other,
        ctx := { imsi := "310260123456789", keyfile := carrier_config_mapping_att } }
      rfl).2.2 (by unfold config_loaded; decide) (by unfold config_loaded; decide)).1⟩

/-- C15: the switch for the IMSI 310260123456789 with the mapping
`310260 = att`, `generic = generic` on a device whose loaded list has neither
`att` nor `generic` completes with the error Failed of the core taxonomy,
which is not the error NotFound; with a mapping that has no entry for the
network and no `generic` entry the same switch completes with NotFound. -/
theorem C15_not_loaded_reports_failed :
    ¬ config_loaded modem_carrier_other
        (requested_description carrier_config_mapping_att "310260123456789") ∧
    ¬ config_loaded modem_carrier_other (fallback_description carrier_config_mapping_att) ∧
    (mm_shared_qmi_setup_carrier_config modem_3gpp modem_carrier_other "310260123456789"
        (Except.ok carrier_config_mapping_att)).results =
      [TaskResult.error { domain := GErrorDomain.MM_CORE_ERROR, code := MM_CORE_ERROR_FAILED }] ∧
    MM_CORE_ERROR_FAILED ≠ MM_CORE_ERROR_NOT_FOUND ∧
    (mm_shared_qmi_setup_carrier_config modem_3gpp modem_carrier_other "310260123456789"
        (Except.ok [("20801", "orange")])).results =
      [TaskResult.error
        { domain := GErrorDomain.MM_CORE_ERROR, code := MM_CORE_ERROR_NOT_FOUND }] := by
  unfold config_loaded
  decide

/-- Once nothing is in flight, armed or connected, no event changes the
operation. -/
theorem setup_carrier_config_deliver_idle (op : SetupCarrierConfigTask)
    (hp : op.pending = []) (hs : op.sources = []) (hh : op.handlers = [])
    (ev : SetupCarrierConfigEvent) : setup_carrier_config_deliver op ev = op := by
  unfold setup_carrier_config_deliver
  cases ev <;> simp [hp, hs, hh]

/-- The same over a series of events. -/
theorem setup_carrier_config_run_idle (events : List SetupCarrierConfigEvent)
    (op : SetupCarrierConfigTask)
    (hp : op.pending = []) (hs : op.sources = []) (hh : op.handlers = []) :
    events.foldl setup_carrier_config_deliver op = op := by
  induction events with
  | nil => rfl
  | cons ev rest ih => rw [List.foldl_cons, setup_carrier_config_deliver_idle op hp hs hh ev, ih]

/-- C16: for every switch in which Match-requested chooses a loaded
configuration and the chosen index equals the active index of the device, the
operation completes with success, and whatever events follow it issues no
request at all, so neither Set-Selected-Config nor Activate-Config, and the
carrier config state of the device (list, active index, default flag) and all
its other data are unchanged. -/
theorem C16_no_change_needed (self : MMIfaceModem) (priv : Private) (imsi : String)
    (keyfile : List (String × String))
    (hpdc : self.peek_client QmiService.QMI_SERVICE_PDC = Except.ok ())
    (hmatch : config_loaded priv (requested_description keyfile imsi) ∨
      config_loaded priv (fallback_description keyfile))
    (hsame : (mm_shared_qmi_setup_carrier_config self priv imsi
        (Except.ok keyfile)).ctx.config_requested_i = priv.config_active_i)
    (events : List SetupCarrierConfigEvent) :
    (setup_carrier_config_run self priv imsi (Except.ok keyfile) events).results =
      [TaskResult.value ()] ∧
    (setup_carrier_config_run self priv imsi (Except.ok keyfile) events).requests = [] ∧
    (setup_carrier_config_run self priv imsi (Except.ok keyfile) events).priv = priv ∧
    (setup_carrier_config_run self priv imsi (Except.ok keyfile) events).aborted = false := by
  unfold setup_carrier_config_run
  rw [mm_shared_qmi_setup_carrier_config_eq self priv imsi keyfile hpdc] at hsame ⊢
  obtain ⟨j, c, d, hc, hfind⟩ := find_requested_carrier_config_chosen
    { priv := priv,
      ctx := { step := SetupCarrierConfigStep.SETUP_CARRIER_CONFIG_STEP_FIND_REQUESTED,
               imsi := imsi, keyfile := keyfile, config_requested_i := -1 } } rfl hmatch
  rw [hfind] at hsame ⊢
  rw [(setup_carrier_config_step_case_check_change_needed_ctx _).2.1] at hsame
  simp only at hsame
  have hj : ¬ ¬ (((0 + j : Nat) : Int) ≥ 0) := by omega
  have ha : ¬ ¬ (priv.config_active_i ≥ 0 ∨ priv.config_active_default = true) := by
    rw [← hsame]
    exact not_not.mpr (Or.inl (by omega))
  unfold setup_carrier_config_step_case_check_change_needed
  simp only
  rw [if_neg hj, if_neg ha, if_pos hsame]
  rw [setup_carrier_config_run_idle events _
    (by simp [setup_carrier_config_step_case_last, setup_carrier_config_context_free,
      setup_carrier_config_context_cleanup_action_eq, Operation.g_task_return])
    (by simp [setup_carrier_config_step_case_last, setup_carrier_config_context_free,
      setup_carrier_config_context_cleanup_action_eq, Operation.g_task_return])
    (by simp [setup_carrier_config_step_case_last, setup_carrier_config_context_free,
      setup_carrier_config_context_cleanup_action_eq, Operation.g_task_return])]
  simp [setup_carrier_config_step_case_last, setup_carrier_config_context_free,
    setup_carrier_config_context_cleanup_action_eq, Operation.g_task_return, Operation.results]

/-- C16 on the device that has `att` active, for the IMSI 310260123456789
and the mapping `310260 = att`: success, no request, even when a stray
timeout and a stray indication follow. -/
theorem C16_no_change_needed_witness :
    (setup_carrier_config_run modem_3gpp modem_carrier_att "310260123456789"
        (Except.ok carrier_config_mapping_att)
        [SetupCarrierConfigEvent.timeout 1,
         SetupCarrierConfigEvent.indication
           SetupCarrierConfigSignal.set_selected_config_indication
           { indication_result := Except.ok 0 }]).results = [TaskResult.value ()] ∧
    (setup_carrier_config_run modem_3gpp modem_carrier_att "310260123456789"
        (Except.ok carrier_config_mapping_att)
        [SetupCarrierConfigEvent.timeout 1,
         SetupCarrierConfigEvent.indication
           SetupCarrierConfigSignal.set_selected_config_indication
           { indication_result := Except.ok 0 }]).requests = [] :=
  ⟨(C16_no_change_needed modem_3gpp modem_carrier_att "310260123456789"
      carrier_config_mapping_att rfl (Or.inl (by unfold config_loaded; decide)) (by decide) _).1,
   (C16_no_change_needed modem_3gpp modem_carrier_att "310260123456789"
      carrier_config_mapping_att rfl (Or.inl (by unfold config_loaded; decide)) (by decide) _).2.1⟩

/-- One event while the operation waits for the set-selected-config
indication: the state reached, and no request is issued unless the event is
the indication with error code 0. -/
theorem setup_carrier_config_deliver_awaits_set_selected_config (op : SetupCarrierConfigTask)
    (ev : SetupCarrierConfigEvent)
    (h : setup_carrier_config_awaits_set_selected_config op)
    (hreq : ∀ r ∈ op.requests, r.is_activate_config = false) :
    setup_carrier_config_reachable (setup_carrier_config_deliver op ev) ∧
    ((setup_carrier_config_deliver op ev).requests = op.requests ∨
      ev.is_set_selected_config_accepted = true) := by
  rcases op with ⟨priv, ⟨step, keyfile, imsi, ri, req, token, tid, sid, aid⟩, pending, sources,
    handlers, last_id, requests, returned, aborted⟩
  simp only [setup_carrier_config_awaits_set_selected_config] at h
  obtain ⟨rfl, rfl, rfl, rfl, rfl, ht, hs, rfl, rfl, hidx⟩ := h
  simp only at hreq ht hs hidx
  obtain ⟨config, hconfig⟩ := Option.isSome_iff_exists.mp hidx
  cases ev with
  | response callback res =>
      refine ⟨Or.inr (Or.inr (Or.inl ⟨?_, ?_⟩)), Or.inl ?_⟩ <;>
        simp [setup_carrier_config_deliver, setup_carrier_config_awaits_set_selected_config,
          ht, hs, hidx, hreq]
      exact hreq
  | timeout id =>
      by_cases hid : tid = id
      · subst hid
        refine ⟨Or.inl ?_, Or.inl ?_⟩ <;>
          simp [setup_carrier_config_deliver, setup_carrier_config_timeout,
            setup_carrier_config_abort, setup_carrier_config_context_free,
            setup_carrier_config_context_cleanup_action_eq, Operation.g_task_return,
            setup_carrier_config_done, ht, hs]
      · refine ⟨Or.inr (Or.inr (Or.inl ⟨?_, ?_⟩)), Or.inl ?_⟩ <;>
          simp [setup_carrier_config_deliver, setup_carrier_config_awaits_set_selected_config,
            ht, hs, hidx, hid]
        exact hreq
  | indication signal output =>
      rcases output with ⟨result, tok⟩
      cases signal with
      | activate_config_indication =>
          refine ⟨Or.inr (Or.inr (Or.inl ⟨?_, ?_⟩)), Or.inl ?_⟩ <;>
            simp [setup_carrier_config_deliver, setup_carrier_config_awaits_set_selected_config,
              ht, hs, hidx]
          exact hreq
      | set_selected_config_indication =>
          cases result with
          | error e =>
              refine ⟨Or.inl ?_, Or.inl ?_⟩ <;>
                simp [setup_carrier_config_deliver, setup_carrier_config_emit,
                  set_selected_config_indication,
                  setup_carrier_config_abort, setup_carrier_config_context_free,
                  setup_carrier_config_context_cleanup_action_eq, Operation.g_task_return,
                  setup_carrier_config_done, ht, hs]
          | ok code =>
              by_cases hcode : code = 0
              · subst hcode
                refine ⟨Or.inr (Or.inr (Or.inr (Or.inl ?_))), Or.inr ?_⟩
                · simp [setup_carrier_config_deliver, setup_carrier_config_emit,
                    set_selected_config_indication, setup_carrier_config_step,
                    setup_carrier_config_step_case_activate_current,
                    SetupCarrierConfigStep.next, Operation.qmi_client_request,
                    setup_carrier_config_context_cleanup_action_eq, hconfig,
                    setup_carrier_config_in_flight, ht, hs]
                · simp [SetupCarrierConfigEvent.is_set_selected_config_accepted]
              · refine ⟨Or.inl ?_, Or.inl ?_⟩ <;>
                  simp [setup_carrier_config_deliver, setup_carrier_config_emit,
                    set_selected_config_indication,
                    setup_carrier_config_abort, setup_carrier_config_context_free,
                    setup_carrier_config_context_cleanup_action_eq, Operation.g_task_return,
                    setup_carrier_config_done, ht, hs, hcode]

/-- One event while the operation waits for the activate-config indication:
the state reached, and no request is issued. -/
theorem setup_carrier_config_deliver_awaits_activate_config (op : SetupCarrierConfigTask)
    (ev : SetupCarrierConfigEvent)
    (h : setup_carrier_config_awaits_activate_config op) :
    setup_carrier_config_reachable (setup_carrier_config_deliver op ev) ∧
    (setup_carrier_config_deliver op ev).requests = op.requests := by
  rcases op with ⟨priv, ⟨step, keyfile, imsi, ri, req, token, tid, sid, aid⟩, pending, sources,
    handlers, last_id, requests, returned, aborted⟩
  simp only [setup_carrier_config_awaits_activate_config] at h
  obtain ⟨rfl, rfl, rfl, rfl, rfl, ht, ha, rfl, rfl, hidx⟩ := h
  cases ev with
  | response callback res =>
      refine ⟨Or.inr (Or.inr (Or.inr (Or.inr ?_))), ?_⟩ <;>
        simp [setup_carrier_config_deliver, setup_carrier_config_awaits_activate_config,
          ht, ha, hidx]
  | timeout id =>
      by_cases hid : tid = id
      · subst hid
        refine ⟨Or.inl ?_, ?_⟩ <;>
          simp [setup_carrier_config_deliver, setup_carrier_config_timeout_no_error,
            setup_carrier_config_step, setup_carrier_config_step_case_last,
            SetupCarrierConfigStep.next,
            setup_carrier_config_context_free,
            setup_carrier_config_context_cleanup_action_eq, Operation.g_task_return,
            setup_carrier_config_done, ht, ha]
      · refine ⟨Or.inr (Or.inr (Or.inr (Or.inr ?_))), ?_⟩ <;>
          simp [setup_carrier_config_deliver, setup_carrier_config_awaits_activate_config,
            ht, ha, hidx, hid]
  | indication signal output =>
      rcases output with ⟨result, tok⟩
      cases signal with
      | set_selected_config_indication =>
          refine ⟨Or.inr (Or.inr (Or.inr (Or.inr ?_))), ?_⟩ <;>
            simp [setup_carrier_config_deliver, setup_carrier_config_awaits_activate_config,
              ht, ha, hidx]
      | activate_config_indication =>
          cases result with
          | error e =>
              refine ⟨Or.inl ?_, ?_⟩ <;>
                simp [setup_carrier_config_deliver, setup_carrier_config_emit,
                  activate_config_indication,
                  setup_carrier_config_abort, setup_carrier_config_context_free,
                  setup_carrier_config_context_cleanup_action_eq, Operation.g_task_return,
                  setup_carrier_config_done, ht, ha]
          | ok code =>
              by_cases hcode : code = 0
              · subst hcode
                refine ⟨Or.inl ?_, ?_⟩ <;>
                  simp [setup_carrier_config_deliver, setup_carrier_config_emit,
                    activate_config_indication, setup_carrier_config_step,
                    setup_carrier_config_step_case_last,
                    SetupCarrierConfigStep.next, setup_carrier_config_context_free,
                    setup_carrier_config_context_cleanup_action_eq, Operation.g_task_return,
                    setup_carrier_config_done, ht, ha]
              · refine ⟨Or.inl ?_, ?_⟩ <;>
                  simp [setup_carrier_config_deliver, setup_carrier_config_emit,
                    activate_config_indication,
                    setup_carrier_config_abort, setup_carrier_config_context_free,
                    setup_carrier_config_context_cleanup_action_eq, Operation.g_task_return,
                    setup_carrier_config_done, ht, ha, hcode]

/-- One event while the Set-Selected-Config request is in flight: the state
reached, and no request is issued. -/
theorem setup_carrier_config_deliver_set_selected_config_in_flight
    (op : SetupCarrierConfigTask) (ev : SetupCarrierConfigEvent)
    (h : setup_carrier_config_in_flight op SetupCarrierConfigCallback.set_selected_config_ready
      SetupCarrierConfigStep.SETUP_CARRIER_CONFIG_STEP_UPDATE_CURRENT)
    (hreq : ∀ r ∈ op.requests, r.is_activate_config = false) :
    setup_carrier_config_reachable (setup_carrier_config_deliver op ev) ∧
    (setup_carrier_config_deliver op ev).requests = op.requests := by
  rcases op with ⟨priv, ⟨step, keyfile, imsi, ri, req, token, tid, sid, aid⟩, pending, sources,
    handlers, last_id, requests, returned, aborted⟩
  simp only [setup_carrier_config_in_flight] at h
  obtain ⟨rfl, rfl, rfl, rfl, rfl, rfl, rfl, rfl, rfl, hidx⟩ := h
  simp only at hreq hidx
  cases ev with
  | timeout id =>
      refine ⟨Or.inr (Or.inl ⟨?_, ?_⟩), ?_⟩ <;>
        simp [setup_carrier_config_deliver, setup_carrier_config_in_flight, hidx]
      exact hreq
  | indication signal output =>
      refine ⟨Or.inr (Or.inl ⟨?_, ?_⟩), ?_⟩ <;>
        simp [setup_carrier_config_deliver, setup_carrier_config_in_flight, hidx]
      exact hreq
  | response callback res =>
      cases callback with
      | activate_config_ready =>
          refine ⟨Or.inr (Or.inl ⟨?_, ?_⟩), ?_⟩ <;>
            simp [setup_carrier_config_deliver, setup_carrier_config_in_flight, hidx]
          exact hreq
      | set_selected_config_ready =>
          cases res with
          | no_output e =>
              refine ⟨Or.inl ?_, ?_⟩ <;>
                simp [setup_carrier_config_deliver, set_selected_config_ready,
                  setup_carrier_config_abort, setup_carrier_config_context_free,
                  setup_carrier_config_context_cleanup_action_eq, Operation.g_task_return,
                  setup_carrier_config_done]
          | result_failed e =>
              refine ⟨Or.inl ?_, ?_⟩ <;>
                simp [setup_carrier_config_deliver, set_selected_config_ready,
                  setup_carrier_config_abort, setup_carrier_config_context_free,
                  setup_carrier_config_context_cleanup_action_eq, Operation.g_task_return,
                  setup_carrier_config_done]
          | ok u =>
              refine ⟨Or.inr (Or.inr (Or.inl ⟨?_, ?_⟩)), ?_⟩ <;>
                simp [setup_carrier_config_deliver, set_selected_config_ready,
                  Operation.g_timeout_add_seconds, Operation.g_signal_connect,
                  setup_carrier_config_awaits_set_selected_config, hidx]
              exact hreq

/-- One event while the Activate-Config request is in flight: the state
reached, and no request is issued. -/
theorem setup_carrier_config_deliver_activate_config_in_flight
    (op : SetupCarrierConfigTask) (ev : SetupCarrierConfigEvent)
    (h : setup_carrier_config_in_flight op SetupCarrierConfigCallback.activate_config_ready
      SetupCarrierConfigStep.SETUP_CARRIER_CONFIG_STEP_ACTIVATE_CURRENT) :
    setup_carrier_config_reachable (setup_carrier_config_deliver op ev) ∧
    (setup_carrier_config_deliver op ev).requests = op.requests := by
  rcases op with ⟨priv, ⟨step, keyfile, imsi, ri, req, token, tid, sid, aid⟩, pending, sources,
    handlers, last_id, requests, returned, aborted⟩
  simp only [setup_carrier_config_in_flight] at h
  obtain ⟨rfl, rfl, rfl, rfl, rfl, rfl, rfl, rfl, rfl, hidx⟩ := h
  cases ev with
  | timeout id =>
      refine ⟨Or.inr (Or.inr (Or.inr (Or.inl ?_))), ?_⟩ <;>
        simp [setup_carrier_config_deliver, setup_carrier_config_in_flight, hidx]
  | indication signal output =>
      refine ⟨Or.inr (Or.inr (Or.inr (Or.inl ?_))), ?_⟩ <;>
        simp [setup_carrier_config_deliver, setup_carrier_config_in_flight, hidx]
  | response callback res =>
      cases callback with
      | set_selected_config_ready =>
          refine ⟨Or.inr (Or.inr (Or.inr (Or.inl ?_))), ?_⟩ <;>
            simp [setup_carrier_config_deliver, setup_carrier_config_in_flight, hidx]
      | activate_config_ready =>
          cases res with
          | no_output e =>
              refine ⟨Or.inl ?_, ?_⟩ <;>
                simp [setup_carrier_config_deliver, activate_config_ready,
                  setup_carrier_config_abort, setup_carrier_config_context_free,
                  setup_carrier_config_context_cleanup_action_eq, Operation.g_task_return,
                  setup_carrier_config_done]
          | result_failed e =>
              refine ⟨Or.inl ?_, ?_⟩ <;>
                simp [setup_carrier_config_deliver, activate_config_ready,
                  setup_carrier_config_abort, setup_carrier_config_context_free,
                  setup_carrier_config_context_cleanup_action_eq, Operation.g_task_return,
                  setup_carrier_config_done]
          | ok u =>
              refine ⟨Or.inr (Or.inr (Or.inr (Or.inr ?_))), ?_⟩ <;>
                simp [setup_carrier_config_deliver, activate_config_ready,
                  Operation.g_timeout_add_seconds, Operation.g_signal_connect,
                  setup_carrier_config_awaits_activate_config, hidx]

/-- Every event takes a state of the setup to a state of the setup, and only
the set-selected-config indication with error code 0 makes it issue a
request. -/
theorem setup_carrier_config_deliver_reachable (op : SetupCarrierConfigTask)
    (ev : SetupCarrierConfigEvent) (h : setup_carrier_config_reachable op) :
    setup_carrier_config_reachable (setup_carrier_config_deliver op ev) ∧
    ((setup_carrier_config_deliver op ev).requests = op.requests ∨
      ev.is_set_selected_config_accepted = true) := by
  rcases h with h | ⟨h, hreq⟩ | ⟨h, hreq⟩ | h | h
  · rw [setup_carrier_config_deliver_idle op h.2.1 h.2.2.1 h.2.2.2.1 ev]
    exact ⟨Or.inl h, Or.inl rfl⟩
  · exact ⟨(setup_carrier_config_deliver_set_selected_config_in_flight op ev h hreq).1,
      Or.inl (setup_carrier_config_deliver_set_selected_config_in_flight op ev h hreq).2⟩
  · exact setup_carrier_config_deliver_awaits_set_selected_config op ev h hreq
  · exact ⟨(setup_carrier_config_deliver_activate_config_in_flight op ev h).1,
      Or.inl (setup_carrier_config_deliver_activate_config_in_flight op ev h).2⟩
  · exact ⟨(setup_carrier_config_deliver_awaits_activate_config op ev h).1,
      Or.inl (setup_carrier_config_deliver_awaits_activate_config op ev h).2⟩

/-- The step timeout while the operation waits for the set-selected-config
indication: the operation is done, with the error Aborted, and has issued no
request. -/
theorem setup_carrier_config_timeout_awaits_set_selected_config (op : SetupCarrierConfigTask)
    (h : setup_carrier_config_awaits_set_selected_config op) :
    setup_carrier_config_done
      (setup_carrier_config_deliver op (SetupCarrierConfigEvent.timeout op.ctx.timeout_id)) ∧
    (setup_carrier_config_deliver op
      (SetupCarrierConfigEvent.timeout op.ctx.timeout_id)).results =
      [TaskResult.error { domain := GErrorDomain.MM_CORE_ERROR, code := MM_CORE_ERROR_ABORTED }] ∧
    (setup_carrier_config_deliver op
      (SetupCarrierConfigEvent.timeout op.ctx.timeout_id)).requests = op.requests := by
  rcases op with ⟨priv, ⟨step, keyfile, imsi, ri, req, token, tid, sid, aid⟩, pending, sources,
    handlers, last_id, requests, returned, aborted⟩
  simp only [setup_carrier_config_awaits_set_selected_config] at h
  obtain ⟨rfl, rfl, rfl, rfl, rfl, ht, hs, rfl, rfl, hidx⟩ := h
  refine ⟨?_, ?_, ?_⟩ <;>
    simp [setup_carrier_config_deliver, setup_carrier_config_timeout,
      setup_carrier_config_abort, setup_carrier_config_context_free,
      setup_carrier_config_context_cleanup_action_eq, Operation.g_task_return,
      setup_carrier_config_done, Operation.results, ht, hs]

/-- The timeout while the operation waits for the activate-config
indication: the operation is done, with success. -/
theorem setup_carrier_config_timeout_awaits_activate_config (op : SetupCarrierConfigTask)
    (h : setup_carrier_config_awaits_activate_config op) :
    setup_carrier_config_done
      (setup_carrier_config_deliver op (SetupCarrierConfigEvent.timeout op.ctx.timeout_id)) ∧
    (setup_carrier_config_deliver op
      (SetupCarrierConfigEvent.timeout op.ctx.timeout_id)).results = [TaskResult.value ()] := by
  rcases op with ⟨priv, ⟨step, keyfile, imsi, ri, req, token, tid, sid, aid⟩, pending, sources,
    handlers, last_id, requests, returned, aborted⟩
  simp only [setup_carrier_config_awaits_activate_config] at h
  obtain ⟨rfl, rfl, rfl, rfl, rfl, ht, ha, rfl, rfl, hidx⟩ := h
  refine ⟨?_, ?_⟩ <;>
    simp [setup_carrier_config_deliver, setup_carrier_config_timeout_no_error,
      setup_carrier_config_step, setup_carrier_config_step_case_last,
      SetupCarrierConfigStep.next, setup_carrier_config_context_free,
      setup_carrier_config_context_cleanup_action_eq, Operation.g_task_return,
      setup_carrier_config_done, Operation.results, ht, ha]

/-- An activate-config indication with a non-zero error code while the
operation waits for it: the operation is done, with the error Failed. -/
theorem setup_carrier_config_rejected_awaits_activate_config (op : SetupCarrierConfigTask)
    (h : setup_carrier_config_awaits_activate_config op)
    (error_code : Nat) (token : Option Nat) (hcode : error_code ≠ 0) :
    (setup_carrier_config_deliver op
      (SetupCarrierConfigEvent.indication SetupCarrierConfigSignal.activate_config_indication
        { indication_result := Except.ok error_code, token := token })).results =
      [TaskResult.error { domain := GErrorDomain.MM_CORE_ERROR, code := MM_CORE_ERROR_FAILED }] := by
  rcases op with ⟨priv, ⟨step, keyfile, imsi, ri, req, token, tid, sid, aid⟩, pending, sources,
    handlers, last_id, requests, returned, aborted⟩
  simp only [setup_carrier_config_awaits_activate_config] at h
  obtain ⟨rfl, rfl, rfl, rfl, rfl, ht, ha, rfl, rfl, hidx⟩ := h
  simp [setup_carrier_config_deliver, setup_carrier_config_emit, activate_config_indication,
    setup_carrier_config_abort, setup_carrier_config_context_free,
    setup_carrier_config_context_cleanup_action_eq, Operation.g_task_return,
    Operation.results, ht, ha, hcode]

/-- The state the entry point leaves: a state of the setup with no
Activate-Config request, unless the assertion on the active configuration of
the device fails. -/
theorem mm_shared_qmi_setup_carrier_config_reachable (self : MMIfaceModem) (priv : Private)
    (imsi : String) (carrier_config_mapping : Except GError (List (String × String))) :
    (setup_carrier_config_reachable
        (mm_shared_qmi_setup_carrier_config self priv imsi carrier_config_mapping) ∨
      (setup_carrier_config_crashed
          (mm_shared_qmi_setup_carrier_config self priv imsi carrier_config_mapping) ∧
        ¬ (priv.config_active_i ≥ 0 ∨ priv.config_active_default = true))) ∧
    ∀ r ∈ (mm_shared_qmi_setup_carrier_config self priv imsi carrier_config_mapping).requests,
      r.is_activate_config = false := by
  cases carrier_config_mapping with
  | error e =>
      refine ⟨Or.inl (Or.inl ?_), ?_⟩ <;>
        simp [mm_shared_qmi_setup_carrier_config, setup_carrier_config_context_free,
          setup_carrier_config_context_cleanup_action_eq, Operation.g_task_return,
          setup_carrier_config_done]
  | ok keyfile =>
      cases hpdc : self.peek_client QmiService.QMI_SERVICE_PDC with
      | error e =>
          refine ⟨Or.inl (Or.inl ?_), ?_⟩ <;>
            simp [mm_shared_qmi_setup_carrier_config, hpdc, setup_carrier_config_context_free,
              setup_carrier_config_context_cleanup_action_eq, Operation.g_task_return,
              setup_carrier_config_done]
      | ok u =>
          rw [mm_shared_qmi_setup_carrier_config_eq self priv imsi keyfile hpdc]
          by_cases hmatch : config_loaded priv (requested_description keyfile imsi) ∨
              config_loaded priv (fallback_description keyfile)
          · obtain ⟨j, c, d, hc, hfind⟩ := find_requested_carrier_config_chosen
              { priv := priv,
                ctx := { step := SetupCarrierConfigStep.SETUP_CARRIER_CONFIG_STEP_FIND_REQUESTED,
                         imsi := imsi, keyfile := keyfile, config_requested_i := -1 } } rfl hmatch
            rw [hfind]
            have hj : ¬ ¬ (((0 + j : Nat) : Int) ≥ 0) := by omega
            unfold setup_carrier_config_step_case_check_change_needed
            simp only
            rw [if_neg hj]
            by_cases ha : priv.config_active_i ≥ 0 ∨ priv.config_active_default = true
            · rw [if_neg (not_not.mpr ha)]
              by_cases hsame : ((0 + j : Nat) : Int) = priv.config_active_i
              · rw [if_pos hsame]
                refine ⟨Or.inl (Or.inl ?_), ?_⟩ <;>
                  simp [setup_carrier_config_step_case_last, setup_carrier_config_context_free,
                    setup_carrier_config_context_cleanup_action_eq, Operation.g_task_return,
                    setup_carrier_config_done]
              · rw [if_neg hsame]
                simp only [Nat.zero_add] at hc
                refine ⟨Or.inl (Or.inr (Or.inl ⟨?_, ?_⟩)), ?_⟩ <;>
                  simp [setup_carrier_config_step_case_update_current, hc,
                    Operation.qmi_client_request, setup_carrier_config_in_flight,
                    SetupCarrierConfigStep.next, QmiRequest.is_activate_config,
                    qmi_client_pdc_set_selected_config]
            · rw [if_pos ha]
              refine ⟨Or.inr ⟨?_, ha⟩, ?_⟩ <;> simp [setup_carrier_config_crashed]
          · rw [not_or] at hmatch
            rw [find_requested_carrier_config_failed _ rfl hmatch.1 hmatch.2]
            refine ⟨Or.inl (Or.inl ?_), ?_⟩ <;>
              simp [setup_carrier_config_abort, setup_carrier_config_context_free,
                setup_carrier_config_context_cleanup_action_eq, Operation.g_task_return,
                setup_carrier_config_done]

/-- A series of events takes a state of the setup to a state of the setup. -/
theorem setup_carrier_config_run_reachable (events : List SetupCarrierConfigEvent) :
    ∀ op : SetupCarrierConfigTask, setup_carrier_config_reachable op →
      setup_carrier_config_reachable (events.foldl setup_carrier_config_deliver op) := by
  induction events with
  | nil => intro op h; exact h
  | cons ev rest ih =>
      intro op h
      exact ih _ (setup_carrier_config_deliver_reachable op ev h).1

/-- After a failed assertion no event changes the operation. -/
theorem setup_carrier_config_run_crashed (events : List SetupCarrierConfigEvent)
    (op : SetupCarrierConfigTask) (h : op.aborted = true) :
    events.foldl setup_carrier_config_deliver op = op := by
  induction events with
  | nil => rfl
  | cons ev rest ih =>
      rw [List.foldl_cons]
      have hstep : setup_carrier_config_deliver op ev = op := by
        unfold setup_carrier_config_deliver
        rw [if_pos h]
      rw [hstep, ih]

/-- An Activate-Config request appears in a series of events only if a
set-selected-config indication with error code 0 is among them. -/
theorem setup_carrier_config_run_activate (events : List SetupCarrierConfigEvent) :
    ∀ op : SetupCarrierConfigTask, setup_carrier_config_reachable op →
      (∀ r ∈ op.requests, r.is_activate_config = false) →
      (∃ r ∈ (events.foldl setup_carrier_config_deliver op).requests,
        r.is_activate_config = true) →
      ∃ ev ∈ events, ev.is_set_selected_config_accepted = true := by
  induction events with
  | nil =>
      rintro op _ hreq ⟨r, hr, hact⟩
      rw [hreq r hr] at hact
      exact absurd hact (by decide)
  | cons ev rest ih =>
      intro op h hreq hex
      rcases (setup_carrier_config_deliver_reachable op ev h).2 with hsame | hacc
      · obtain ⟨ev2, hev2, hacc2⟩ :=
          ih _ (setup_carrier_config_deliver_reachable op ev h).1 (by rw [hsame]; exact hreq) hex
        exact ⟨ev2, List.mem_cons_of_mem _ hev2, hacc2⟩
      · exact ⟨ev, List.mem_cons_self _ _, hacc⟩

/-- The state of a setup operation after any series of events. -/
theorem setup_carrier_config_run_state (self : MMIfaceModem) (priv : Private)
    (imsi : String) (carrier_config_mapping : Except GError (List (String × String)))
    (events : List SetupCarrierConfigEvent) :
    setup_carrier_config_reachable
        (setup_carrier_config_run self priv imsi carrier_config_mapping events) ∨
      (setup_carrier_config_crashed
          (setup_carrier_config_run self priv imsi carrier_config_mapping events) ∧
        ¬ (priv.config_active_i ≥ 0 ∨ priv.config_active_default = true)) := by
  unfold setup_carrier_config_run
  rcases (mm_shared_qmi_setup_carrier_config_reachable self priv imsi carrier_config_mapping).1
    with h | ⟨h, ha⟩
  · exact Or.inl (setup_carrier_config_run_reachable events _ h)
  · rw [setup_carrier_config_run_crashed events _ h.1]
    exact Or.inr ⟨h, ha⟩

/-- A state of the setup with a handler of set-selected-config connected
waits for that indication and has issued no Activate-Config request. -/
theorem setup_carrier_config_awaits_set_selected_config_of_handler (op : SetupCarrierConfigTask)
    (h : setup_carrier_config_reachable op ∨ setup_carrier_config_crashed op)
    (hw : setup_carrier_config_awaits op
      SetupCarrierConfigSignal.set_selected_config_indication) :
    setup_carrier_config_awaits_set_selected_config op ∧
    ∀ r ∈ op.requests, r.is_activate_config = false := by
  obtain ⟨x, hx, hsig⟩ := hw
  rcases h with (h | ⟨h, _⟩ | h | h | h) | h
  · rw [h.2.2.2.1] at hx; simp at hx
  · rw [h.2.2.2.2.1] at hx; simp at hx
  · exact h
  · rw [h.2.2.2.2.1] at hx; simp at hx
  · rw [h.2.2.2.2.1] at hx
    simp only [List.mem_singleton] at hx
    rw [hx] at hsig
    simp at hsig
  · rw [h.2.2.2.2.1] at hx; simp at hx

/-- A state of the setup with a handler of activate-config connected waits
for that indication. -/
theorem setup_carrier_config_awaits_activate_config_of_handler (op : SetupCarrierConfigTask)
    (h : setup_carrier_config_reachable op ∨ setup_carrier_config_crashed op)
    (hw : setup_carrier_config_awaits op SetupCarrierConfigSignal.activate_config_indication) :
    setup_carrier_config_awaits_activate_config op := by
  obtain ⟨x, hx, hsig⟩ := hw
  rcases h with (h | ⟨h, _⟩ | ⟨h, _⟩ | h | h) | h
  · rw [h.2.2.2.1] at hx; simp at hx
  · rw [h.2.2.2.2.1] at hx; simp at hx
  · rw [h.2.2.2.2.1] at hx
    simp only [List.mem_singleton] at hx
    rw [hx] at hsig
    simp at hsig
  · rw [h.2.2.2.2.1] at hx; simp at hx
  · exact h
  · rw [h.2.2.2.2.1] at hx; simp at hx

/-- The run over a series of events followed by more events. -/
theorem setup_carrier_config_run_append (self : MMIfaceModem) (priv : Private)
    (imsi : String) (carrier_config_mapping : Except GError (List (String × String)))
    (events later : List SetupCarrierConfigEvent) :
    setup_carrier_config_run self priv imsi carrier_config_mapping (events ++ later) =
      later.foldl setup_carrier_config_deliver
        (setup_carrier_config_run self priv imsi carrier_config_mapping events) := by
  unfold setup_carrier_config_run
  rw [List.foldl_append]

/-- C17: in the carrier config switch, for every device, IMSI, mapping and
series of events: an Activate-Config request has been issued only if a
set-selected-config indication with error code 0 is among the events; when
the operation waits for the set-selected-config indication, its timeout
completes the operation with the error Aborted and no Activate-Config request
is ever issued, whatever follows; when it waits for the activate-config
indication, its timeout completes the operation with success; and an
activate-config indication with a non-zero error code completes it with an
error. -/
theorem C17_activate_after_set_selected (self : MMIfaceModem) (priv : Private) (imsi : String)
    (carrier_config_mapping : Except GError (List (String × String)))
    (events : List SetupCarrierConfigEvent) :
    ((∃ r ∈ (setup_carrier_config_run self priv imsi carrier_config_mapping events).requests,
        r.is_activate_config = true) →
      ∃ ev ∈ events, ev.is_set_selected_config_accepted = true) ∧
    (setup_carrier_config_awaits
        (setup_carrier_config_run self priv imsi carrier_config_mapping events)
        SetupCarrierConfigSignal.set_selected_config_indication →
      ∀ later : List SetupCarrierConfigEvent,
        (setup_carrier_config_run self priv imsi carrier_config_mapping
          (events ++
            SetupCarrierConfigEvent.timeout
              (setup_carrier_config_run self priv imsi carrier_config_mapping
                events).ctx.timeout_id :: later)).results =
          [TaskResult.error
            { domain := GErrorDomain.MM_CORE_ERROR, code := MM_CORE_ERROR_ABORTED }] ∧
        ∀ r ∈ (setup_carrier_config_run self priv imsi carrier_config_mapping
          (events ++
            SetupCarrierConfigEvent.timeout
              (setup_carrier_config_run self priv imsi carrier_config_mapping
                events).ctx.timeout_id :: later)).requests,
          r.is_activate_config = false) ∧
    (setup_carrier_config_awaits
        (setup_carrier_config_run self priv imsi carrier_config_mapping events)
        SetupCarrierConfigSignal.activate_config_indication →
      (setup_carrier_config_run self priv imsi carrier_config_mapping
        (events ++
          [SetupCarrierConfigEvent.timeout
            (setup_carrier_config_run self priv imsi carrier_config_mapping
              events).ctx.timeout_id])).results = [TaskResult.value ()]) ∧
    (setup_carrier_config_awaits
        (setup_carrier_config_run self priv imsi carrier_config_mapping events)
        SetupCarrierConfigSignal.activate_config_indication →
      ∀ (error_code : Nat) (token : Option Nat), error_code ≠ 0 →
        (setup_carrier_config_run self priv imsi carrier_config_mapping
          (events ++
            [SetupCarrierConfigEvent.indication
              SetupCarrierConfigSignal.activate_config_indication
              { indication_result := Except.ok error_code, token := token }])).results =
          [TaskResult.error
            { domain := GErrorDomain.MM_CORE_ERROR, code := MM_CORE_ERROR_FAILED }]) := by
  have hstate : setup_carrier_config_reachable
        (setup_carrier_config_run self priv imsi carrier_config_mapping events) ∨
      setup_carrier_config_crashed
        (setup_carrier_config_run self priv imsi carrier_config_mapping events) := by
    rcases setup_carrier_config_run_state self priv imsi carrier_config_mapping events
      with h | ⟨h, _⟩
    · exact Or.inl h
    · exact Or.inr h
  refine ⟨?_, ?_, ?_, ?_⟩
  · intro hex
    rcases (mm_shared_qmi_setup_carrier_config_reachable self priv imsi
      carrier_config_mapping).1 with h | ⟨h, _⟩
    · exact setup_carrier_config_run_activate events _ h
        (mm_shared_qmi_setup_carrier_config_reachable self priv imsi carrier_config_mapping).2
        hex
    · exfalso
      unfold setup_carrier_config_run at hex
      rw [setup_carrier_config_run_crashed events _ h.1, h.2.2.2.2.2] at hex
      simp at hex
  · intro hw later
    obtain ⟨hshape, hreq⟩ := setup_carrier_config_awaits_set_selected_config_of_handler _ hstate hw
    obtain ⟨hdone, hres, hsame⟩ :=
      setup_carrier_config_timeout_awaits_set_selected_config _ hshape
    rw [setup_carrier_config_run_append, List.foldl_cons,
      setup_carrier_config_run_idle later _ hdone.2.1 hdone.2.2.1 hdone.2.2.2.1, hres, hsame]
    exact ⟨rfl, hreq⟩
  · intro hw
    have hshape := setup_carrier_config_awaits_activate_config_of_handler _ hstate hw
    rw [setup_carrier_config_run_append, List.foldl_cons, List.foldl_nil]
    exact (setup_carrier_config_timeout_awaits_activate_config _ hshape).2
  · intro hw error_code token hcode
    have hshape := setup_carrier_config_awaits_activate_config_of_handler _ hstate hw
    rw [setup_carrier_config_run_append, List.foldl_cons, List.foldl_nil]
    exact setup_carrier_config_rejected_awaits_activate_config _ hshape error_code token hcode

/-- C17 on the device that has `generic` active, for the IMSI
310260123456789 and the mapping `310260 = att`: after the good
Set-Selected-Config response, the timeout of the set-selected-config
indication gives the error Aborted; after the accepted indication and the good
Activate-Config response, the timeout of the activate-config indication gives
success and an indication with error code 3 gives an error. -/
theorem C17_activate_after_set_selected_witness :
    (setup_carrier_config_run modem_3gpp modem_carrier_generic "310260123456789"
        (Except.ok carrier_config_mapping_att)
        ([SetupCarrierConfigEvent.response
            SetupCarrierConfigCallback.set_selected_config_ready (QmiResult.ok ())] ++
          SetupCarrierConfigEvent.timeout 1 :: [])).results =
      [TaskResult.error
        { domain := GErrorDomain.MM_CORE_ERROR, code := MM_CORE_ERROR_ABORTED }] ∧
    (setup_carrier_config_run modem_3gpp modem_carrier_generic "310260123456789"
        (Except.ok carrier_config_mapping_att)
        ([SetupCarrierConfigEvent.response
            SetupCarrierConfigCallback.set_selected_config_ready (QmiResult.ok ()),
          SetupCarrierConfigEvent.indication
            SetupCarrierConfigSignal.set_selected_config_indication
            { indication_result := Except.ok 0 },
          SetupCarrierConfigEvent.response
            SetupCarrierConfigCallback.activate_config_ready (QmiResult.ok ())] ++
          [SetupCarrierConfigEvent.timeout 3])).results = [TaskResult.value ()] ∧
    (setup_carrier_config_run modem_3gpp modem_carrier_generic "310260123456789"
        (Except.ok carrier_config_mapping_att)
        ([SetupCarrierConfigEvent.response
            SetupCarrierConfigCallback.set_selected_config_ready (QmiResult.ok ()),
          SetupCarrierConfigEvent.indication
            SetupCarrierConfigSignal.set_selected_config_indication
            { indication_result := Except.ok 0 },
          SetupCarrierConfigEvent.response
            SetupCarrierConfigCallback.activate_config_ready (QmiResult.ok ())] ++
          [SetupCarrierConfigEvent.indication
            SetupCarrierConfigSignal.activate_config_indication
            { indication_result := Except.ok 3, token := none }])).results =
      [TaskResult.error
        { domain := GErrorDomain.MM_CORE_ERROR, code := MM_CORE_ERROR_FAILED }] ∧
    (∃ r ∈ (setup_carrier_config_run modem_3gpp modem_carrier_generic "310260123456789"
        (Except.ok carrier_config_mapping_att)
        [SetupCarrierConfigEvent.response
            SetupCarrierConfigCallback.set_selected_config_ready (QmiResult.ok ()),
          SetupCarrierConfigEvent.indication
            SetupCarrierConfigSignal.set_selected_config_indication
            { indication_result := Except.ok 0 }]).requests, r.is_activate_config = true) ∧
    (∃ ev ∈
        [SetupCarrierConfigEvent.response
            SetupCarrierConfigCallback.set_selected_config_ready (QmiResult.ok ()),
          SetupCarrierConfigEvent.indication
            SetupCarrierConfigSignal.set_selected_config_indication
            { indication_result := Except.ok 0 }],
      ev.is_set_selected_config_accepted = true) :=
  ⟨((C17_activate_after_set_selected modem_3gpp modem_carrier_generic "310260123456789"
      (Except.ok carrier_config_mapping_att)
      [SetupCarrierConfigEvent.response
        SetupCarrierConfigCallback.set_selected_config_ready (QmiResult.ok ())]).2.1
      ⟨_, List.mem_singleton.mpr rfl, rfl⟩ []).1,
   (C17_activate_after_set_selected modem_3gpp modem_carrier_generic "310260123456789"
      (Except.ok carrier_config_mapping_att)
      [SetupCarrierConfigEvent.response
        SetupCarrierConfigCallback.set_selected_config_ready (QmiResult.ok ()),
       SetupCarrierConfigEvent.indication
        SetupCarrierConfigSignal.set_selected_config_indication
        { indication_result := Except.ok 0 },
       SetupCarrierConfigEvent.response
        SetupCarrierConfigCallback.activate_config_ready (QmiResult.ok ())]).2.2.1
      ⟨_, List.mem_singleton.mpr rfl, rfl⟩,
   (C17_activate_after_set_selected modem_3gpp modem_carrier_generic "310260123456789"
      (Except.ok carrier_config_mapping_att)
      [SetupCarrierConfigEvent.response
        SetupCarrierConfigCallback.set_selected_config_ready (QmiResult.ok ()),
       SetupCarrierConfigEvent.indication
        SetupCarrierConfigSignal.set_selected_config_indication
        { indication_result := Except.ok 0 },
       SetupCarrierConfigEvent.response
        SetupCarrierConfigCallback.activate_config_ready (QmiResult.ok ())]).2.2.2
      ⟨_, List.mem_singleton.mpr rfl, rfl⟩ 3 none (by decide),
   by decide,
   (C17_activate_after_set_selected modem_3gpp modem_carrier_generic "310260123456789"
      (Except.ok carrier_config_mapping_att)
      [SetupCarrierConfigEvent.response
        SetupCarrierConfigCallback.set_selected_config_ready (QmiResult.ok ()),
       SetupCarrierConfigEvent.indication
        SetupCarrierConfigSignal.set_selected_config_indication
        { indication_result := Except.ok 0 }]).1 (by decide)⟩
/-- C18: for the carrier config switch on a device that satisfies the
assertion of the check step (a configuration or the default is active), and
every series of events delivered only while their callback, handler or
timeout is registered: the continuation has been completed at most once; at
the moment of completion no timeout was armed, no handler connected and the
ids were 0, and nothing is in flight, armed or connected afterwards, so that
no later event completes it again; and as long as it has not been completed a
response is in flight or a timeout is armed, and each armed timeout, when it
fires, completes it. -/
theorem C18_completed_once (self : MMIfaceModem) (priv : Private) (imsi : String)
    (carrier_config_mapping : Except GError (List (String × String)))
    (events : List SetupCarrierConfigEvent)
    (hactive : priv.config_active_i ≥ 0 ∨ priv.config_active_default = true) :
    (setup_carrier_config_run self priv imsi carrier_config_mapping events).aborted = false ∧
    (setup_carrier_config_run self priv imsi carrier_config_mapping events).returned.length ≤ 1 ∧
    (∀ completion ∈
        (setup_carrier_config_run self priv imsi carrier_config_mapping events).returned,
      completion.sources = [] ∧ completion.handlers = [] ∧
      completion.ctx.timeout_id = 0 ∧
      completion.ctx.set_selected_config_indication_id = 0 ∧
      completion.ctx.activate_config_indication_id = 0 ∧
      (setup_carrier_config_run self priv imsi carrier_config_mapping events).pending = [] ∧
      (setup_carrier_config_run self priv imsi carrier_config_mapping events).sources = [] ∧
      (setup_carrier_config_run self priv imsi carrier_config_mapping events).handlers = [] ∧
      ∀ later : List SetupCarrierConfigEvent,
        (setup_carrier_config_run self priv imsi carrier_config_mapping
          (events ++ later)).returned =
        (setup_carrier_config_run self priv imsi carrier_config_mapping events).returned) ∧
    ((setup_carrier_config_run self priv imsi carrier_config_mapping events).returned = [] →
      ((setup_carrier_config_run self priv imsi carrier_config_mapping events).pending ≠ [] ∨
        (setup_carrier_config_run self priv imsi carrier_config_mapping events).sources ≠ []) ∧
      ∀ source ∈
          (setup_carrier_config_run self priv imsi carrier_config_mapping events).sources,
        (setup_carrier_config_run self priv imsi carrier_config_mapping
          (events ++ [SetupCarrierConfigEvent.timeout source.id])).returned.length = 1) := by
  rcases setup_carrier_config_run_state self priv imsi carrier_config_mapping events
    with h | ⟨_, h⟩
  · generalize hop : setup_carrier_config_run self priv imsi carrier_config_mapping events = op
      at h
    have happ : ∀ later : List SetupCarrierConfigEvent,
        setup_carrier_config_run self priv imsi carrier_config_mapping (events ++ later) =
          later.foldl setup_carrier_config_deliver op := by
      intro later
      rw [setup_carrier_config_run_append, hop]
    simp only [happ]
    rcases h with h | ⟨h, _⟩ | ⟨h, _⟩ | h | h
    · obtain ⟨ha, hp, hs, hh, c, hc, hc1, hc2, hc3, hc4, hc5⟩ := h
      refine ⟨ha, by simp [hc], ?_, ?_⟩
      · intro completion hmem
        rw [hc, List.mem_singleton] at hmem
        subst hmem
        refine ⟨hc1, hc2, hc3, hc4, hc5, hp, hs, hh, ?_⟩
        intro later
        rw [setup_carrier_config_run_idle later op hp hs hh]
      · intro hnil
        rw [hc] at hnil
        simp at hnil
    · obtain ⟨ha, hr, hp, hs, _⟩ := h
      refine ⟨ha, by simp [hr], by simp [hr], fun _ => ⟨Or.inl (by simp [hp]), by simp [hs]⟩⟩
    · have hdone := (setup_carrier_config_timeout_awaits_set_selected_config op h).1
      obtain ⟨ha, hr, hp, hs, _⟩ := h
      refine ⟨ha, by simp [hr], by simp [hr], fun _ => ⟨Or.inr (by simp [hs]), ?_⟩⟩
      intro source hsource
      rw [hs, List.mem_singleton] at hsource
      subst hsource
      obtain ⟨_, _, _, _, c, hc, _⟩ := hdone
      simp only [List.foldl_cons, List.foldl_nil]
      rw [hc]
      rfl
    · obtain ⟨ha, hr, hp, hs, _⟩ := h
      refine ⟨ha, by simp [hr], by simp [hr], fun _ => ⟨Or.inl (by simp [hp]), by simp [hs]⟩⟩
    · have hdone := (setup_carrier_config_timeout_awaits_activate_config op h).1
      obtain ⟨ha, hr, hp, hs, _⟩ := h
      refine ⟨ha, by simp [hr], by simp [hr], fun _ => ⟨Or.inr (by simp [hs]), ?_⟩⟩
      intro source hsource
      rw [hs, List.mem_singleton] at hsource
      subst hsource
      obtain ⟨_, _, _, _, c, hc, _⟩ := hdone
      simp only [List.foldl_cons, List.foldl_nil]
      rw [hc]
      rfl
  · exact absurd hactive h

/-- C18 on the device that has `generic` active, for the IMSI
310260123456789 and the mapping `310260 = att`: after both requests were
accepted and the timeout of the activate-config indication fired, a late
activate-config indication and a late timeout find the operation completed
once, with nothing armed or connected. -/
theorem C18_completed_once_witness :
    (setup_carrier_config_run modem_3gpp modem_carrier_generic "310260123456789"
        (Except.ok carrier_config_mapping_att)
        [SetupCarrierConfigEvent.response
            SetupCarrierConfigCallback.set_selected_config_ready (QmiResult.ok ()),
          SetupCarrierConfigEvent.indication
            SetupCarrierConfigSignal.set_selected_config_indication
            { indication_result := Except.ok 0 },
          SetupCarrierConfigEvent.response
            SetupCarrierConfigCallback.activate_config_ready (QmiResult.ok ()),
          SetupCarrierConfigEvent.timeout 3,
          SetupCarrierConfigEvent.indication
            SetupCarrierConfigSignal.activate_config_indication
            { indication_result := Except.ok 0 },
          SetupCarrierConfigEvent.timeout 3]).returned.length ≤ 1 ∧
    (setup_carrier_config_run modem_3gpp modem_carrier_generic "310260123456789"
        (Except.ok carrier_config_mapping_att)
        [SetupCarrierConfigEvent.response
            SetupCarrierConfigCallback.set_selected_config_ready (QmiResult.ok ()),
          SetupCarrierConfigEvent.indication
            SetupCarrierConfigSignal.set_selected_config_indication
            { indication_result := Except.ok 0 },
          SetupCarrierConfigEvent.response
            SetupCarrierConfigCallback.activate_config_ready (QmiResult.ok ()),
          SetupCarrierConfigEvent.timeout 3,
          SetupCarrierConfigEvent.indication
            SetupCarrierConfigSignal.activate_config_indication
            { indication_result := Except.ok 0 },
          SetupCarrierConfigEvent.timeout 3]).results = [TaskResult.value ()] ∧
    (∀ completion ∈
      (setup_carrier_config_run modem_3gpp modem_carrier_generic "310260123456789"
        (Except.ok carrier_config_mapping_att)
        [SetupCarrierConfigEvent.response
            SetupCarrierConfigCallback.set_selected_config_ready (QmiResult.ok ()),
          SetupCarrierConfigEvent.indication
            SetupCarrierConfigSignal.set_selected_config_indication
            { indication_result := Except.ok 0 },
          SetupCarrierConfigEvent.response
            SetupCarrierConfigCallback.activate_config_ready (QmiResult.ok ()),
          SetupCarrierConfigEvent.timeout 3,
          SetupCarrierConfigEvent.indication
            SetupCarrierConfigSignal.activate_config_indication
            { indication_result := Except.ok 0 },
          SetupCarrierConfigEvent.timeout 3]).returned,
      completion.sources = [] ∧ completion.handlers = []) :=
  ⟨(C18_completed_once modem_3gpp modem_carrier_generic "310260123456789"
      (Except.ok carrier_config_mapping_att) _ (Or.inl (by decide))).2.1,
   by decide,
   fun completion hmem =>
    ⟨((C18_completed_once modem_3gpp modem_carrier_generic "310260123456789"
        (Except.ok carrier_config_mapping_att) _ (Or.inl (by decide))).2.2.1
        completion hmem).1,
     ((C18_completed_once modem_3gpp modem_carrier_generic "310260123456789"
        (Except.ok carrier_config_mapping_att) _ (Or.inl (by decide))).2.2.1
        completion hmem).2.1⟩⟩

/-- The cleanup action of the load in one step: the four ids are zeroed, the
handlers and the timeout they name are gone, nothing else changes. -/
theorem load_carrier_config_context_cleanup_action_eq (op : LoadCarrierConfigTask) :
    load_carrier_config_context_cleanup_action op =
      { op with
        ctx := { op.ctx with
                 get_selected_config_indication_id := 0,
                 get_config_info_indication_id := 0,
                 list_configs_indication_id := 0,
                 timeout_id := 0 },
        handlers :=
          ((op.handlers.filter (fun h =>
            decide (op.ctx.get_selected_config_indication_id = 0 ∨
              h.id ≠ op.ctx.get_selected_config_indication_id))).filter (fun h =>
            decide (op.ctx.get_config_info_indication_id = 0 ∨
              h.id ≠ op.ctx.get_config_info_indication_id))).filter (fun h =>
            decide (op.ctx.list_configs_indication_id = 0 ∨
              h.id ≠ op.ctx.list_configs_indication_id)),
        sources := op.sources.filter (fun s =>
          decide (op.ctx.timeout_id = 0 ∨ s.id ≠ op.ctx.timeout_id)) } := by
  rcases op with ⟨priv, ⟨step, cl, n, d, ai, token, tid, lid, sid, iid⟩, pending, sources,
    handlers, last_id, requests, returned, aborted⟩
  unfold load_carrier_config_context_cleanup_action
  by_cases hs : sid = 0 <;> by_cases hi : iid = 0 <;> by_cases hl : lid = 0 <;>
    by_cases ht : tid = 0 <;>
    simp [hs, hi, hl, ht, Operation.g_signal_handler_disconnect, Operation.g_source_remove]

/-- Once nothing is in flight, armed or connected, no event changes the load
operation. -/
theorem load_carrier_config_deliver_idle (op : LoadCarrierConfigTask)
    (hp : op.pending = []) (hs : op.sources = []) (hh : op.handlers = [])
    (ev : LoadCarrierConfigEvent) : load_carrier_config_deliver op ev = op := by
  unfold load_carrier_config_deliver
  cases ev <;> simp [hp, hs, hh, load_carrier_config_emit]

/-- The same over a series of events. -/
theorem load_carrier_config_run_idle (events : List LoadCarrierConfigEvent)
    (op : LoadCarrierConfigTask)
    (hp : op.pending = []) (hs : op.sources = []) (hh : op.handlers = []) :
    events.foldl load_carrier_config_deliver op = op := by
  induction events with
  | nil => rfl
  | cons ev rest ih => rw [List.foldl_cons, load_carrier_config_deliver_idle op hp hs hh ev, ih]

/-- C19: Load-Carrier-Config on a new device whose List-Configs response is
good and whose list-configs indication reports zero configurations returns
success while the step timeout is still armed and the list-configs handler is
still connected: at the return the timeout id is 1 and the handler id is 2,
not 0. On the path where one configuration is listed, described and selected,
the ids are 0 and nothing is armed or connected at the return. -/
theorem C19_zero_configs_returns_before_cleanup :
    (load_carrier_config_run modem_3gpp {}
        [LoadCarrierConfigEvent.response LoadCarrierConfigCallback.list_configs_ready
            (QmiResult.ok ()),
         LoadCarrierConfigEvent.list_configs
            { indication_result := Except.ok 0, configs := Except.ok (some []) }]).results = [TaskResult.value ()] ∧
    (load_carrier_config_run modem_3gpp {}
        [LoadCarrierConfigEvent.response LoadCarrierConfigCallback.list_configs_ready
            (QmiResult.ok ()),
         LoadCarrierConfigEvent.list_configs
            { indication_result := Except.ok 0, configs := Except.ok (some []) }]).returned.map (fun completion => completion.ctx.timeout_id) = [1] ∧
    (load_carrier_config_run modem_3gpp {}
        [LoadCarrierConfigEvent.response LoadCarrierConfigCallback.list_configs_ready
            (QmiResult.ok ()),
         LoadCarrierConfigEvent.list_configs
            { indication_result := Except.ok 0, configs := Except.ok (some []) }]).returned.map
        (fun completion => completion.ctx.list_configs_indication_id) = [2] ∧
    (load_carrier_config_run modem_3gpp {}
        [LoadCarrierConfigEvent.response LoadCarrierConfigCallback.list_configs_ready
            (QmiResult.ok ()),
         LoadCarrierConfigEvent.list_configs
            { indication_result := Except.ok 0, configs := Except.ok (some []) }]).returned.map (fun completion => completion.sources) =
      [[{ id := 1, interval := LOAD_CARRIER_CONFIG_STEP_TIMEOUT_SECS,
          callback := LoadCarrierConfigTimeout.load_carrier_config_timeout }]] ∧
    (load_carrier_config_run modem_3gpp {}
        [LoadCarrierConfigEvent.response LoadCarrierConfigCallback.list_configs_ready
            (QmiResult.ok ()),
         LoadCarrierConfigEvent.list_configs
            { indication_result := Except.ok 0, configs := Except.ok (some []) }]).returned.map (fun completion => completion.handlers) =
      [[{ id := 2, handler := LoadCarrierConfigSignal.list_configs_indication }]] ∧
    (load_carrier_config_run modem_3gpp {}
        [LoadCarrierConfigEvent.response LoadCarrierConfigCallback.list_configs_ready
            (QmiResult.ok ()),
         LoadCarrierConfigEvent.list_configs
            { indication_result := Except.ok 0,
              configs := Except.ok (some [{ config_type := 1, id := [7] }]) },
         LoadCarrierConfigEvent.get_config_info
            { indication_result := Except.ok 0, token := Except.ok 1,
              total_size := Except.ok 1000, version := Except.ok 0x05010203,
              description := Except.ok "att" },
         LoadCarrierConfigEvent.response LoadCarrierConfigCallback.get_selected_config_ready
            (QmiResult.ok ()),
         LoadCarrierConfigEvent.get_selected_config
            { indication_result := Except.ok 0, active_id := some [7] }]).results = [TaskResult.value ()] ∧
    (load_carrier_config_run modem_3gpp {}
        [LoadCarrierConfigEvent.response LoadCarrierConfigCallback.list_configs_ready
            (QmiResult.ok ()),
         LoadCarrierConfigEvent.list_configs
            { indication_result := Except.ok 0,
              configs := Except.ok (some [{ config_type := 1, id := [7] }]) },
         LoadCarrierConfigEvent.get_config_info
            { indication_result := Except.ok 0, token := Except.ok 1,
              total_size := Except.ok 1000, version := Except.ok 0x05010203,
              description := Except.ok "att" },
         LoadCarrierConfigEvent.response LoadCarrierConfigCallback.get_selected_config_ready
            (QmiResult.ok ()),
         LoadCarrierConfigEvent.get_selected_config
            { indication_result := Except.ok 0, active_id := some [7] }]).returned.map
        (fun completion =>
          [completion.ctx.timeout_id, completion.ctx.list_configs_indication_id,
            completion.ctx.get_config_info_indication_id,
            completion.ctx.get_selected_config_indication_id]) = [[0, 0, 0, 0]] ∧
    (load_carrier_config_run modem_3gpp {}
        [LoadCarrierConfigEvent.response LoadCarrierConfigCallback.list_configs_ready
            (QmiResult.ok ()),
         LoadCarrierConfigEvent.list_configs
            { indication_result := Except.ok 0,
              configs := Except.ok (some [{ config_type := 1, id := [7] }]) },
         LoadCarrierConfigEvent.get_config_info
            { indication_result := Except.ok 0, token := Except.ok 1,
              total_size := Except.ok 1000, version := Except.ok 0x05010203,
              description := Except.ok "att" },
         LoadCarrierConfigEvent.response LoadCarrierConfigCallback.get_selected_config_ready
            (QmiResult.ok ()),
         LoadCarrierConfigEvent.get_selected_config
            { indication_result := Except.ok 0, active_id := some [7] }]).returned.map (fun completion => completion.sources) = [[]] ∧
    (load_carrier_config_run modem_3gpp {}
        [LoadCarrierConfigEvent.response LoadCarrierConfigCallback.list_configs_ready
            (QmiResult.ok ()),
         LoadCarrierConfigEvent.list_configs
            { indication_result := Except.ok 0,
              configs := Except.ok (some [{ config_type := 1, id := [7] }]) },
         LoadCarrierConfigEvent.get_config_info
            { indication_result := Except.ok 0, token := Except.ok 1,
              total_size := Except.ok 1000, version := Except.ok 0x05010203,
              description := Except.ok "att" },
         LoadCarrierConfigEvent.response LoadCarrierConfigCallback.get_selected_config_ready
            (QmiResult.ok ()),
         LoadCarrierConfigEvent.get_selected_config
            { indication_result := Except.ok 0, active_id := some [7] }]).returned.map (fun completion => completion.handlers) = [[]] := by
  decide

/-- C20: Load-Carrier-Config on a device with a PDC client and no carrier
config data stored yet: when the List-Configs response is good and the
list-configs indication reports zero configurations (an empty or absent
array), the operation completes with success; the device then has
`config_active_default` set, no active index and no list; the only request
ever issued is List-Configs, so no Get-Config-Info and no Get-Selected-Config,
whatever events follow; and the finish function reports the name `default`
with no revision. -/
theorem C20_zero_configs_default (self : MMIfaceModem) (priv : Private)
    (output : QmiIndicationPdcListConfigsOutput) (later : List LoadCarrierConfigEvent)
    (hpdc : self.peek_client QmiService.QMI_SERVICE_PDC = Except.ok ())
    (hlist : priv.config_list = none)
    (hindex : priv.config_active_i < 0)
    (hdefault : priv.config_active_default = false)
    (hresult : output.indication_result = Except.ok 0)
    (hzero : output.configs = Except.ok none ∨ output.configs = Except.ok (some [])) :
    (load_carrier_config_run self priv
      (LoadCarrierConfigEvent.response LoadCarrierConfigCallback.list_configs_ready
          (QmiResult.ok ()) ::
        LoadCarrierConfigEvent.list_configs output :: later)).results =
      [TaskResult.value ()] ∧
    (load_carrier_config_run self priv
      (LoadCarrierConfigEvent.response LoadCarrierConfigCallback.list_configs_ready
          (QmiResult.ok ()) ::
        LoadCarrierConfigEvent.list_configs output :: later)).priv =
      { priv with config_active_default := true, config_active_i := -1, config_list := none } ∧
    (load_carrier_config_run self priv
      (LoadCarrierConfigEvent.response LoadCarrierConfigCallback.list_configs_ready
          (QmiResult.ok ()) ::
        LoadCarrierConfigEvent.list_configs output :: later)).requests =
      [qmi_client_pdc_list_configs QMI_PDC_CONFIGURATION_TYPE_SOFTWARE 0 5] ∧
    mm_shared_qmi_load_carrier_config_finish
      (load_carrier_config_run self priv
        (LoadCarrierConfigEvent.response LoadCarrierConfigCallback.list_configs_ready
            (QmiResult.ok ()) ::
          LoadCarrierConfigEvent.list_configs output :: later)).priv
      (TaskResult.value ()) =
      some (Except.ok { carrier_config_name := some "default",
                        carrier_config_revision := none }) := by
  rcases output with ⟨result, tok, configs⟩
  simp only at hresult hzero
  subst hresult
  have hrun : load_carrier_config_run self priv
      (LoadCarrierConfigEvent.response LoadCarrierConfigCallback.list_configs_ready
          (QmiResult.ok ()) ::
        LoadCarrierConfigEvent.list_configs
          { indication_result := Except.ok 0, token := tok, configs := configs } :: later) =
      { priv := { priv with
                  config_active_default := true, config_active_i := -1, config_list := none },
        ctx := { step := LoadCarrierConfigStep.LOAD_CARRIER_CONFIG_STEP_LAST,
                 config_active_default := true, token := 1 },
        last_id := 2,
        requests := [qmi_client_pdc_list_configs QMI_PDC_CONFIGURATION_TYPE_SOFTWARE 0 5],
        returned :=
          [{ result := TaskResult.value (),
             ctx := { step := LoadCarrierConfigStep.LOAD_CARRIER_CONFIG_STEP_LAST,
                      config_active_default := true, token := 1, timeout_id := 1,
                      list_configs_indication_id := 2 },
             sources := [{ id := 1, interval := LOAD_CARRIER_CONFIG_STEP_TIMEOUT_SECS,
                           callback := LoadCarrierConfigTimeout.load_carrier_config_timeout }],
             handlers := [{ id := 2,
                            handler := LoadCarrierConfigSignal.list_configs_indication }] }] } := by
    unfold load_carrier_config_run
    rw [List.foldl_cons, List.foldl_cons]
    have hstep : load_carrier_config_deliver
        (load_carrier_config_deliver (mm_shared_qmi_load_carrier_config self priv)
          (LoadCarrierConfigEvent.response LoadCarrierConfigCallback.list_configs_ready
            (QmiResult.ok ())))
        (LoadCarrierConfigEvent.list_configs
          { indication_result := Except.ok 0, token := tok, configs := configs }) =
        ({ priv := { priv with
                      config_active_default := true, config_active_i := -1, config_list := none },
            ctx := { step := LoadCarrierConfigStep.LOAD_CARRIER_CONFIG_STEP_LAST,
                     config_active_default := true, token := 1 },
            last_id := 2,
            requests := [qmi_client_pdc_list_configs QMI_PDC_CONFIGURATION_TYPE_SOFTWARE 0 5],
            returned :=
              [{ result := TaskResult.value (),
                 ctx := { step := LoadCarrierConfigStep.LOAD_CARRIER_CONFIG_STEP_LAST,
                          config_active_default := true, token := 1, timeout_id := 1,
                          list_configs_indication_id := 2 },
                 sources := [{ id := 1, interval := LOAD_CARRIER_CONFIG_STEP_TIMEOUT_SECS,
                               callback := LoadCarrierConfigTimeout.load_carrier_config_timeout }],
                 handlers := [{ id := 2,
                                handler := LoadCarrierConfigSignal.list_configs_indication }] }] } : LoadCarrierConfigTask) := by
      rcases hzero with h | h <;> subst h <;>
        simp [mm_shared_qmi_load_carrier_config, hpdc, load_carrier_config_step,
          load_carrier_config_step_case_list_configs, load_carrier_config_step_case_last,
          LoadCarrierConfigStep.next, Operation.qmi_client_request,
          load_carrier_config_deliver, list_configs_ready, load_carrier_config_emit,
          list_configs_indication, Operation.g_timeout_add_seconds, Operation.g_signal_connect,
          load_carrier_config_context_free, load_carrier_config_context_cleanup_action_eq,
          Operation.g_task_return, token_next, hlist, hindex, hdefault]
    rw [hstep, load_carrier_config_run_idle later _ rfl rfl rfl]
  rw [hrun]
  refine ⟨rfl, rfl, rfl, ?_⟩
  simp [mm_shared_qmi_load_carrier_config_finish, DEFAULT_CONFIG_DESCRIPTION]

/-- C20 on a new device: after the good List-Configs response and a
list-configs indication with an empty array, a late timeout changes nothing;
the operation has succeeded, the default is active and the finish function
reports `default` with no revision. -/
theorem C20_zero_configs_default_witness :
    (load_carrier_config_run modem_3gpp {}
      (LoadCarrierConfigEvent.response LoadCarrierConfigCallback.list_configs_ready
          (QmiResult.ok ()) ::
        LoadCarrierConfigEvent.list_configs
          { indication_result := Except.ok 0, configs := Except.ok (some []) } ::
        [LoadCarrierConfigEvent.timeout 1])).results = [TaskResult.value ()] ∧
    (load_carrier_config_run modem_3gpp {}
      (LoadCarrierConfigEvent.response LoadCarrierConfigCallback.list_configs_ready
          (QmiResult.ok ()) ::
        LoadCarrierConfigEvent.list_configs
          { indication_result := Except.ok 0, configs := Except.ok (some []) } ::
        [LoadCarrierConfigEvent.timeout 1])).priv =
      { config_active_default := true, config_active_i := -1, config_list := none } ∧
    (load_carrier_config_run modem_3gpp {}
      (LoadCarrierConfigEvent.response LoadCarrierConfigCallback.list_configs_ready
          (QmiResult.ok ()) ::
        LoadCarrierConfigEvent.list_configs
          { indication_result := Except.ok 0, configs := Except.ok (some []) } ::
        [LoadCarrierConfigEvent.timeout 1])).requests =
      [qmi_client_pdc_list_configs QMI_PDC_CONFIGURATION_TYPE_SOFTWARE 0 5] ∧
    mm_shared_qmi_load_carrier_config_finish
      (load_carrier_config_run modem_3gpp {}
        (LoadCarrierConfigEvent.response LoadCarrierConfigCallback.list_configs_ready
            (QmiResult.ok ()) ::
          LoadCarrierConfigEvent.list_configs
            { indication_result := Except.ok 0, configs := Except.ok (some []) } ::
          [LoadCarrierConfigEvent.timeout 1])).priv
      (TaskResult.value ()) =
      some (Except.ok { carrier_config_name := some "default",
                        carrier_config_revision := none }) :=
  C20_zero_configs_default modem_3gpp {}
    { indication_result := Except.ok 0, configs := Except.ok (some []) }
    [LoadCarrierConfigEvent.timeout 1] rfl rfl (by decide) rfl rfl (Or.inr rfl)

/-- C26: on a device with NAS and DMS clients whose two NAS features are
unknown, let a first Load-Current-Capabilities run its two NAS probes, with
any responses, and possibly its DMS request, with any response (also one that
makes the operation fail). Afterwards both features are known, and a second
Load-Current-Capabilities on the same device fails its entry assertion. -/
theorem C26_second_load_asserts (H : Helpers) (self : MMIfaceModem) (priv : Private)
    (rs : LoadCurrentCapabilitiesResponses) (fuel : Nat)
    (hnas : self.peek_client QmiService.QMI_SERVICE_NAS = Except.ok ())
    (hdms : self.peek_client QmiService.QMI_SERVICE_DMS = Except.ok ())
    (htp : priv.feature_nas_technology_preference = Feature.FEATURE_UNKNOWN)
    (hssp : priv.feature_nas_system_selection_preference = Feature.FEATURE_UNKNOWN)
    (hfuel : 2 ≤ fuel) :
    (load_current_capabilities_drive H rs fuel
        (mm_shared_qmi_load_current_capabilities H self priv)).1.feature_nas_technology_preference ≠
      Feature.FEATURE_UNKNOWN ∧
    (load_current_capabilities_drive H rs fuel
        (mm_shared_qmi_load_current_capabilities H self
          priv)).1.feature_nas_system_selection_preference ≠ Feature.FEATURE_UNKNOWN ∧
    mm_shared_qmi_load_current_capabilities H self
        (load_current_capabilities_drive H rs fuel
          (mm_shared_qmi_load_current_capabilities H self priv)).1 =
      ((load_current_capabilities_drive H rs fuel
          (mm_shared_qmi_load_current_capabilities H self priv)).1, Step.aborted) := by
  obtain ⟨n, rfl⟩ : ∃ n, fuel = n + 2 := ⟨fuel - 2, by omega⟩
  have hentry : ∀ p : Private,
      p.feature_nas_technology_preference ≠ Feature.FEATURE_UNKNOWN →
      mm_shared_qmi_load_current_capabilities H self p = (p, Step.aborted) := by
    intro p hp
    simp [mm_shared_qmi_load_current_capabilities, mm_shared_qmi_ensure_client, hnas, hdms, hp]
  have hknown :
      (load_current_capabilities_drive H rs (n + 2)
          (mm_shared_qmi_load_current_capabilities H self
            priv)).1.feature_nas_technology_preference ≠ Feature.FEATURE_UNKNOWN ∧
      (load_current_capabilities_drive H rs (n + 2)
          (mm_shared_qmi_load_current_capabilities H self
            priv)).1.feature_nas_system_selection_preference ≠ Feature.FEATURE_UNKNOWN := by
    rcases rs with ⟨ssp, tp, caps⟩
    cases hr : priv.supported_radio_interfaces <;>
      cases ssp <;> cases tp <;> cases n <;> cases caps <;>
      simp [mm_shared_qmi_load_current_capabilities, mm_shared_qmi_ensure_client, hnas, hdms,
        htp, hssp, hr, load_current_capabilities_drive, load_current_capabilities_deliver,
        load_current_capabilities_step, LoadCurrentCapabilitiesStep.succ,
        load_current_capabilities_get_system_selection_preference_ready,
        load_current_capabilities_get_technology_preference_ready,
        load_current_capabilities_get_capabilities_ready, Step.issued]
  exact ⟨hknown.1, hknown.2, hentry _ hknown.1⟩

/-- C26 on the worked device: after a first load in which both probes fail
to get an answer and DMS fails too, the second load stops at its assertion. -/
theorem C26_second_load_asserts_witness :
    mm_shared_qmi_load_current_capabilities mm_modem_helpers_qmi modem_3gpp
        (load_current_capabilities_drive mm_modem_helpers_qmi
          { get_system_selection_preference := QmiResult.no_output qmi_core_error_timeout,
            get_technology_preference := QmiResult.no_output qmi_core_error_timeout,
            get_capabilities := QmiResult.no_output qmi_core_error_timeout } 3
          (mm_shared_qmi_load_current_capabilities mm_modem_helpers_qmi modem_3gpp {})).1 =
      ((load_current_capabilities_drive mm_modem_helpers_qmi
          { get_system_selection_preference := QmiResult.no_output qmi_core_error_timeout,
            get_technology_preference := QmiResult.no_output qmi_core_error_timeout,
            get_capabilities := QmiResult.no_output qmi_core_error_timeout } 3
          (mm_shared_qmi_load_current_capabilities mm_modem_helpers_qmi modem_3gpp {})).1,
        Step.aborted) :=
  (C26_second_load_asserts mm_modem_helpers_qmi modem_3gpp {}
    { get_system_selection_preference := QmiResult.no_output qmi_core_error_timeout,
      get_technology_preference := QmiResult.no_output qmi_core_error_timeout,
      get_capabilities := QmiResult.no_output qmi_core_error_timeout } 3
    rfl rfl rfl rfl (by decide)).2.2

/-- C27: in Set-Current-Modes, whatever the preferred argument: with
allowed = ANY the context gets as allowed mask the union of the modes among
2G, 3G, 4G that the device supports and no preferred mode, so the requested
preferred mode is discarded and the operation is the one started with the
union and NONE; with allowed != ANY the context gets exactly the two
arguments. -/
theorem C27_any_discards_preferred (H : Helpers) (self : MMIfaceModem) (priv : Private)
    (allowed preferred : Nat) :
    set_current_modes_context self MM_MODEM_MODE_ANY preferred =
      { allowed := supported_modes_union self, preferred := MM_MODEM_MODE_NONE } ∧
    mm_shared_qmi_set_current_modes H self priv MM_MODEM_MODE_ANY preferred =
      mm_shared_qmi_set_current_modes H self priv (supported_modes_union self)
        MM_MODEM_MODE_NONE ∧
    (allowed ≠ MM_MODEM_MODE_ANY →
      set_current_modes_context self allowed preferred =
        { allowed := allowed, preferred := preferred }) := by
  refine ⟨set_current_modes_context_any self preferred, ?_,
    set_current_modes_context_other self allowed preferred⟩
  unfold mm_shared_qmi_set_current_modes
  rw [set_current_modes_context_any,
    set_current_modes_context_other self _ _ (supported_modes_union_ne_any self)]

/-- C27 on the worked device: allowed = ANY with 3G preferred gives the
context of the supported modes with no preferred mode; allowed = 2G|3G with 3G
preferred is kept. -/
theorem C27_any_discards_preferred_witness :
    set_current_modes_context modem_3gpp MM_MODEM_MODE_ANY MM_MODEM_MODE_3G =
      { allowed := supported_modes_union modem_3gpp, preferred := MM_MODEM_MODE_NONE } ∧
    set_current_modes_context modem_3gpp (MM_MODEM_MODE_2G ||| MM_MODEM_MODE_3G)
        MM_MODEM_MODE_3G =
      { allowed := MM_MODEM_MODE_2G ||| MM_MODEM_MODE_3G, preferred := MM_MODEM_MODE_3G } :=
  ⟨(C27_any_discards_preferred mm_modem_helpers_qmi modem_3gpp {} MM_MODEM_MODE_ANY
      MM_MODEM_MODE_3G).1,
   (C27_any_discards_preferred mm_modem_helpers_qmi modem_3gpp {}
      (MM_MODEM_MODE_2G ||| MM_MODEM_MODE_3G) MM_MODEM_MODE_3G).2.2 (by decide)⟩

/-- The number of parts the code computes is the size divided by the part
size, rounded up. -/
theorem assistance_data_total_parts_eq (size part_size : Nat) (hp : 0 < part_size) :
    size / part_size + (if size % part_size ≠ 0 then 1 else 0) =
      assistance_data_total_parts size part_size := by
  unfold assistance_data_total_parts
  have h1 := Nat.div_add_mod size part_size
  have h2 := Nat.mod_lt size hp
  generalize size / part_size = q at h1 ⊢
  generalize size % part_size = r at h1 h2 ⊢
  have e0 : q * part_size = part_size * q := Nat.mul_comm _ _
  split_ifs with h
  · have hlo : q + 1 ≤ (size + part_size - 1) / part_size :=
      (Nat.le_div_iff_mul_le hp).mpr (by rw [Nat.add_mul, Nat.one_mul, e0]; omega)
    have hhi : (size + part_size - 1) / part_size < q + 2 :=
      (Nat.div_lt_iff_lt_mul hp).mpr (by rw [Nat.add_mul, e0]; omega)
    omega
  · have hlo : q ≤ (size + part_size - 1) / part_size :=
      (Nat.le_div_iff_mul_le hp).mpr (by rw [e0]; omega)
    have hhi : (size + part_size - 1) / part_size < q + 1 :=
      (Nat.div_lt_iff_lt_mul hp).mpr (by rw [Nat.add_mul, Nat.one_mul, e0]; omega)
    omega

/-- The parts cover the buffer. -/
theorem assistance_data_total_parts_mul (size part_size : Nat) (hp : 0 < part_size) :
    size ≤ assistance_data_total_parts size part_size * part_size := by
  rw [← assistance_data_total_parts_eq size part_size hp]
  have h1 := Nat.div_add_mod size part_size
  have h2 := Nat.mod_lt size hp
  split_ifs with h
  · rw [Nat.add_mul, Nat.mul_comm]
    omega
  · rw [Nat.add_zero, Nat.mul_comm]
    omega

/-- A part that starts inside the buffer has a number below the number of
parts. -/
theorem assistance_data_total_parts_lt (size part_size k : Nat) (hp : 0 < part_size)
    (h : k * part_size < size) : k < assistance_data_total_parts size part_size := by
  by_contra hk
  have h1 := assistance_data_total_parts_mul size part_size hp
  have h2 : assistance_data_total_parts size part_size * part_size ≤ k * part_size :=
    Nat.mul_le_mul_right _ (by omega)
  omega

/-- A part with a number below the number of parts starts inside the
buffer. -/
theorem assistance_data_total_parts_start (size part_size k : Nat) (hp : 0 < part_size)
    (h : k < assistance_data_total_parts size part_size) : k * part_size < size := by
  by_contra hk
  have hle : size ≤ k * part_size := by omega
  have : assistance_data_total_parts size part_size ≤ k := by
    unfold assistance_data_total_parts
    have h3 : size + part_size - 1 < (k + 1) * part_size := by
      rw [Nat.add_mul]
      omega
    have := (Nat.div_lt_iff_lt_mul hp).mpr h3
    omega
  omega

/-- No more than 65535 parts when the size is within 65535 part sizes. -/
theorem assistance_data_total_parts_le (size part_size : Nat) (hp : 0 < part_size)
    (h : size ≤ 65535 * part_size) : assistance_data_total_parts size part_size ≤ 65535 := by
  unfold assistance_data_total_parts
  have h3 : size + part_size - 1 < (65535 + 1) * part_size := by
    rw [Nat.add_mul]
    omega
  have := (Nat.div_lt_iff_lt_mul hp).mpr h3
  omega

/-- A buffer shorter than 2^63 bytes has its size as `goffset`. -/
theorem goffset_of_gsize_eq (size : Nat) (h : size < 2 ^ 63) :
    goffset_of_gsize size = (size : Int) := by
  unfold goffset_of_gsize
  have h1 : size % 2 ^ 64 = size := Nat.mod_eq_of_lt (by omega)
  rw [h1, if_pos h]

/-- The part size is never 0. -/
theorem assistance_data_part_size_pos (priv : Private) : 0 < assistance_data_part_size priv := by
  unfold assistance_data_part_size
  split_ifs with h
  · exact h
  · decide

/-- The entry point when the up-front check fails: the error TooMany, and no
request. -/
theorem mm_shared_qmi_location_inject_assistance_data_too_many (self : MMIfaceModem)
    (priv : Private) (data : List Nat)
    (hloc : self.peek_client QmiService.QMI_SERVICE_LOC = Except.ok ())
    (hsize : data.length < 2 ^ 63)
    (hfails : assistance_data_check_fails priv data.length) :
    (mm_shared_qmi_location_inject_assistance_data self priv data).results =
      [TaskResult.error { domain := GErrorDomain.MM_CORE_ERROR, code := MM_CORE_ERROR_TOO_MANY }] ∧
    (mm_shared_qmi_location_inject_assistance_data self priv data).requests = [] ∧
    (mm_shared_qmi_location_inject_assistance_data self priv data).aborted = false := by
  have hcond : (goffset_of_gsize data.length >
        (((G_MAXUINT16 * (if priv.loc_assistance_data_max_part_size > 0 then
            priv.loc_assistance_data_max_part_size else MAX_BYTES_PER_REQUEST)) % 2 ^ 32 : Nat) :
          Int) ∨
      (priv.loc_assistance_data_max_file_size > 0 ∧
        goffset_of_gsize data.length > (priv.loc_assistance_data_max_file_size : Int))) := by
    rw [goffset_of_gsize_eq _ hsize]
    unfold assistance_data_check_fails assistance_data_part_size at hfails
    unfold G_MAXUINT16 MAX_BYTES_PER_REQUEST
    rcases hfails with h | ⟨h1, h2⟩
    · left
      exact_mod_cast h
    · right
      exact ⟨h1, by exact_mod_cast h2⟩
  unfold mm_shared_qmi_location_inject_assistance_data
  simp only [mm_shared_qmi_ensure_client, hloc]
  rw [if_pos hcond]
  simp [inject_assistance_data_context_free, Operation.g_task_return, Operation.results]

/-- The entry point when the up-front check passes: the whole buffer is
kept, the number of parts is the size divided by the part size, rounded up,
the assertion on it holds, and the first part is sent. -/
theorem mm_shared_qmi_location_inject_assistance_data_eq (self : MMIfaceModem)
    (priv : Private) (data : List Nat)
    (hloc : self.peek_client QmiService.QMI_SERVICE_LOC = Except.ok ())
    (hsize : data.length < 2 ^ 63)
    (hpasses : ¬ assistance_data_check_fails priv data.length) :
    mm_shared_qmi_location_inject_assistance_data self priv data =
      inject_assistance_data_next
        { priv := priv,
          ctx := { data := data, data_size := (data.length : Int),
                   part_size := assistance_data_part_size priv,
                   total_parts :=
                     assistance_data_total_parts data.length
                       (assistance_data_part_size priv) } } := by
  have hp := assistance_data_part_size_pos priv
  have hle : data.length ≤ (65535 * assistance_data_part_size priv) % 2 ^ 32 := by
    unfold assistance_data_check_fails at hpasses
    omega
  have hlt : data.length < 2 ^ 32 :=
    Nat.lt_of_le_of_lt hle (Nat.mod_lt _ (by decide))
  have hle2 : data.length ≤ 65535 * assistance_data_part_size priv :=
    Nat.le_trans hle (Nat.mod_le _ _)
  have hparts := assistance_data_total_parts_le _ _ hp hle2
  have hcond : ¬ (goffset_of_gsize data.length >
        (((G_MAXUINT16 * (if priv.loc_assistance_data_max_part_size > 0 then
            priv.loc_assistance_data_max_part_size else MAX_BYTES_PER_REQUEST)) % 2 ^ 32 : Nat) :
          Int) ∨
      (priv.loc_assistance_data_max_file_size > 0 ∧
        goffset_of_gsize data.length > (priv.loc_assistance_data_max_file_size : Int))) := by
    rw [goffset_of_gsize_eq _ hsize]
    unfold assistance_data_check_fails assistance_data_part_size at hpasses
    unfold G_MAXUINT16 MAX_BYTES_PER_REQUEST
    intro h
    apply hpasses
    rcases h with h | ⟨h1, h2⟩
    · left
      exact_mod_cast h
    · right
      exact ⟨h1, by exact_mod_cast h2⟩
  have hpart : (if priv.loc_assistance_data_max_part_size > 0 then
      priv.loc_assistance_data_max_part_size else MAX_BYTES_PER_REQUEST) =
      assistance_data_part_size priv := rfl
  have htake : data.take (data.length % 2 ^ 32) = data := by
    rw [Nat.mod_eq_of_lt hlt, List.take_length]
  have hdiv : gulong_of_goffset
      ((data.length : Int).tdiv (assistance_data_part_size priv : Int)) =
      data.length / assistance_data_part_size priv := by
    unfold gulong_of_goffset
    rw [Int.tdiv_eq_ediv (Int.ofNat_nonneg _) (Int.ofNat_nonneg _)]
    have h1 : ((data.length : Int) / (assistance_data_part_size priv : Int)) =
        ((data.length / assistance_data_part_size priv : Nat) : Int) := by
      push_cast
      rfl
    rw [h1]
    have h2 : data.length / assistance_data_part_size priv < 2 ^ 64 :=
      Nat.lt_of_le_of_lt (Nat.div_le_self _ _) (by omega)
    have h3 : ((data.length / assistance_data_part_size priv : Nat) : Int) % 2 ^ 64 =
        ((data.length / assistance_data_part_size priv : Nat) : Int) :=
      Int.emod_eq_of_lt (Int.ofNat_nonneg _) (by exact_mod_cast h2)
    rw [h3, Int.toNat_ofNat]
  have hmod : (data.length : Int).tmod (assistance_data_part_size priv : Int) =
      ((data.length % assistance_data_part_size priv : Nat) : Int) := by
    rw [Int.tmod_eq_emod (by omega) (by omega)]
    push_cast
    rfl
  unfold mm_shared_qmi_location_inject_assistance_data
  simp only [mm_shared_qmi_ensure_client, hloc]
  rw [if_neg hcond]
  simp only [hpart, htake, goffset_of_gsize_eq _ hsize, hdiv, hmod]
  have htotal : (if ((data.length % assistance_data_part_size priv : Nat) : Int) ≠ 0 then
        (data.length / assistance_data_part_size priv + 1) % 2 ^ 64
      else data.length / assistance_data_part_size priv) =
      assistance_data_total_parts data.length (assistance_data_part_size priv) := by
    rw [← assistance_data_total_parts_eq _ _ hp]
    have h2 : data.length / assistance_data_part_size priv < 2 ^ 63 :=
      Nat.lt_of_le_of_lt (Nat.div_le_self _ _) hsize
    split_ifs with h3 h4 h4
    · omega
    · exact absurd (by exact_mod_cast h3) h4
    · exact absurd (by exact_mod_cast h4) h3
    · omega
  rw [htotal, if_neg (by unfold G_MAXUINT16; omega)]

/-- The bytes of a part: taking the smaller of the part size and what is
left is taking the part size. -/
theorem assistance_data_part_bytes (data : List Nat) (part_size k : Nat)
    (hk : k * part_size < data.length) :
    (data.drop (k * part_size)).take
        (if ((data.length : Int) - ((min (k * part_size) data.length : Nat) : Int)) ≥
            (part_size : Int) then part_size
          else ((data.length : Int) - ((min (k * part_size) data.length : Nat) : Int)).toNat) =
      (data.drop (k * part_size)).take part_size := by
  have hmin : min (k * part_size) data.length = k * part_size := Nat.min_eq_left (by omega)
  rw [hmin]
  split_ifs with h
  · rfl
  · have hlen : (data.drop (k * part_size)).length = data.length - k * part_size :=
      List.length_drop _ _
    have h1 : ((data.length : Int) - ((k * part_size : Nat) : Int)).toNat =
        data.length - k * part_size := by omega
    rw [h1, List.take_of_length_le (by omega), List.take_of_length_le (by omega)]

/-- The function `inject_assistance_data_next` between two parts, when bytes
are left: the next part is sent. -/
theorem inject_assistance_data_next_part (priv : Private) (data : List Nat)
    (part_size total_parts k last_id : Nat) (requests : List QmiRequest)
    (hparts : total_parts ≤ 65535) (hsize : data.length < 2 ^ 32)
    (hk : k * part_size < data.length) (hkn : k < total_parts) :
    inject_assistance_data_next
        (inject_assistance_data_state priv data part_size total_parts k last_id requests []) =
      inject_assistance_data_state priv data part_size total_parts (k + 1) last_id
        (requests ++
          [qmi_client_loc_inject_predicted_orbits_data QMI_LOC_PREDICTED_ORBITS_DATA_FORMAT_XTRA
            data.length total_parts (k + 1) ((data.drop (k * part_size)).take part_size) 10])
        [InjectAssistanceDataCallback.inject_predicted_orbits_data_ready] := by
  have hbytes := assistance_data_part_bytes data part_size k hk
  have hmin : min (k * part_size) data.length = k * part_size := Nat.min_eq_left (by omega)
  have h1 : ¬ ¬ ((data.length : Int) ≥ ((min (k * part_size) data.length : Nat) : Int)) := by
    omega
  have h2 : ¬ ((data.length : Int) - ((min (k * part_size) data.length : Nat) : Int) = 0) := by
    omega
  have h3 : ((data.length : Int) % 2 ^ 32).toNat = data.length := by omega
  have h4 : total_parts % 2 ^ 16 = total_parts := Nat.mod_eq_of_lt (by omega)
  have h5 : (k + 1) % 2 ^ 64 = k + 1 := Nat.mod_eq_of_lt (by omega)
  have h6 : (k + 1) % 2 ^ 16 = k + 1 := Nat.mod_eq_of_lt (by omega)
  have h7 : ((min (k * part_size) data.length : Nat) : Int).toNat = k * part_size := by
    rw [hmin]
    exact Int.toNat_ofNat _
  have h8 : ((min (k * part_size) data.length : Nat) : Int) +
      (((if ((data.length : Int) - ((min (k * part_size) data.length : Nat) : Int)) ≥
            (part_size : Int) then part_size
          else ((data.length : Int) -
            ((min (k * part_size) data.length : Nat) : Int)).toNat) : Nat) : Int) =
      ((min ((k + 1) * part_size) data.length : Nat) : Int) := by
    rw [hmin, Nat.add_mul, Nat.one_mul]
    split_ifs with h
    · rw [Nat.min_eq_left (by omega)]
      push_cast
      rfl
    · rw [Nat.min_eq_right (by omega)]
      omega
  unfold inject_assistance_data_next inject_assistance_data_state
  simp only [h1, h2, if_false, h3, h4, h5, h6, h7, hbytes, h8, Operation.qmi_client_request,
    List.nil_append]

/-- The function `inject_assistance_data_next` between two parts, when no
byte is left: success. -/
theorem inject_assistance_data_next_done (priv : Private) (data : List Nat)
    (part_size total_parts k last_id : Nat) (requests : List QmiRequest)
    (hk : data.length ≤ k * part_size) :
    inject_assistance_data_next
        (inject_assistance_data_state priv data part_size total_parts k last_id requests []) =
      { inject_assistance_data_state priv data part_size total_parts k last_id requests [] with
        returned :=
          [{ result := TaskResult.value (),
             ctx := (inject_assistance_data_state priv data part_size total_parts k last_id
               requests []).ctx,
             sources := [], handlers := [] }] } := by
  have hmin : min (k * part_size) data.length = data.length := Nat.min_eq_right hk
  unfold inject_assistance_data_next inject_assistance_data_state
  simp [hmin, inject_assistance_data_context_free, Operation.g_task_return]

/-- One part of the Inject-Predicted-Orbits-Data dialog answered with
success: the good response arms the timeout and connects the handler, the good
indication removes both and runs `inject_assistance_data_next`. -/
theorem inject_predicted_orbits_data_round_eq (L : LocHelpers) (priv : Private)
    (data : List Nat) (part_size total_parts k last_id : Nat) (requests : List QmiRequest)
    (status : Nat) (hstatus : L.mm_error_from_qmi_loc_indication_status status = none) :
    (inject_predicted_orbits_data_round status).foldl (inject_assistance_data_deliver L)
        (inject_assistance_data_state priv data part_size total_parts k last_id requests
          [InjectAssistanceDataCallback.inject_predicted_orbits_data_ready]) =
      inject_assistance_data_next
        (inject_assistance_data_state priv data part_size total_parts k (last_id + 2)
          requests []) := by
  simp [inject_predicted_orbits_data_round, inject_assistance_data_deliver,
    inject_assistance_data_state, inject_predicted_orbits_data_ready,
    loc_location_inject_predicted_orbits_data_indication_cb, hstatus,
    Operation.g_signal_connect, Operation.g_timeout_add_seconds, Operation.g_source_remove,
    Operation.g_signal_handler_disconnect]

/-- The parts sent by `m` rounds of the Inject-Predicted-Orbits-Data dialog
after part `k`. -/
theorem inject_predicted_orbits_data_rounds (L : LocHelpers) (priv : Private)
    (data : List Nat) (part_size total_parts : Nat) (status : Nat)
    (hstatus : L.mm_error_from_qmi_loc_indication_status status = none)
    (hp : 0 < part_size)
    (htotal : total_parts = assistance_data_total_parts data.length part_size)
    (hparts : total_parts ≤ 65535) (hsize : data.length < 2 ^ 32) (m : Nat) :
    ∀ (k last_id : Nat) (requests : List QmiRequest), k + m ≤ total_parts →
      (List.flatten (List.replicate m (inject_predicted_orbits_data_round status))).foldl
          (inject_assistance_data_deliver L)
          (inject_assistance_data_next
            (inject_assistance_data_state priv data part_size total_parts k last_id
              requests [])) =
        inject_assistance_data_next
          (inject_assistance_data_state priv data part_size total_parts (k + m)
            (last_id + 2 * m)
            (requests ++ ((List.range m).map (fun j =>
              qmi_client_loc_inject_predicted_orbits_data
                QMI_LOC_PREDICTED_ORBITS_DATA_FORMAT_XTRA data.length total_parts (k + j + 1)
                ((data.drop ((k + j) * part_size)).take part_size) 10))) []) := by
  induction m with
  | zero => intro k last_id requests _; simp
  | succ m ih =>
      intro k last_id requests hk
      have hstart : k * part_size < data.length :=
        assistance_data_total_parts_start _ _ _ hp (by omega)
      rw [List.replicate_succ, List.flatten_cons, List.foldl_append,
        inject_assistance_data_next_part priv data part_size total_parts k last_id requests
          hparts hsize hstart (by omega),
        inject_predicted_orbits_data_round_eq L priv data part_size total_parts (k + 1) last_id
          _ status hstatus,
        ih (k + 1) (last_id + 2) _ (by omega)]
      congr 2
      · omega
      · omega
      · rw [List.range_succ_eq_map, List.map_cons, List.map_map, List.append_assoc]
        simp only [List.singleton_append, Nat.add_zero, Function.comp]
        congr 2
        apply List.map_congr_left
        intro j _
        simp only [Function.comp, Nat.succ_eq_add_one]
        rw [show k + 1 + j = k + (j + 1) by omega]

/-- The first `m` parts of the spec put together are the first `m` part
sizes of the buffer. -/
theorem assistance_data_parts_flatten (data : List Nat) (part_size m : Nat) :
    ((List.range m).map (fun k => (data.drop (k * part_size)).take part_size)).flatten =
      data.take (m * part_size) := by
  induction m with
  | zero => simp
  | succ m ih =>
      rw [List.range_succ, List.map_append, List.flatten_append, ih, Nat.add_mul,
        Nat.one_mul, List.take_add]
      simp

/-- The entry point when the up-front check passes, in terms of the state
before the first part. -/
theorem mm_shared_qmi_location_inject_assistance_data_start (self : MMIfaceModem)
    (priv : Private) (data : List Nat)
    (hloc : self.peek_client QmiService.QMI_SERVICE_LOC = Except.ok ())
    (hsize : data.length < 2 ^ 63)
    (hpasses : ¬ assistance_data_check_fails priv data.length) :
    mm_shared_qmi_location_inject_assistance_data self priv data =
      inject_assistance_data_next
        (inject_assistance_data_state priv data (assistance_data_part_size priv)
          (assistance_data_total_parts data.length (assistance_data_part_size priv)) 0 0 []
          []) := by
  rw [mm_shared_qmi_location_inject_assistance_data_eq self priv data hloc hsize hpasses]
  simp [inject_assistance_data_state]

/-- When the check passes the buffer is shorter than 2^32 bytes and has at
most 65535 parts. -/
theorem assistance_data_check_passes (priv : Private) (size : Nat)
    (hpasses : ¬ assistance_data_check_fails priv size) :
    size < 2 ^ 32 ∧
    assistance_data_total_parts size (assistance_data_part_size priv) ≤ 65535 := by
  have hp := assistance_data_part_size_pos priv
  have hle : size ≤ (65535 * assistance_data_part_size priv) % 2 ^ 32 := by
    unfold assistance_data_check_fails at hpasses
    omega
  exact ⟨Nat.lt_of_le_of_lt hle (Nat.mod_lt _ (by decide)),
    assistance_data_total_parts_le _ _ hp (Nat.le_trans hle (Nat.mod_le _ _))⟩

/-- C23: for every buffer that is not empty and passes the up-front size
check, with the part size `max_part_size` if it is set and 1024 otherwise and
`n` the size divided by the part size, rounded up: when every request succeeds
and every indication reports success, the operation sends exactly the `n`
Inject-Predicted-Orbits-Data requests of the parts in order, request `k`
carrying the total size, `n`, the part number `k` and the bytes from
`(k-1) * part_size` up to `k * part_size` or the end of the buffer, and then
completes with success. Request `j+1` is sent after the indication of request
`j`, not after its response. Every part has the part size except possibly the
last, no part is empty, and the parts put together are the buffer. -/
theorem C23_parts_in_order (L : LocHelpers) (self : MMIfaceModem) (priv : Private)
    (data : List Nat) (status : Nat)
    (hloc : self.peek_client QmiService.QMI_SERVICE_LOC = Except.ok ())
    (hstatus : L.mm_error_from_qmi_loc_indication_status status = none)
    (hdata : data ≠ [])
    (hsize : data.length < 2 ^ 63)
    (hpasses : ¬ assistance_data_check_fails priv data.length) :
    (inject_assistance_data_run L self priv data
        (List.flatten (List.replicate
          (assistance_data_total_parts data.length (assistance_data_part_size priv))
          (inject_predicted_orbits_data_round status)))).results = [TaskResult.value ()] ∧
    (inject_assistance_data_run L self priv data
        (List.flatten (List.replicate
          (assistance_data_total_parts data.length (assistance_data_part_size priv))
          (inject_predicted_orbits_data_round status)))).requests =
      (assistance_data_parts data (assistance_data_part_size priv)).map (fun part =>
        qmi_client_loc_inject_predicted_orbits_data QMI_LOC_PREDICTED_ORBITS_DATA_FORMAT_XTRA
          part.1 part.2.1 part.2.2.1 part.2.2.2 10) ∧
    (∀ j, j < assistance_data_total_parts data.length (assistance_data_part_size priv) →
      (inject_assistance_data_run L self priv data
          (List.flatten (List.replicate j (inject_predicted_orbits_data_round status)))).requests =
        ((assistance_data_parts data (assistance_data_part_size priv)).take (j + 1)).map
          (fun part =>
            qmi_client_loc_inject_predicted_orbits_data
              QMI_LOC_PREDICTED_ORBITS_DATA_FORMAT_XTRA part.1 part.2.1 part.2.2.1 part.2.2.2
              10) ∧
      (inject_assistance_data_run L self priv data
          (List.flatten (List.replicate j (inject_predicted_orbits_data_round status)))).results =
        [] ∧
      (inject_assistance_data_run L self priv data
          (List.flatten (List.replicate j (inject_predicted_orbits_data_round status)) ++
            [InjectAssistanceDataEvent.response
              InjectAssistanceDataCallback.inject_predicted_orbits_data_ready
              (QmiResult.ok ())])).requests =
        (inject_assistance_data_run L self priv data
          (List.flatten (List.replicate j
            (inject_predicted_orbits_data_round status)))).requests) ∧
    0 < assistance_data_total_parts data.length (assistance_data_part_size priv) ∧
    (∀ k, k < assistance_data_total_parts data.length (assistance_data_part_size priv) →
      (assistance_data_parts data (assistance_data_part_size priv))[k]? =
        some (data.length,
          assistance_data_total_parts data.length (assistance_data_part_size priv), k + 1,
          (data.drop (k * assistance_data_part_size priv)).take
            (assistance_data_part_size priv)) ∧
      (k + 1 < assistance_data_total_parts data.length (assistance_data_part_size priv) →
        ((data.drop (k * assistance_data_part_size priv)).take
          (assistance_data_part_size priv)).length = assistance_data_part_size priv) ∧
      0 < ((data.drop (k * assistance_data_part_size priv)).take
          (assistance_data_part_size priv)).length ∧
      ((data.drop (k * assistance_data_part_size priv)).take
          (assistance_data_part_size priv)).length ≤ assistance_data_part_size priv) ∧
    ((assistance_data_parts data (assistance_data_part_size priv)).map
        (fun part => part.2.2.2)).flatten = data := by
  have hp := assistance_data_part_size_pos priv
  obtain ⟨h32, hparts⟩ := assistance_data_check_passes priv data.length hpasses
  have hcover := assistance_data_total_parts_mul data.length _ hp
  have hlen : 0 < data.length := List.length_pos.mpr hdata
  generalize hP : assistance_data_part_size priv = P at *
  generalize hn : assistance_data_total_parts data.length P = n at *
  have hstart := mm_shared_qmi_location_inject_assistance_data_start self priv data hloc hsize
    hpasses
  rw [hP, hn] at hstart
  have hrun : ∀ j, j ≤ n →
      inject_assistance_data_run L self priv data
          (List.flatten (List.replicate j (inject_predicted_orbits_data_round status))) =
        inject_assistance_data_next
          (inject_assistance_data_state priv data P n j (2 * j)
            ((List.range j).map (fun k =>
              qmi_client_loc_inject_predicted_orbits_data
                QMI_LOC_PREDICTED_ORBITS_DATA_FORMAT_XTRA data.length n (k + 1)
                ((data.drop (k * P)).take P) 10)) []) := by
    intro j hj
    unfold inject_assistance_data_run
    rw [hstart, inject_predicted_orbits_data_rounds L priv data P n status hstatus hp hn.symm
      hparts h32 j 0 0 [] (by omega)]
    simp
  have hmap : (assistance_data_parts data P).map (fun part =>
        qmi_client_loc_inject_predicted_orbits_data QMI_LOC_PREDICTED_ORBITS_DATA_FORMAT_XTRA
          part.1 part.2.1 part.2.2.1 part.2.2.2 10) =
      (List.range n).map (fun k =>
        qmi_client_loc_inject_predicted_orbits_data
          QMI_LOC_PREDICTED_ORBITS_DATA_FORMAT_XTRA data.length n (k + 1)
          ((data.drop (k * P)).take P) 10) := by
    unfold assistance_data_parts
    rw [hn, List.map_map]
    rfl
  have hn0 : 0 < n := by
    rw [← hn]
    exact assistance_data_total_parts_lt _ _ 0 hp (by omega)
  refine ⟨?_, ?_, ?_, hn0, ?_, ?_⟩
  · rw [hrun n (le_refl n), inject_assistance_data_next_done _ _ _ _ _ _ _ hcover]
    rfl
  · rw [hrun n (le_refl n), inject_assistance_data_next_done _ _ _ _ _ _ _ hcover, hmap]
    rfl
  · intro j hj
    have hjs : j * P < data.length := by
      rw [← hn] at hj
      exact assistance_data_total_parts_start _ _ _ hp hj
    have htake : ((assistance_data_parts data P).take (j + 1)).map (fun part =>
          qmi_client_loc_inject_predicted_orbits_data QMI_LOC_PREDICTED_ORBITS_DATA_FORMAT_XTRA
            part.1 part.2.1 part.2.2.1 part.2.2.2 10) =
        (List.range (j + 1)).map (fun k =>
          qmi_client_loc_inject_predicted_orbits_data
            QMI_LOC_PREDICTED_ORBITS_DATA_FORMAT_XTRA data.length n (k + 1)
            ((data.drop (k * P)).take P) 10) := by
      rw [List.map_take, hmap, ← List.map_take, List.take_range, Nat.min_eq_left (by omega)]
    unfold inject_assistance_data_run at hrun ⊢
    rw [List.foldl_append, hrun j (by omega),
      inject_assistance_data_next_part priv data P n j _ _ hparts h32 hjs hj, htake,
      List.range_succ, List.map_append]
    refine ⟨rfl, rfl, ?_⟩
    simp [inject_assistance_data_deliver, inject_assistance_data_state,
      inject_predicted_orbits_data_ready, Operation.g_signal_connect,
      Operation.g_timeout_add_seconds]
  · intro k hk
    have hks : k * P < data.length := by
      rw [← hn] at hk
      exact assistance_data_total_parts_start _ _ _ hp hk
    refine ⟨?_, ?_, ?_, ?_⟩
    · unfold assistance_data_parts
      rw [hn, List.getElem?_map, List.getElem?_range hk]
      rfl
    · intro hk1
      have hk1s : (k + 1) * P < data.length := by
        rw [← hn] at hk1
        exact assistance_data_total_parts_start _ _ _ hp hk1
      rw [Nat.add_mul, Nat.one_mul] at hk1s
      rw [List.length_take, List.length_drop]
      omega
    · rw [List.length_take, List.length_drop]
      omega
    · rw [List.length_take]
      omega
  · unfold assistance_data_parts
    rw [hn, List.map_map]
    have := assistance_data_parts_flatten data P n
    rw [List.take_of_length_le hcover] at this
    exact this

/-- C23 on a buffer of 5 bytes with the part size 2: three parts of 2, 2
and 1 bytes are sent with the numbers 1, 2, 3, and the operation succeeds. -/
theorem C23_parts_in_order_witness :
    (inject_assistance_data_run mm_loc_helpers_qmi modem_3gpp
        { loc_assistance_data_max_part_size := 2 } [10, 11, 12, 13, 14]
        (List.flatten (List.replicate 3 (inject_predicted_orbits_data_round 0)))).results =
      [TaskResult.value ()] ∧
    (inject_assistance_data_run mm_loc_helpers_qmi modem_3gpp
        { loc_assistance_data_max_part_size := 2 } [10, 11, 12, 13, 14]
        (List.flatten (List.replicate 3 (inject_predicted_orbits_data_round 0)))).requests =
      [qmi_client_loc_inject_predicted_orbits_data QMI_LOC_PREDICTED_ORBITS_DATA_FORMAT_XTRA
         5 3 1 [10, 11] 10,
       qmi_client_loc_inject_predicted_orbits_data QMI_LOC_PREDICTED_ORBITS_DATA_FORMAT_XTRA
         5 3 2 [12, 13] 10,
       qmi_client_loc_inject_predicted_orbits_data QMI_LOC_PREDICTED_ORBITS_DATA_FORMAT_XTRA
         5 3 3 [14] 10] :=
  ⟨(C23_parts_in_order mm_loc_helpers_qmi modem_3gpp
      { loc_assistance_data_max_part_size := 2 } [10, 11, 12, 13, 14] 0 rfl rfl (by decide)
      (by decide) (by unfold assistance_data_check_fails; decide)).1,
   (C23_parts_in_order mm_loc_helpers_qmi modem_3gpp
      { loc_assistance_data_max_part_size := 2 } [10, 11, 12, 13, 14] 0 rfl rfl (by decide)
      (by decide) (by unfold assistance_data_check_fails; decide)).2.1⟩

/-- The function `inject_assistance_data_context_free` in one step: the
armed timeout and the connected handler that the context names are gone,
nothing else changes. -/
theorem inject_assistance_data_context_free_eq (op : InjectAssistanceDataTask) :
    inject_assistance_data_context_free op =
      { op with
        sources := op.sources.filter (fun s =>
          decide (op.ctx.timeout_id = 0 ∨ s.id ≠ op.ctx.timeout_id)),
        handlers := op.handlers.filter (fun h =>
          decide (op.ctx.indication_id = 0 ∨ h.id ≠ op.ctx.indication_id)) } := by
  rcases op with ⟨priv, ⟨data, ds, tp, ps, iid, tid, i, np⟩, pending, sources, handlers,
    last_id, requests, returned, aborted⟩
  unfold inject_assistance_data_context_free
  by_cases ht : tid = 0 <;> by_cases hi : iid = 0 <;>
    simp [ht, hi, Operation.g_signal_handler_disconnect, Operation.g_source_remove]

/-- The bounds are kept by returning a result and releasing the context. -/
theorem inject_assistance_data_return_in_bounds (size part_size : Nat)
    (op : InjectAssistanceDataTask) (result : TaskResult Unit)
    (h : inject_assistance_data_in_bounds size part_size op) :
    inject_assistance_data_in_bounds size part_size
      (inject_assistance_data_context_free (op.g_task_return result)) := by
  rw [inject_assistance_data_context_free_eq]
  exact h

/-- The bounds are kept by `inject_assistance_data_next`. -/
theorem inject_assistance_data_next_in_bounds (size part_size : Nat)
    (op : InjectAssistanceDataTask) (hp : 0 < part_size)
    (hparts : assistance_data_total_parts size part_size ≤ 65535) (hsize : size < 2 ^ 32)
    (h : inject_assistance_data_in_bounds size part_size op) :
    inject_assistance_data_in_bounds size part_size (inject_assistance_data_next op) := by
  rcases op with ⟨priv, ⟨data, ds, tp, ps, iid, tid, i, np⟩, pending, sources, handlers,
    last_id, requests, returned, aborted⟩
  simp only [inject_assistance_data_in_bounds] at h ⊢
  obtain ⟨rfl, rfl, rfl, rfl, hnp, hreq⟩ := h
  unfold inject_assistance_data_next
  simp only
  split_ifs with h1 h2 h3
  all_goals first
    | exact ⟨rfl, rfl, rfl, rfl, hnp, hreq⟩
    | exact inject_assistance_data_return_in_bounds size ps _ _ ⟨rfl, rfl, rfl, rfl, hnp, hreq⟩
    | (have hlt : np * ps < size := by omega
       have hnlt := assistance_data_total_parts_lt size ps np hp hlt
       have hmod : (np + 1) % 2 ^ 64 = np + 1 := Nat.mod_eq_of_lt (by omega)
       have hmod16 : (np + 1) % 2 ^ 16 = np + 1 := Nat.mod_eq_of_lt (by omega)
       have htot : assistance_data_total_parts size ps % 2 ^ 16 =
           assistance_data_total_parts size ps := Nat.mod_eq_of_lt (by omega)
       have hsz : ((size : Int) % 2 ^ 32).toNat = size := by omega
       simp only [Operation.qmi_client_request, hmod, hmod16, htot, hsz]
       refine ⟨trivial, trivial, trivial, ?_, by omega, ?_⟩
       · first
           | (rw [Nat.min_eq_left (by omega), Nat.add_mul, Nat.one_mul,
                Nat.min_eq_left (by omega)]
              push_cast
              rfl)
           | (rw [Nat.min_eq_left (by omega), Nat.add_mul, Nat.one_mul,
                Nat.min_eq_right (by omega)]
              omega)
       · intro r hr
         rcases List.mem_append.mp hr with hr | hr
         · exact hreq r hr
         · rw [List.mem_singleton] at hr
           subst hr
           exact ⟨np + 1, _, rfl, by omega, by omega⟩)

/-- The bounds are kept by `inject_xtra_data_next`. -/
theorem inject_xtra_data_next_in_bounds (size part_size : Nat)
    (op : InjectAssistanceDataTask) (hp : 0 < part_size)
    (hparts : assistance_data_total_parts size part_size ≤ 65535) (hsize : size < 2 ^ 32)
    (h : inject_assistance_data_in_bounds size part_size op) :
    inject_assistance_data_in_bounds size part_size (inject_xtra_data_next op) := by
  rcases op with ⟨priv, ⟨data, ds, tp, ps, iid, tid, i, np⟩, pending, sources, handlers,
    last_id, requests, returned, aborted⟩
  simp only [inject_assistance_data_in_bounds] at h ⊢
  obtain ⟨rfl, rfl, rfl, rfl, hnp, hreq⟩ := h
  unfold inject_xtra_data_next
  simp only
  split_ifs with h1 h2 h3
  all_goals first
    | exact ⟨rfl, rfl, rfl, rfl, hnp, hreq⟩
    | exact inject_assistance_data_return_in_bounds size ps _ _ ⟨rfl, rfl, rfl, rfl, hnp, hreq⟩
    | (have hlt : np * ps < size := by omega
       have hnlt := assistance_data_total_parts_lt size ps np hp hlt
       have hmod : (np + 1) % 2 ^ 64 = np + 1 := Nat.mod_eq_of_lt (by omega)
       have hmod16 : (np + 1) % 2 ^ 16 = np + 1 := Nat.mod_eq_of_lt (by omega)
       have htot : assistance_data_total_parts size ps % 2 ^ 16 =
           assistance_data_total_parts size ps := Nat.mod_eq_of_lt (by omega)
       have hsz : ((size : Int) % 2 ^ 32).toNat = size := by omega
       simp only [Operation.qmi_client_request, hmod, hmod16, htot, hsz]
       refine ⟨trivial, trivial, trivial, ?_, by omega, ?_⟩
       · first
           | (rw [Nat.min_eq_left (by omega), Nat.add_mul, Nat.one_mul,
                Nat.min_eq_left (by omega)]
              push_cast
              rfl)
           | (rw [Nat.min_eq_left (by omega), Nat.add_mul, Nat.one_mul,
                Nat.min_eq_right (by omega)]
              omega)
       · intro r hr
         rcases List.mem_append.mp hr with hr | hr
         · exact hreq r hr
         · rw [List.mem_singleton] at hr
           subst hr
           exact ⟨np + 1, _, rfl, by omega, by omega⟩)

/-- The bounds are kept by `inject_xtra_data`, which starts over. -/
theorem inject_xtra_data_in_bounds (size part_size : Nat) (op : InjectAssistanceDataTask)
    (hp : 0 < part_size) (hparts : assistance_data_total_parts size part_size ≤ 65535)
    (hsize : size < 2 ^ 32) (h : inject_assistance_data_in_bounds size part_size op) :
    inject_assistance_data_in_bounds size part_size (inject_xtra_data op) := by
  unfold inject_xtra_data
  have h0 : inject_assistance_data_in_bounds size part_size
      { op with ctx := { op.ctx with n_part := 0, i := 0 } } := by
    obtain ⟨h1, h2, h3, _, _, h6⟩ := h
    refine ⟨h1, h2, h3, ?_, Nat.zero_le _, h6⟩
    simp
  split_ifs
  all_goals first
    | exact inject_xtra_data_next_in_bounds size part_size _ hp hparts hsize h0
    | exact h

/-- The bounds are kept by every event. -/
theorem inject_assistance_data_deliver_in_bounds (L : LocHelpers) (size part_size : Nat)
    (op : InjectAssistanceDataTask) (ev : InjectAssistanceDataEvent) (hp : 0 < part_size)
    (hparts : assistance_data_total_parts size part_size ≤ 65535) (hsize : size < 2 ^ 32)
    (h : inject_assistance_data_in_bounds size part_size op) :
    inject_assistance_data_in_bounds size part_size (inject_assistance_data_deliver L op ev) := by
  unfold inject_assistance_data_deliver
  split_ifs with ha
  · exact h
  · cases ev with
    | response callback res =>
        simp only
        split_ifs with hmem
        · cases callback with
          | inject_predicted_orbits_data_ready =>
              cases res with
              | no_output error =>
                  simp only [inject_predicted_orbits_data_ready]
                  split_ifs
                  · exact inject_xtra_data_in_bounds size part_size _ hp hparts hsize h
                  · exact inject_assistance_data_return_in_bounds size part_size _ _ h
              | result_failed error =>
                  simp only [inject_predicted_orbits_data_ready]
                  split_ifs
                  · exact inject_xtra_data_in_bounds size part_size _ hp hparts hsize h
                  · exact inject_assistance_data_return_in_bounds size part_size _ _ h
              | ok u => exact h
          | inject_xtra_data_ready =>
              cases res with
              | no_output error =>
                  exact inject_assistance_data_return_in_bounds size part_size _ _ h
              | result_failed error =>
                  exact inject_assistance_data_return_in_bounds size part_size _ _ h
              | ok u => exact h
        · exact h
    | indication signal output =>
        simp only
        generalize op.handlers.filter (fun h => h.handler = signal) = hs
        clear ha
        induction hs generalizing op with
        | nil => exact h
        | cons x rest ih =>
            rw [List.foldl_cons]
            apply ih
            split_ifs with hc
            · cases signal with
              | loc_location_inject_predicted_orbits_data_indication_cb =>
                  simp only [loc_location_inject_predicted_orbits_data_indication_cb]
                  split
                  · exact inject_assistance_data_return_in_bounds size part_size _ _ h
                  · exact inject_assistance_data_next_in_bounds size part_size _ hp hparts hsize h
              | loc_location_inject_xtra_data_indication_cb =>
                  simp only [loc_location_inject_xtra_data_indication_cb]
                  split
                  · exact inject_assistance_data_return_in_bounds size part_size _ _ h
                  · exact inject_xtra_data_next_in_bounds size part_size _ hp hparts hsize h
            · exact h
    | timeout id =>
        simp only
        split
        · exact h
        · rename_i source _
          cases hcb : source.callback
          simp only [loc_location_inject_data_indication_timed_out]
          exact inject_assistance_data_return_in_bounds size part_size
            { op with sources := op.sources.filter (fun s => s.id ≠ id),
                      ctx := { op.ctx with timeout_id := 0 } } _ h

/-- The bounds are kept by every series of events. -/
theorem inject_assistance_data_run_in_bounds (L : LocHelpers) (size part_size : Nat)
    (hp : 0 < part_size) (hparts : assistance_data_total_parts size part_size ≤ 65535)
    (hsize : size < 2 ^ 32) (events : List InjectAssistanceDataEvent) :
    ∀ op : InjectAssistanceDataTask, inject_assistance_data_in_bounds size part_size op →
      inject_assistance_data_in_bounds size part_size
        (events.foldl (inject_assistance_data_deliver L) op) := by
  induction events with
  | nil => intro op h; exact h
  | cons ev rest ih =>
      intro op h
      exact ih _ (inject_assistance_data_deliver_in_bounds L size part_size op ev hp hparts hsize h)

/-- Within the bounds the assertion of `inject_assistance_data_next` holds. -/
theorem inject_assistance_data_next_aborted (size part_size : Nat)
    (op : InjectAssistanceDataTask)
    (h : inject_assistance_data_in_bounds size part_size op) :
    (inject_assistance_data_next op).aborted = op.aborted := by
  obtain ⟨h1, _, _, h4, _, _⟩ := h
  have hge : ¬ ¬ (op.ctx.data_size ≥ op.ctx.i) := by
    rw [h1, h4]
    have := Nat.min_le_right (op.ctx.n_part * part_size) size
    omega
  unfold inject_assistance_data_next
  rw [if_neg hge]
  simp only
  split_ifs
  · rw [inject_assistance_data_context_free_eq]
    rfl
  · rfl
  · rfl

/-- The entry point with a LOC client: the part size is the one of the spec,
whatever the size check says. -/
theorem mm_shared_qmi_location_inject_assistance_data_part_size (self : MMIfaceModem)
    (priv : Private) (data : List Nat)
    (hloc : self.peek_client QmiService.QMI_SERVICE_LOC = Except.ok ())
    (hsize : data.length < 2 ^ 63) :
    (mm_shared_qmi_location_inject_assistance_data self priv data).ctx.part_size =
      assistance_data_part_size priv := by
  by_cases hpasses : assistance_data_check_fails priv data.length
  · have hcond : (goffset_of_gsize data.length >
          (((G_MAXUINT16 * (if priv.loc_assistance_data_max_part_size > 0 then
              priv.loc_assistance_data_max_part_size else MAX_BYTES_PER_REQUEST)) % 2 ^ 32 : Nat) :
            Int) ∨
        (priv.loc_assistance_data_max_file_size > 0 ∧
          goffset_of_gsize data.length > (priv.loc_assistance_data_max_file_size : Int))) := by
      rw [goffset_of_gsize_eq _ hsize]
      unfold assistance_data_check_fails assistance_data_part_size at hpasses
      unfold G_MAXUINT16 MAX_BYTES_PER_REQUEST
      rcases hpasses with h | ⟨h1, h2⟩
      · left
        exact_mod_cast h
      · right
        exact ⟨h1, by exact_mod_cast h2⟩
    unfold mm_shared_qmi_location_inject_assistance_data
    simp only [mm_shared_qmi_ensure_client, hloc]
    rw [if_pos hcond, inject_assistance_data_context_free_eq]
    rfl
  · obtain ⟨h32, hparts⟩ := assistance_data_check_passes priv data.length hpasses
    rw [mm_shared_qmi_location_inject_assistance_data_eq self priv data hloc hsize hpasses]
    exact (inject_assistance_data_next_in_bounds data.length (assistance_data_part_size priv) _
      (assistance_data_part_size_pos priv) hparts h32
      ⟨rfl, rfl, rfl, by simp, Nat.zero_le _, by simp⟩).2.1

/-- C30: in Inject-Assistance-Data, for every buffer and every
`max_part_size`, the product `65535 * part_size` taken modulo 2^32 as the code
does: the part size the entry point uses is never 0; when the up-front size
check passes, the buffer is shorter than 2^32 bytes and has at most 65535
parts, no assertion fails in the entry point, and in every state the operation
reaches, whatever arrives, the size, the number of parts and the part number
fit their 32 and 16 bits, and every request sent carries the size and the
number of parts as they are with a part number from 1 to the number of parts;
and an empty buffer completes with success and no request. -/
theorem C30_sizes_fit (L : LocHelpers) (self : MMIfaceModem) (priv : Private)
    (data : List Nat)
    (hloc : self.peek_client QmiService.QMI_SERVICE_LOC = Except.ok ())
    (hsize : data.length < 2 ^ 63) :
    (mm_shared_qmi_location_inject_assistance_data self priv data).ctx.part_size ≠ 0 ∧
    (¬ assistance_data_check_fails priv data.length →
      data.length < 2 ^ 32 ∧
      assistance_data_total_parts data.length (assistance_data_part_size priv) ≤ G_MAXUINT16 ∧
      (mm_shared_qmi_location_inject_assistance_data self priv data).aborted = false ∧
      ∀ events : List InjectAssistanceDataEvent,
        inject_assistance_data_in_bounds data.length (assistance_data_part_size priv)
          (inject_assistance_data_run L self priv data events) ∧
        (inject_assistance_data_run L self priv data events).ctx.total_parts % 2 ^ 16 =
          assistance_data_total_parts data.length (assistance_data_part_size priv) ∧
        (inject_assistance_data_run L self priv data events).ctx.n_part % 2 ^ 16 =
          (inject_assistance_data_run L self priv data events).ctx.n_part ∧
        ((inject_assistance_data_run L self priv data events).ctx.data_size % 2 ^ 32).toNat =
          data.length) ∧
    (data = [] →
      (mm_shared_qmi_location_inject_assistance_data self priv data).results =
        [TaskResult.value ()] ∧
      (mm_shared_qmi_location_inject_assistance_data self priv data).requests = [] ∧
      (mm_shared_qmi_location_inject_assistance_data self priv data).aborted = false) := by
  have hp := assistance_data_part_size_pos priv
  refine ⟨?_, ?_, ?_⟩
  · rw [mm_shared_qmi_location_inject_assistance_data_part_size self priv data hloc hsize]
    omega
  · intro hpasses
    obtain ⟨h32, hparts⟩ := assistance_data_check_passes priv data.length hpasses
    have h0 : inject_assistance_data_in_bounds data.length (assistance_data_part_size priv)
        ({ priv := priv,
           ctx := { data := data, data_size := (data.length : Int),
                    part_size := assistance_data_part_size priv,
                    total_parts :=
                      assistance_data_total_parts data.length
                        (assistance_data_part_size priv) } } : InjectAssistanceDataTask) :=
      ⟨rfl, rfl, rfl, by simp, Nat.zero_le _, by simp⟩
    refine ⟨h32, hparts, ?_, ?_⟩
    · rw [mm_shared_qmi_location_inject_assistance_data_eq self priv data hloc hsize hpasses,
        inject_assistance_data_next_aborted _ _ _ h0]
    · intro events
      have hb : inject_assistance_data_in_bounds data.length (assistance_data_part_size priv)
          (inject_assistance_data_run L self priv data events) := by
        unfold inject_assistance_data_run
        apply inject_assistance_data_run_in_bounds L _ _ hp hparts h32
        rw [mm_shared_qmi_location_inject_assistance_data_eq self priv data hloc hsize hpasses]
        exact inject_assistance_data_next_in_bounds _ _ _ hp hparts h32 h0
      refine ⟨hb, ?_, ?_, ?_⟩
      · rw [hb.2.2.1]
        exact Nat.mod_eq_of_lt (by omega)
      · have h5 := hb.2.2.2.2.1
        rw [hb.2.2.1] at h5
        exact Nat.mod_eq_of_lt (by omega)
      · rw [hb.1]
        omega
  · intro hdata
    subst hdata
    have hpasses : ¬ assistance_data_check_fails priv ([] : List Nat).length := by
      unfold assistance_data_check_fails
      simp
    rw [mm_shared_qmi_location_inject_assistance_data_start self priv [] hloc hsize hpasses,
      inject_assistance_data_next_done _ _ _ _ _ _ _ (by simp)]
    exact ⟨rfl, rfl, rfl⟩

/-- C30 on a buffer of 5 bytes with the part size 2, and on the empty
buffer: the part size is not 0, the 3 parts are within 65535, no assertion
fails, and the empty buffer completes with success and no request. -/
theorem C30_sizes_fit_witness :
    (mm_shared_qmi_location_inject_assistance_data modem_3gpp
        { loc_assistance_data_max_part_size := 2 } [10, 11, 12, 13, 14]).ctx.part_size ≠ 0 ∧
    assistance_data_total_parts 5 2 ≤ G_MAXUINT16 ∧
    (mm_shared_qmi_location_inject_assistance_data modem_3gpp
        { loc_assistance_data_max_part_size := 2 } [10, 11, 12, 13, 14]).aborted = false ∧
    (mm_shared_qmi_location_inject_assistance_data modem_3gpp {} []).results =
      [TaskResult.value ()] ∧
    (mm_shared_qmi_location_inject_assistance_data modem_3gpp {} []).requests = [] :=
  ⟨(C30_sizes_fit mm_loc_helpers_qmi modem_3gpp { loc_assistance_data_max_part_size := 2 }
      [10, 11, 12, 13, 14] rfl (by decide)).1,
   ((C30_sizes_fit mm_loc_helpers_qmi modem_3gpp { loc_assistance_data_max_part_size := 2 }
      [10, 11, 12, 13, 14] rfl (by decide)).2.1
      (by unfold assistance_data_check_fails; decide)).2.1,
   ((C30_sizes_fit mm_loc_helpers_qmi modem_3gpp { loc_assistance_data_max_part_size := 2 }
      [10, 11, 12, 13, 14] rfl (by decide)).2.1
      (by unfold assistance_data_check_fails; decide)).2.2.1,
   ((C30_sizes_fit mm_loc_helpers_qmi modem_3gpp {} [] rfl (by decide)).2.2 rfl).1,
   ((C30_sizes_fit mm_loc_helpers_qmi modem_3gpp {} [] rfl (by decide)).2.2 rfl).2.1⟩

/-- C24 fails on the code: on a device that advertises the file size
100000 and the part size 65538 the product `G_MAXUINT16 * part_size` is
4295032830, beyond 32 bits, and wraps to 65534, so a buffer of 65535 bytes,
which is within 65535 parts of 65538 bytes and within the advertised file size,
is refused with TooMany before any request. -/
theorem C24_product_wraps :
    ¬ assistance_data_too_big
        { loc_assistance_data_max_file_size := 100000,
          loc_assistance_data_max_part_size := 65538 } (List.replicate 65535 0).length ∧
    (65535 * assistance_data_part_size
        { loc_assistance_data_max_file_size := 100000,
          loc_assistance_data_max_part_size := 65538 }) % 2 ^ 32 = 65534 ∧
    (mm_shared_qmi_location_inject_assistance_data modem_3gpp
        { loc_assistance_data_max_file_size := 100000,
          loc_assistance_data_max_part_size := 65538 } (List.replicate 65535 0)).results =
      [TaskResult.error
        { domain := GErrorDomain.MM_CORE_ERROR, code := MM_CORE_ERROR_TOO_MANY }] ∧
    (mm_shared_qmi_location_inject_assistance_data modem_3gpp
        { loc_assistance_data_max_file_size := 100000,
          loc_assistance_data_max_part_size := 65538 } (List.replicate 65535 0)).requests =
      [] := by
  have hlen : (List.replicate 65535 0).length = 65535 := List.length_replicate _ _
  have h := mm_shared_qmi_location_inject_assistance_data_too_many modem_3gpp
    { loc_assistance_data_max_file_size := 100000, loc_assistance_data_max_part_size := 65538 }
    (List.replicate 65535 0) rfl
    (by rw [hlen]; decide)
    (by rw [hlen]; unfold assistance_data_check_fails; decide)
  refine ⟨?_, by decide, h.1, h.2.1⟩
  rw [hlen]
  unfold assistance_data_too_big
  decide

/-- The function `inject_xtra_data_next` between two parts, when bytes
are left: the next part is sent. -/
theorem inject_xtra_data_next_part (priv : Private) (data : List Nat)
    (part_size total_parts k last_id : Nat) (requests : List QmiRequest)
    (hparts : total_parts ≤ 65535) (hsize : data.length < 2 ^ 32)
    (hk : k * part_size < data.length) (hkn : k < total_parts) :
    inject_xtra_data_next
        (inject_assistance_data_state priv data part_size total_parts k last_id requests []) =
      inject_assistance_data_state priv data part_size total_parts (k + 1) last_id
        (requests ++
          [qmi_client_loc_inject_xtra_data
            data.length total_parts (k + 1) ((data.drop (k * part_size)).take part_size) 10])
        [InjectAssistanceDataCallback.inject_xtra_data_ready] := by
  have hbytes := assistance_data_part_bytes data part_size k hk
  have hmin : min (k * part_size) data.length = k * part_size := Nat.min_eq_left (by omega)
  have h1 : ¬ ¬ ((data.length : Int) ≥ ((min (k * part_size) data.length : Nat) : Int)) := by
    omega
  have h2 : ¬ ((data.length : Int) - ((min (k * part_size) data.length : Nat) : Int) = 0) := by
    omega
  have h3 : ((data.length : Int) % 2 ^ 32).toNat = data.length := by omega
  have h4 : total_parts % 2 ^ 16 = total_parts := Nat.mod_eq_of_lt (by omega)
  have h5 : (k + 1) % 2 ^ 64 = k + 1 := Nat.mod_eq_of_lt (by omega)
  have h6 : (k + 1) % 2 ^ 16 = k + 1 := Nat.mod_eq_of_lt (by omega)
  have h7 : ((min (k * part_size) data.length : Nat) : Int).toNat = k * part_size := by
    rw [hmin]
    exact Int.toNat_ofNat _
  have h8 : ((min (k * part_size) data.length : Nat) : Int) +
      (((if ((data.length : Int) - ((min (k * part_size) data.length : Nat) : Int)) ≥
            (part_size : Int) then part_size
          else ((data.length : Int) -
            ((min (k * part_size) data.length : Nat) : Int)).toNat) : Nat) : Int) =
      ((min ((k + 1) * part_size) data.length : Nat) : Int) := by
    rw [hmin, Nat.add_mul, Nat.one_mul]
    split_ifs with h
    · rw [Nat.min_eq_left (by omega)]
      push_cast
      rfl
    · rw [Nat.min_eq_right (by omega)]
      omega
  unfold inject_xtra_data_next inject_assistance_data_state
  simp only [h1, h2, if_false, h3, h4, h5, h6, h7, hbytes, h8, Operation.qmi_client_request,
    List.nil_append]

/-- The function `inject_xtra_data_next` between two parts, when no
byte is left: success. -/
theorem inject_xtra_data_next_done (priv : Private) (data : List Nat)
    (part_size total_parts k last_id : Nat) (requests : List QmiRequest)
    (hk : data.length ≤ k * part_size) :
    inject_xtra_data_next
        (inject_assistance_data_state priv data part_size total_parts k last_id requests []) =
      { inject_assistance_data_state priv data part_size total_parts k last_id requests [] with
        returned :=
          [{ result := TaskResult.value (),
             ctx := (inject_assistance_data_state priv data part_size total_parts k last_id
               requests []).ctx,
             sources := [], handlers := [] }] } := by
  have hmin : min (k * part_size) data.length = data.length := Nat.min_eq_right hk
  unfold inject_xtra_data_next inject_assistance_data_state
  simp [hmin, inject_assistance_data_context_free, Operation.g_task_return]

/-- One part of the Inject-Xtra-Data dialog answered with
success: the good response arms the timeout and connects the handler, the good
indication removes both and runs `inject_xtra_data_next`. -/
theorem inject_xtra_data_round_eq (L : LocHelpers) (priv : Private)
    (data : List Nat) (part_size total_parts k last_id : Nat) (requests : List QmiRequest)
    (status : Nat) (hstatus : L.mm_error_from_qmi_loc_indication_status status = none) :
    (inject_xtra_data_round status).foldl (inject_assistance_data_deliver L)
        (inject_assistance_data_state priv data part_size total_parts k last_id requests
          [InjectAssistanceDataCallback.inject_xtra_data_ready]) =
      inject_xtra_data_next
        (inject_assistance_data_state priv data part_size total_parts k (last_id + 2)
          requests []) := by
  simp [inject_xtra_data_round, inject_assistance_data_deliver,
    inject_assistance_data_state, inject_xtra_data_ready,
    loc_location_inject_xtra_data_indication_cb, hstatus,
    Operation.g_signal_connect, Operation.g_timeout_add_seconds, Operation.g_source_remove,
    Operation.g_signal_handler_disconnect]

/-- The parts sent by `m` rounds of the Inject-Xtra-Data dialog
after part `k`. -/
theorem inject_xtra_data_rounds (L : LocHelpers) (priv : Private)
    (data : List Nat) (part_size total_parts : Nat) (status : Nat)
    (hstatus : L.mm_error_from_qmi_loc_indication_status status = none)
    (hp : 0 < part_size)
    (htotal : total_parts = assistance_data_total_parts data.length part_size)
    (hparts : total_parts ≤ 65535) (hsize : data.length < 2 ^ 32) (m : Nat) :
    ∀ (k last_id : Nat) (requests : List QmiRequest), k + m ≤ total_parts →
      (List.flatten (List.replicate m (inject_xtra_data_round status))).foldl
          (inject_assistance_data_deliver L)
          (inject_xtra_data_next
            (inject_assistance_data_state priv data part_size total_parts k last_id
              requests [])) =
        inject_xtra_data_next
          (inject_assistance_data_state priv data part_size total_parts (k + m)
            (last_id + 2 * m)
            (requests ++ ((List.range m).map (fun j =>
              qmi_client_loc_inject_xtra_data data.length total_parts (k + j + 1)
                ((data.drop ((k + j) * part_size)).take part_size) 10))) []) := by
  induction m with
  | zero => intro k last_id requests _; simp
  | succ m ih =>
      intro k last_id requests hk
      have hstart : k * part_size < data.length :=
        assistance_data_total_parts_start _ _ _ hp (by omega)
      rw [List.replicate_succ, List.flatten_cons, List.foldl_append,
        inject_xtra_data_next_part priv data part_size total_parts k last_id requests
          hparts hsize hstart (by omega),
        inject_xtra_data_round_eq L priv data part_size total_parts (k + 1) last_id
          _ status hstatus,
        ih (k + 1) (last_id + 2) _ (by omega)]
      congr 2
      · omega
      · omega
      · rw [List.range_succ_eq_map, List.map_cons, List.map_map, List.append_assoc]
        simp only [List.singleton_append, Nat.add_zero, Function.comp]
        congr 2
        apply List.map_congr_left
        intro j _
        simp only [Function.comp, Nat.succ_eq_add_one]
        rw [show k + 1 + j = k + (j + 1) by omega]

/-- A failure of an Inject-Predicted-Orbits-Data request with the protocol
error `not-supported`: the dialog starts over with Inject-Xtra-Data, from offset
0 and with no part prepared. -/
theorem inject_predicted_orbits_data_ready_not_supported (L : LocHelpers) (priv : Private)
    (data : List Nat) (part_size total_parts k last_id : Nat) (requests : List QmiRequest)
    (error : GError)
    (hmatch : g_error_matches error GErrorDomain.QMI_PROTOCOL_ERROR
      QMI_PROTOCOL_ERROR_NOT_SUPPORTED = true) :
    inject_assistance_data_deliver L
        (inject_assistance_data_state priv data part_size total_parts k last_id requests
          [InjectAssistanceDataCallback.inject_predicted_orbits_data_ready])
        (InjectAssistanceDataEvent.response
          InjectAssistanceDataCallback.inject_predicted_orbits_data_ready
          (QmiResult.no_output error)) =
      inject_xtra_data_next
        (inject_assistance_data_state priv data part_size total_parts 0 last_id requests []) ∧
    inject_assistance_data_deliver L
        (inject_assistance_data_state priv data part_size total_parts k last_id requests
          [InjectAssistanceDataCallback.inject_predicted_orbits_data_ready])
        (InjectAssistanceDataEvent.response
          InjectAssistanceDataCallback.inject_predicted_orbits_data_ready
          (QmiResult.result_failed error)) =
      inject_xtra_data_next
        (inject_assistance_data_state priv data part_size total_parts 0 last_id requests []) := by
  constructor <;>
    simp [inject_assistance_data_deliver, inject_assistance_data_state,
      inject_predicted_orbits_data_ready, hmatch, inject_xtra_data]

/-- A failure of an Inject-Predicted-Orbits-Data request with any other
error: the error is returned and nothing is sent. -/
theorem inject_predicted_orbits_data_ready_failed (L : LocHelpers) (priv : Private)
    (data : List Nat) (part_size total_parts k last_id : Nat) (requests : List QmiRequest)
    (error : GError)
    (hmatch : g_error_matches error GErrorDomain.QMI_PROTOCOL_ERROR
      QMI_PROTOCOL_ERROR_NOT_SUPPORTED = false) :
    inject_assistance_data_deliver L
        (inject_assistance_data_state priv data part_size total_parts k last_id requests
          [InjectAssistanceDataCallback.inject_predicted_orbits_data_ready])
        (InjectAssistanceDataEvent.response
          InjectAssistanceDataCallback.inject_predicted_orbits_data_ready
          (QmiResult.no_output error)) =
      { inject_assistance_data_state priv data part_size total_parts k last_id requests [] with
        returned :=
          [{ result := TaskResult.error error,
             ctx := (inject_assistance_data_state priv data part_size total_parts k last_id
               requests []).ctx,
             sources := [], handlers := [] }] } ∧
    inject_assistance_data_deliver L
        (inject_assistance_data_state priv data part_size total_parts k last_id requests
          [InjectAssistanceDataCallback.inject_predicted_orbits_data_ready])
        (InjectAssistanceDataEvent.response
          InjectAssistanceDataCallback.inject_predicted_orbits_data_ready
          (QmiResult.result_failed error)) =
      { inject_assistance_data_state priv data part_size total_parts k last_id requests [] with
        returned :=
          [{ result := TaskResult.error error,
             ctx := (inject_assistance_data_state priv data part_size total_parts k last_id
               requests []).ctx,
             sources := [], handlers := [] }] } := by
  constructor <;>
    simp [inject_assistance_data_deliver, inject_assistance_data_state,
      inject_predicted_orbits_data_ready, hmatch, inject_assistance_data_context_free,
      Operation.g_task_return]

/-- Nothing is delivered to an injection with no request in flight, no
timeout armed and no handler connected. -/
theorem inject_assistance_data_run_idle (L : LocHelpers)
    (events : List InjectAssistanceDataEvent) :
    ∀ op : InjectAssistanceDataTask, op.pending = [] → op.sources = [] → op.handlers = [] →
      events.foldl (inject_assistance_data_deliver L) op = op := by
  induction events with
  | nil => intro op _ _ _; rfl
  | cons ev rest ih =>
      intro op h1 h2 h3
      have hstep : inject_assistance_data_deliver L op ev = op := by
        unfold inject_assistance_data_deliver
        cases ev <;> simp [h1, h2, h3]
      rw [List.foldl_cons, hstep]
      exact ih op h1 h2 h3

/-- The parts carried by the Inject-Xtra-Data requests of a trace that holds
Inject-Predicted-Orbits-Data requests and then the Inject-Xtra-Data requests
of the first `m` parts. -/
theorem inject_xtra_data_parts_of_requests (data : List Nat) (part_size total_parts m : Nat)
    (requests : List QmiRequest)
    (hrequests : requests.filter (fun r => r.is_inject_xtra_data) = []) :
    ((requests ++ (List.range m).map (fun j =>
        qmi_client_loc_inject_xtra_data data.length total_parts (0 + j + 1)
          ((data.drop ((0 + j) * part_size)).take part_size) 10)).filter
        (fun r => r.is_inject_xtra_data)).filterMap (fun r => r.inject_part) =
      (List.range m).map (fun k =>
        (data.length, total_parts, k + 1, (data.drop (k * part_size)).take part_size)) := by
  rw [List.filter_append, hrequests, List.nil_append]
  induction m with
  | zero => rfl
  | succ m ih =>
      rw [List.range_succ, List.map_append, List.filter_append, List.filterMap_append, ih,
        List.map_append]
      simp [QmiRequest.is_inject_xtra_data, QmiRequest.inject_part,
        qmi_client_loc_inject_xtra_data]

/-- The parts carried by the Inject-Predicted-Orbits-Data requests of the
first `m` parts. -/
theorem inject_predicted_orbits_data_parts_of_requests (data : List Nat)
    (part_size total_parts m : Nat) :
    ((List.range m).map (fun j =>
        qmi_client_loc_inject_predicted_orbits_data QMI_LOC_PREDICTED_ORBITS_DATA_FORMAT_XTRA
          data.length total_parts (0 + j + 1)
          ((data.drop ((0 + j) * part_size)).take part_size) 10)).filterMap
        (fun r => r.inject_part) =
      (List.range m).map (fun k =>
        (data.length, total_parts, k + 1, (data.drop (k * part_size)).take part_size)) := by
  induction m with
  | zero => rfl
  | succ m ih =>
      rw [List.range_succ, List.map_append, List.filterMap_append, ih, List.map_append]
      simp [QmiRequest.inject_part, qmi_client_loc_inject_predicted_orbits_data]

/-- C25: for every buffer that is not empty and passes the up-front size
check, with `n` the number of parts. When the first
Inject-Predicted-Orbits-Data request fails with the protocol error
`not-supported` (no output, or a failed result), the operation returns nothing
and sends the Inject-Xtra-Data request of part number 1 with the bytes from
offset 0; when the requests and indications of the Inject-Xtra-Data dialog
then succeed, the operation completes with success and the (total size, total
parts, part number, part bytes) of the Inject-Xtra-Data requests are the parts
of the buffer in order, the same sequence as the Inject-Predicted-Orbits-Data
dialog sends for the buffer. A failure of the first request with any other
error completes the operation with that error, and no Inject-Xtra-Data request
is sent, whatever arrives later. -/
theorem C25_fallback_same_parts (L : LocHelpers) (self : MMIfaceModem) (priv : Private)
    (data : List Nat) (status : Nat) (error : GError)
    (hloc : self.peek_client QmiService.QMI_SERVICE_LOC = Except.ok ())
    (hstatus : L.mm_error_from_qmi_loc_indication_status status = none)
    (hdata : data ≠ [])
    (hsize : data.length < 2 ^ 63)
    (hpasses : ¬ assistance_data_check_fails priv data.length) :
    (∀ res : QmiResult Unit,
      (res = QmiResult.no_output error ∨ res = QmiResult.result_failed error) →
      (g_error_matches error GErrorDomain.QMI_PROTOCOL_ERROR QMI_PROTOCOL_ERROR_NOT_SUPPORTED =
          true →
        (inject_assistance_data_run L self priv data
          [InjectAssistanceDataEvent.response
            InjectAssistanceDataCallback.inject_predicted_orbits_data_ready res]).results = [] ∧
        (inject_assistance_data_run L self priv data
          [InjectAssistanceDataEvent.response
            InjectAssistanceDataCallback.inject_predicted_orbits_data_ready res]).requests =
          [qmi_client_loc_inject_predicted_orbits_data QMI_LOC_PREDICTED_ORBITS_DATA_FORMAT_XTRA
             data.length
             (assistance_data_total_parts data.length (assistance_data_part_size priv)) 1
             ((data.drop 0).take (assistance_data_part_size priv)) 10,
           qmi_client_loc_inject_xtra_data data.length
             (assistance_data_total_parts data.length (assistance_data_part_size priv)) 1
             ((data.drop 0).take (assistance_data_part_size priv)) 10] ∧
        (inject_assistance_data_run L self priv data
          (InjectAssistanceDataEvent.response
            InjectAssistanceDataCallback.inject_predicted_orbits_data_ready res ::
           List.flatten (List.replicate
            (assistance_data_total_parts data.length (assistance_data_part_size priv))
            (inject_xtra_data_round status)))).results = [TaskResult.value ()] ∧
        ((inject_assistance_data_run L self priv data
          (InjectAssistanceDataEvent.response
            InjectAssistanceDataCallback.inject_predicted_orbits_data_ready res ::
           List.flatten (List.replicate
            (assistance_data_total_parts data.length (assistance_data_part_size priv))
            (inject_xtra_data_round status)))).requests.filter
            (fun r => r.is_inject_xtra_data)).filterMap (fun r => r.inject_part) =
          assistance_data_parts data (assistance_data_part_size priv) ∧
        ((inject_assistance_data_run L self priv data
          (InjectAssistanceDataEvent.response
            InjectAssistanceDataCallback.inject_predicted_orbits_data_ready res ::
           List.flatten (List.replicate
            (assistance_data_total_parts data.length (assistance_data_part_size priv))
            (inject_xtra_data_round status)))).requests.filter
            (fun r => r.is_inject_xtra_data)).filterMap (fun r => r.inject_part) =
          (inject_assistance_data_run L self priv data
            (List.flatten (List.replicate
              (assistance_data_total_parts data.length (assistance_data_part_size priv))
              (inject_predicted_orbits_data_round status)))).requests.filterMap
            (fun r => r.inject_part)) ∧
      (g_error_matches error GErrorDomain.QMI_PROTOCOL_ERROR QMI_PROTOCOL_ERROR_NOT_SUPPORTED =
          false →
        ∀ events : List InjectAssistanceDataEvent,
          (inject_assistance_data_run L self priv data
            (InjectAssistanceDataEvent.response
              InjectAssistanceDataCallback.inject_predicted_orbits_data_ready res ::
              events)).results = [TaskResult.error error] ∧
          (inject_assistance_data_run L self priv data
            (InjectAssistanceDataEvent.response
              InjectAssistanceDataCallback.inject_predicted_orbits_data_ready res ::
              events)).requests.filter (fun r => r.is_inject_xtra_data) = [])) := by
  have hp := assistance_data_part_size_pos priv
  obtain ⟨h32, hparts⟩ := assistance_data_check_passes priv data.length hpasses
  have hcover := assistance_data_total_parts_mul data.length _ hp
  have hlen : 0 < data.length := List.length_pos.mpr hdata
  generalize hP : assistance_data_part_size priv = P at *
  have hparts_eq : assistance_data_parts data P =
      (List.range (assistance_data_total_parts data.length P)).map (fun k =>
        (data.length, assistance_data_total_parts data.length P, k + 1,
          (data.drop (k * P)).take P)) := rfl
  generalize hn : assistance_data_total_parts data.length P = n at *
  have hn0 : 0 < n := by
    rw [← hn]
    exact assistance_data_total_parts_lt _ _ 0 hp (by omega)
  have hstart := mm_shared_qmi_location_inject_assistance_data_start self priv data hloc hsize
    hpasses
  rw [hP, hn, inject_assistance_data_next_part priv data P n 0 0 [] hparts h32 (by omega) hn0]
    at hstart
  simp only [List.nil_append, Nat.zero_mul, Nat.zero_add] at hstart
  have hpo : (inject_assistance_data_run L self priv data
      (List.flatten (List.replicate n (inject_predicted_orbits_data_round status)))).requests =
      (List.range n).map (fun j =>
        qmi_client_loc_inject_predicted_orbits_data QMI_LOC_PREDICTED_ORBITS_DATA_FORMAT_XTRA
          data.length n (0 + j + 1) ((data.drop ((0 + j) * P)).take P) 10) := by
    have hstart0 := mm_shared_qmi_location_inject_assistance_data_start self priv data hloc
      hsize hpasses
    rw [hP, hn] at hstart0
    unfold inject_assistance_data_run
    rw [hstart0, inject_predicted_orbits_data_rounds L priv data P n status hstatus hp hn.symm
      hparts h32 n 0 0 [] (by omega),
      inject_assistance_data_next_done _ _ _ _ _ _ _ (by rw [Nat.zero_add]; exact hcover)]
    rfl
  have hfilter : [qmi_client_loc_inject_predicted_orbits_data
      QMI_LOC_PREDICTED_ORBITS_DATA_FORMAT_XTRA data.length n 1 ((data.drop 0).take P)
      10].filter (fun r => r.is_inject_xtra_data) = [] := rfl
  intro res hres
  constructor
  · intro hmatch
    have hfirst : inject_assistance_data_deliver L
        (mm_shared_qmi_location_inject_assistance_data self priv data)
        (InjectAssistanceDataEvent.response
          InjectAssistanceDataCallback.inject_predicted_orbits_data_ready res) =
        inject_xtra_data_next
          (inject_assistance_data_state priv data P n 0 0
            [qmi_client_loc_inject_predicted_orbits_data
              QMI_LOC_PREDICTED_ORBITS_DATA_FORMAT_XTRA data.length n 1
              ((data.drop 0).take P) 10] []) := by
      rw [hstart]
      rcases hres with rfl | rfl
      · exact (inject_predicted_orbits_data_ready_not_supported L priv data P n 1 0 _ error
          hmatch).1
      · exact (inject_predicted_orbits_data_ready_not_supported L priv data P n 1 0 _ error
          hmatch).2
    have hall : inject_assistance_data_run L self priv data
        (InjectAssistanceDataEvent.response
          InjectAssistanceDataCallback.inject_predicted_orbits_data_ready res ::
         List.flatten (List.replicate n (inject_xtra_data_round status))) =
        { inject_assistance_data_state priv data P n (0 + n) (0 + 2 * n)
            ([qmi_client_loc_inject_predicted_orbits_data
              QMI_LOC_PREDICTED_ORBITS_DATA_FORMAT_XTRA data.length n 1
              ((data.drop 0).take P) 10] ++ (List.range n).map (fun j =>
                qmi_client_loc_inject_xtra_data data.length n (0 + j + 1)
                  ((data.drop ((0 + j) * P)).take P) 10)) [] with
          returned :=
            [{ result := TaskResult.value (),
               ctx := (inject_assistance_data_state priv data P n (0 + n) (0 + 2 * n)
                 ([qmi_client_loc_inject_predicted_orbits_data
                   QMI_LOC_PREDICTED_ORBITS_DATA_FORMAT_XTRA data.length n 1
                   ((data.drop 0).take P) 10] ++ (List.range n).map (fun j =>
                     qmi_client_loc_inject_xtra_data data.length n (0 + j + 1)
                       ((data.drop ((0 + j) * P)).take P) 10)) []).ctx,
               sources := [], handlers := [] }] } := by
      unfold inject_assistance_data_run
      rw [List.foldl_cons, hfirst, inject_xtra_data_rounds L priv data P n status hstatus hp
        hn.symm hparts h32 n 0 0 _ (by omega),
        inject_xtra_data_next_done _ _ _ _ _ _ _ (by rw [Nat.zero_add]; exact hcover)]
    have hxparts := inject_xtra_data_parts_of_requests data P n n _ hfilter
    refine ⟨?_, ?_, ?_, ?_, ?_⟩
    · unfold inject_assistance_data_run
      rw [List.foldl_cons, List.foldl_nil, hfirst,
        inject_xtra_data_next_part priv data P n 0 0 _ hparts h32 (by omega) hn0]
      rfl
    · unfold inject_assistance_data_run
      rw [List.foldl_cons, List.foldl_nil, hfirst,
        inject_xtra_data_next_part priv data P n 0 0 _ hparts h32 (by omega) hn0]
      simp [inject_assistance_data_state]
    · rw [hall]
      rfl
    · rw [hall, hparts_eq]
      exact hxparts
    · rw [hall, hpo, inject_predicted_orbits_data_parts_of_requests]
      exact hxparts
  · intro hmatch events
    have hfirst : inject_assistance_data_deliver L
        (mm_shared_qmi_location_inject_assistance_data self priv data)
        (InjectAssistanceDataEvent.response
          InjectAssistanceDataCallback.inject_predicted_orbits_data_ready res) =
        { inject_assistance_data_state priv data P n 1 0
            [qmi_client_loc_inject_predicted_orbits_data
              QMI_LOC_PREDICTED_ORBITS_DATA_FORMAT_XTRA data.length n 1
              ((data.drop 0).take P) 10] [] with
          returned :=
            [{ result := TaskResult.error error,
               ctx := (inject_assistance_data_state priv data P n 1 0
                 [qmi_client_loc_inject_predicted_orbits_data
                   QMI_LOC_PREDICTED_ORBITS_DATA_FORMAT_XTRA data.length n 1
                   ((data.drop 0).take P) 10] []).ctx,
               sources := [], handlers := [] }] } := by
      rw [hstart]
      rcases hres with rfl | rfl
      · exact (inject_predicted_orbits_data_ready_failed L priv data P n 1 0 _ error hmatch).1
      · exact (inject_predicted_orbits_data_ready_failed L priv data P n 1 0 _ error hmatch).2
    unfold inject_assistance_data_run
    rw [List.foldl_cons, hfirst, inject_assistance_data_run_idle L events _ rfl rfl rfl]
    exact ⟨rfl, rfl⟩

/-- C25 on a buffer of 5 bytes with the part size 2: after `not-supported`
the three parts go out again as Inject-Xtra-Data requests and the operation
succeeds; after the protocol error 26 the operation fails with it. -/
theorem C25_fallback_same_parts_witness :
    (inject_assistance_data_run mm_loc_helpers_qmi modem_3gpp
        { loc_assistance_data_max_part_size := 2 } [10, 11, 12, 13, 14]
        (InjectAssistanceDataEvent.response
          InjectAssistanceDataCallback.inject_predicted_orbits_data_ready
          (QmiResult.result_failed
            { domain := GErrorDomain.QMI_PROTOCOL_ERROR,
              code := QMI_PROTOCOL_ERROR_NOT_SUPPORTED }) ::
         List.flatten (List.replicate 3 (inject_xtra_data_round 0)))).results =
      [TaskResult.value ()] ∧
    ((inject_assistance_data_run mm_loc_helpers_qmi modem_3gpp
        { loc_assistance_data_max_part_size := 2 } [10, 11, 12, 13, 14]
        (InjectAssistanceDataEvent.response
          InjectAssistanceDataCallback.inject_predicted_orbits_data_ready
          (QmiResult.result_failed
            { domain := GErrorDomain.QMI_PROTOCOL_ERROR,
              code := QMI_PROTOCOL_ERROR_NOT_SUPPORTED }) ::
         List.flatten (List.replicate 3 (inject_xtra_data_round 0)))).requests.filter
        (fun r => r.is_inject_xtra_data)).filterMap (fun r => r.inject_part) =
      [(5, 3, 1, [10, 11]), (5, 3, 2, [12, 13]), (5, 3, 3, [14])] ∧
    (inject_assistance_data_run mm_loc_helpers_qmi modem_3gpp
        { loc_assistance_data_max_part_size := 2 } [10, 11, 12, 13, 14]
        [InjectAssistanceDataEvent.response
          InjectAssistanceDataCallback.inject_predicted_orbits_data_ready
          (QmiResult.no_output
            { domain := GErrorDomain.QMI_PROTOCOL_ERROR,
              code := QMI_PROTOCOL_ERROR_NO_EFFECT })]).results =
      [TaskResult.error
        { domain := GErrorDomain.QMI_PROTOCOL_ERROR, code := QMI_PROTOCOL_ERROR_NO_EFFECT }] :=
  ⟨((C25_fallback_same_parts mm_loc_helpers_qmi modem_3gpp
      { loc_assistance_data_max_part_size := 2 } [10, 11, 12, 13, 14] 0
      { domain := GErrorDomain.QMI_PROTOCOL_ERROR, code := QMI_PROTOCOL_ERROR_NOT_SUPPORTED }
      rfl rfl (by decide) (by decide) (by unfold assistance_data_check_fails; decide)
      _ (Or.inr rfl)).1 rfl).2.2.1,
   ((C25_fallback_same_parts mm_loc_helpers_qmi modem_3gpp
      { loc_assistance_data_max_part_size := 2 } [10, 11, 12, 13, 14] 0
      { domain := GErrorDomain.QMI_PROTOCOL_ERROR, code := QMI_PROTOCOL_ERROR_NOT_SUPPORTED }
      rfl rfl (by decide) (by decide) (by unfold assistance_data_check_fails; decide)
      _ (Or.inr rfl)).1 rfl).2.2.2.1,
   ((C25_fallback_same_parts mm_loc_helpers_qmi modem_3gpp
      { loc_assistance_data_max_part_size := 2 } [10, 11, 12, 13, 14] 0
      { domain := GErrorDomain.QMI_PROTOCOL_ERROR, code := QMI_PROTOCOL_ERROR_NO_EFFECT }
      rfl rfl (by decide) (by decide) (by unfold assistance_data_check_fails; decide)
      _ (Or.inl rfl)).2 rfl []).1⟩

/-- C22 fails on the code: an indication with the token 999, which no
request of the operation carries, is not ignored. In the switch, where the
Set-Selected-Config request carries the token 0 and the Activate-Config
request the token 1, such a set-selected-config indication makes the operation
send Activate-Config and such an activate-config indication completes it. In
the load, where List-Configs carries the token 0, Get-Config-Info the token 1
and Get-Selected-Config the token 2, such a list-configs indication makes the
operation send Get-Config-Info, such a get-config-info indication with the
error code 1 fails it, and such a get-selected-config indication completes
it. -/
theorem C22_foreign_token_not_ignored :
    (setup_carrier_config_run modem_3gpp modem_carrier_generic "310260123456789"
        (Except.ok carrier_config_mapping_att)
        [SetupCarrierConfigEvent.response
            SetupCarrierConfigCallback.set_selected_config_ready (QmiResult.ok ()),
         SetupCarrierConfigEvent.indication
            SetupCarrierConfigSignal.set_selected_config_indication
            { indication_result := Except.ok 0, token := some 999 }]).requests =
      [qmi_client_pdc_set_selected_config QMI_PDC_CONFIGURATION_TYPE_SOFTWARE [2] 0 10,
       qmi_client_pdc_activate_config QMI_PDC_CONFIGURATION_TYPE_SOFTWARE 1 10] ∧
    (setup_carrier_config_run modem_3gpp modem_carrier_generic "310260123456789"
        (Except.ok carrier_config_mapping_att)
        [SetupCarrierConfigEvent.response
            SetupCarrierConfigCallback.set_selected_config_ready (QmiResult.ok ()),
         SetupCarrierConfigEvent.indication
            SetupCarrierConfigSignal.set_selected_config_indication
            { indication_result := Except.ok 0, token := some 999 },
         SetupCarrierConfigEvent.response
            SetupCarrierConfigCallback.activate_config_ready (QmiResult.ok ()),
         SetupCarrierConfigEvent.indication
            SetupCarrierConfigSignal.activate_config_indication
            { indication_result := Except.ok 0, token := some 999 }]).results =
      [TaskResult.value ()] ∧
    (load_carrier_config_run modem_3gpp {}
        [LoadCarrierConfigEvent.response LoadCarrierConfigCallback.list_configs_ready
            (QmiResult.ok ()),
         LoadCarrierConfigEvent.list_configs
            { indication_result := Except.ok 0, token := some 999,
              configs := Except.ok (some [{ config_type := 0, id := [1] }]) }]).requests =
      [qmi_client_pdc_list_configs QMI_PDC_CONFIGURATION_TYPE_SOFTWARE 0 5,
       qmi_client_pdc_get_config_info 0 [1] 1 10] ∧
    (load_carrier_config_run modem_3gpp {}
        [LoadCarrierConfigEvent.response LoadCarrierConfigCallback.list_configs_ready
            (QmiResult.ok ()),
         LoadCarrierConfigEvent.list_configs
            { indication_result := Except.ok 0, token := some 0,
              configs := Except.ok (some [{ config_type := 0, id := [1] }]) },
         LoadCarrierConfigEvent.get_config_info
            { indication_result := Except.ok 1, token := Except.ok 999,
              total_size := Except.ok 10, version := Except.ok 1,
              description := Except.ok "att" }]).results =
      [TaskResult.error { domain := GErrorDomain.MM_CORE_ERROR, code := MM_CORE_ERROR_FAILED }] ∧
    (load_carrier_config_run modem_3gpp {}
        [LoadCarrierConfigEvent.response LoadCarrierConfigCallback.list_configs_ready
            (QmiResult.ok ()),
         LoadCarrierConfigEvent.list_configs
            { indication_result := Except.ok 0, token := some 0,
              configs := Except.ok (some [{ config_type := 0, id := [1] }]) },
         LoadCarrierConfigEvent.get_config_info
            { indication_result := Except.ok 0, token := Except.ok 1,
              total_size := Except.ok 10, version := Except.ok 1,
              description := Except.ok "att" },
         LoadCarrierConfigEvent.response LoadCarrierConfigCallback.get_selected_config_ready
            (QmiResult.ok ()),
         LoadCarrierConfigEvent.get_selected_config
            { indication_result := Except.ok 0, token := some 999,
              active_id := some [1] }]).results = [TaskResult.value ()] ∧
    (load_carrier_config_run modem_3gpp {}
        [LoadCarrierConfigEvent.response LoadCarrierConfigCallback.list_configs_ready
            (QmiResult.ok ()),
         LoadCarrierConfigEvent.list_configs
            { indication_result := Except.ok 0, token := some 0,
              configs := Except.ok (some [{ config_type := 0, id := [1] }]) },
         LoadCarrierConfigEvent.get_config_info
            { indication_result := Except.ok 0, token := Except.ok 1,
              total_size := Except.ok 10, version := Except.ok 1,
              description := Except.ok "att" }]).requests =
      [qmi_client_pdc_list_configs QMI_PDC_CONFIGURATION_TYPE_SOFTWARE 0 5,
       qmi_client_pdc_get_config_info 0 [1] 1 10,
       qmi_client_pdc_get_selected_config QMI_PDC_CONFIGURATION_TYPE_SOFTWARE 2 5] := by
  refine ⟨?_, ?_, ?_, ?_, ?_, ?_⟩ <;> decide

/-- An indication whose handler leaves the state as it is changes nothing,
however many handlers are connected. -/
theorem load_carrier_config_emit_unchanged (op : LoadCarrierConfigTask)
    (signal : LoadCarrierConfigSignal)
    (handler : LoadCarrierConfigTask → LoadCarrierConfigTask) (h : handler op = op) :
    load_carrier_config_emit op signal handler = op := by
  unfold load_carrier_config_emit
  generalize op.handlers.filter (fun h => h.handler = signal) = hs
  induction hs with
  | nil => rfl
  | cons x rest ih =>
      rw [List.foldl_cons]
      have hstep : (if x ∈ op.handlers ∧ op.aborted = false then handler op else op) = op := by
        split_ifs
        · exact h
        · rfl
      rw [hstep]
      exact ih

/-- The handler `get_config_info_indication` on a good indication whose token
is that of no listed configuration. -/
theorem get_config_info_indication_unknown_token (op : LoadCarrierConfigTask)
    (output : QmiIndicationPdcGetConfigInfoOutput) (token : Nat) (config_list : List ConfigInfo)
    (hresult : output.indication_result = Except.ok 0)
    (htoken : output.token = Except.ok token)
    (hlist : op.ctx.config_list = some config_list)
    (hunknown : ∀ c ∈ config_list, c.token ≠ token) :
    get_config_info_indication op output = op := by
  have hfind : config_list.findIdx? (fun config => decide (config.token = token)) = none := by
    rw [List.findIdx?_eq_none_iff]
    intro c hc
    simpa using hunknown c hc
  unfold get_config_info_indication
  simp [hresult, htoken, hlist, hfind]

/-- C22, amended: the token of an indication is read by
`get_config_info_indication` alone, and only once the result of the indication
is good. A get-config-info indication with the error code 0 whose token is
that of no listed configuration is ignored: the state of the operation is
unchanged. A get-config-info indication with another error code fails the
operation whatever its token. The handlers of list-configs,
get-selected-config, set-selected-config and activate-config do not read the
token: they treat an indication the same whatever token it carries. -/
theorem C22_token_read_by_get_config_info_only :
    (∀ (op : LoadCarrierConfigTask) (output : QmiIndicationPdcGetConfigInfoOutput)
        (token : Nat) (config_list : List ConfigInfo),
      output.indication_result = Except.ok 0 → output.token = Except.ok token →
      op.ctx.config_list = some config_list → (∀ c ∈ config_list, c.token ≠ token) →
      get_config_info_indication op output = op ∧
      load_carrier_config_deliver op (LoadCarrierConfigEvent.get_config_info output) = op) ∧
    (∀ (op : LoadCarrierConfigTask) (output : QmiIndicationPdcGetConfigInfoOutput)
        (error_code : Nat) (token : Except GError Nat),
      output.indication_result = Except.ok error_code → error_code ≠ 0 →
      get_config_info_indication op { output with token := token } =
        load_carrier_config_abort op
          { domain := GErrorDomain.MM_CORE_ERROR, code := MM_CORE_ERROR_FAILED }) ∧
    (∀ (op : LoadCarrierConfigTask) (output : QmiIndicationPdcListConfigsOutput)
        (token : Option Nat),
      list_configs_indication op { output with token := token } =
        list_configs_indication op output) ∧
    (∀ (op : LoadCarrierConfigTask) (output : QmiIndicationPdcGetSelectedConfigOutput)
        (token : Option Nat),
      get_selected_config_indication op { output with token := token } =
        get_selected_config_indication op output) ∧
    (∀ (op : SetupCarrierConfigTask) (output : QmiIndicationPdcOutput) (token : Option Nat),
      set_selected_config_indication op { output with token := token } =
        set_selected_config_indication op output) ∧
    (∀ (op : SetupCarrierConfigTask) (output : QmiIndicationPdcOutput) (token : Option Nat),
      activate_config_indication op { output with token := token } =
        activate_config_indication op output) := by
  refine ⟨?_, ?_, ?_, ?_, ?_, ?_⟩
  · intro op output token config_list hresult htoken hlist hunknown
    have h := get_config_info_indication_unknown_token op output token config_list hresult
      htoken hlist hunknown
    refine ⟨h, ?_⟩
    unfold load_carrier_config_deliver
    split_ifs
    · rfl
    · exact load_carrier_config_emit_unchanged op _ _ h
  · intro op output error_code token hresult hcode
    unfold get_config_info_indication
    simp [hresult, hcode]
  · intro op output token
    rfl
  · intro op output token
    rfl
  · intro op output token
    rfl
  · intro op output token
    rfl

/-- C22, amended, in the load with one listed configuration, whose
Get-Config-Info request carries the token 1: a good get-config-info indication
with the token 999 changes nothing, and one with the error code 1 and the
token 1 fails the operation. -/
theorem C22_token_read_by_get_config_info_only_witness :
    load_carrier_config_deliver
        (load_carrier_config_run modem_3gpp {}
          [LoadCarrierConfigEvent.response LoadCarrierConfigCallback.list_configs_ready
              (QmiResult.ok ()),
           LoadCarrierConfigEvent.list_configs
              { indication_result := Except.ok 0, token := some 0,
                configs := Except.ok (some [{ config_type := 0, id := [1] }]) }])
        (LoadCarrierConfigEvent.get_config_info
          { indication_result := Except.ok 0, token := Except.ok 999,
            total_size := Except.ok 10, version := Except.ok 1,
            description := Except.ok "att" }) =
      load_carrier_config_run modem_3gpp {}
        [LoadCarrierConfigEvent.response LoadCarrierConfigCallback.list_configs_ready
            (QmiResult.ok ()),
         LoadCarrierConfigEvent.list_configs
            { indication_result := Except.ok 0, token := some 0,
              configs := Except.ok (some [{ config_type := 0, id := [1] }]) }] ∧
    get_config_info_indication
        (load_carrier_config_run modem_3gpp {}
          [LoadCarrierConfigEvent.response LoadCarrierConfigCallback.list_configs_ready
              (QmiResult.ok ()),
           LoadCarrierConfigEvent.list_configs
              { indication_result := Except.ok 0, token := some 0,
                configs := Except.ok (some [{ config_type := 0, id := [1] }]) }])
        { indication_result := Except.ok 1, token := Except.ok 1,
          total_size := Except.ok 10, version := Except.ok 1,
          description := Except.ok "att" } =
      load_carrier_config_abort
        (load_carrier_config_run modem_3gpp {}
          [LoadCarrierConfigEvent.response LoadCarrierConfigCallback.list_configs_ready
              (QmiResult.ok ()),
           LoadCarrierConfigEvent.list_configs
              { indication_result := Except.ok 0, token := some 0,
                configs := Except.ok (some [{ config_type := 0, id := [1] }]) }])
        { domain := GErrorDomain.MM_CORE_ERROR, code := MM_CORE_ERROR_FAILED } :=
  ⟨(C22_token_read_by_get_config_info_only.1 _
      { indication_result := Except.ok 0, token := Except.ok 999,
        total_size := Except.ok 10, version := Except.ok 1, description := Except.ok "att" }
      999 [{ id := [1], config_type := 0, token := 1 }] rfl rfl rfl (by decide)).2,
   C22_token_read_by_get_config_info_only.2.1 _
      { indication_result := Except.ok 1, token := Except.ok 1,
        total_size := Except.ok 10, version := Except.ok 1, description := Except.ok "att" }
      1 (Except.ok 1) rfl (by decide)⟩

/-- The loop of `list_configs_indication`: the records and the requests of
the elements, with consecutive tokens. -/
theorem list_configs_indication_loop_eq
    (configs : List QmiIndicationPdcListConfigsOutputConfigsElement) :
    ∀ (op : LoadCarrierConfigTask) (config_list : List ConfigInfo),
      list_configs_indication_loop configs op config_list =
        ({ op with
            ctx := { op.ctx with token := token_after op.ctx.token configs.length },
            requests := op.requests ++ list_configs_requests op.ctx.token configs },
          config_list ++ list_configs_config_list op.ctx.token configs) := by
  induction configs with
  | nil =>
      intro op config_list
      simp [list_configs_indication_loop, list_configs_requests, list_configs_config_list,
        token_after]
  | cons element rest ih =>
      intro op config_list
      rw [list_configs_indication_loop, ih]
      simp [list_configs_requests, list_configs_config_list, token_after,
        Operation.qmi_client_request_no_callback]

/-- The load after the good List-Configs response and a good list-configs
indication with at least one element: it awaits get-config-info indications,
with the token 0 spent on List-Configs and the next ones on the
Get-Config-Info requests. -/
theorem load_carrier_config_run_list_configs (self : MMIfaceModem) (priv : Private)
    (output : QmiIndicationPdcListConfigsOutput)
    (configs : List QmiIndicationPdcListConfigsOutputConfigsElement)
    (hpdc : self.peek_client QmiService.QMI_SERVICE_PDC = Except.ok ())
    (hresult : output.indication_result = Except.ok 0)
    (hconfigs : output.configs = Except.ok (some configs))
    (hlen : configs ≠ []) :
    load_carrier_config_run self priv
        [LoadCarrierConfigEvent.response LoadCarrierConfigCallback.list_configs_ready
            (QmiResult.ok ()),
         LoadCarrierConfigEvent.list_configs output] =
      load_carrier_config_awaits_config_info priv
        (qmi_client_pdc_list_configs QMI_PDC_CONFIGURATION_TYPE_SOFTWARE 0 5 ::
          list_configs_requests 1 configs)
        (list_configs_config_list 1 configs) 0 (token_after 1 configs.length) := by
  have hne : ¬ configs.length = 0 := fun h => hlen (List.length_eq_zero.mp h)
  simp [load_carrier_config_run, mm_shared_qmi_load_carrier_config, hpdc,
    load_carrier_config_step, load_carrier_config_step_case_list_configs,
    LoadCarrierConfigStep.next, load_carrier_config_deliver, list_configs_ready,
    load_carrier_config_emit, list_configs_indication, hresult, hconfigs, hne, hlen,
    list_configs_indication_loop_eq, load_carrier_config_awaits_config_info,
    Operation.qmi_client_request, Operation.g_timeout_add_seconds, Operation.g_signal_connect,
    token_next]

/-- The records that the loop builds are as many as the elements. -/
theorem list_configs_config_list_length
    (configs : List QmiIndicationPdcListConfigsOutputConfigsElement) :
    ∀ token, (list_configs_config_list token configs).length = configs.length := by
  induction configs with
  | nil => intro token; rfl
  | cons element rest ih =>
      intro token
      simp [list_configs_config_list, ih]

/-- The record of element `k` has the token `token + k`, as long as the
tokens stay below 2^32, the identifier and the type of the element, and no
description. -/
theorem list_configs_config_list_getElem
    (configs : List QmiIndicationPdcListConfigsOutputConfigsElement) :
    ∀ (token k : Nat) (current : ConfigInfo), token + configs.length ≤ 2 ^ 32 →
      (list_configs_config_list token configs)[k]? = some current →
      current.token = token + k ∧ current.description = none ∧
      ∃ element, configs[k]? = some element ∧ current.id = element.id ∧
        current.config_type = element.config_type := by
  induction configs with
  | nil =>
      intro token k current _ h
      simp [list_configs_config_list] at h
  | cons element rest ih =>
      intro token k current hbound h
      cases k with
      | zero =>
          simp only [list_configs_config_list, List.getElem?_cons_zero, Option.some.injEq] at h
          subst h
          exact ⟨rfl, rfl, element, List.getElem?_cons_zero, rfl, rfl⟩
      | succ k =>
          simp only [list_configs_config_list, List.getElem?_cons_succ] at h
          have hk : k < rest.length := by
            have := (List.getElem?_eq_some_iff.mp h).1
            rw [list_configs_config_list_length] at this
            exact this
          simp only [List.length_cons] at hbound
          have hnext : token_next token = token + 1 := by
            unfold token_next
            exact Nat.mod_eq_of_lt (by omega)
          rw [hnext] at h
          obtain ⟨h1, h2, element2, h3, h4, h5⟩ := ih (token + 1) k current (by omega) h
          exact ⟨by omega, h2, element2, by simpa using h3, h4, h5⟩

/-- The tokens of the Get-Config-Info requests are consecutive, as long as
they stay below 2^32. -/
theorem list_configs_requests_tokens
    (configs : List QmiIndicationPdcListConfigsOutputConfigsElement) :
    ∀ token : Nat, token + configs.length ≤ 2 ^ 32 →
      (list_configs_requests token configs).filterMap (fun r => r.pdc_token) =
        List.range' token configs.length := by
  induction configs with
  | nil => intro token _; rfl
  | cons element rest ih =>
      intro token hbound
      simp only [List.length_cons] at hbound
      by_cases hrest : rest = []
      · subst hrest
        simp [list_configs_requests, QmiRequest.pdc_token, qmi_client_pdc_get_config_info,
          List.range']
      · have hpos : 0 < rest.length := List.length_pos.mpr hrest
        have hnext : token_next token = token + 1 := by
          unfold token_next
          exact Nat.mod_eq_of_lt (by omega)
        have hrec := ih (token + 1) (by omega)
        rw [list_configs_requests, List.filterMap_cons, hnext, hrec]
        rfl

/-- No Get-Config-Info request is a Get-Selected-Config request. -/
theorem list_configs_requests_not_get_selected_config
    (configs : List QmiIndicationPdcListConfigsOutputConfigsElement) :
    ∀ token : Nat, ∀ r ∈ list_configs_requests token configs,
      r.is_get_selected_config = false := by
  induction configs with
  | nil => intro token r hr; simp [list_configs_requests] at hr
  | cons element rest ih =>
      intro token r hr
      simp only [list_configs_requests, List.mem_cons] at hr
      rcases hr with rfl | hr
      · rfl
      · exact ih _ r hr

/-- A get-config-info indication that is free of errors: the values of its
getters. -/
theorem QmiIndicationPdcGetConfigInfoOutput.is_error_free_eq
    (output : QmiIndicationPdcGetConfigInfoOutput) (h : output.is_error_free = true) :
    ∃ token total_size version description,
      output.indication_result = Except.ok 0 ∧ output.token = Except.ok token ∧
      output.total_size = Except.ok total_size ∧ output.version = Except.ok version ∧
      output.description = Except.ok description := by
  rcases output with ⟨r, t, s, v, d⟩
  rcases r with _ | code <;> rcases t with _ | t <;> rcases s with _ | s <;>
    rcases v with _ | v <;> rcases d with _ | d <;>
    first
      | (simp [QmiIndicationPdcGetConfigInfoOutput.is_error_free] at h
         done)
      | skip
  cases code with
  | zero => exact ⟨t, s, v, d, rfl, rfl, rfl, rfl, rfl⟩
  | succ n => simp [QmiIndicationPdcGetConfigInfoOutput.is_error_free] at h

/-- While get-config-info indications are awaited, such an indication runs
the one handler connected to it. -/
theorem load_carrier_config_deliver_awaits_config_info (priv : Private)
    (requests : List QmiRequest) (config_list : List ConfigInfo) (configs_loaded token : Nat)
    (output : QmiIndicationPdcGetConfigInfoOutput) :
    load_carrier_config_deliver
        (load_carrier_config_awaits_config_info priv requests config_list configs_loaded token)
        (LoadCarrierConfigEvent.get_config_info output) =
      get_config_info_indication
        (load_carrier_config_awaits_config_info priv requests config_list configs_loaded token)
        output := by
  simp [load_carrier_config_deliver, load_carrier_config_emit,
    load_carrier_config_awaits_config_info]

/-- Once Get-Selected-Config is sent, a get-config-info indication finds no
handler. -/
theorem load_carrier_config_deliver_awaits_selected_config (priv : Private)
    (requests : List QmiRequest) (config_list : List ConfigInfo) (configs_loaded token : Nat)
    (output : QmiIndicationPdcGetConfigInfoOutput) :
    load_carrier_config_deliver
        (load_carrier_config_awaits_selected_config priv requests config_list configs_loaded
          token)
        (LoadCarrierConfigEvent.get_config_info output) =
      load_carrier_config_awaits_selected_config priv requests config_list configs_loaded
        token := by
  simp [load_carrier_config_deliver, load_carrier_config_emit,
    load_carrier_config_awaits_selected_config]

/-- The handler `get_config_info_indication` on a good indication whose
configuration has its description stored already. -/
theorem get_config_info_indication_described (op : LoadCarrierConfigTask)
    (output : QmiIndicationPdcGetConfigInfoOutput) (token i : Nat)
    (config_list : List ConfigInfo) (current : ConfigInfo)
    (hresult : output.indication_result = Except.ok 0)
    (htoken : output.token = Except.ok token)
    (hlist : op.ctx.config_list = some config_list)
    (hfind : config_list.findIdx? (fun config => decide (config.token = token)) = some i)
    (hcurrent : config_list[i]? = some current)
    (hdescribed : current.description ≠ none) :
    get_config_info_indication op output = op := by
  unfold get_config_info_indication
  simp [hresult, htoken, hlist, hfind, hcurrent, hdescribed]

/-- The handler `get_config_info_indication`, while indications are awaited,
on an indication free of errors for a configuration without description: the
values are stored and counted, and with the last one Get-Selected-Config is
sent. -/
theorem get_config_info_indication_stores (priv : Private)
    (requests : List QmiRequest) (config_list : List ConfigInfo) (configs_loaded next : Nat)
    (output : QmiIndicationPdcGetConfigInfoOutput) (token total_size version i : Nat)
    (description : String) (current : ConfigInfo)
    (hresult : output.indication_result = Except.ok 0)
    (htoken : output.token = Except.ok token)
    (hsize : output.total_size = Except.ok total_size)
    (hversion : output.version = Except.ok version)
    (hdescription : output.description = Except.ok description)
    (hfind : config_list.findIdx? (fun config => decide (config.token = token)) = some i)
    (hcurrent : config_list[i]? = some current)
    (hnone : current.description = none) :
    get_config_info_indication
        (load_carrier_config_awaits_config_info priv requests config_list configs_loaded next)
        output =
      if (configs_loaded + 1) % 2 ^ 32 < config_list.length then
        load_carrier_config_awaits_config_info priv requests
          (config_list.set i
            { current with total_size := total_size, version := version,
                           description := some description })
          ((configs_loaded + 1) % 2 ^ 32) next
      else
        load_carrier_config_awaits_selected_config priv requests
          (config_list.set i
            { current with total_size := total_size, version := version,
                           description := some description })
          ((configs_loaded + 1) % 2 ^ 32) next := by
  unfold get_config_info_indication load_carrier_config_awaits_config_info
  simp only [hresult, htoken, hsize, hversion, hdescription, hfind, hcurrent, hnone]
  split_ifs with h1 h2 h3 <;>
    simp_all [load_carrier_config_context_cleanup_action_eq, load_carrier_config_step,
      load_carrier_config_step_case_query_current, LoadCarrierConfigStep.next,
      load_carrier_config_awaits_selected_config, Operation.qmi_client_request]

/-- One more get-config-info indication free of errors keeps the state of
the load as described. -/
theorem load_carrier_config_config_info_state_step (priv : Private)
    (requests : List QmiRequest) (n next : Nat) (hn : n < 2 ^ 32)
    (events : List QmiIndicationPdcGetConfigInfoOutput)
    (output : QmiIndicationPdcGetConfigInfoOutput) (op : LoadCarrierConfigTask)
    (hfree : output.is_error_free = true)
    (h : load_carrier_config_config_info_state priv requests n next events op) :
    load_carrier_config_config_info_state priv requests n next (events ++ [output])
      (load_carrier_config_deliver op (LoadCarrierConfigEvent.get_config_info output)) := by
  obtain ⟨cl, c, hlen, hprops, hc, hstate⟩ := h
  obtain ⟨t, s, v, d, hresult, htoken, hsize, hversion, hdescription⟩ :=
    output.is_error_free_eq hfree
  have hans : ∀ token, config_info_answered (events ++ [output]) token =
      (config_info_answered events token || decide (t = token)) := by
    intro token
    simp [config_info_answered, List.any_append,
      QmiIndicationPdcGetConfigInfoOutput.answers, htoken]
  rcases hstate with ⟨hlt, rfl⟩ | ⟨heq, rfl⟩
  · rw [load_carrier_config_deliver_awaits_config_info]
    cases hfind : cl.findIdx? (fun config => decide (config.token = t)) with
    | none =>
        rw [get_config_info_indication_unknown_token _ output t cl hresult htoken rfl (by
          intro x hx
          have := List.findIdx?_eq_none_iff.mp hfind x hx
          simpa using this)]
        refine ⟨cl, c, hlen, ?_, hc, Or.inl ⟨hlt, rfl⟩⟩
        intro k current hk
        refine ⟨(hprops k current hk).1, ?_⟩
        have hne : ¬ t = k + 1 := by
          intro ht
          have := List.findIdx?_eq_none_iff.mp hfind current (List.getElem?_mem hk)
          rw [(hprops k current hk).1] at this
          simp [ht] at this
        rw [hans, (hprops k current hk).2, decide_eq_false hne, Bool.or_false]
    | some i =>
        obtain ⟨hi, hp, _⟩ := List.findIdx?_eq_some_iff_getElem.mp hfind
        have hcur : cl[i]? = some cl[i] := List.getElem?_eq_getElem hi
        have htok : t = i + 1 := by
          have h1 := (hprops i cl[i] hcur).1
          have h2 : cl[i].token = t := by simpa using hp
          omega
        by_cases hdesc : cl[i].description = none
        · rw [get_config_info_indication_stores priv requests cl c next output t s v i d cl[i]
            hresult htoken hsize hversion hdescription hfind hcur hdesc]
          obtain ⟨cur2, hcur2⟩ : ∃ cur2 : ConfigInfo, cur2 =
              { cl[i] with total_size := s, version := v, description := some d } := ⟨_, rfl⟩
          rw [← hcur2]
          have htok2 : cur2.token = cl[i].token := by rw [hcur2]
          have hdesc2 : cur2.description = some d := by rw [hcur2]
          have hmod : (c + 1) % 2 ^ 32 = c + 1 := Nat.mod_eq_of_lt (by omega)
          have hcount : (cl.set i cur2).countP (fun current => current.description.isSome) =
              c + 1 := by
            rw [List.countP_set _ _ _ _ hi, ← hc]
            simp [hdesc, hdesc2]
          have hprops2 : ∀ k current, (cl.set i cur2)[k]? = some current →
              current.token = k + 1 ∧
              current.description.isSome = config_info_answered (events ++ [output]) (k + 1) := by
            intro k current hk
            rw [List.getElem?_set] at hk
            by_cases hik : i = k
            · subst hik
              rw [if_pos rfl, if_pos hi] at hk
              cases hk
              refine ⟨by rw [htok2]; exact (hprops i cl[i] hcur).1, ?_⟩
              rw [hans, htok, hdesc2]
              simp
            · rw [if_neg hik] at hk
              refine ⟨(hprops k current hk).1, ?_⟩
              have hne : ¬ t = k + 1 := by omega
              rw [hans, (hprops k current hk).2, decide_eq_false hne, Bool.or_false]
          rw [hmod, hlen]
          by_cases hmore : c + 1 < n
          · rw [if_pos hmore]
            exact ⟨_, c + 1, by rw [List.length_set, hlen], hprops2, hcount.symm,
              Or.inl ⟨hmore, rfl⟩⟩
          · rw [if_neg hmore]
            exact ⟨_, c + 1, by rw [List.length_set, hlen], hprops2, hcount.symm,
              Or.inr ⟨by omega, rfl⟩⟩
        · rw [get_config_info_indication_described _ output t i cl cl[i] hresult htoken rfl
            hfind hcur hdesc]
          refine ⟨cl, c, hlen, ?_, hc, Or.inl ⟨hlt, rfl⟩⟩
          intro k current hk
          refine ⟨(hprops k current hk).1, ?_⟩
          by_cases hik : i = k
          · subst hik
            rw [hcur] at hk
            cases hk
            have hsome : cl[i].description.isSome = true := by
              cases hd : cl[i].description with
              | none => exact absurd hd hdesc
              | some x => rfl
            rw [hans, ← (hprops i cl[i] hcur).2, hsome, Bool.true_or]
          · have hne : ¬ t = k + 1 := by omega
            rw [hans, (hprops k current hk).2, decide_eq_false hne, Bool.or_false]
  · rw [load_carrier_config_deliver_awaits_selected_config]
    refine ⟨cl, c, hlen, ?_, hc, Or.inr ⟨heq, rfl⟩⟩
    intro k current hk
    refine ⟨(hprops k current hk).1, ?_⟩
    have hall := (List.countP_eq_length (p := fun current : ConfigInfo =>
      current.description.isSome) (l := cl)).mp (by omega)
    have hsome := hall current (List.getElem?_mem hk)
    simp only at hsome
    rw [hans, ← (hprops k current hk).2, hsome, Bool.true_or]

/-- A series of get-config-info indications free of errors keeps the state
of the load as described. -/
theorem load_carrier_config_config_info_state_run (priv : Private)
    (requests : List QmiRequest) (n next : Nat) (hn : n < 2 ^ 32) (op : LoadCarrierConfigTask)
    (h : load_carrier_config_config_info_state priv requests n next [] op)
    (events : List QmiIndicationPdcGetConfigInfoOutput) :
    (∀ output ∈ events, output.is_error_free = true) →
      load_carrier_config_config_info_state priv requests n next events
        ((events.map LoadCarrierConfigEvent.get_config_info).foldl
          load_carrier_config_deliver op) := by
  induction events using List.reverseRecOn with
  | nil => intro _; exact h
  | append_singleton init output ih =>
      intro hfree
      rw [List.map_append, List.foldl_append]
      exact load_carrier_config_config_info_state_step priv requests n next hn init output _
        (hfree output (by simp)) (ih (fun o ho => hfree o (by simp [ho])))

/-- The state of the load as described tells whether Get-Selected-Config has
been sent: it has exactly when every token was answered. -/
theorem load_carrier_config_config_info_state_advanced (priv : Private)
    (requests : List QmiRequest) (n next : Nat)
    (events : List QmiIndicationPdcGetConfigInfoOutput) (op : LoadCarrierConfigTask)
    (hrequests : ∀ r ∈ requests, r.is_get_selected_config = false)
    (h : load_carrier_config_config_info_state priv requests n next events op) :
    ((∃ r ∈ op.requests, r.is_get_selected_config = true) ↔
      ∀ k, k < n → config_info_answered events (k + 1) = true) ∧
    op.results = [] ∧ op.aborted = false ∧
    (op.requests = requests ∨
      op.requests = requests ++
        [qmi_client_pdc_get_selected_config QMI_PDC_CONFIGURATION_TYPE_SOFTWARE next 5]) := by
  obtain ⟨cl, c, hlen, hprops, hc, hstate⟩ := h
  rcases hstate with ⟨hlt, rfl⟩ | ⟨heq, rfl⟩
  · refine ⟨?_, rfl, rfl, Or.inl rfl⟩
    constructor
    · rintro ⟨r, hr, hsel⟩
      have := hrequests r hr
      rw [this] at hsel
      exact absurd hsel (by decide)
    · intro hall
      exfalso
      have hcount : cl.countP (fun current => current.description.isSome) = cl.length := by
        rw [List.countP_eq_length]
        intro a ha
        obtain ⟨k, hk⟩ := List.mem_iff_getElem?.mp ha
        have hkn : k < n := by
          rw [← hlen]
          exact (List.getElem?_eq_some_iff.mp hk).1
        show a.description.isSome = true
        rw [(hprops k a hk).2]
        exact hall k hkn
      omega
  · refine ⟨?_, rfl, rfl, Or.inr rfl⟩
    constructor
    · intro _ k hk
      have hkl : k < cl.length := by omega
      have hget : cl[k]? = some cl[k] := List.getElem?_eq_getElem hkl
      have hall := (List.countP_eq_length (p := fun current : ConfigInfo =>
        current.description.isSome) (l := cl)).mp (by omega)
      have hsome : cl[k].description.isSome = true := hall cl[k] (List.getElem?_mem hget)
      rw [← (hprops k cl[k] hget).2]
      exact hsome
    · intro _
      exact ⟨_, List.mem_append_right _ (List.mem_singleton.mpr rfl), rfl⟩

/-- The state of the load right after the list-configs indication is as
described for no get-config-info indication yet. -/
theorem load_carrier_config_config_info_state_start (priv : Private)
    (requests : List QmiRequest) (next : Nat)
    (configs : List QmiIndicationPdcListConfigsOutputConfigsElement)
    (hne : configs ≠ []) (hlen : configs.length < 2 ^ 32) :
    load_carrier_config_config_info_state priv requests configs.length next []
      (load_carrier_config_awaits_config_info priv requests (list_configs_config_list 1 configs)
        0 next) := by
  have hpos : 0 < configs.length := List.length_pos.mpr hne
  refine ⟨list_configs_config_list 1 configs, 0, list_configs_config_list_length configs 1,
    ?_, ?_, Or.inl ⟨hpos, rfl⟩⟩
  · intro k current hk
    obtain ⟨h1, h2, _⟩ := list_configs_config_list_getElem configs 1 k current (by omega) hk
    refine ⟨by omega, ?_⟩
    rw [h2]
    rfl
  · symm
    rw [List.countP_eq_zero]
    intro a ha
    obtain ⟨k, hk⟩ := List.mem_iff_getElem?.mp ha
    obtain ⟨_, h2, _⟩ := list_configs_config_list_getElem configs 1 k a (by omega) hk
    simp [h2]

/-- C21: in Load-Carrier-Config with `n >= 1` listed configurations (`n`
below 2^32, the length of a `GArray`), after the good List-Configs response and
the good list-configs indication: the requests sent are List-Configs and the
`n` Get-Config-Info requests, their tokens are 0, 1, .., n in this order, so
strictly increasing, pairwise distinct and, for Get-Config-Info, different from
the List-Configs token. For every series of get-config-info indications free
of errors and every prefix of it, Get-Selected-Config has been sent after the
prefix exactly when each of the tokens 1, .., n is carried by an indication of
the prefix, and it is sent at most once, with nothing returned and no assertion
failed. A good indication whose token is that of no listed configuration, or
whose configuration has its description stored, leaves the whole state of the
operation as it is. -/
theorem C21_config_info_tokens (self : MMIfaceModem) (priv : Private)
    (list : QmiIndicationPdcListConfigsOutput)
    (configs : List QmiIndicationPdcListConfigsOutputConfigsElement)
    (events : List QmiIndicationPdcGetConfigInfoOutput)
    (hpdc : self.peek_client QmiService.QMI_SERVICE_PDC = Except.ok ())
    (hresult : list.indication_result = Except.ok 0)
    (hconfigs : list.configs = Except.ok (some configs))
    (hne : configs ≠ []) (hlen : configs.length < 2 ^ 32)
    (hfree : ∀ output ∈ events, output.is_error_free = true) :
    (load_carrier_config_run self priv
        [LoadCarrierConfigEvent.response LoadCarrierConfigCallback.list_configs_ready
            (QmiResult.ok ()),
         LoadCarrierConfigEvent.list_configs list]).requests =
      qmi_client_pdc_list_configs QMI_PDC_CONFIGURATION_TYPE_SOFTWARE 0 5 ::
        list_configs_requests 1 configs ∧
    (list_configs_requests 1 configs).filterMap (fun r => r.pdc_token) =
      List.range' 1 configs.length ∧
    List.Pairwise (fun a b => a < b)
      ((load_carrier_config_run self priv
        [LoadCarrierConfigEvent.response LoadCarrierConfigCallback.list_configs_ready
            (QmiResult.ok ()),
         LoadCarrierConfigEvent.list_configs list]).requests.filterMap
        (fun r => r.pdc_token)) ∧
    (∀ m,
      ((∃ r ∈ (load_carrier_config_run self priv
          ([LoadCarrierConfigEvent.response LoadCarrierConfigCallback.list_configs_ready
              (QmiResult.ok ()),
            LoadCarrierConfigEvent.list_configs list] ++
            (events.take m).map LoadCarrierConfigEvent.get_config_info)).requests,
          r.is_get_selected_config = true) ↔
        ∀ k, k < configs.length → config_info_answered (events.take m) (k + 1) = true) ∧
      (load_carrier_config_run self priv
          ([LoadCarrierConfigEvent.response LoadCarrierConfigCallback.list_configs_ready
              (QmiResult.ok ()),
            LoadCarrierConfigEvent.list_configs list] ++
            (events.take m).map LoadCarrierConfigEvent.get_config_info)).results = [] ∧
      (load_carrier_config_run self priv
          ([LoadCarrierConfigEvent.response LoadCarrierConfigCallback.list_configs_ready
              (QmiResult.ok ()),
            LoadCarrierConfigEvent.list_configs list] ++
            (events.take m).map LoadCarrierConfigEvent.get_config_info)).aborted = false ∧
      ((load_carrier_config_run self priv
          ([LoadCarrierConfigEvent.response LoadCarrierConfigCallback.list_configs_ready
              (QmiResult.ok ()),
            LoadCarrierConfigEvent.list_configs list] ++
            (events.take m).map LoadCarrierConfigEvent.get_config_info)).requests.filter
          (fun r => r.is_get_selected_config)).length ≤ 1) ∧
    (∀ (op : LoadCarrierConfigTask) (output : QmiIndicationPdcGetConfigInfoOutput)
        (token : Nat) (config_list : List ConfigInfo),
      output.indication_result = Except.ok 0 → output.token = Except.ok token →
      op.ctx.config_list = some config_list →
      ((∀ c ∈ config_list, c.token ≠ token) ∨
        (∃ i current,
          config_list.findIdx? (fun config => decide (config.token = token)) = some i ∧
          config_list[i]? = some current ∧ current.description ≠ none)) →
      get_config_info_indication op output = op) := by
  have hstart := load_carrier_config_run_list_configs self priv list configs hpdc hresult
    hconfigs hne
  have htokens := list_configs_requests_tokens configs 1 (by omega)
  have hnotsel : ∀ r ∈ qmi_client_pdc_list_configs QMI_PDC_CONFIGURATION_TYPE_SOFTWARE 0 5 ::
      list_configs_requests 1 configs, r.is_get_selected_config = false := by
    intro r hr
    rcases List.mem_cons.mp hr with rfl | hr
    · rfl
    · exact list_configs_requests_not_get_selected_config configs 1 r hr
  refine ⟨?_, htokens, ?_, ?_, ?_⟩
  · rw [hstart]
    rfl
  · rw [hstart]
    have hreq : (load_carrier_config_awaits_config_info priv
        (qmi_client_pdc_list_configs QMI_PDC_CONFIGURATION_TYPE_SOFTWARE 0 5 ::
          list_configs_requests 1 configs)
        (list_configs_config_list 1 configs) 0 (token_after 1 configs.length)).requests =
        qmi_client_pdc_list_configs QMI_PDC_CONFIGURATION_TYPE_SOFTWARE 0 5 ::
          list_configs_requests 1 configs := rfl
    rw [hreq, List.filterMap_cons]
    have hfirst : (qmi_client_pdc_list_configs QMI_PDC_CONFIGURATION_TYPE_SOFTWARE 0
        5).pdc_token = some 0 := rfl
    simp only [hfirst, htokens]
    rw [List.pairwise_cons]
    refine ⟨?_, List.pairwise_lt_range' 1 configs.length⟩
    intro a ha
    have := (List.mem_range'_1.mp ha).1
    omega
  · intro m
    have hinv := load_carrier_config_config_info_state_run priv
      (qmi_client_pdc_list_configs QMI_PDC_CONFIGURATION_TYPE_SOFTWARE 0 5 ::
        list_configs_requests 1 configs) configs.length (token_after 1 configs.length) hlen _
      (load_carrier_config_config_info_state_start priv _ _ configs hne hlen)
      (events.take m) (fun o ho => hfree o (List.mem_of_mem_take ho))
    have hrun : load_carrier_config_run self priv
        ([LoadCarrierConfigEvent.response LoadCarrierConfigCallback.list_configs_ready
            (QmiResult.ok ()),
          LoadCarrierConfigEvent.list_configs list] ++
          (events.take m).map LoadCarrierConfigEvent.get_config_info) =
        ((events.take m).map LoadCarrierConfigEvent.get_config_info).foldl
          load_carrier_config_deliver
          (load_carrier_config_awaits_config_info priv
            (qmi_client_pdc_list_configs QMI_PDC_CONFIGURATION_TYPE_SOFTWARE 0 5 ::
              list_configs_requests 1 configs)
            (list_configs_config_list 1 configs) 0 (token_after 1 configs.length)) := by
      rw [← hstart]
      unfold load_carrier_config_run
      rw [List.foldl_append]
    rw [hrun]
    obtain ⟨h1, h2, h3, h4⟩ := load_carrier_config_config_info_state_advanced priv _ _ _ _ _
      hnotsel hinv
    refine ⟨h1, h2, h3, ?_⟩
    have hnone : (qmi_client_pdc_list_configs QMI_PDC_CONFIGURATION_TYPE_SOFTWARE 0 5 ::
        list_configs_requests 1 configs).filter (fun r => r.is_get_selected_config) = [] := by
      rw [List.filter_eq_nil_iff]
      intro r hr
      rw [hnotsel r hr]
      decide
    rcases h4 with h4 | h4
    · rw [h4, hnone]
      exact Nat.zero_le _
    · rw [h4, List.filter_append, hnone]
      exact List.length_filter_le _ _
  · intro op output token config_list hres htok hlist hcase
    rcases hcase with hunknown | ⟨i, current, hfind, hcurrent, hdescribed⟩
    · exact get_config_info_indication_unknown_token op output token config_list hres htok
        hlist hunknown
    · exact get_config_info_indication_described op output token i config_list current hres
        htok hlist hfind hcurrent hdescribed

/-- C21 on a device that lists two configurations: the requests carry the
tokens 0, 1 and 2; after indications with the tokens 2, 2 and 9
Get-Selected-Config has not been sent and nothing is returned, after one more
with the token 1 it has been sent. -/
theorem C21_config_info_tokens_witness :
    (load_carrier_config_run modem_3gpp {}
        [LoadCarrierConfigEvent.response LoadCarrierConfigCallback.list_configs_ready
            (QmiResult.ok ()),
         LoadCarrierConfigEvent.list_configs list_configs_two]).requests =
      [qmi_client_pdc_list_configs QMI_PDC_CONFIGURATION_TYPE_SOFTWARE 0 5,
       qmi_client_pdc_get_config_info 1 [1] 1 10,
       qmi_client_pdc_get_config_info 1 [2] 2 10] ∧
    (load_carrier_config_run modem_3gpp {}
        ([LoadCarrierConfigEvent.response LoadCarrierConfigCallback.list_configs_ready
            (QmiResult.ok ()),
          LoadCarrierConfigEvent.list_configs list_configs_two] ++
          ([config_info_att 2, config_info_att 2, config_info_att 9, config_info_att 1].take
            3).map LoadCarrierConfigEvent.get_config_info)).results = [] ∧
    (∃ r ∈ (load_carrier_config_run modem_3gpp {}
        ([LoadCarrierConfigEvent.response LoadCarrierConfigCallback.list_configs_ready
            (QmiResult.ok ()),
          LoadCarrierConfigEvent.list_configs list_configs_two] ++
          ([config_info_att 2, config_info_att 2, config_info_att 9, config_info_att 1].take
            4).map LoadCarrierConfigEvent.get_config_info)).requests,
      r.is_get_selected_config = true) :=
  ⟨(C21_config_info_tokens modem_3gpp {} list_configs_two
      [{ config_type := 1, id := [1] }, { config_type := 1, id := [2] }]
      [config_info_att 2, config_info_att 2, config_info_att 9, config_info_att 1]
      rfl rfl rfl (List.cons_ne_nil _ _) (by decide) (by decide)).1,
   ((C21_config_info_tokens modem_3gpp {} list_configs_two
      [{ config_type := 1, id := [1] }, { config_type := 1, id := [2] }]
      [config_info_att 2, config_info_att 2, config_info_att 9, config_info_att 1]
      rfl rfl rfl (List.cons_ne_nil _ _) (by decide) (by decide)).2.2.2.1 3).2.1,
   ((C21_config_info_tokens modem_3gpp {} list_configs_two
      [{ config_type := 1, id := [1] }, { config_type := 1, id := [2] }]
      [config_info_att 2, config_info_att 2, config_info_att 9, config_info_att 1]
      rfl rfl rfl (List.cons_ne_nil _ _) (by decide) (by decide)).2.2.2.1 4).1.mpr (by decide)⟩

/-- A change that keeps the stored state, the results, the selection and the
step, adds no Get-Selected-Config response or handler, and undoes no failed
assertion keeps what holds between two events. -/
theorem load_carrier_config_stored_or_unselected_frame (reported : List Nat → Prop)
    (op op2 : LoadCarrierConfigTask)
    (h : load_carrier_config_stored_or_unselected reported op)
    (hpriv : op2.priv = op.priv)
    (hres : TaskResult.value () ∈ op2.results ↔ TaskResult.value () ∈ op.results)
    (hab : op.aborted = true → op2.aborted = true)
    (hi : op2.ctx.config_active_i = op.ctx.config_active_i)
    (hd : op2.ctx.config_active_default = op.ctx.config_active_default)
    (hstep : op2.ctx.step = op.ctx.step)
    (hpending : LoadCarrierConfigCallback.get_selected_config_ready ∈ op2.pending →
      LoadCarrierConfigCallback.get_selected_config_ready ∈ op.pending)
    (hhandlers : ∀ x ∈ op2.handlers,
      x.handler = LoadCarrierConfigSignal.get_selected_config_indication → x ∈ op.handlers) :
    load_carrier_config_stored_or_unselected reported op2 := by
  obtain ⟨h1, h2⟩ := h
  refine ⟨?_, ?_⟩
  · intro hv
    rw [hpriv]
    exact h1 (hres.mp hv)
  · intro hv
    rcases h2 (fun hx => hv (hres.mpr hx)) with ha | ⟨hu1, hu2, hu3, hu4⟩
    · exact Or.inl (hab ha)
    · right
      refine ⟨by rw [hi]; exact hu1, by rw [hd]; exact hu2, by rw [hstep]; exact hu3, ?_⟩
      intro hq
      rw [hstep] at hq
      obtain ⟨hu5, hu6⟩ := hu4 hq
      exact ⟨fun hp => hu5 (hpending hp), fun x hx hsel => hu6 x (hhandlers x hx hsel) hsel⟩

/-- A failed assertion keeps what holds between two events. -/
theorem load_carrier_config_stored_or_unselected_aborted (reported : List Nat → Prop)
    (op : LoadCarrierConfigTask)
    (h : load_carrier_config_stored_or_unselected reported op) :
    load_carrier_config_stored_or_unselected reported { op with aborted := true } :=
  ⟨h.1, fun _ => Or.inl rfl⟩

/-- The cleanup action keeps what holds between two events. -/
theorem load_carrier_config_context_cleanup_action_keeps (reported : List Nat → Prop)
    (op : LoadCarrierConfigTask)
    (h : load_carrier_config_stored_or_unselected reported op) :
    load_carrier_config_stored_or_unselected reported
      (load_carrier_config_context_cleanup_action op) := by
  apply load_carrier_config_stored_or_unselected_frame reported op _ h <;>
    rw [load_carrier_config_context_cleanup_action_eq]
  · exact Iff.rfl
  · exact id
  · exact id
  · intro x hx _
    exact List.mem_of_mem_filter (List.mem_of_mem_filter (List.mem_of_mem_filter hx))

/-- The function `load_carrier_config_abort` keeps what holds between two
events. -/
theorem load_carrier_config_abort_keeps (reported : List Nat → Prop)
    (op : LoadCarrierConfigTask) (error : GError)
    (h : load_carrier_config_stored_or_unselected reported op) :
    load_carrier_config_stored_or_unselected reported (load_carrier_config_abort op error) := by
  unfold load_carrier_config_abort load_carrier_config_context_free
  apply load_carrier_config_context_cleanup_action_keeps
  have h2 := load_carrier_config_context_cleanup_action_keeps reported op h
  apply load_carrier_config_stored_or_unselected_frame reported _ _ h2
  · rfl
  · simp [Operation.results, Operation.g_task_return]
  · exact id
  · rfl
  · rfl
  · rfl
  · exact id
  · intro x hx _
    exact hx

/-- The last step of `load_carrier_config_step`: when the assertions hold
and the context has selected as the spec gives it, the stored state is as the
spec gives it; a second success is excluded by the assertion on the stored
state, and with nothing selected the assertion on the context fails. -/
theorem load_carrier_config_step_case_last_keeps (reported : List Nat → Prop)
    (op : LoadCarrierConfigTask)
    (hA : TaskResult.value () ∈ op.results → carrier_config_stored reported op.priv)
    (hB : TaskResult.value () ∉ op.results →
      load_carrier_config_selected reported op ∨
        (op.ctx.config_active_i = -1 ∧ op.ctx.config_active_default = false)) :
    load_carrier_config_stored_or_unselected reported
      (load_carrier_config_step_case_last op) := by
  unfold load_carrier_config_step_case_last
  by_cases h1 : ¬ (op.priv.config_list = none)
  · rw [if_pos h1]
    exact ⟨hA, fun _ => Or.inl rfl⟩
  rw [if_neg h1]
  by_cases h2 : ¬ (op.priv.config_active_i < 0 ∧ op.priv.config_active_default = false)
  · rw [if_pos h2]
    exact ⟨hA, fun _ => Or.inl rfl⟩
  rw [if_neg h2]
  by_cases h3 : ¬ (op.ctx.config_active_i ≥ 0 ∨ op.ctx.config_active_default = true)
  · rw [if_pos h3]
    exact ⟨hA, fun _ => Or.inl rfl⟩
  rw [if_neg h3]
  have h2p : op.priv.config_active_i < 0 ∧ op.priv.config_active_default = false :=
    not_not.mp h2
  have hv : TaskResult.value () ∉ op.results := by
    intro hv
    rcases hA hv with ⟨hd, _⟩ | ⟨_, cl, i, c, _, hi, _⟩
    · rw [h2p.2] at hd
      exact absurd hd (by decide)
    · have := h2p.1
      omega
  have hsel : load_carrier_config_selected reported op := by
    rcases hB hv with hsel | ⟨hi, hd⟩
    · exact hsel
    · exfalso
      apply h3
      intro hx
      rcases hx with hx | hx
      · omega
      · rw [hd] at hx
        exact absurd hx (by decide)
  simp only [load_carrier_config_context_free, load_carrier_config_context_cleanup_action_eq]
  refine ⟨fun _ => hsel, ?_⟩
  intro hnot
  exfalso
  apply hnot
  simp [Operation.results, Operation.g_task_return]

/-- The function `load_carrier_config_step` leads to what holds between two
events. -/
theorem load_carrier_config_step_keeps (reported : List Nat → Prop)
    (op : LoadCarrierConfigTask) (h : load_carrier_config_before_step reported op) :
    load_carrier_config_stored_or_unselected reported (load_carrier_config_step op) := by
  obtain ⟨hab, hA, hB⟩ := h
  unfold load_carrier_config_step
  cases hstep : op.ctx.step with
  | LOAD_CARRIER_CONFIG_STEP_FIRST =>
      simp only
      refine ⟨hA, ?_⟩
      intro hv
      rcases hB hv with ⟨hl, _⟩ | ⟨hu1, hu2, hu3, hu4⟩
      · rw [hstep] at hl
        exact absurd hl (by decide)
      · right
        obtain ⟨hu5, hu6⟩ := hu4 (by rw [hstep]; decide)
        refine ⟨hu1, hu2, ?_, ?_⟩
        · simp [load_carrier_config_step_case_list_configs, Operation.qmi_client_request,
            LoadCarrierConfigStep.next]
        intro _
        refine ⟨?_, hu6⟩
        simpa [load_carrier_config_step_case_list_configs, Operation.qmi_client_request]
          using hu5
  | LOAD_CARRIER_CONFIG_STEP_LIST_CONFIGS =>
      simp only
      refine ⟨hA, ?_⟩
      intro hv
      rcases hB hv with ⟨hl, _⟩ | ⟨hu1, hu2, hu3, hu4⟩
      · rw [hstep] at hl
        exact absurd hl (by decide)
      · right
        obtain ⟨hu5, hu6⟩ := hu4 (by rw [hstep]; decide)
        refine ⟨hu1, hu2, ?_, ?_⟩
        · show op.ctx.step ≠ _
          rw [hstep]
          decide
        · intro _
          refine ⟨?_, hu6⟩
          simpa [load_carrier_config_step_case_list_configs, Operation.qmi_client_request]
            using hu5
  | LOAD_CARRIER_CONFIG_STEP_QUERY_CURRENT =>
      simp only
      refine ⟨hA, ?_⟩
      intro hv
      rcases hB hv with ⟨hl, _⟩ | ⟨hu1, hu2, hu3, hu4⟩
      · rw [hstep] at hl
        exact absurd hl (by decide)
      · right
        refine ⟨hu1, hu2, ?_, ?_⟩
        · show op.ctx.step ≠ _
          rw [hstep]
          decide
        · intro hq
          exfalso
          apply hq
          show op.ctx.step = _
          exact hstep
  | LOAD_CARRIER_CONFIG_STEP_LAST =>
      simp only
      apply load_carrier_config_step_case_last_keeps reported op hA
      intro hv
      rcases hB hv with ⟨_, hl⟩ | ⟨_, _, hu3, _⟩
      · exact hl
      · exact absurd hstep hu3

/-- The end of a handler that goes on to the next step (cleanup action,
`ctx->step++`, `load_carrier_config_step`) leads to what holds between two
events. -/
theorem load_carrier_config_advance_keeps (reported : List Nat → Prop)
    (op : LoadCarrierConfigTask) (hab : op.aborted = false)
    (hA : TaskResult.value () ∈ op.results → carrier_config_stored reported op.priv)
    (hB : TaskResult.value () ∉ op.results →
      (op.ctx.step = LoadCarrierConfigStep.LOAD_CARRIER_CONFIG_STEP_QUERY_CURRENT ∧
        load_carrier_config_selected reported op) ∨
      load_carrier_config_unselected op) :
    load_carrier_config_stored_or_unselected reported
      (load_carrier_config_step
        { load_carrier_config_context_cleanup_action op with
          ctx := { (load_carrier_config_context_cleanup_action op).ctx with
                   step := (load_carrier_config_context_cleanup_action op).ctx.step.next } }) := by
  apply load_carrier_config_step_keeps
  simp only [load_carrier_config_context_cleanup_action_eq]
  refine ⟨hab, hA, ?_⟩
  intro hv
  rcases hB hv with ⟨hq, hsel⟩ | ⟨hu1, hu2, hu3, hu4⟩
  · left
    refine ⟨?_, Or.inl hsel⟩
    show op.ctx.step.next = _
    rw [hq]
    rfl
  · cases hstep : op.ctx.step with
    | LOAD_CARRIER_CONFIG_STEP_FIRST =>
        right
        obtain ⟨hu5, hu6⟩ := hu4 (by rw [hstep]; decide)
        refine ⟨hu1, hu2, ?_, ?_⟩
        · show LoadCarrierConfigStep.LOAD_CARRIER_CONFIG_STEP_FIRST.next ≠ _
          decide
        · intro _
          refine ⟨hu5, ?_⟩
          intro x hx
          exact hu6 x
            (List.mem_of_mem_filter (List.mem_of_mem_filter (List.mem_of_mem_filter hx)))
    | LOAD_CARRIER_CONFIG_STEP_LIST_CONFIGS =>
        right
        refine ⟨hu1, hu2, ?_, ?_⟩
        · show LoadCarrierConfigStep.LOAD_CARRIER_CONFIG_STEP_LIST_CONFIGS.next ≠ _
          decide
        · intro hq
          exfalso
          apply hq
          rfl
    | LOAD_CARRIER_CONFIG_STEP_QUERY_CURRENT =>
        left
        exact ⟨rfl, Or.inr ⟨hu1, hu2⟩⟩
    | LOAD_CARRIER_CONFIG_STEP_LAST => exact absurd hstep hu3

/-- The handler `get_selected_config_indication`, run while it is connected
and no assertion has failed, keeps what holds between two events: what it
selects is what the indication reports. -/
theorem get_selected_config_indication_keeps (reported : List Nat → Prop)
    (op : LoadCarrierConfigTask) (output : QmiIndicationPdcGetSelectedConfigOutput)
    (h : load_carrier_config_stored_or_unselected reported op)
    (hab : op.aborted = false)
    (hconn : ∃ x ∈ op.handlers,
      x.handler = LoadCarrierConfigSignal.get_selected_config_indication)
    (hrep : ∀ id, output.active_id = some id → reported id) :
    load_carrier_config_stored_or_unselected reported
      (get_selected_config_indication op output) := by
  have hquery : TaskResult.value () ∉ op.results →
      op.ctx.step = LoadCarrierConfigStep.LOAD_CARRIER_CONFIG_STEP_QUERY_CURRENT ∧
      op.ctx.config_active_i = -1 ∧ op.ctx.config_active_default = false := by
    intro hv
    rcases h.2 hv with ha | ⟨hu1, hu2, _, hu4⟩
    · rw [hab] at ha
      exact absurd ha (by decide)
    · refine ⟨?_, hu1, hu2⟩
      by_contra hq
      obtain ⟨x, hx, hsel⟩ := hconn
      exact (hu4 hq).2 x hx hsel
  unfold get_selected_config_indication
  cases hres : output.indication_result with
  | error error => exact load_carrier_config_abort_keeps reported op error h
  | ok error_code =>
      simp only
      split_ifs with hcode
      · exact load_carrier_config_abort_keeps reported op _ h
      · cases hid : output.active_id with
        | none =>
            refine load_carrier_config_advance_keeps reported
              { op with ctx := { op.ctx with config_active_default := true } } hab h.1 ?_
            intro hv
            obtain ⟨hq, hi, _⟩ := hquery hv
            exact Or.inl ⟨hq, Or.inl ⟨rfl, hi⟩⟩
        | some active_id =>
            simp only
            cases hlist : op.ctx.config_list with
            | none => exact load_carrier_config_stored_or_unselected_aborted reported op h
            | some config_list =>
                simp only
                split_ifs with hlen
                · exact load_carrier_config_stored_or_unselected_aborted reported op h
                · cases hfind : config_list.findIdx?
                      (fun config => decide (config.id = active_id)) with
                  | none => exact load_carrier_config_abort_keeps reported op _ h
                  | some i =>
                      refine load_carrier_config_advance_keeps reported
                        { op with ctx := { op.ctx with config_list := some config_list,
                                                       config_active_i := (i : Int) } }
                        hab h.1 ?_
                      intro hv
                      obtain ⟨hq, _, hd⟩ := hquery hv
                      obtain ⟨hi, hp, hlow⟩ := List.findIdx?_eq_some_iff_getElem.mp hfind
                      have hidi : config_list[i].id = active_id := by simpa using hp
                      refine Or.inl ⟨hq, Or.inr ⟨hd, config_list, i, config_list[i], rfl, rfl,
                        List.getElem?_eq_getElem hi, ?_, ?_⟩⟩
                      · rw [hidi]
                        exact hrep active_id hid
                      · intro j other hj hother
                        obtain ⟨hjl, hje⟩ := List.getElem?_eq_some_iff.mp hother
                        have := hlow j hj
                        rw [hje] at this
                        rw [hidi]
                        simpa using this

/-- The end of a handler that goes on to the next step, when it has selected
nothing. -/
theorem load_carrier_config_advance_unselected_keeps (reported : List Nat → Prop)
    (op : LoadCarrierConfigTask) (hab : op.aborted = false)
    (h : load_carrier_config_stored_or_unselected reported op) :
    load_carrier_config_stored_or_unselected reported
      (load_carrier_config_step
        { load_carrier_config_context_cleanup_action op with
          ctx := { (load_carrier_config_context_cleanup_action op).ctx with
                   step := (load_carrier_config_context_cleanup_action op).ctx.step.next } }) := by
  refine load_carrier_config_advance_keeps reported op hab h.1 ?_
  intro hv
  rcases h.2 hv with ha | hu
  · rw [hab] at ha
    exact absurd ha (by decide)
  · exact Or.inr hu

/-- The handler `get_config_info_indication`, run while no assertion has
failed, keeps what holds between two events. -/
theorem get_config_info_indication_keeps (reported : List Nat → Prop)
    (op : LoadCarrierConfigTask) (output : QmiIndicationPdcGetConfigInfoOutput)
    (h : load_carrier_config_stored_or_unselected reported op)
    (hab : op.aborted = false) :
    load_carrier_config_stored_or_unselected reported
      (get_config_info_indication op output) := by
  have hframe : ∀ (config_list : Option (List ConfigInfo)) (configs_loaded : Nat),
      load_carrier_config_stored_or_unselected reported
        { op with ctx := { op.ctx with config_list := config_list,
                                       configs_loaded := configs_loaded } } := by
    intro config_list configs_loaded
    exact load_carrier_config_stored_or_unselected_frame reported op _ h rfl Iff.rfl id rfl rfl
      rfl id (fun x hx _ => hx)
  unfold get_config_info_indication
  cases hres : output.indication_result with
  | error error => exact load_carrier_config_abort_keeps reported op error h
  | ok error_code =>
      simp only
      split_ifs with hcode
      · exact load_carrier_config_abort_keeps reported op _ h
      · cases htoken : output.token with
        | error error => exact load_carrier_config_abort_keeps reported op error h
        | ok token =>
            simp only
            cases hlist : op.ctx.config_list with
            | none => exact load_carrier_config_stored_or_unselected_aborted reported op h
            | some config_list =>
                simp only
                cases hfind : config_list.findIdx?
                    (fun config => decide (config.token = token)) with
                | none => exact h
                | some i =>
                    simp only
                    cases hcur : config_list[i]? with
                    | none => exact h
                    | some current =>
                        simp only
                        by_cases hdesc : current.description ≠ none
                        · rw [if_pos hdesc]
                          exact h
                        rw [if_neg hdesc]
                        · cases hsize : output.total_size with
                          | error error =>
                              exact load_carrier_config_abort_keeps reported op error h
                          | ok total_size =>
                              simp only
                              cases hversion : output.version with
                              | error error =>
                                  exact load_carrier_config_abort_keeps reported _ error
                                    (hframe _ op.ctx.configs_loaded)
                              | ok version =>
                                  simp only
                                  cases hdescription : output.description with
                                  | error error =>
                                      exact load_carrier_config_abort_keeps reported _ error
                                        (hframe _ op.ctx.configs_loaded)
                                  | ok description =>
                                      simp only
                                      by_cases hmore : (op.ctx.configs_loaded + 1) % 2 ^ 32 <
                                          config_list.length
                                      · rw [if_pos hmore]
                                        exact hframe _ _
                                      · rw [if_neg hmore]
                                        exact load_carrier_config_advance_unselected_keeps
                                          reported _ hab (hframe _ _)

/-- The handler `list_configs_indication`, run while no assertion has
failed, keeps what holds between two events: with no configuration listed the
default is selected and stored. -/
theorem list_configs_indication_keeps (reported : List Nat → Prop)
    (op : LoadCarrierConfigTask) (output : QmiIndicationPdcListConfigsOutput)
    (h : load_carrier_config_stored_or_unselected reported op)
    (hab : op.aborted = false) :
    load_carrier_config_stored_or_unselected reported (list_configs_indication op output) := by
  unfold list_configs_indication
  cases hres : output.indication_result with
  | error error => exact load_carrier_config_abort_keeps reported op error h
  | ok error_code =>
      simp only
      by_cases hcode : error_code ≠ 0
      · rw [if_pos hcode]
        exact load_carrier_config_abort_keeps reported op _ h
      rw [if_neg hcode]
      cases hconfigs : output.configs with
      | error error => exact load_carrier_config_abort_keeps reported op error h
      | ok configs =>
          simp only
          by_cases hzero : configs.isNone = true ∨ (configs.getD []).length = 0
          · rw [if_pos hzero]
            apply load_carrier_config_step_keeps
            refine ⟨hab, h.1, ?_⟩
            intro hv
            rcases h.2 hv with ha | ⟨hu1, _, _, _⟩
            · rw [hab] at ha
              exact absurd ha (by decide)
            · exact Or.inl ⟨rfl, Or.inl (Or.inl ⟨rfl, hu1⟩)⟩
          · rw [if_neg hzero]
            simp only [list_configs_indication_loop_eq]
            apply load_carrier_config_stored_or_unselected_frame reported op _ h
            · rfl
            · exact Iff.rfl
            · exact id
            · rfl
            · rfl
            · rfl
            · exact id
            · intro x hx hsel
              rcases List.mem_append.mp hx with hx | hx
              · exact hx
              · rw [List.mem_singleton] at hx
                rw [hx] at hsel
                simp at hsel

/-- The callback `list_configs_ready` keeps what holds between two events. -/
theorem list_configs_ready_keeps (reported : List Nat → Prop)
    (op : LoadCarrierConfigTask) (res : QmiResult Unit)
    (pending : List LoadCarrierConfigCallback) (hsub : ∀ c ∈ pending, c ∈ op.pending)
    (h : load_carrier_config_stored_or_unselected reported op) :
    load_carrier_config_stored_or_unselected reported
      (list_configs_ready { op with pending := pending } res) := by
  have h0 : load_carrier_config_stored_or_unselected reported { op with pending := pending } :=
    load_carrier_config_stored_or_unselected_frame reported op _ h rfl Iff.rfl id rfl rfl rfl
      (fun hx => hsub _ hx) (fun x hx _ => hx)
  unfold list_configs_ready
  cases res with
  | no_output error => exact load_carrier_config_abort_keeps reported _ error h0
  | result_failed error => exact load_carrier_config_abort_keeps reported _ error h0
  | ok u =>
      apply load_carrier_config_stored_or_unselected_frame reported _ _ h0
      · rfl
      · exact Iff.rfl
      · exact id
      · rfl
      · rfl
      · rfl
      · exact id
      · intro x hx hsel
        rcases List.mem_append.mp hx with hx | hx
        · exact hx
        · rw [List.mem_singleton] at hx
          rw [hx] at hsel
          simp at hsel

/-- The callback `get_selected_config_ready`, run for a request in flight
while no assertion has failed, keeps what holds between two events. -/
theorem get_selected_config_ready_keeps (reported : List Nat → Prop)
    (op : LoadCarrierConfigTask) (res : QmiResult Unit)
    (pending : List LoadCarrierConfigCallback) (hsub : ∀ c ∈ pending, c ∈ op.pending)
    (h : load_carrier_config_stored_or_unselected reported op)
    (hab : op.aborted = false)
    (hpending : LoadCarrierConfigCallback.get_selected_config_ready ∈ op.pending) :
    load_carrier_config_stored_or_unselected reported
      (get_selected_config_ready { op with pending := pending } res) := by
  have h0 : load_carrier_config_stored_or_unselected reported { op with pending := pending } :=
    load_carrier_config_stored_or_unselected_frame reported op _ h rfl Iff.rfl id rfl rfl rfl
      (fun hx => hsub _ hx) (fun x hx _ => hx)
  unfold get_selected_config_ready
  cases res with
  | no_output error => exact load_carrier_config_abort_keeps reported _ error h0
  | result_failed error => exact load_carrier_config_abort_keeps reported _ error h0
  | ok u =>
      refine ⟨h.1, ?_⟩
      intro hv
      rcases h.2 hv with ha | ⟨hu1, hu2, hu3, hu4⟩
      · rw [hab] at ha
        exact absurd ha (by decide)
      · right
        refine ⟨hu1, hu2, hu3, ?_⟩
        intro hq
        exact absurd hpending (hu4 hq).1

/-- The timeout callback `load_carrier_config_timeout` keeps what holds
between two events. -/
theorem load_carrier_config_timeout_keeps (reported : List Nat → Prop)
    (op : LoadCarrierConfigTask) (sources : List (GSource LoadCarrierConfigTimeout))
    (h : load_carrier_config_stored_or_unselected reported op) :
    load_carrier_config_stored_or_unselected reported
      (load_carrier_config_timeout { op with sources := sources }) := by
  have h0 : load_carrier_config_stored_or_unselected reported { op with sources := sources } :=
    load_carrier_config_stored_or_unselected_frame reported op _ h rfl Iff.rfl id rfl rfl rfl
      id (fun x hx _ => hx)
  unfold load_carrier_config_timeout
  split_ifs
  · exact load_carrier_config_stored_or_unselected_aborted reported _ h0
  · apply load_carrier_config_abort_keeps
    exact load_carrier_config_stored_or_unselected_frame reported _ _ h0 rfl Iff.rfl id rfl rfl
      rfl id (fun x hx _ => hx)

/-- An indication keeps what holds between two events when its handler
does, run while it is connected and no assertion has failed. -/
theorem load_carrier_config_emit_keeps (reported : List Nat → Prop)
    (signal : LoadCarrierConfigSignal)
    (handler : LoadCarrierConfigTask → LoadCarrierConfigTask)
    (hkeeps : ∀ op2, load_carrier_config_stored_or_unselected reported op2 →
      op2.aborted = false → (∃ x ∈ op2.handlers, x.handler = signal) →
      load_carrier_config_stored_or_unselected reported (handler op2))
    (op : LoadCarrierConfigTask) (h : load_carrier_config_stored_or_unselected reported op) :
    load_carrier_config_stored_or_unselected reported
      (load_carrier_config_emit op signal handler) := by
  unfold load_carrier_config_emit
  have hall : ∀ x ∈ op.handlers.filter (fun h => h.handler = signal), x.handler = signal := by
    intro x hx
    simpa using (List.mem_filter.mp hx).2
  generalize op.handlers.filter (fun h => h.handler = signal) = hs at hall
  induction hs generalizing op with
  | nil => exact h
  | cons x rest ih =>
      rw [List.foldl_cons]
      apply ih
      · split_ifs with hc
        · exact hkeeps op h hc.2 ⟨x, hc.1, hall x (List.mem_cons_self _ _)⟩
        · exact h
      · intro y hy
        exact hall y (List.mem_cons_of_mem _ hy)

/-- Every event keeps what holds between two events, when the active
identifier of a get-selected-config indication counts as reported. -/
theorem load_carrier_config_deliver_keeps (reported : List Nat → Prop)
    (op : LoadCarrierConfigTask) (ev : LoadCarrierConfigEvent)
    (hrep : ∀ output, ev = LoadCarrierConfigEvent.get_selected_config output →
      ∀ id, output.active_id = some id → reported id)
    (h : load_carrier_config_stored_or_unselected reported op) :
    load_carrier_config_stored_or_unselected reported (load_carrier_config_deliver op ev) := by
  unfold load_carrier_config_deliver
  by_cases hab : op.aborted = true
  · rw [if_pos hab]
    exact h
  rw [if_neg hab]
  have hab2 : op.aborted = false := by simpa using hab
  cases ev with
  | response callback res =>
      simp only
      by_cases hmem : callback ∈ op.pending
      · rw [if_pos hmem]
        cases callback with
        | list_configs_ready =>
            exact list_configs_ready_keeps reported op res _
              (fun c hc => List.mem_of_mem_erase hc) h
        | get_selected_config_ready =>
            exact get_selected_config_ready_keeps reported op res _
              (fun c hc => List.mem_of_mem_erase hc) h hab2 hmem
      · rw [if_neg hmem]
        exact h
  | list_configs output =>
      exact load_carrier_config_emit_keeps reported _ _
        (fun op2 h2 ha2 _ => list_configs_indication_keeps reported op2 output h2 ha2) op h
  | get_config_info output =>
      exact load_carrier_config_emit_keeps reported _ _
        (fun op2 h2 ha2 _ => get_config_info_indication_keeps reported op2 output h2 ha2) op h
  | get_selected_config output =>
      exact load_carrier_config_emit_keeps reported _ _
        (fun op2 h2 ha2 hconn =>
          get_selected_config_indication_keeps reported op2 output h2 ha2 hconn
            (hrep output rfl)) op h
  | timeout id =>
      simp only
      cases hfind : op.sources.find? (fun s => decide (s.id = id)) with
      | none => exact h
      | some source =>
          simp only
          cases source.callback
          exact load_carrier_config_timeout_keeps reported op _ h

/-- Every series of events keeps what holds between two events. -/
theorem load_carrier_config_run_keeps (reported : List Nat → Prop)
    (events : List LoadCarrierConfigEvent)
    (hrep : ∀ output, LoadCarrierConfigEvent.get_selected_config output ∈ events →
      ∀ id, output.active_id = some id → reported id) :
    ∀ op : LoadCarrierConfigTask, load_carrier_config_stored_or_unselected reported op →
      load_carrier_config_stored_or_unselected reported
        (events.foldl load_carrier_config_deliver op) := by
  induction events with
  | nil => intro op h; exact h
  | cons ev rest ih =>
      intro op h
      rw [List.foldl_cons]
      apply ih (fun output hmem => hrep output (List.mem_cons_of_mem _ hmem))
      apply load_carrier_config_deliver_keeps reported op ev _ h
      intro output hev
      exact hrep output (by rw [hev]; exact List.mem_cons_self _ _)

/-- The entry point leaves a load with nothing selected. -/
theorem mm_shared_qmi_load_carrier_config_keeps (reported : List Nat → Prop)
    (self : MMIfaceModem) (priv : Private) :
    load_carrier_config_stored_or_unselected reported
      (mm_shared_qmi_load_carrier_config self priv) := by
  unfold mm_shared_qmi_load_carrier_config
  cases self.peek_client QmiService.QMI_SERVICE_PDC with
  | error e =>
      simp only [load_carrier_config_context_free,
        load_carrier_config_context_cleanup_action_eq]
      refine ⟨?_, ?_⟩
      · intro hv
        simp [Operation.results, Operation.g_task_return] at hv
      · intro _
        right
        refine ⟨rfl, rfl, ?_, ?_⟩
        · show LoadCarrierConfigStep.LOAD_CARRIER_CONFIG_STEP_FIRST ≠ _
          decide
        intro _
        exact ⟨by simp [Operation.g_task_return], by simp [Operation.g_task_return]⟩
  | ok u =>
      apply load_carrier_config_step_keeps
      refine ⟨rfl, ?_, ?_⟩
      · intro hv
        simp [Operation.results] at hv
      · intro _
        right
        refine ⟨rfl, rfl, ?_, ?_⟩
        · show LoadCarrierConfigStep.LOAD_CARRIER_CONFIG_STEP_FIRST ≠ _
          decide
        intro _
        exact ⟨by simp, by simp⟩

/-- C29: whenever Load-Carrier-Config has returned success, after any series
of events, the stored carrier config state satisfies exactly one of: (a) the
default is active and the active index is -1; (b) the default is not active,
the active index is inside the stored list, the configuration at the index has
the identifier that a get-selected-config indication of the series reported as
active, and no configuration at a lower index has that identifier. Hence the
condition `config_active_i >= 0 || config_active_default` asserted by the
finish function and by the check step of the switch holds: the finish function
hands out a name, and the check step of a switch on this device with a
requested configuration goes on to compare the indexes. -/
theorem C29_stored_after_success (self : MMIfaceModem) (priv : Private)
    (events : List LoadCarrierConfigEvent)
    (hsuccess : TaskResult.value () ∈ (load_carrier_config_run self priv events).results) :
    Xor'
      ((load_carrier_config_run self priv events).priv.config_active_default = true ∧
        (load_carrier_config_run self priv events).priv.config_active_i = -1)
      ((load_carrier_config_run self priv events).priv.config_active_default = false ∧
        ∃ (config_list : List ConfigInfo) (i : Nat) (config : ConfigInfo),
          (load_carrier_config_run self priv events).priv.config_list = some config_list ∧
          (load_carrier_config_run self priv events).priv.config_active_i = (i : Int) ∧
          config_list[i]? = some config ∧ reported_active_id events config.id ∧
          ∀ j other, j < i → config_list[j]? = some other → other.id ≠ config.id) ∧
    ((load_carrier_config_run self priv events).priv.config_active_i ≥ 0 ∨
      (load_carrier_config_run self priv events).priv.config_active_default = true) ∧
    (∃ config, mm_shared_qmi_load_carrier_config_finish
      (load_carrier_config_run self priv events).priv (TaskResult.value ()) =
        some (Except.ok config)) ∧
    (∀ op : SetupCarrierConfigTask,
      op.priv = (load_carrier_config_run self priv events).priv →
      op.ctx.config_requested_i ≥ 0 →
      setup_carrier_config_step_case_check_change_needed op =
        if op.ctx.config_requested_i = op.priv.config_active_i then
          setup_carrier_config_step_case_last
            { op with ctx := { op.ctx with
                step := SetupCarrierConfigStep.SETUP_CARRIER_CONFIG_STEP_LAST } }
        else
          setup_carrier_config_step_case_update_current
            { op with ctx := { op.ctx with step := op.ctx.step.next } }) := by
  have hinv : load_carrier_config_stored_or_unselected (reported_active_id events)
      (load_carrier_config_run self priv events) :=
    load_carrier_config_run_keeps (reported_active_id events) events
      (fun output hmem id hid => ⟨output, hmem, hid⟩) _
      (mm_shared_qmi_load_carrier_config_keeps (reported_active_id events) self priv)
  have hstored : carrier_config_stored (reported_active_id events)
      (load_carrier_config_run self priv events).priv := hinv.1 hsuccess
  have hassert : (load_carrier_config_run self priv events).priv.config_active_i ≥ 0 ∨
      (load_carrier_config_run self priv events).priv.config_active_default = true := by
    rcases hstored with ⟨hd, _⟩ | ⟨_, cl, i, c, _, hi, _⟩
    · exact Or.inr hd
    · left
      omega
  refine ⟨?_, hassert, ?_, ?_⟩
  · rcases hstored with ⟨hd, hi⟩ | ⟨hd, hrest⟩
    · left
      refine ⟨⟨hd, hi⟩, ?_⟩
      rintro ⟨hd2, _⟩
      rw [hd] at hd2
      exact absurd hd2 (by decide)
    · right
      refine ⟨⟨hd, hrest⟩, ?_⟩
      rintro ⟨hd2, _⟩
      rw [hd] at hd2
      exact absurd hd2 (by decide)
  · unfold mm_shared_qmi_load_carrier_config_finish
    simp only
    rw [if_neg (not_not.mpr hassert)]
    rcases hstored with ⟨hd, hi⟩ | ⟨_, cl, i, c, hl, hi, hc, _⟩
    · rw [if_neg (by omega)]
      exact ⟨_, rfl⟩
    · rw [if_pos (by omega)]
      have hidx : config_list_index (load_carrier_config_run self priv events).priv
          (load_carrier_config_run self priv events).priv.config_active_i = some c := by
        unfold config_list_index
        rw [hl, hi]
        simp [hc]
      rw [hidx]
      exact ⟨_, rfl⟩
  · intro op hpriv hreq
    unfold setup_carrier_config_step_case_check_change_needed
    rw [if_neg (not_not.mpr hreq), if_neg (by rw [hpriv]; exact not_not.mpr hassert)]

/-- C29 on a device that lists two configurations, has both described and
reports the second as active: the load succeeds, the stored active index is 1,
the assertion holds and the finish function hands out `att` with the revision
`05010204`. -/
theorem C29_stored_after_success_witness :
    TaskResult.value () ∈ (load_carrier_config_run modem_3gpp {}
      [LoadCarrierConfigEvent.response LoadCarrierConfigCallback.list_configs_ready
          (QmiResult.ok ()),
       LoadCarrierConfigEvent.list_configs list_configs_two,
       LoadCarrierConfigEvent.get_config_info (config_info_att 1),
       LoadCarrierConfigEvent.get_config_info (config_info_att 2),
       LoadCarrierConfigEvent.response LoadCarrierConfigCallback.get_selected_config_ready
          (QmiResult.ok ()),
       LoadCarrierConfigEvent.get_selected_config
          { indication_result := Except.ok 0, active_id := some [2] }]).results ∧
    ((load_carrier_config_run modem_3gpp {}
      [LoadCarrierConfigEvent.response LoadCarrierConfigCallback.list_configs_ready
          (QmiResult.ok ()),
       LoadCarrierConfigEvent.list_configs list_configs_two,
       LoadCarrierConfigEvent.get_config_info (config_info_att 1),
       LoadCarrierConfigEvent.get_config_info (config_info_att 2),
       LoadCarrierConfigEvent.response LoadCarrierConfigCallback.get_selected_config_ready
          (QmiResult.ok ()),
       LoadCarrierConfigEvent.get_selected_config
          { indication_result := Except.ok 0, active_id := some [2] }]).priv.config_active_i ≥
        0 ∨
      (load_carrier_config_run modem_3gpp {}
      [LoadCarrierConfigEvent.response LoadCarrierConfigCallback.list_configs_ready
          (QmiResult.ok ()),
       LoadCarrierConfigEvent.list_configs list_configs_two,
       LoadCarrierConfigEvent.get_config_info (config_info_att 1),
       LoadCarrierConfigEvent.get_config_info (config_info_att 2),
       LoadCarrierConfigEvent.response LoadCarrierConfigCallback.get_selected_config_ready
          (QmiResult.ok ()),
       LoadCarrierConfigEvent.get_selected_config
          { indication_result := Except.ok 0, active_id := some [2] }]).priv.config_active_default =
        true) ∧
    (load_carrier_config_run modem_3gpp {}
      [LoadCarrierConfigEvent.response LoadCarrierConfigCallback.list_configs_ready
          (QmiResult.ok ()),
       LoadCarrierConfigEvent.list_configs list_configs_two,
       LoadCarrierConfigEvent.get_config_info (config_info_att 1),
       LoadCarrierConfigEvent.get_config_info (config_info_att 2),
       LoadCarrierConfigEvent.response LoadCarrierConfigCallback.get_selected_config_ready
          (QmiResult.ok ()),
       LoadCarrierConfigEvent.get_selected_config
          { indication_result := Except.ok 0, active_id := some [2] }]).priv.config_active_i =
      1 :=
  ⟨by decide,
   (C29_stored_after_success modem_3gpp {}
      [LoadCarrierConfigEvent.response LoadCarrierConfigCallback.list_configs_ready
          (QmiResult.ok ()),
       LoadCarrierConfigEvent.list_configs list_configs_two,
       LoadCarrierConfigEvent.get_config_info (config_info_att 1),
       LoadCarrierConfigEvent.get_config_info (config_info_att 2),
       LoadCarrierConfigEvent.response LoadCarrierConfigCallback.get_selected_config_ready
          (QmiResult.ok ()),
       LoadCarrierConfigEvent.get_selected_config
          { indication_result := Except.ok 0, active_id := some [2] }] (by decide)).2.1,
   by decide⟩

/-- What holds between two location calls depends on the private data, the
handlers and the assertion flag only. -/
theorem location_consistent_congr (st st2 : LocationState) (h : location_consistent st)
    (hpriv : st2.priv = st.priv) (hhandlers : st2.handlers = st.handlers)
    (hab : st2.aborted = st.aborted) : location_consistent st2 := by
  unfold location_consistent at h ⊢
  rw [hpriv, hhandlers, hab]
  exact h

/-- The function `stop_gps_engine` on a consistent device: no assertion
fails and the enabled sources stay; either it fails and the private data and
the handlers stay, or it succeeds and no client is retained and no handler id
stored. -/
theorem stop_gps_engine_consistent (st : LocationState) (responses : LocationResponses)
    (h : location_consistent st) :
    (stop_gps_engine st responses).1.aborted = false ∧
    (stop_gps_engine st responses).1.priv.enabled_sources = st.priv.enabled_sources ∧
    ((∃ e, (stop_gps_engine st responses).2 = some (TaskResult.error e) ∧
        (stop_gps_engine st responses).1.priv = st.priv ∧
        (stop_gps_engine st responses).1.handlers = st.handlers) ∨
      ((stop_gps_engine st responses).2 = some (TaskResult.value ()) ∧
        (stop_gps_engine st responses).1.priv.pds_client = false ∧
        (stop_gps_engine st responses).1.priv.loc_client = false ∧
        (stop_gps_engine st responses).1.priv.pds_location_event_report_indication_id = 0 ∧
        (stop_gps_engine st responses).1.priv.loc_location_nmea_indication_id = 0)) := by
  obtain ⟨hab, _, hex, _, hp1, hp0, hl1, hl0⟩ := h
  unfold stop_gps_engine
  by_cases hpds : st.priv.pds_client = true
  · have hloc : st.priv.loc_client = false := by
      cases hl : st.priv.loc_client with
      | false => rfl
      | true => exact absurd ⟨hpds, hl⟩ hex
    have hlid := hl0 hloc
    have hpid := (hp1 hpds).1
    rw [if_pos hpds]
    unfold pds_gps_service_state_stop_ready
    cases responses.pds_set_gps_service_state with
    | no_output error =>
        exact ⟨hab, rfl, Or.inl ⟨error, rfl, rfl, rfl⟩⟩
    | result_failed error =>
        simp only
        by_cases hm : ¬ g_error_matches error GErrorDomain.QMI_PROTOCOL_ERROR
            QMI_PROTOCOL_ERROR_NO_EFFECT = true
        · rw [if_pos hm]
          exact ⟨hab, rfl, Or.inl ⟨error, rfl, rfl, rfl⟩⟩
        · rw [if_neg hm]
          simp [LocationState.qmi_client_request, LocationState.g_signal_handler_disconnect,
            hpds, hpid, hab, hloc, hlid]
    | ok u =>
        simp [LocationState.qmi_client_request, LocationState.g_signal_handler_disconnect,
          hpds, hpid, hab, hloc, hlid]
  · have hpds2 : st.priv.pds_client = false := by simpa using hpds
    have hpid := hp0 hpds2
    rw [if_neg hpds]
    by_cases hloc : st.priv.loc_client = true
    · have hlid := (hl1 hloc).1
      rw [if_pos hloc]
      unfold loc_stop_ready
      cases responses.loc_stop with
      | no_output error => exact ⟨hab, rfl, Or.inl ⟨error, rfl, rfl, rfl⟩⟩
      | result_failed error => exact ⟨hab, rfl, Or.inl ⟨error, rfl, rfl, rfl⟩⟩
      | ok u =>
          simp [LocationState.qmi_client_request, LocationState.g_signal_handler_disconnect,
            hloc, hlid, hab, hpds2, hpid]
    · rw [if_neg hloc]
      exact ⟨hab, rfl, Or.inl ⟨_, rfl, rfl, rfl⟩⟩

/-- The function `start_gps_engine` on a consistent device with no client
retained: no assertion fails and the enabled sources stay; either it fails and
the private data and the handlers stay, or it succeeds and exactly one client
is retained with its handler connected and the id of the handler stored. -/
theorem start_gps_engine_consistent (self : MMIfaceModem) (st : LocationState)
    (responses : LocationResponses) (h : location_consistent st)
    (hpds : st.priv.pds_client = false) (hloc : st.priv.loc_client = false) :
    (start_gps_engine self st responses).1.aborted = false ∧
    (start_gps_engine self st responses).1.priv.enabled_sources = st.priv.enabled_sources ∧
    ((∃ e, (start_gps_engine self st responses).2 = some (TaskResult.error e) ∧
        (start_gps_engine self st responses).1.priv = st.priv ∧
        (start_gps_engine self st responses).1.handlers = st.handlers) ∨
      ((start_gps_engine self st responses).2 = some (TaskResult.value ()) ∧
        gps_engine_retained (start_gps_engine self st responses).1 ∧
        ¬ ((start_gps_engine self st responses).1.priv.pds_client = true ∧
          (start_gps_engine self st responses).1.priv.loc_client = true) ∧
        ((start_gps_engine self st responses).1.priv.pds_client = false →
          (start_gps_engine self st responses).1.priv.pds_location_event_report_indication_id =
            0) ∧
        ((start_gps_engine self st responses).1.priv.loc_client = false →
          (start_gps_engine self st responses).1.priv.loc_location_nmea_indication_id = 0))) := by
  obtain ⟨hab, _, _, _, _, hp0, _, hl0⟩ := h
  have hpid := hp0 hpds
  have hlid := hl0 hloc
  have hfail : ∀ e : GError,
      st.aborted = false ∧ st.priv.enabled_sources = st.priv.enabled_sources ∧
      ((∃ e2, some (TaskResult.error e) = some (TaskResult.error (ρ := Unit) e2) ∧
          st.priv = st.priv ∧ st.handlers = st.handlers) ∨
        ((some (TaskResult.error e) : Option (TaskResult Unit)) = some (TaskResult.value ()) ∧
          gps_engine_retained st ∧ ¬ (st.priv.pds_client = true ∧ st.priv.loc_client = true) ∧
          (st.priv.pds_client = false → st.priv.pds_location_event_report_indication_id = 0) ∧
          (st.priv.loc_client = false → st.priv.loc_location_nmea_indication_id = 0))) :=
    fun e => ⟨hab, rfl, Or.inl ⟨e, rfl, rfl, rfl⟩⟩
  unfold start_gps_engine
  cases self.peek_client QmiService.QMI_SERVICE_PDS with
  | ok u =>
      simp only
      unfold pds_gps_service_state_start_ready pds_auto_tracking_state_start_ready
        pds_ser_location_ready
      cases responses.pds_set_gps_service_state <;>
        cases responses.pds_set_auto_tracking_state <;>
        cases responses.pds_set_event_report <;>
        simp only <;>
        (try split_ifs) <;>
        first
          | exact hfail _
          | (simp [LocationState.qmi_client_request, LocationState.g_signal_connect,
              gps_engine_retained, hpds, hloc, hpid, hlid, hab]
             done)
          | simp_all [LocationState.qmi_client_request, LocationState.g_signal_connect,
              gps_engine_retained]
  | error e0 =>
      simp only
      cases self.peek_client QmiService.QMI_SERVICE_LOC with
      | ok u =>
          simp only
          unfold loc_start_ready loc_register_events_ready
          cases responses.loc_start <;> cases responses.loc_register_events <;>
            simp only <;>
            (try split_ifs) <;>
            first
              | exact hfail _
              | (simp [LocationState.qmi_client_request, LocationState.g_signal_connect,
                  gps_engine_retained, hpds, hloc, hpid, hlid, hab]
                 done)
              | simp_all [LocationState.qmi_client_request, LocationState.g_signal_connect,
                  gps_engine_retained]
      | error e1 => exact hfail _

/-- The enabled sources after a GPS source is cleared: still GPS sources
only, and if GPS-NMEA or GPS-RAW is left it was there before. -/
theorem enabled_sources_clear_gps (enabled source : Nat)
    (hen : enabled ∈ [0, 2, 4, 6, 32, 34, 36, 38])
    (hsrc : source = MM_MODEM_LOCATION_SOURCE_GPS_RAW ∨
      source = MM_MODEM_LOCATION_SOURCE_GPS_NMEA) :
    enabled &&& bitwise_not_32 source ∈ [0, 2, 4, 6, 32, 34, 36, 38] ∧
    ((enabled &&& bitwise_not_32 source) &&&
        (MM_MODEM_LOCATION_SOURCE_GPS_NMEA ||| MM_MODEM_LOCATION_SOURCE_GPS_RAW) ≠ 0 →
      enabled &&& (MM_MODEM_LOCATION_SOURCE_GPS_NMEA ||| MM_MODEM_LOCATION_SOURCE_GPS_RAW) ≠
        0) := by
  simp only [List.mem_cons, List.mem_singleton, List.not_mem_nil, or_false] at hen
  rcases hsrc with rfl | rfl <;>
    rcases hen with rfl | rfl | rfl | rfl | rfl | rfl | rfl | rfl <;> decide

/-- The enabled sources after A-GPS is cleared or set: still GPS sources
only, with GPS-NMEA and GPS-RAW as before. -/
theorem enabled_sources_agps (enabled : Nat) (hen : enabled ∈ [0, 2, 4, 6, 32, 34, 36, 38]) :
    enabled &&& bitwise_not_32 MM_MODEM_LOCATION_SOURCE_AGPS ∈ [0, 2, 4, 6, 32, 34, 36, 38] ∧
    (enabled &&& bitwise_not_32 MM_MODEM_LOCATION_SOURCE_AGPS) &&&
        (MM_MODEM_LOCATION_SOURCE_GPS_NMEA ||| MM_MODEM_LOCATION_SOURCE_GPS_RAW) =
      enabled &&& (MM_MODEM_LOCATION_SOURCE_GPS_NMEA ||| MM_MODEM_LOCATION_SOURCE_GPS_RAW) ∧
    enabled ||| MM_MODEM_LOCATION_SOURCE_AGPS ∈ [0, 2, 4, 6, 32, 34, 36, 38] ∧
    (enabled ||| MM_MODEM_LOCATION_SOURCE_AGPS) &&&
        (MM_MODEM_LOCATION_SOURCE_GPS_NMEA ||| MM_MODEM_LOCATION_SOURCE_GPS_RAW) =
      enabled &&& (MM_MODEM_LOCATION_SOURCE_GPS_NMEA ||| MM_MODEM_LOCATION_SOURCE_GPS_RAW) := by
  simp only [List.mem_cons, List.mem_singleton, List.not_mem_nil, or_false] at hen
  rcases hen with rfl | rfl | rfl | rfl | rfl | rfl | rfl | rfl <;> decide

/-- The enabled sources after a GPS source is set: still GPS sources only,
with GPS-NMEA or GPS-RAW among them. -/
theorem enabled_sources_set_gps (enabled source : Nat)
    (hen : enabled ∈ [0, 2, 4, 6, 32, 34, 36, 38])
    (hsrc : source = MM_MODEM_LOCATION_SOURCE_GPS_RAW ∨
      source = MM_MODEM_LOCATION_SOURCE_GPS_NMEA) :
    enabled ||| source ∈ [0, 2, 4, 6, 32, 34, 36, 38] ∧
    (enabled ||| source) &&&
      (MM_MODEM_LOCATION_SOURCE_GPS_NMEA ||| MM_MODEM_LOCATION_SOURCE_GPS_RAW) ≠ 0 := by
  simp only [List.mem_cons, List.mem_singleton, List.not_mem_nil, or_false] at hen
  rcases hsrc with rfl | rfl <;>
    rcases hen with rfl | rfl | rfl | rfl | rfl | rfl | rfl | rfl <;> decide

/-- A single source is a GPS source that starts or stops the engine, A-GPS,
or a source that the shared code does not handle. -/
theorem location_sources_cases (source : Nat) (h : source ∈ location_sources) :
    (source &&& (MM_MODEM_LOCATION_SOURCE_GPS_NMEA ||| MM_MODEM_LOCATION_SOURCE_GPS_RAW |||
        MM_MODEM_LOCATION_SOURCE_AGPS) = 0) ∨
    (source &&& (MM_MODEM_LOCATION_SOURCE_GPS_NMEA ||| MM_MODEM_LOCATION_SOURCE_GPS_RAW |||
        MM_MODEM_LOCATION_SOURCE_AGPS) ≠ 0 ∧ source = MM_MODEM_LOCATION_SOURCE_AGPS) ∨
    (source &&& (MM_MODEM_LOCATION_SOURCE_GPS_NMEA ||| MM_MODEM_LOCATION_SOURCE_GPS_RAW |||
        MM_MODEM_LOCATION_SOURCE_AGPS) ≠ 0 ∧ source ≠ MM_MODEM_LOCATION_SOURCE_AGPS ∧
      (source = MM_MODEM_LOCATION_SOURCE_GPS_RAW ∨
        source = MM_MODEM_LOCATION_SOURCE_GPS_NMEA)) := by
  simp only [location_sources, List.mem_cons, List.mem_singleton, List.not_mem_nil,
    or_false] at h
  rcases h with rfl | rfl | rfl | rfl | rfl | rfl <;> decide

/-- A consistent device whose enabled sources change, with GPS-NMEA and
GPS-RAW among them as before, stays consistent. -/
theorem location_consistent_enabled_sources (st : LocationState) (enabled : Nat)
    (h : location_consistent st) (hen : enabled ∈ [0, 2, 4, 6, 32, 34, 36, 38])
    (hgps : (enabled &&&
        (MM_MODEM_LOCATION_SOURCE_GPS_NMEA ||| MM_MODEM_LOCATION_SOURCE_GPS_RAW) ≠ 0) ↔
      (st.priv.enabled_sources &&&
        (MM_MODEM_LOCATION_SOURCE_GPS_NMEA ||| MM_MODEM_LOCATION_SOURCE_GPS_RAW) ≠ 0)) :
    location_consistent { st with priv := { st.priv with enabled_sources := enabled } } := by
  obtain ⟨hab, _, hex, hiff, hp1, hp0, hl1, hl0⟩ := h
  exact ⟨hab, hen, hex, hiff.trans hgps.symm, hp1, hp0, hl1, hl0⟩

/-- The entry point `mm_shared_qmi_disable_location_gathering` for a single
source on a consistent device: the device stays consistent, no assertion fails,
and a call that fails leaves the private data and the handlers as they were. -/
theorem mm_shared_qmi_disable_location_gathering_consistent (st : LocationState)
    (source : Nat) (responses : LocationResponses) (h : location_consistent st)
    (hsrc : source ∈ location_sources) :
    location_consistent (mm_shared_qmi_disable_location_gathering st source responses).1 ∧
    (mm_shared_qmi_disable_location_gathering st source responses).2 ≠ none ∧
    (∀ e, (mm_shared_qmi_disable_location_gathering st source responses).2 =
        some (TaskResult.error e) →
      (mm_shared_qmi_disable_location_gathering st source responses).1.priv = st.priv ∧
      (mm_shared_qmi_disable_location_gathering st source responses).1.handlers =
        st.handlers) := by
  have hcopy := h
  obtain ⟨hab, hen, hex, hiff, hp1, hp0, hl1, hl0⟩ := hcopy
  unfold mm_shared_qmi_disable_location_gathering
  rcases location_sources_cases source hsrc with h0 | ⟨h0, hagps⟩ | ⟨h0, hagps, hgps⟩
  · rw [if_pos h0]
    exact ⟨h, by simp, by simp⟩
  · rw [if_neg h0, if_neg (not_not.mpr hex), if_pos hagps]
    unfold set_gps_operation_mode_standalone_ready
    cases responses.set_gps_operation_mode with
    | error e => exact ⟨h, by simp, by simp⟩
    | value v =>
        obtain ⟨h1, h2, _, _⟩ := enabled_sources_agps st.priv.enabled_sources hen
        refine ⟨location_consistent_enabled_sources st _ h h1 (by rw [h2]), by simp, by simp⟩
  · rw [if_neg h0, if_neg (not_not.mpr hex), if_neg hagps]
    obtain ⟨h1, h2⟩ := enabled_sources_clear_gps st.priv.enabled_sources source hen hgps
    simp only
    by_cases hleft : (st.priv.enabled_sources &&& bitwise_not_32 source) &&&
        (MM_MODEM_LOCATION_SOURCE_GPS_NMEA ||| MM_MODEM_LOCATION_SOURCE_GPS_RAW) = 0
    · rw [if_pos hleft]
      obtain ⟨hs1, hs2, hs3⟩ := stop_gps_engine_consistent st responses h
      rcases hs3 with ⟨e, he, hpriv, hhandlers⟩ | ⟨hv, hpds, hloc, hpid, hlid⟩
      · rw [he]
        simp only [stop_gps_engine_ready]
        refine ⟨location_consistent_congr st _ h hpriv hhandlers (by rw [hs1, hab]), by
          simp, ?_⟩
        intro _ _
        exact ⟨hpriv, hhandlers⟩
      · rw [hv]
        simp only [stop_gps_engine_ready]
        refine ⟨?_, by simp, by simp⟩
        refine ⟨hs1, ?_, ?_, ?_, ?_, fun _ => hpid, ?_, fun _ => hlid⟩
        · show (stop_gps_engine st responses).1.priv.enabled_sources &&& bitwise_not_32 source ∈ _
          rw [hs2]
          exact h1
        · rintro ⟨hx, _⟩
          rw [hpds] at hx
          exact absurd hx (by decide)
        · constructor
          · rintro (hx | hx)
            · rw [hpds] at hx
              exact absurd hx (by decide)
            · rw [hloc] at hx
              exact absurd hx (by decide)
          · intro hx
            exfalso
            apply hx
            show ((stop_gps_engine st responses).1.priv.enabled_sources &&&
              bitwise_not_32 source) &&& _ = 0
            rw [hs2]
            exact hleft
        · intro hx
          rw [hpds] at hx
          exact absurd hx (by decide)
        · intro hx
          rw [hloc] at hx
          exact absurd hx (by decide)
    · rw [if_neg hleft]
      refine ⟨location_consistent_enabled_sources st _ h h1
        ⟨h2, fun _ => hleft⟩, by simp, by simp⟩

/-- The entry point `mm_shared_qmi_enable_location_gathering` for a single
source on a consistent device whose parent interface has its enable methods:
the device stays consistent, no assertion fails, and a call that fails leaves
the private data and the handlers as they were. -/
theorem mm_shared_qmi_enable_location_gathering_consistent (self : MMIfaceModem)
    (iface : MMIfaceModemLocation) (st : LocationState)
    (source : Nat) (responses : LocationResponses) (h : location_consistent st)
    (hsrc : source ∈ location_sources)
    (henable : iface.enable_location_gathering = true)
    (hfinish : iface.enable_location_gathering_finish = true) :
    location_consistent
      (mm_shared_qmi_enable_location_gathering self (some iface) st source responses).1 ∧
    (mm_shared_qmi_enable_location_gathering self (some iface) st source responses).2 ≠ none ∧
    (∀ e, (mm_shared_qmi_enable_location_gathering self (some iface) st source responses).2 =
        some (TaskResult.error e) →
      (mm_shared_qmi_enable_location_gathering self (some iface) st source responses).1.priv =
        st.priv ∧
      (mm_shared_qmi_enable_location_gathering self (some iface) st source
        responses).1.handlers = st.handlers) := by
  have hcopy := h
  obtain ⟨hab, hen, hex, hiff, hp1, hp0, hl1, hl0⟩ := hcopy
  unfold mm_shared_qmi_enable_location_gathering
  simp only
  rw [if_neg (not_not.mpr henable), if_neg (not_not.mpr hfinish)]
  unfold parent_enable_location_gathering_ready
  cases responses.parent_enable_location_gathering with
  | error e => exact ⟨h, by simp, by simp⟩
  | value v =>
      simp only
      rcases location_sources_cases source hsrc with h0 | ⟨h0, hagps⟩ | ⟨h0, hagps, hgps⟩
      · rw [if_pos h0]
        exact ⟨h, by simp, by simp⟩
      · rw [if_neg h0, if_pos hagps]
        unfold set_gps_operation_mode_assisted_ready
        cases responses.set_gps_operation_mode with
        | error e => exact ⟨h, by simp, by simp⟩
        | value v =>
            obtain ⟨_, _, h3, h4⟩ := enabled_sources_agps st.priv.enabled_sources hen
            refine ⟨location_consistent_enabled_sources st _ h h3 (by rw [h4]), by simp,
              by simp⟩
      · rw [if_neg h0, if_neg hagps]
        obtain ⟨h1, h2⟩ := enabled_sources_set_gps st.priv.enabled_sources source hen hgps
        by_cases hnone : st.priv.enabled_sources &&&
            (MM_MODEM_LOCATION_SOURCE_GPS_NMEA ||| MM_MODEM_LOCATION_SOURCE_GPS_RAW) = 0
        · rw [if_pos hnone]
          have hpds : st.priv.pds_client = false := by
            cases hx : st.priv.pds_client with
            | false => rfl
            | true => exact absurd hnone (hiff.mp (Or.inl hx))
          have hloc : st.priv.loc_client = false := by
            cases hx : st.priv.loc_client with
            | false => rfl
            | true => exact absurd hnone (hiff.mp (Or.inr hx))
          obtain ⟨hs1, hs2, hs3⟩ := start_gps_engine_consistent self st responses h hpds hloc
          rcases hs3 with ⟨e, he, hpriv, hhandlers⟩ | ⟨hv, hret, hex2, hp02, hl02⟩
          · rw [he]
            simp only [start_gps_engine_ready]
            refine ⟨location_consistent_congr st _ h hpriv hhandlers (by rw [hs1, hab]), by
              simp, ?_⟩
            intro _ _
            exact ⟨hpriv, hhandlers⟩
          · rw [hv]
            simp only [start_gps_engine_ready]
            refine ⟨?_, by simp, by simp⟩
            refine ⟨hs1, ?_, hex2, ?_, ?_, hp02, ?_, hl02⟩
            · show (start_gps_engine self st responses).1.priv.enabled_sources ||| source ∈ _
              rw [hs2]
              exact h1
            · constructor
              · intro _
                show ((start_gps_engine self st responses).1.priv.enabled_sources |||
                  source) &&& _ ≠ 0
                rw [hs2]
                exact h2
              · intro _
                rcases hret with ⟨hx, _⟩ | ⟨hx, _⟩
                · exact Or.inl hx
                · exact Or.inr hx
            · intro hx
              rcases hret with ⟨_, hy⟩ | ⟨hy, _⟩
              · exact hy
              · exact absurd ⟨hx, hy⟩ hex2
            · intro hx
              rcases hret with ⟨hy, _⟩ | ⟨_, hy⟩
              · exact absurd ⟨hy, hx⟩ hex2
              · exact hy
        · rw [if_neg hnone]
          refine ⟨location_consistent_enabled_sources st _ h h1
            ⟨fun _ => hnone, fun _ => h2⟩, by simp, by simp⟩

/-- One location call for a single source keeps the device consistent; no
assertion fails, and a call that fails leaves the private data and the handlers
as they were. -/
theorem location_call_consistent (self : MMIfaceModem) (iface : MMIfaceModemLocation)
    (st : LocationState) (call : LocationCall) (h : location_consistent st)
    (hsrc : call.source ∈ location_sources)
    (henable : iface.enable_location_gathering = true)
    (hfinish : iface.enable_location_gathering_finish = true) :
    location_consistent (location_call self (some iface) st call).1 ∧
    (location_call self (some iface) st call).2 ≠ none ∧
    (∀ e, (location_call self (some iface) st call).2 = some (TaskResult.error e) →
      (location_call self (some iface) st call).1.priv = st.priv ∧
      (location_call self (some iface) st call).1.handlers = st.handlers) := by
  have hab : ¬ (st.aborted = true) := by
    rw [h.1]
    decide
  unfold location_call
  rw [if_neg hab]
  cases call with
  | enable source responses =>
      exact mm_shared_qmi_enable_location_gathering_consistent self iface st source responses h
        hsrc henable hfinish
  | disable source responses =>
      exact mm_shared_qmi_disable_location_gathering_consistent st source responses h hsrc

/-- A series of location calls for single sources keeps a consistent device
consistent. -/
theorem location_calls_consistent (self : MMIfaceModem) (iface : MMIfaceModemLocation)
    (henable : iface.enable_location_gathering = true)
    (hfinish : iface.enable_location_gathering_finish = true)
    (calls : List LocationCall) :
    (∀ c ∈ calls, c.source ∈ location_sources) →
    ∀ st : LocationState, location_consistent st →
      location_consistent
        (calls.foldl (fun st call => (location_call self (some iface) st call).1) st) := by
  induction calls with
  | nil => intro _ st h; exact h
  | cons call rest ih =>
      intro hsrc st h
      rw [List.foldl_cons]
      exact ih (fun c hc => hsrc c (List.mem_cons_of_mem _ hc)) _
        (location_call_consistent self iface st call h (hsrc call (List.mem_cons_self _ _))
          henable hfinish).1

/-- A new device context is consistent. -/
theorem location_consistent_new : location_consistent { priv := {} } := by
  unfold location_consistent
  simp

/-- C28: from a new device context, after every series of enable and
disable location gathering calls, each for a single source and each run to
completion before the next starts, whatever the responses to the requests, on
a device whose parent location interface has its enable methods: (i) a GPS
engine client, PDS or LOC, is retained, and then with its NMEA handler
connected and the id of the handler stored, exactly when the enabled sources
hold GPS-NMEA or GPS-RAW; (ii) the PDS and the LOC client are never both
retained and no assertion has failed, nor does one fail in the next call, which
completes; (iii) a next call that completes with an error leaves the enabled
sources, the retained clients, the stored handler ids and the connected
handlers as they were. -/
theorem C28_location_consistent (self : MMIfaceModem) (iface : MMIfaceModemLocation)
    (calls : List LocationCall) (call : LocationCall)
    (henable : iface.enable_location_gathering = true)
    (hfinish : iface.enable_location_gathering_finish = true)
    (hcalls : ∀ c ∈ calls, c.source ∈ location_sources)
    (hcall : call.source ∈ location_sources) :
    (((location_run self (some iface) calls).priv.pds_client = true ∨
        (location_run self (some iface) calls).priv.loc_client = true) ↔
      (location_run self (some iface) calls).priv.enabled_sources &&&
        (MM_MODEM_LOCATION_SOURCE_GPS_NMEA ||| MM_MODEM_LOCATION_SOURCE_GPS_RAW) ≠ 0) ∧
    (gps_engine_retained (location_run self (some iface) calls) ↔
      (location_run self (some iface) calls).priv.enabled_sources &&&
        (MM_MODEM_LOCATION_SOURCE_GPS_NMEA ||| MM_MODEM_LOCATION_SOURCE_GPS_RAW) ≠ 0) ∧
    ¬ ((location_run self (some iface) calls).priv.pds_client = true ∧
      (location_run self (some iface) calls).priv.loc_client = true) ∧
    (location_run self (some iface) calls).aborted = false ∧
    (location_call self (some iface) (location_run self (some iface) calls) call).1.aborted =
      false ∧
    (∃ result,
      (location_call self (some iface) (location_run self (some iface) calls) call).2 =
        some result) ∧
    (∀ e,
      (location_call self (some iface) (location_run self (some iface) calls) call).2 =
        some (TaskResult.error e) →
      (location_call self (some iface) (location_run self (some iface) calls)
        call).1.priv.enabled_sources =
        (location_run self (some iface) calls).priv.enabled_sources ∧
      (location_call self (some iface) (location_run self (some iface) calls)
        call).1.priv.pds_client = (location_run self (some iface) calls).priv.pds_client ∧
      (location_call self (some iface) (location_run self (some iface) calls)
        call).1.priv.loc_client = (location_run self (some iface) calls).priv.loc_client ∧
      (location_call self (some iface) (location_run self (some iface) calls)
        call).1.priv.pds_location_event_report_indication_id =
        (location_run self (some iface) calls).priv.pds_location_event_report_indication_id ∧
      (location_call self (some iface) (location_run self (some iface) calls)
        call).1.priv.loc_location_nmea_indication_id =
        (location_run self (some iface) calls).priv.loc_location_nmea_indication_id ∧
      (location_call self (some iface) (location_run self (some iface) calls)
        call).1.handlers = (location_run self (some iface) calls).handlers) := by
  have h : location_consistent (location_run self (some iface) calls) :=
    location_calls_consistent self iface henable hfinish calls hcalls _ location_consistent_new
  obtain ⟨h1, h2, h3⟩ := location_call_consistent self iface _ call h hcall henable hfinish
  obtain ⟨hab, _, hex, hiff, hp1, _, hl1, _⟩ := h
  refine ⟨hiff, ?_, hex, hab, h1.1, ?_, ?_⟩
  · rw [← hiff]
    constructor
    · rintro (⟨hx, _⟩ | ⟨hx, _⟩)
      · exact Or.inl hx
      · exact Or.inr hx
    · rintro (hx | hx)
      · exact Or.inl ⟨hx, hp1 hx⟩
      · exact Or.inr ⟨hx, hl1 hx⟩
  · cases hres : (location_call self (some iface) (location_run self (some iface) calls)
      call).2 with
    | none => exact absurd hres h2
    | some result => exact ⟨result, rfl⟩
  · intro e he
    obtain ⟨hpriv, hhandlers⟩ := h3 e he
    rw [hpriv]
    exact ⟨rfl, rfl, rfl, rfl, rfl, hhandlers⟩

/-- C28 on a device with a PDS client: after GPS-NMEA and GPS-RAW are
enabled and GPS-NMEA is disabled, the PDS client is still retained for GPS-RAW;
a disable of GPS-RAW whose Set-GPS-Service-State request gets no response fails
and leaves GPS-RAW enabled. -/
theorem C28_location_consistent_witness :
    (gps_engine_retained
        (location_run modem_3gpp (some {})
          [LocationCall.enable MM_MODEM_LOCATION_SOURCE_GPS_NMEA {},
           LocationCall.enable MM_MODEM_LOCATION_SOURCE_GPS_RAW {},
           LocationCall.disable MM_MODEM_LOCATION_SOURCE_GPS_NMEA {}]) ↔
      (location_run modem_3gpp (some {})
          [LocationCall.enable MM_MODEM_LOCATION_SOURCE_GPS_NMEA {},
           LocationCall.enable MM_MODEM_LOCATION_SOURCE_GPS_RAW {},
           LocationCall.disable MM_MODEM_LOCATION_SOURCE_GPS_NMEA {}]).priv.enabled_sources &&&
        (MM_MODEM_LOCATION_SOURCE_GPS_NMEA ||| MM_MODEM_LOCATION_SOURCE_GPS_RAW) ≠ 0) ∧
    (location_run modem_3gpp (some {})
        [LocationCall.enable MM_MODEM_LOCATION_SOURCE_GPS_NMEA {},
         LocationCall.enable MM_MODEM_LOCATION_SOURCE_GPS_RAW {},
         LocationCall.disable MM_MODEM_LOCATION_SOURCE_GPS_NMEA {}]).priv.enabled_sources =
      MM_MODEM_LOCATION_SOURCE_GPS_RAW ∧
    (location_run modem_3gpp (some {})
        [LocationCall.enable MM_MODEM_LOCATION_SOURCE_GPS_NMEA {},
         LocationCall.enable MM_MODEM_LOCATION_SOURCE_GPS_RAW {},
         LocationCall.disable MM_MODEM_LOCATION_SOURCE_GPS_NMEA {}]).priv.pds_client = true ∧
    (location_call modem_3gpp (some {})
        (location_run modem_3gpp (some {})
          [LocationCall.enable MM_MODEM_LOCATION_SOURCE_GPS_NMEA {},
           LocationCall.enable MM_MODEM_LOCATION_SOURCE_GPS_RAW {},
           LocationCall.disable MM_MODEM_LOCATION_SOURCE_GPS_NMEA {}])
        (LocationCall.disable MM_MODEM_LOCATION_SOURCE_GPS_RAW
          { pds_set_gps_service_state := QmiResult.no_output qmi_core_error_timeout })).2 =
      some (TaskResult.error qmi_core_error_timeout) ∧
    (location_call modem_3gpp (some {})
        (location_run modem_3gpp (some {})
          [LocationCall.enable MM_MODEM_LOCATION_SOURCE_GPS_NMEA {},
           LocationCall.enable MM_MODEM_LOCATION_SOURCE_GPS_RAW {},
           LocationCall.disable MM_MODEM_LOCATION_SOURCE_GPS_NMEA {}])
        (LocationCall.disable MM_MODEM_LOCATION_SOURCE_GPS_RAW
          { pds_set_gps_service_state :=
              QmiResult.no_output qmi_core_error_timeout })).1.priv.enabled_sources =
      (location_run modem_3gpp (some {})
        [LocationCall.enable MM_MODEM_LOCATION_SOURCE_GPS_NMEA {},
         LocationCall.enable MM_MODEM_LOCATION_SOURCE_GPS_RAW {},
         LocationCall.disable MM_MODEM_LOCATION_SOURCE_GPS_NMEA {}]).priv.enabled_sources :=
  ⟨(C28_location_consistent modem_3gpp {}
      [LocationCall.enable MM_MODEM_LOCATION_SOURCE_GPS_NMEA {},
       LocationCall.enable MM_MODEM_LOCATION_SOURCE_GPS_RAW {},
       LocationCall.disable MM_MODEM_LOCATION_SOURCE_GPS_NMEA {}]
      (LocationCall.disable MM_MODEM_LOCATION_SOURCE_GPS_RAW
        { pds_set_gps_service_state := QmiResult.no_output qmi_core_error_timeout })
      rfl rfl (by decide) (by decide)).2.1,
   by decide, by decide, rfl,
   ((C28_location_consistent modem_3gpp {}
      [LocationCall.enable MM_MODEM_LOCATION_SOURCE_GPS_NMEA {},
       LocationCall.enable MM_MODEM_LOCATION_SOURCE_GPS_RAW {},
       LocationCall.disable MM_MODEM_LOCATION_SOURCE_GPS_NMEA {}]
      (LocationCall.disable MM_MODEM_LOCATION_SOURCE_GPS_RAW
        { pds_set_gps_service_state := QmiResult.no_output qmi_core_error_timeout })
      rfl rfl (by decide) (by decide)).2.2.2.2.2.2 qmi_core_error_timeout rfl).1⟩

end MMSharedQmi
